import Mathlib

/-!
# MFRC522 I2C driver: a shallow embedding of `MFRC522_I2C.c`

The driver talks to the reader chip through I2C register transactions.  The
embedding makes the bus explicit:

* a `RegisterPort` answers every read transaction as a function of the whole
  history of transactions, so a theorem quantified over ports holds for every
  deterministic behaviour of the chip and the bus, failures included;
* every driver function passes the history (`Trace`, most recent transaction
  first) explicitly and returns the extended history, so that statements such
  as "the FIFO is not read" are statements about the returned trace;
* bytes are natural numbers below 256; a truncation to `uint8_t` is written
  `% 256` where the C expression can exceed a byte;
* a C array reached through a pointer is the list of bytes from the pointer to
  the end of the object it points into.
-/

namespace MFRC522

/-! ## Declarations of the header -/

/-- Modelled from the spec: the StatusCode enumeration of `MFRC522_I2C.h` (the
header is not among the sources).  Section 3 of the spec lists it as the closed
enumeration of these nine members. -/
inductive StatusCode
  | STATUS_OK
  | STATUS_ERROR
  | STATUS_COLLISION
  | STATUS_TIMEOUT
  | STATUS_NO_ROOM
  | STATUS_INTERNAL_ERROR
  | STATUS_INVALID
  | STATUS_CRC_WRONG
  | STATUS_MIFARE_NACK
  deriving DecidableEq

/-- Modelled from the spec: the chip register map of `MFRC522_I2C.h`, "a fixed,
chip-defined numeric address space treated as an opaque enumeration of
addresses" (section 6).  The members are the registers that `MFRC522_I2C.c`
names. -/
inductive PCD_Register
  | CommandReg
  | ComIrqReg
  | DivIrqReg
  | ErrorReg
  | Status2Reg
  | FIFODataReg
  | FIFOLevelReg
  | ControlReg
  | BitFramingReg
  | CollReg
  | ModeReg
  | TxControlReg
  | TxASKReg
  | CRCResultRegH
  | CRCResultRegL
  | RFCfgReg
  | TModeReg
  | TPrescalerReg
  | TReloadRegH
  | TReloadRegL
  deriving DecidableEq

/-- Modelled from the spec: the command and protocol byte constants of
`MFRC522_I2C.h` that the driver writes into frames and registers.  The header
is not among the sources, so the constants are parameters of the embedding. -/
structure Header where
  PCD_Idle : Nat
  PCD_CalcCRC : Nat
  PCD_Transceive : Nat
  PCD_MFAuthent : Nat
  PCD_SoftReset : Nat
  PICC_CMD_REQA : Nat
  PICC_CMD_WUPA : Nat
  PICC_CMD_CT : Nat
  PICC_CMD_SEL_CL1 : Nat
  PICC_CMD_SEL_CL2 : Nat
  PICC_CMD_SEL_CL3 : Nat
  PICC_CMD_HLTA : Nat
  PICC_CMD_MF_READ : Nat
  PICC_CMD_MF_WRITE : Nat
  PICC_CMD_MF_DECREMENT : Nat
  PICC_CMD_MF_INCREMENT : Nat
  PICC_CMD_MF_RESTORE : Nat
  PICC_CMD_MF_TRANSFER : Nat
  MF_ACK : Nat

/-- The values these constants have in the MFRC522 data sheet and in
ISO/IEC 14443-3; used where a statement is evaluated on a concrete run. -/
def datasheet : Header where
  PCD_Idle := 0x00
  PCD_CalcCRC := 0x03
  PCD_Transceive := 0x0C
  PCD_MFAuthent := 0x0E
  PCD_SoftReset := 0x0F
  PICC_CMD_REQA := 0x26
  PICC_CMD_WUPA := 0x52
  PICC_CMD_CT := 0x88
  PICC_CMD_SEL_CL1 := 0x93
  PICC_CMD_SEL_CL2 := 0x95
  PICC_CMD_SEL_CL3 := 0x97
  PICC_CMD_HLTA := 0x50
  PICC_CMD_MF_READ := 0x30
  PICC_CMD_MF_WRITE := 0xA0
  PICC_CMD_MF_DECREMENT := 0xC0
  PICC_CMD_MF_INCREMENT := 0xC1
  PICC_CMD_MF_RESTORE := 0xC2
  PICC_CMD_MF_TRANSFER := 0xB0
  MF_ACK := 0x0A

/-! ## The register port -/

/-- One I2C register transaction as the driver issues it. -/
inductive BusEvent
  | write (reg : PCD_Register) (values : List Nat)
  | read (reg : PCD_Register) (count : Nat)
  deriving DecidableEq

/-- The transactions issued so far, the most recent one first. -/
abbrev Trace := List BusEvent

/-- What `i2c_master_cmd_begin` makes of a read: the transaction that sets the
register pointer fails, the transaction that reads the bytes fails (with the
bytes the I2C driver had stored by then), or both succeed. -/
inductive ReadAnswer
  | addrFail
  | dataFail (stored : List Nat)
  | ok (bytes : List Nat)

/-- The register port collaborator.  A write cannot be observed by the driver
(its result is discarded), so the port is its answers to reads; an answer may
depend on everything read and written before. -/
structure RegisterPort where
  answer : Trace → PCD_Register → Nat → ReadAnswer

/-- The card identifier structure `Uid` of the header: `size`, `uidByte[10]`
and `sak`. -/
structure Uid where
  size : Nat
  uidByte : List Nat
  sak : Nat
  deriving DecidableEq

/-! ## Memory helpers -/

/-- Stores `src` over the beginning of the window `dst`; a byte that would land
past the end of the object is not modelled. -/
def blit : List Nat → List Nat → List Nat
  | [], dst => dst
  | _ :: _, [] => []
  | s :: src, _ :: dst => s :: blit src dst

/-- The automatic array `uint8_t name[n]` before its first assignment: `junk`
gives the indeterminate bytes the stack holds. -/
def localArray (n : Nat) (junk : Nat → Nat) : List Nat :=
  (List.range n).map (fun i => junk i % 256)

/-! ## Basic interface functions (lines 126-287) -/

/-- The function `PCD_WriteRegister`: one write transaction of one byte; the port's result
is discarded by the source. -/
def PCD_WriteRegister (reg : PCD_Register) (value : Nat) (tr : Trace) : Trace :=
  BusEvent.write reg [value % 256] :: tr

/-- The function `PCD_WriteRegisterData`: nothing for `count == 0`, otherwise one write
transaction of `values[0..count)`. -/
def PCD_WriteRegisterData (reg : PCD_Register) (count : Nat) (values : List Nat)
    (tr : Trace) : Trace :=
  if count = 0 then tr else BusEvent.write reg (values.take count) :: tr

/-- The function `PCD_ReadRegister`: the byte read, or the sentinel 0 when either
transaction fails. -/
def PCD_ReadRegister (p : RegisterPort) (reg : PCD_Register) (tr : Trace) : Nat × Trace :=
  (match p.answer tr reg 1 with
    | ReadAnswer.ok bytes => bytes.headD 0 % 256
    | _ => 0,
   BusEvent.read reg 1 :: tr)

/-- The mask `((1 << (rxAlign + 1)) - 1) << (7 - rxAlign)` of
`PCD_ReadRegisterData`, stored in a `uint8_t`. -/
def rxAlignMask (rxAlign : Nat) : Nat :=
  (((1 <<< (rxAlign + 1)) - 1) <<< (7 - rxAlign)) % 256

/-- The function `PCD_ReadRegisterData`: returns the window `values` after the call. -/
def PCD_ReadRegisterData (p : RegisterPort) (reg : PCD_Register) (count : Nat)
    (values : List Nat) (rxAlign : Nat) (tr : Trace) : List Nat × Trace :=
  if count = 0 then (values, tr)
  else
    let values := values.set 0 0
    match p.answer tr reg count with
    | ReadAnswer.addrFail => (values, BusEvent.read reg count :: tr)
    | ReadAnswer.dataFail stored =>
        (blit ((stored.take count).map (fun b => b % 256)) values, BusEvent.read reg count :: tr)
    | ReadAnswer.ok bytes =>
        let values := blit ((List.range count).map (fun i => bytes.getD i 0 % 256)) values
        let values :=
          if rxAlign ≠ 0 then
            let mask := rxAlignMask rxAlign
            values.set 0 ((values.getD 0 0 &&& (255 - mask)) ||| (values.getD 0 0 &&& mask))
          else values
        (values, BusEvent.read reg count :: tr)

/-- The function `PCD_SetRegisterBitMask`. -/
def PCD_SetRegisterBitMask (p : RegisterPort) (reg : PCD_Register) (mask : Nat)
    (tr : Trace) : Trace :=
  let tmp := PCD_ReadRegister p reg tr
  PCD_WriteRegister reg (tmp.1 ||| mask) tmp.2

/-- The function `PCD_ClearRegisterBitMask`: `tmp & (~mask)` on bytes. -/
def PCD_ClearRegisterBitMask (p : RegisterPort) (reg : PCD_Register) (mask : Nat)
    (tr : Trace) : Trace :=
  let tmp := PCD_ReadRegister p reg tr
  PCD_WriteRegister reg (tmp.1 &&& (255 - mask % 256)) tmp.2

/-! ## The CRC coprocessor (lines 295-323) -/

/-- The polling loop of `PCD_CalculateCRC`, `i` being the value of the counter
when the iteration starts (5000 at first).  The result is whether CRCIRq was
seen.  The source never enters an iteration with `i = 0`. -/
def PCD_CalculateCRC_wait (p : RegisterPort) : Nat → Trace → Bool × Trace
  | 0, tr => (false, tr)
  | i + 1, tr =>
    let n := PCD_ReadRegister p PCD_Register.DivIrqReg tr
    if n.1 &&& 0x04 ≠ 0 then (true, n.2)
    else if i = 0 then (false, n.2)
    else PCD_CalculateCRC_wait p i n.2

/-- The function `PCD_CalculateCRC(data, length, result)`: returns the status, the window
`result` after the call and the trace. -/
def PCD_CalculateCRC (H : Header) (p : RegisterPort) (data : List Nat) (length : Nat)
    (result : List Nat) (tr : Trace) : StatusCode × List Nat × Trace :=
  let tr := PCD_WriteRegister PCD_Register.CommandReg H.PCD_Idle tr
  let tr := PCD_WriteRegister PCD_Register.DivIrqReg 0x04 tr
  let tr := PCD_SetRegisterBitMask p PCD_Register.FIFOLevelReg 0x80 tr
  let tr := PCD_WriteRegisterData PCD_Register.FIFODataReg length data tr
  let tr := PCD_WriteRegister PCD_Register.CommandReg H.PCD_CalcCRC tr
  let w := PCD_CalculateCRC_wait p 5000 tr
  if w.1 = false then (StatusCode.STATUS_TIMEOUT, result, w.2)
  else
    let tr := PCD_WriteRegister PCD_Register.CommandReg H.PCD_Idle w.2
    let lo := PCD_ReadRegister p PCD_Register.CRCResultRegL tr
    let hi := PCD_ReadRegister p PCD_Register.CRCResultRegH lo.2
    (StatusCode.STATUS_OK, (result.set 0 lo.1).set 1 hi.1, hi.2)

/-! ## The command/response engine (lines 545-654) -/

/-- What a call of `PCD_CommunicateWithPICC` leaves behind: the status, the
objects behind the three out-pointers (`none` for a NULL pointer) and the
trace. -/
structure Transfer where
  status : StatusCode
  backData : Option (List Nat)
  backLen : Option Nat
  validBits : Option Nat
  trace : Trace
  deriving DecidableEq

/-- Lines 577-588 of `PCD_CommunicateWithPICC`: load the FIFO and start the
command. -/
def PCD_CommunicateWithPICC_start (H : Header) (p : RegisterPort) (command : Nat)
    (sendData : List Nat) (sendLen : Nat) (validBits : Option Nat) (rxAlign : Nat)
    (tr : Trace) : Trace :=
  let txLastBits := validBits.getD 0
  let bitFraming := ((rxAlign <<< 4) + txLastBits) % 256
  let tr := PCD_WriteRegister PCD_Register.CommandReg H.PCD_Idle tr
  let tr := PCD_WriteRegister PCD_Register.ComIrqReg 0x7F tr
  let tr := PCD_SetRegisterBitMask p PCD_Register.FIFOLevelReg 0x80 tr
  let tr := PCD_WriteRegisterData PCD_Register.FIFODataReg sendLen sendData tr
  let tr := PCD_WriteRegister PCD_Register.BitFramingReg bitFraming tr
  let tr := PCD_WriteRegister PCD_Register.CommandReg command tr
  if command = H.PCD_Transceive then
    PCD_SetRegisterBitMask p PCD_Register.BitFramingReg 0x80 tr
  else tr

/-- Lines 593-605: the polling loop, `i` being the value of the counter when
the iteration starts (2000 at first).  The result is whether the loop was left
by `break` (an interrupt of `waitIRq`); `false` stands for both
`return STATUS_TIMEOUT`.  The source never enters an iteration with `i = 0`. -/
def PCD_CommunicateWithPICC_wait (p : RegisterPort) (waitIRq : Nat) : Nat → Trace → Bool × Trace
  | 0, tr => (false, tr)
  | i + 1, tr =>
    let n := PCD_ReadRegister p PCD_Register.ComIrqReg tr
    if n.1 &&& waitIRq ≠ 0 then (true, n.2)
    else if n.1 &&& 0x01 ≠ 0 then (false, n.2)
    else if i = 0 then (false, n.2)
    else PCD_CommunicateWithPICC_wait p waitIRq i n.2

/-- Lines 632-651: the CRC_A validation, entered with the received bytes, their
number and the valid bits of the last one.  `controlBuffer` is written by
`PCD_CalculateCRC` before it is read, so its initial bytes do not matter. -/
def PCD_CommunicateWithPICC_crc (H : Header) (p : RegisterPort) (backData : List Nat)
    (backLen validBits : Nat) (tr : Trace) : StatusCode × Trace :=
  if backLen = 1 ∧ validBits = 4 then (StatusCode.STATUS_MIFARE_NACK, tr)
  else if backLen < 2 ∨ validBits ≠ 0 then (StatusCode.STATUS_CRC_WRONG, tr)
  else
    let c := PCD_CalculateCRC H p backData (backLen - 2) [0, 0] tr
    if c.1 ≠ StatusCode.STATUS_OK then (c.1, c.2.2)
    else if backData.getD (backLen - 2) 0 ≠ c.2.1.getD 0 0
        ∨ backData.getD (backLen - 1) 0 ≠ c.2.1.getD 1 0 then
      (StatusCode.STATUS_CRC_WRONG, c.2.2)
    else (StatusCode.STATUS_OK, c.2.2)

/-- Lines 607-653: what follows the polling loop once an interrupt of `waitIRq`
was seen. -/
def PCD_CommunicateWithPICC_finish (H : Header) (p : RegisterPort)
    (backData : Option (List Nat)) (backLen validBits : Option Nat) (rxAlign : Nat)
    (checkCRC : Bool) (tr : Trace) : Transfer :=
  let errorRegValue := PCD_ReadRegister p PCD_Register.ErrorReg tr
  if errorRegValue.1 &&& 0x13 ≠ 0 then
    ⟨StatusCode.STATUS_ERROR, backData, backLen, validBits, errorRegValue.2⟩
  else
    match backData, backLen with
    | some data, some len =>
      let n := PCD_ReadRegister p PCD_Register.FIFOLevelReg errorRegValue.2
      if n.1 > len then
        ⟨StatusCode.STATUS_NO_ROOM, backData, backLen, validBits, n.2⟩
      else
        let d := PCD_ReadRegisterData p PCD_Register.FIFODataReg n.1 data rxAlign n.2
        let c := PCD_ReadRegister p PCD_Register.ControlReg d.2
        let _validBits := c.1 &&& 0x07
        let validBits := validBits.map (fun _ => _validBits)
        if errorRegValue.1 &&& 0x08 ≠ 0 then
          ⟨StatusCode.STATUS_COLLISION, some d.1, some n.1, validBits, c.2⟩
        else if checkCRC = true then
          let v := PCD_CommunicateWithPICC_crc H p d.1 n.1 _validBits c.2
          ⟨v.1, some d.1, some n.1, validBits, v.2⟩
        else
          ⟨StatusCode.STATUS_OK, some d.1, some n.1, validBits, c.2⟩
    | _, _ =>
      if errorRegValue.1 &&& 0x08 ≠ 0 then
        ⟨StatusCode.STATUS_COLLISION, backData, backLen, validBits, errorRegValue.2⟩
      else
        ⟨StatusCode.STATUS_OK, backData, backLen, validBits, errorRegValue.2⟩

/-- The function `PCD_CommunicateWithPICC`. -/
def PCD_CommunicateWithPICC (H : Header) (p : RegisterPort) (command waitIRq : Nat)
    (sendData : List Nat) (sendLen : Nat) (backData : Option (List Nat))
    (backLen validBits : Option Nat) (rxAlign : Nat) (checkCRC : Bool) (tr : Trace) :
    Transfer :=
  let tr := PCD_CommunicateWithPICC_start H p command sendData sendLen validBits rxAlign tr
  let w := PCD_CommunicateWithPICC_wait p waitIRq 2000 tr
  if w.1 = false then
    ⟨StatusCode.STATUS_TIMEOUT, backData, backLen, validBits, w.2⟩
  else
    PCD_CommunicateWithPICC_finish H p backData backLen validBits rxAlign checkCRC w.2

/-- The function `PCD_TransceiveData`. -/
def PCD_TransceiveData (H : Header) (p : RegisterPort) (sendData : List Nat) (sendLen : Nat)
    (backData : Option (List Nat)) (backLen validBits : Option Nat) (rxAlign : Nat)
    (checkCRC : Bool) (tr : Trace) : Transfer :=
  PCD_CommunicateWithPICC H p H.PCD_Transceive 0x30 sendData sendLen backData backLen
    validBits rxAlign checkCRC tr

/-! ## Selecting a card (lines 727-946) -/

/-- The loop `for (count = 0; count < n; count++) dst[dstIndex + count] =
src[srcIndex + count];` used twice by `PICC_Select`. -/
def copyBytes (src : List Nat) (srcIndex : Nat) (dst : List Nat) (dstIndex : Nat) :
    Nat → List Nat
  | 0 => dst
  | n + 1 =>
    (copyBytes src srcIndex dst dstIndex n).set (dstIndex + n) (src.getD (srcIndex + n) 0)

/-- Lines 780-801, the `switch (cascadeLevel)`: the SEL byte, `uidIndex` and
`useCascadeTag`; `none` is the `default` branch. -/
def PICC_Select_switch (H : Header) (cascadeLevel validBits : Nat) (uid : Uid) :
    Option (Nat × Nat × Bool) :=
  match cascadeLevel with
  | 1 => some (H.PICC_CMD_SEL_CL1, 0, decide (validBits ≠ 0 ∧ uid.size > 4))
  | 2 => some (H.PICC_CMD_SEL_CL2, 3, decide (validBits ≠ 0 ∧ uid.size > 7))
  | 3 => some (H.PICC_CMD_SEL_CL3, 6, false)
  | _ => none

/-- Lines 803-826: copies the bits known for this cascade level into the frame
and returns the frame and `currentLevelKnownBits` (an `int8_t` clamped at 0,
which is what `Int.toNat` does). -/
def PICC_Select_known (H : Header) (validBits : Nat) (uid : Uid) (uidIndex : Nat)
    (useCascadeTag : Bool) (buffer : List Nat) : List Nat × Nat :=
  let currentLevelKnownBits := Int.toNat ((validBits : Int) - 8 * (uidIndex : Int))
  let index := if useCascadeTag = true then 3 else 2
  let buffer := if useCascadeTag = true then buffer.set 2 H.PICC_CMD_CT else buffer
  let bytesToCopy :=
    currentLevelKnownBits / 8 + (if currentLevelKnownBits % 8 ≠ 0 then 1 else 0)
  let buffer :=
    if bytesToCopy ≠ 0 then
      let maxBytes := if useCascadeTag = true then 3 else 4
      let bytesToCopy := if bytesToCopy > maxBytes then maxBytes else bytesToCopy
      copyBytes uid.uidByte uidIndex buffer index bytesToCopy
    else buffer
  (buffer, if useCascadeTag = true then currentLevelKnownBits + 8 else currentLevelKnownBits)

/-- How one pass through the body of `while (!selectDone)` ends. -/
inductive Round
  /-- A `return` inside the loop. -/
  | exit (status : StatusCode) (trace : Trace)
  /-- The loop goes round again with this `currentLevelKnownBits` and frame. -/
  | again (currentLevelKnownBits : Nat) (buffer : List Nat) (trace : Trace)
  /-- The branch `selectDone = true`; `responseBuffer` is `&buffer[6]`. -/
  | selected (buffer : List Nat) (responseLength txLastBits : Nat) (trace : Trace)
  deriving DecidableEq

/-- Lines 864-902: the exchange of one round and the reaction to its result.
`responseOffset` is the index with `responseBuffer == &buffer[responseOffset]`. -/
def PICC_Select_exchange (H : Header) (p : RegisterPort) (currentLevelKnownBits : Nat)
    (buffer : List Nat) (txLastBits bufferUsed responseOffset responseLength : Nat)
    (tr : Trace) : Round :=
  let rxAlign := txLastBits
  let tr := PCD_WriteRegister PCD_Register.BitFramingReg ((rxAlign <<< 4) + txLastBits) tr
  let t := PCD_TransceiveData H p buffer bufferUsed (some (buffer.drop responseOffset))
    (some responseLength) (some txLastBits) rxAlign false tr
  let buffer := buffer.take responseOffset ++ t.backData.getD (buffer.drop responseOffset)
  let responseLength := t.backLen.getD responseLength
  let txLastBits := t.validBits.getD txLastBits
  if t.status = StatusCode.STATUS_COLLISION then
    let result := PCD_ReadRegister p PCD_Register.CollReg t.trace
    if result.1 &&& 0x20 ≠ 0 then Round.exit StatusCode.STATUS_COLLISION result.2
    else
      let collisionPos := if result.1 &&& 0x1F = 0 then 32 else result.1 &&& 0x1F
      if collisionPos ≤ currentLevelKnownBits then
        Round.exit StatusCode.STATUS_INTERNAL_ERROR result.2
      else
        let currentLevelKnownBits := collisionPos
        let count := (currentLevelKnownBits - 1) % 8
        let index := 1 + currentLevelKnownBits / 8 + (if count ≠ 0 then 1 else 0)
        Round.again currentLevelKnownBits
          (buffer.set index ((buffer.getD index 0 ||| (1 <<< count)) % 256)) result.2
  else if t.status ≠ StatusCode.STATUS_OK then Round.exit t.status t.trace
  else if currentLevelKnownBits ≥ 32 then
    Round.selected buffer responseLength txLastBits t.trace
  else Round.again 32 buffer t.trace

/-- Lines 831-902: one pass through the body of `while (!selectDone)`. -/
def PICC_Select_round (H : Header) (p : RegisterPort) (currentLevelKnownBits : Nat)
    (buffer : List Nat) (tr : Trace) : Round :=
  if currentLevelKnownBits ≥ 32 then
    let buffer := buffer.set 1 0x70
    let buffer := buffer.set 6
      (buffer.getD 2 0 ^^^ buffer.getD 3 0 ^^^ buffer.getD 4 0 ^^^ buffer.getD 5 0)
    let crc := PCD_CalculateCRC H p buffer 7 (buffer.drop 7) tr
    let buffer := buffer.take 7 ++ crc.2.1
    if crc.1 ≠ StatusCode.STATUS_OK then Round.exit crc.1 crc.2.2
    else PICC_Select_exchange H p currentLevelKnownBits buffer 0 9 6 3 crc.2.2
  else
    let txLastBits := currentLevelKnownBits % 8
    let count := currentLevelKnownBits / 8
    let index := 2 + count
    let buffer := buffer.set 1 (((index <<< 4) + txLastBits) % 256)
    let bufferUsed := index + (if txLastBits ≠ 0 then 1 else 0)
    PICC_Select_exchange H p currentLevelKnownBits buffer txLastBits bufferUsed index
      (9 - index) tr

/-- The loop `while (!selectDone)`.  The source has no counter; the first
argument bounds the number of passes and `none` means the bound was reached. -/
def PICC_Select_anticollision (H : Header) (p : RegisterPort) :
    Nat → Nat → List Nat → Trace → Option Round
  | 0, _, _, _ => none
  | fuel + 1, currentLevelKnownBits, buffer, tr =>
    match PICC_Select_round H p currentLevelKnownBits buffer tr with
    | Round.again k b t => PICC_Select_anticollision H p fuel k b t
    | r => some r

/-- How one pass through the body of `while (!uidComplete)` ends. -/
inductive Level
  /-- A `return` inside the loop. -/
  | exit (status : StatusCode) (uid : Uid) (trace : Trace)
  /-- The cascade bit of the SAK is set: `cascadeLevel++`. -/
  | next (uid : Uid) (buffer : List Nat) (trace : Trace)
  /-- The branch `uidComplete = true`. -/
  | complete (uid : Uid) (trace : Trace)
  deriving DecidableEq

/-- Lines 905-937: what follows `while (!selectDone)`: the UID bytes are copied
to `*uid`, then the SAK response is checked. -/
def PICC_Select_sak (H : Header) (p : RegisterPort) (uid : Uid) (uidIndex : Nat)
    (buffer : List Nat) (responseLength txLastBits : Nat) (tr : Trace) : Level :=
  let index := if buffer.getD 2 0 = H.PICC_CMD_CT then 3 else 2
  let bytesToCopy := if buffer.getD 2 0 = H.PICC_CMD_CT then 3 else 4
  let uid := { uid with uidByte := copyBytes buffer index uid.uidByte uidIndex bytesToCopy }
  if responseLength ≠ 3 ∨ txLastBits ≠ 0 then Level.exit StatusCode.STATUS_ERROR uid tr
  else
    let crc := PCD_CalculateCRC H p (buffer.drop 6) 1 (buffer.drop 2) tr
    let buffer := buffer.take 2 ++ crc.2.1
    if crc.1 ≠ StatusCode.STATUS_OK then Level.exit crc.1 uid crc.2.2
    else if buffer.getD 2 0 ≠ buffer.getD 7 0 ∨ buffer.getD 3 0 ≠ buffer.getD 8 0 then
      Level.exit StatusCode.STATUS_CRC_WRONG uid crc.2.2
    else if buffer.getD 6 0 &&& 0x04 ≠ 0 then Level.next uid buffer crc.2.2
    else Level.complete { uid with sak := buffer.getD 6 0 } crc.2.2

/-- The number of passes `PICC_Select_level` allows `while (!selectDone)`. -/
def selectRounds : Nat := 33

/-- Lines 779-937: one pass through the body of `while (!uidComplete)`; `none`
when `while (!selectDone)` has not ended after `selectRounds` passes. -/
def PICC_Select_level (H : Header) (p : RegisterPort) (validBits cascadeLevel : Nat)
    (uid : Uid) (buffer : List Nat) (tr : Trace) : Option Level :=
  match PICC_Select_switch H cascadeLevel validBits uid with
  | none => some (Level.exit StatusCode.STATUS_INTERNAL_ERROR uid tr)
  | some (sel, uidIndex, useCascadeTag) =>
    let k := PICC_Select_known H validBits uid uidIndex useCascadeTag (buffer.set 0 sel)
    match PICC_Select_anticollision H p selectRounds k.2 k.1 tr with
    | none => none
    | some (Round.exit status t) => some (Level.exit status uid t)
    | some (Round.again _ _ _) => none
    | some (Round.selected b responseLength txLastBits t) =>
      some (PICC_Select_sak H p uid uidIndex b responseLength txLastBits t)

/-- The loop `while (!uidComplete)` followed by lines 942-945.  The first
argument bounds the number of passes; `none` means a bound was reached. -/
def PICC_Select_cascade (H : Header) (p : RegisterPort) (validBits : Nat) :
    Nat → Nat → Uid → List Nat → Trace → Option (StatusCode × Uid × Trace)
  | 0, _, _, _, _ => none
  | fuel + 1, cascadeLevel, uid, buffer, tr =>
    match PICC_Select_level H p validBits cascadeLevel uid buffer tr with
    | none => none
    | some (Level.exit status u t) => some (status, u, t)
    | some (Level.next u b t) => PICC_Select_cascade H p validBits fuel (cascadeLevel + 1) u b t
    | some (Level.complete u t) =>
      some (StatusCode.STATUS_OK, { u with size := 3 * cascadeLevel + 1 }, t)

/-- The function `PICC_Select(uid, validBits)`: the status, `*uid` after the call and the
trace.  `junk` gives the bytes of the uninitialised `buffer[9]`.  The result is
`none` when one of the two loops does not end within its bound. -/
def PICC_Select (H : Header) (p : RegisterPort) (junk : Nat → Nat) (uid : Uid)
    (validBits : Nat) (tr : Trace) : Option (StatusCode × Uid × Trace) :=
  if validBits > 80 then some (StatusCode.STATUS_INVALID, uid, tr)
  else
    let tr := PCD_ClearRegisterBitMask p PCD_Register.CollReg 0x80 tr
    PICC_Select_cascade H p validBits 4 1 uid (localArray 9 junk) tr

/-- The function `PICC_ReadCardSerial(uid)` for a non-NULL `uid`. -/
def PICC_ReadCardSerial (H : Header) (p : RegisterPort) (junk : Nat → Nat) (uid : Uid)
    (tr : Trace) : Option (Bool × Uid × Trace) :=
  (PICC_Select H p junk uid 0 tr).map
    (fun r => (decide (r.1 = StatusCode.STATUS_OK), r.2.1, r.2.2))

/-- The function `PICC_HaltA`.  `buffer[2..3]` are written by `PCD_CalculateCRC` before the
frame is sent, so the initial bytes of `buffer[4]` do not matter. -/
def PICC_HaltA (H : Header) (p : RegisterPort) (tr : Trace) : StatusCode × Trace :=
  let buffer := [H.PICC_CMD_HLTA, 0, 0, 0]
  let crc := PCD_CalculateCRC H p buffer 2 (buffer.drop 2) tr
  let buffer := buffer.take 2 ++ crc.2.1
  if crc.1 ≠ StatusCode.STATUS_OK then (crc.1, crc.2.2)
  else
    let t := PCD_TransceiveData H p buffer 4 none none none 0 false crc.2.2
    if t.status = StatusCode.STATUS_TIMEOUT then (StatusCode.STATUS_OK, t.trace)
    else if t.status = StatusCode.STATUS_OK then (StatusCode.STATUS_ERROR, t.trace)
    else (t.status, t.trace)

/-! ## MIFARE commands (lines 1045-1346) -/

/-- Lines 1317-1319 of `PCD_MIFARE_Transceive`: `sendData[0..sendLen)` is copied
to `cmdBuffer[18]` and the CRC_A is appended; returns the status of
`PCD_CalculateCRC`, `cmdBuffer` and the trace.  Only bytes of `cmdBuffer`
written before are ever read, so its initial bytes do not matter. -/
def PCD_MIFARE_Transceive_frame (H : Header) (p : RegisterPort) (sendData : List Nat)
    (sendLen : Nat) (tr : Trace) : StatusCode × List Nat × Trace :=
  let cmdBuffer := blit (sendData.take sendLen) (List.replicate 18 0)
  let crc := PCD_CalculateCRC H p cmdBuffer sendLen (cmdBuffer.drop sendLen) tr
  (crc.1, cmdBuffer.take sendLen ++ crc.2.1, crc.2.2)

/-- Lines 1326-1331 of `PCD_MIFARE_Transceive`: the exchange of the frame
`cmdBuffer[0..sendLen + 2)`, the reply being stored in `cmdBuffer` again. -/
def PCD_MIFARE_Transceive_exchange (H : Header) (p : RegisterPort) (cmdBuffer : List Nat)
    (sendLen : Nat) (tr : Trace) : Transfer :=
  PCD_CommunicateWithPICC H p H.PCD_Transceive 0x30 cmdBuffer (sendLen + 2)
    (some cmdBuffer) (some 18) (some 0) 0 false tr

/-- The function `PCD_MIFARE_Transceive(sendData, sendLen, acceptTimeout)`; `sendData` is
`none` for NULL. -/
def PCD_MIFARE_Transceive (H : Header) (p : RegisterPort) (sendData : Option (List Nat))
    (sendLen : Nat) (acceptTimeout : Bool) (tr : Trace) : StatusCode × Trace :=
  match sendData with
  | none => (StatusCode.STATUS_INVALID, tr)
  | some sendData =>
    if sendLen > 16 then (StatusCode.STATUS_INVALID, tr)
    else
      let f := PCD_MIFARE_Transceive_frame H p sendData sendLen tr
      if f.1 ≠ StatusCode.STATUS_OK then (f.1, f.2.2)
      else
        let t := PCD_MIFARE_Transceive_exchange H p f.2.1 sendLen f.2.2
        let cmdBuffer := t.backData.getD f.2.1
        let cmdBufferSize := t.backLen.getD 18
        let validBits := t.validBits.getD 0
        if acceptTimeout = true ∧ t.status = StatusCode.STATUS_TIMEOUT then
          (StatusCode.STATUS_OK, t.trace)
        else if t.status ≠ StatusCode.STATUS_OK then (t.status, t.trace)
        else if cmdBufferSize ≠ 1 ∨ validBits ≠ 4 then (StatusCode.STATUS_ERROR, t.trace)
        else if cmdBuffer.getD 0 0 ≠ H.MF_ACK then (StatusCode.STATUS_MIFARE_NACK, t.trace)
        else (StatusCode.STATUS_OK, t.trace)

/-- The function `MIFARE_Read(blockAddr, buffer, bufferSize)`: the status, `buffer` and
`*bufferSize` after the call, and the trace; `buffer` is `none` for NULL. -/
def MIFARE_Read (H : Header) (p : RegisterPort) (blockAddr : Nat) (buffer : Option (List Nat))
    (bufferSize : Nat) (tr : Trace) : StatusCode × Option (List Nat) × Nat × Trace :=
  match buffer with
  | none => (StatusCode.STATUS_NO_ROOM, none, bufferSize, tr)
  | some buffer =>
    if bufferSize < 18 then (StatusCode.STATUS_NO_ROOM, some buffer, bufferSize, tr)
    else
      let buffer := (buffer.set 0 H.PICC_CMD_MF_READ).set 1 blockAddr
      let crc := PCD_CalculateCRC H p buffer 2 (buffer.drop 2) tr
      let buffer := buffer.take 2 ++ crc.2.1
      if crc.1 ≠ StatusCode.STATUS_OK then (crc.1, some buffer, bufferSize, crc.2.2)
      else
        let t := PCD_TransceiveData H p buffer 4 (some buffer) (some bufferSize) none 0 true
          crc.2.2
        (t.status, some (t.backData.getD buffer), t.backLen.getD bufferSize, t.trace)

/-- The function `MIFARE_Write(blockAddr, buffer, bufferSize)`; `buffer` is `none` for NULL. -/
def MIFARE_Write (H : Header) (p : RegisterPort) (blockAddr : Nat) (buffer : Option (List Nat))
    (bufferSize : Nat) (tr : Trace) : StatusCode × Trace :=
  match buffer with
  | none => (StatusCode.STATUS_INVALID, tr)
  | some buffer =>
    if bufferSize < 16 then (StatusCode.STATUS_INVALID, tr)
    else
      let cmdBuffer := [H.PICC_CMD_MF_WRITE, blockAddr]
      let result := PCD_MIFARE_Transceive H p (some cmdBuffer) 2 false tr
      if result.1 ≠ StatusCode.STATUS_OK then result
      else
        let result := PCD_MIFARE_Transceive H p (some buffer) bufferSize false result.2
        if result.1 ≠ StatusCode.STATUS_OK then result
        else (StatusCode.STATUS_OK, result.2)

/-- The four bytes of a `long` as `(uint8_t *)&data` reads them: `long` is 32
bits wide and stored least significant byte first on the ESP32. -/
def longBytes (data : Int) : List Nat :=
  let u := (data % 4294967296).toNat
  [u % 256, u / 256 % 256, u / 65536 % 256, u / 16777216 % 256]

/-- The function `MIFARE_TwoStepHelper(command, blockAddr, data)`. -/
def MIFARE_TwoStepHelper (H : Header) (p : RegisterPort) (command blockAddr : Nat)
    (data : Int) (tr : Trace) : StatusCode × Trace :=
  let cmdBuffer := [command, blockAddr]
  let result := PCD_MIFARE_Transceive H p (some cmdBuffer) 2 false tr
  if result.1 ≠ StatusCode.STATUS_OK then result
  else
    let result := PCD_MIFARE_Transceive H p (some (longBytes data)) 4 true result.2
    if result.1 ≠ StatusCode.STATUS_OK then result
    else (StatusCode.STATUS_OK, result.2)

/-- The function `MIFARE_Decrement(blockAddr, delta)`. -/
def MIFARE_Decrement (H : Header) (p : RegisterPort) (blockAddr : Nat) (delta : Int)
    (tr : Trace) : StatusCode × Trace :=
  MIFARE_TwoStepHelper H p H.PICC_CMD_MF_DECREMENT blockAddr delta tr

/-- The function `MIFARE_Increment(blockAddr, delta)`. -/
def MIFARE_Increment (H : Header) (p : RegisterPort) (blockAddr : Nat) (delta : Int)
    (tr : Trace) : StatusCode × Trace :=
  MIFARE_TwoStepHelper H p H.PICC_CMD_MF_INCREMENT blockAddr delta tr

/-- The function `MIFARE_Restore(blockAddr)`. -/
def MIFARE_Restore (H : Header) (p : RegisterPort) (blockAddr : Nat) (tr : Trace) :
    StatusCode × Trace :=
  MIFARE_TwoStepHelper H p H.PICC_CMD_MF_RESTORE blockAddr 0 tr

/-- Lines 1254-1258 of `MIFARE_GetValue`: the `long` assembled from
`buffer[0..3]`.  `int` and `long` are 32 bits wide; the bytes are joined as an
unsigned 32-bit pattern and read as a two's complement number, which is what
`buffer[3] << 24` yields on the target when bit 7 of `buffer[3]` is set. -/
def MIFARE_GetValue_extract (buffer : List Nat) : Int :=
  let u := ((buffer.getD 3 0 <<< 24) ||| (buffer.getD 2 0 <<< 16)
    ||| (buffer.getD 1 0 <<< 8) ||| buffer.getD 0 0) % 4294967296
  if u < 2147483648 then (u : Int) else (u : Int) - 4294967296

/-- The function `MIFARE_GetValue(blockAddr, value)`: the status, `*value` after the call
and the trace.  `MIFARE_Read` writes `buffer[0..3]` before anything is read
from `buffer[18]`, so its initial bytes do not matter. -/
def MIFARE_GetValue (H : Header) (p : RegisterPort) (blockAddr : Nat) (value : Int)
    (tr : Trace) : StatusCode × Int × Trace :=
  let r := MIFARE_Read H p blockAddr (some (List.replicate 18 0)) 18 tr
  if r.1 = StatusCode.STATUS_OK then
    (r.1, MIFARE_GetValue_extract (r.2.1.getD []), r.2.2.2)
  else (r.1, value, r.2.2.2)

/-- Lines 1275-1289 of `MIFARE_SetValue`: the contents of `buffer[18]` when it
is handed to `MIFARE_Write`.  `value` is a 32-bit `long`, `u` its two's
complement bit pattern; `buffer[16..17]` are never assigned. -/
def MIFARE_SetValue_block (blockAddr : Nat) (value : Int) : List Nat :=
  let u := (value % 4294967296).toNat
  let buffer := List.replicate 18 0
  let buffer := (buffer.set 8 ((u &&& 0xFF) % 256)).set 0 ((u &&& 0xFF) % 256)
  let buffer := (buffer.set 9 (((u &&& 0xFF00) >>> 8) % 256)).set 1 (((u &&& 0xFF00) >>> 8) % 256)
  let buffer :=
    (buffer.set 10 (((u &&& 0xFF0000) >>> 16) % 256)).set 2 (((u &&& 0xFF0000) >>> 16) % 256)
  let buffer :=
    (buffer.set 11 (((u &&& 0xFF000000) >>> 24) % 256)).set 3 (((u &&& 0xFF000000) >>> 24) % 256)
  let buffer := buffer.set 4 (255 - buffer.getD 0 0)
  let buffer := buffer.set 5 (255 - buffer.getD 1 0)
  let buffer := buffer.set 6 (255 - buffer.getD 2 0)
  let buffer := buffer.set 7 (255 - buffer.getD 3 0)
  let buffer := (buffer.set 14 (blockAddr % 256)).set 12 (blockAddr % 256)
  let buffer := (buffer.set 15 (255 - blockAddr % 256)).set 13 (255 - blockAddr % 256)
  buffer

/-- The function `MIFARE_SetValue(blockAddr, value)`. -/
def MIFARE_SetValue (H : Header) (p : RegisterPort) (blockAddr : Nat) (value : Int)
    (tr : Trace) : StatusCode × Trace :=
  MIFARE_Write H p blockAddr (some (MIFARE_SetValue_block blockAddr value)) 16 tr

/-! ## Reading the trace -/

/-- The event of one `PCD_ReadRegister(ComIrqReg)`. -/
def comIrqRead : BusEvent := BusEvent.read PCD_Register.ComIrqReg 1

/-- The byte that the poll number `k + 1` of a polling loop entered with the
history `tr` obtains from ComIrqReg: `k` polls precede it. -/
def comIrqAt (p : RegisterPort) (tr : Trace) (k : Nat) : Nat :=
  (PCD_ReadRegister p PCD_Register.ComIrqReg (List.replicate k comIrqRead ++ tr)).1

/-! ## Concrete chips and cards

Ports on which statements are evaluated.  Each answers successfully; the bytes
follow the register read and, where two exchanges must differ, the history. -/

/-- The port that answers every read successfully with `f history reg count`. -/
def chipAnswering (f : Trace → PCD_Register → Nat → List Nat) : RegisterPort where
  answer tr reg count := ReadAnswer.ok (f tr reg count)

/-- A chip whose FIFO holds the byte `0xA0`: four received bits `1010`, placed
at bit positions 4..7 by the chip because RxAlign is 4. -/
def alignedNibbleChip : RegisterPort :=
  chipAnswering (fun _ reg _ =>
    match reg with
    | PCD_Register.FIFODataReg => [0xA0]
    | _ => [0])

/-- A field with one card of UID `DE AD BE EF` (BCC `22`): the ANTICOLLISION
exchange returns the five bytes, the SELECT exchange the SAK `08` with its
CRC_A `B6 DD`, which is also what the CRC coprocessor reports. -/
def singleSizeCard : RegisterPort :=
  chipAnswering (fun tr reg count =>
    match reg with
    | PCD_Register.ComIrqReg => [0x30]
    | PCD_Register.DivIrqReg => [0x04]
    | PCD_Register.FIFOLevelReg =>
      [if tr.count (BusEvent.read PCD_Register.ErrorReg 1) = 1 then 5 else 3]
    | PCD_Register.FIFODataReg =>
      if count = 5 then [0xDE, 0xAD, 0xBE, 0xEF, 0x22] else [0x08, 0xB6, 0xDD]
    | PCD_Register.CRCResultRegL => [0xB6]
    | PCD_Register.CRCResultRegH => [0xDD]
    | _ => [0])

/-- The same card, except that its answer to SELECT is cut short: two bytes
instead of SAK + CRC_A. -/
def shortSakCard : RegisterPort :=
  chipAnswering (fun tr reg count =>
    match reg with
    | PCD_Register.ComIrqReg => [0x30]
    | PCD_Register.DivIrqReg => [0x04]
    | PCD_Register.FIFOLevelReg =>
      [if tr.count (BusEvent.read PCD_Register.ErrorReg 1) = 1 then 5 else 2]
    | PCD_Register.FIFODataReg =>
      if count = 5 then [0xDE, 0xAD, 0xBE, 0xEF, 0x22] else [0x08, 0xB6]
    | PCD_Register.CRCResultRegL => [0xB6]
    | PCD_Register.CRCResultRegH => [0xDD]
    | _ => [0])

/-- A `Uid` as a caller declares it before the first selection: all zero. -/
def blankUid : Uid := ⟨0, List.replicate 10 0, 0⟩

/-- Two cards whose UIDs agree on bits 1..7 (`0100101`, received as `0x25`) and
differ in bit 8: the exchange ends with CollErr and CollReg reports position 8. -/
def collisionAtBit8 : RegisterPort :=
  chipAnswering (fun _ reg _ =>
    match reg with
    | PCD_Register.ComIrqReg => [0x30]
    | PCD_Register.ErrorReg => [0x08]
    | PCD_Register.FIFOLevelReg => [1]
    | PCD_Register.FIFODataReg => [0x25]
    | PCD_Register.CollReg => [0x08]
    | _ => [0])

/-- A field in which nothing answers: the CRC coprocessor finishes, the timer
interrupt fires on every exchange. -/
def silentField : RegisterPort :=
  chipAnswering (fun _ reg _ =>
    match reg with
    | PCD_Register.ComIrqReg => [0x01]
    | PCD_Register.DivIrqReg => [0x04]
    | _ => [0])

/-- A card that acknowledges the first exchange with the 4-bit `MF_ACK` and
stays silent afterwards, as a MIFARE Classic card does in the data phase of
Increment, Decrement and Restore. -/
def ackThenSilent : RegisterPort :=
  chipAnswering (fun tr reg _ =>
    match reg with
    | PCD_Register.ComIrqReg =>
      [if tr.count (BusEvent.read PCD_Register.ErrorReg 1) = 0 then 0x30 else 0x01]
    | PCD_Register.DivIrqReg => [0x04]
    | PCD_Register.FIFOLevelReg => [1]
    | PCD_Register.FIFODataReg => [0x0A]
    | PCD_Register.ControlReg => [0x04]
    | _ => [0])

/-- A chip that reports RxIRq together with BufferOvfl, CollErr, ParityErr and
ProtocolErr. -/
def overflowChip : RegisterPort :=
  chipAnswering (fun _ reg _ =>
    match reg with
    | PCD_Register.ComIrqReg => [0x30]
    | PCD_Register.ErrorReg => [0x1B]
    | _ => [0])

/-! ## More of the trace, more chips -/

/-- The event of one `PCD_ReadRegister(DivIrqReg)`. -/
def divIrqRead : BusEvent := BusEvent.read PCD_Register.DivIrqReg 1

/-- The byte that the poll number `k + 1` of the loop of `PCD_CalculateCRC`,
entered with the history `tr`, obtains from DivIrqReg. -/
def divIrqAt (p : RegisterPort) (tr : Trace) (k : Nat) : Nat :=
  (PCD_ReadRegister p PCD_Register.DivIrqReg (List.replicate k divIrqRead ++ tr)).1

/-- Lines 299-303 of `PCD_CalculateCRC`: the history when its polling loop is
entered. -/
def PCD_CalculateCRC_start (H : Header) (p : RegisterPort) (data : List Nat) (length : Nat)
    (tr : Trace) : Trace :=
  PCD_WriteRegister PCD_Register.CommandReg H.PCD_CalcCRC
    (PCD_WriteRegisterData PCD_Register.FIFODataReg length data
      (PCD_SetRegisterBitMask p PCD_Register.FIFOLevelReg 0x80
        (PCD_WriteRegister PCD_Register.DivIrqReg 0x04
          (PCD_WriteRegister PCD_Register.CommandReg H.PCD_Idle tr))))

/-- A card that answers REQA: the two ATQA bytes `04 00`, all bits valid. -/
def atqaCard : RegisterPort :=
  chipAnswering (fun _ reg _ =>
    match reg with
    | PCD_Register.ComIrqReg => [0x30]
    | PCD_Register.FIFOLevelReg => [2]
    | PCD_Register.FIFODataReg => [0x04, 0x00]
    | _ => [0])

/-- A chip whose CRC coprocessor never raises CRCIRq. -/
def deadCoprocessor : RegisterPort :=
  chipAnswering (fun _ _ _ => [0])

/-- A card that answers with three bytes, `08 B6 DD`, the last two being what
the CRC coprocessor reports for the first. -/
def sakCard : RegisterPort :=
  chipAnswering (fun _ reg _ =>
    match reg with
    | PCD_Register.ComIrqReg => [0x30]
    | PCD_Register.DivIrqReg => [0x04]
    | PCD_Register.FIFOLevelReg => [3]
    | PCD_Register.FIFODataReg => [0x08, 0xB6, 0xDD]
    | PCD_Register.CRCResultRegL => [0xB6]
    | PCD_Register.CRCResultRegH => [0xDD]
    | _ => [0])

/-! ## What the receive branch reads -/

/-- What lines 615-621 of `PCD_CommunicateWithPICC` read once ErrorReg has been
read: the FIFO level, the window `backData` after `level` bytes were fetched
from the FIFO, the valid bits of the last byte (ControlReg & 0x07), and the
trace after these three reads.  The source fetches the bytes only when the
level does not exceed `*backLen`. -/
structure Reception where
  level : Nat
  data : List Nat
  lastBits : Nat
  trace : Trace

/-- The reads of lines 615-621, started with the history `tr`, for the window
`data` and `rxAlign`. -/
def PCD_CommunicateWithPICC_reception (p : RegisterPort) (data : List Nat) (rxAlign : Nat)
    (tr : Trace) : Reception :=
  let n := PCD_ReadRegister p PCD_Register.FIFOLevelReg tr
  let d := PCD_ReadRegisterData p PCD_Register.FIFODataReg n.1 data rxAlign n.2
  let c := PCD_ReadRegister p PCD_Register.ControlReg d.2
  ⟨n.1, d.1, c.1 &&& 0x07, c.2⟩

/-! ## MIFARE cards -/

/-- A MIFARE card that acknowledges every exchange with the 4-bit `MF_ACK`. -/
def ackingCard : RegisterPort :=
  chipAnswering (fun _ reg _ =>
    match reg with
    | PCD_Register.ComIrqReg => [0x30]
    | PCD_Register.DivIrqReg => [0x04]
    | PCD_Register.FIFOLevelReg => [1]
    | PCD_Register.FIFODataReg => [0x0A]
    | PCD_Register.ControlReg => [0x04]
    | _ => [0])

/-- A card that answers MIFARE Read with a block of 16 bytes `00 .. 0F` and two
bytes `37 49`, which is also what the CRC coprocessor reports. -/
def blockCard : RegisterPort :=
  chipAnswering (fun _ reg _ =>
    match reg with
    | PCD_Register.ComIrqReg => [0x30]
    | PCD_Register.DivIrqReg => [0x04]
    | PCD_Register.FIFOLevelReg => [18]
    | PCD_Register.FIFODataReg =>
      [0x00, 0x01, 0x02, 0x03, 0x04, 0x05, 0x06, 0x07, 0x08, 0x09, 0x0A, 0x0B, 0x0C, 0x0D,
       0x0E, 0x0F, 0x37, 0x49]
    | PCD_Register.CRCResultRegL => [0x37]
    | PCD_Register.CRCResultRegH => [0x49]
    | _ => [0])

/-- A card that answers MIFARE Read with four bytes only, `11 22 37 49`, the last
two being what the CRC coprocessor reports. -/
def shortBlockCard : RegisterPort :=
  chipAnswering (fun _ reg _ =>
    match reg with
    | PCD_Register.ComIrqReg => [0x30]
    | PCD_Register.DivIrqReg => [0x04]
    | PCD_Register.FIFOLevelReg => [4]
    | PCD_Register.FIFODataReg => [0x11, 0x22, 0x37, 0x49]
    | PCD_Register.CRCResultRegL => [0x37]
    | PCD_Register.CRCResultRegH => [0x49]
    | _ => [0])

/-! ## The type of a card (lines 1374-1400) -/

/-- Modelled from the spec: the PICC_Type enumeration of `MFRC522_I2C.h` (the
header is not among the sources); its members are the ones that `PICC_GetType`
and `PICC_GetTypeName` name. -/
inductive PICC_Type
  | PICC_TYPE_UNKNOWN
  | PICC_TYPE_ISO_14443_4
  | PICC_TYPE_ISO_18092
  | PICC_TYPE_MIFARE_MINI
  | PICC_TYPE_MIFARE_1K
  | PICC_TYPE_MIFARE_4K
  | PICC_TYPE_MIFARE_UL
  | PICC_TYPE_MIFARE_PLUS
  | PICC_TYPE_TNP3XXX
  | PICC_TYPE_NOT_COMPLETE
  deriving DecidableEq

/-- The function `PICC_GetType(sak)`. -/
def PICC_GetType (sak : Nat) : PICC_Type :=
  if sak &&& 0x04 ≠ 0 then PICC_Type.PICC_TYPE_NOT_COMPLETE
  else if sak = 0x09 then PICC_Type.PICC_TYPE_MIFARE_MINI
  else if sak = 0x08 then PICC_Type.PICC_TYPE_MIFARE_1K
  else if sak = 0x18 then PICC_Type.PICC_TYPE_MIFARE_4K
  else if sak = 0x00 then PICC_Type.PICC_TYPE_MIFARE_UL
  else if sak = 0x10 ∨ sak = 0x11 then PICC_Type.PICC_TYPE_MIFARE_PLUS
  else if sak = 0x01 then PICC_Type.PICC_TYPE_TNP3XXX
  else if sak &&& 0x20 ≠ 0 then PICC_Type.PICC_TYPE_ISO_14443_4
  else if sak &&& 0x40 ≠ 0 then PICC_Type.PICC_TYPE_ISO_18092
  else PICC_Type.PICC_TYPE_UNKNOWN

/-! ## The passes of the loops of `PICC_Select` -/

/-- Lines 865-870 of `PICC_Select`: the write of BitFramingReg and the call of
`PCD_TransceiveData` of one round, as `PICC_Select_exchange` issues them. -/
def PICC_Select_transceive (H : Header) (p : RegisterPort) (buffer : List Nat)
    (txLastBits bufferUsed responseOffset responseLength : Nat) (tr : Trace) : Transfer :=
  PCD_TransceiveData H p buffer bufferUsed (some (buffer.drop responseOffset))
    (some responseLength) (some txLastBits) txLastBits false
    (PCD_WriteRegister PCD_Register.BitFramingReg ((txLastBits <<< 4) + txLastBits) tr)

/-- The states `(cascadeLevel, *uid, buffer, trace)` in which the loop
`while (!uidComplete)`, entered at cascade level 1 with `uid0`, `buffer0` and
`tr0`, begins a pass. -/
inductive PICC_Select_enters (H : Header) (p : RegisterPort) (validBits : Nat) (uid0 : Uid)
    (buffer0 : List Nat) (tr0 : Trace) : Nat → Uid → List Nat → Trace → Prop
  | first : PICC_Select_enters H p validBits uid0 buffer0 tr0 1 uid0 buffer0 tr0
  | next {cascadeLevel : Nat} {uid : Uid} {buffer : List Nat} {tr : Trace} {uid1 : Uid}
      {buffer1 : List Nat} {tr1 : Trace} :
      PICC_Select_enters H p validBits uid0 buffer0 tr0 cascadeLevel uid buffer tr →
      PICC_Select_level H p validBits cascadeLevel uid buffer tr
        = some (Level.next uid1 buffer1 tr1) →
      PICC_Select_enters H p validBits uid0 buffer0 tr0 (cascadeLevel + 1) uid1 buffer1 tr1

/-- The states `(currentLevelKnownBits, buffer, trace)` in which the loop
`while (!selectDone)`, entered with `k0`, `buffer0` and `tr0`, begins a pass. -/
inductive PICC_Select_passes (H : Header) (p : RegisterPort) (k0 : Nat) (buffer0 : List Nat)
    (tr0 : Trace) : Nat → List Nat → Trace → Prop
  | first : PICC_Select_passes H p k0 buffer0 tr0 k0 buffer0 tr0
  | again {k : Nat} {buffer : List Nat} {tr : Trace} {k1 : Nat} {buffer1 : List Nat}
      {tr1 : Trace} :
      PICC_Select_passes H p k0 buffer0 tr0 k buffer tr →
      PICC_Select_round H p k buffer tr = Round.again k1 buffer1 tr1 →
      PICC_Select_passes H p k0 buffer0 tr0 k1 buffer1 tr1

/-- The call `PICC_Select(uid, validBits)`, made with the history `tr` and the
stack bytes `junk`, begins a round of `while (!selectDone)` at cascade level
`cascadeLevel` (whose SEL byte is `sel` and whose first UID index is
`uidIndex`) with `k` known bits, the frame `buffer` and the history `t`. -/
def PICC_Select_rounds (H : Header) (p : RegisterPort) (junk : Nat → Nat) (uid : Uid)
    (validBits : Nat) (tr : Trace) (cascadeLevel sel uidIndex k : Nat) (buffer : List Nat)
    (t : Trace) : Prop :=
  validBits ≤ 80 ∧
    ∃ uidL bufferL trL useCascadeTag,
      PICC_Select_enters H p validBits uid (localArray 9 junk)
          (PCD_ClearRegisterBitMask p PCD_Register.CollReg 0x80 tr) cascadeLevel uidL bufferL trL
        ∧ PICC_Select_switch H cascadeLevel validBits uidL = some (sel, uidIndex, useCascadeTag)
        ∧ PICC_Select_passes H p
            (PICC_Select_known H validBits uidL uidIndex useCascadeTag (bufferL.set 0 sel)).2
            (PICC_Select_known H validBits uidL uidIndex useCascadeTag (bufferL.set 0 sel)).1
            trL k buffer t

/-! ## Requests, authentication and reset -/

/-- The function `PICC_REQA_or_WUPA(command, bufferATQA, bufferSize)`: the
status, `bufferATQA` and `*bufferSize` after the call, and the trace;
`bufferATQA` is `none` for NULL.  `&command` is a window of one byte. -/
def PICC_REQA_or_WUPA (H : Header) (p : RegisterPort) (command : Nat)
    (bufferATQA : Option (List Nat)) (bufferSize : Nat) (tr : Trace) :
    StatusCode × Option (List Nat) × Nat × Trace :=
  match bufferATQA with
  | none => (StatusCode.STATUS_NO_ROOM, none, bufferSize, tr)
  | some bufferATQA =>
    if bufferSize < 2 then (StatusCode.STATUS_NO_ROOM, some bufferATQA, bufferSize, tr)
    else
      let tr := PCD_ClearRegisterBitMask p PCD_Register.CollReg 0x80 tr
      let validBits := 7
      let rxAlign := 0
      let checkCRC := false
      let t := PCD_TransceiveData H p [command] 1 (some bufferATQA) (some bufferSize)
        (some validBits) rxAlign checkCRC tr
      let bufferSize := t.backLen.getD bufferSize
      let validBits := t.validBits.getD validBits
      if t.status ≠ StatusCode.STATUS_OK then
        (t.status, some (t.backData.getD bufferATQA), bufferSize, t.trace)
      else if bufferSize ≠ 2 ∨ validBits ≠ 0 then
        (StatusCode.STATUS_ERROR, some (t.backData.getD bufferATQA), bufferSize, t.trace)
      else (StatusCode.STATUS_OK, some (t.backData.getD bufferATQA), bufferSize, t.trace)

/-- The function `PICC_RequestA(bufferATQA, bufferSize)`. -/
def PICC_RequestA (H : Header) (p : RegisterPort) (bufferATQA : Option (List Nat))
    (bufferSize : Nat) (tr : Trace) : StatusCode × Option (List Nat) × Nat × Trace :=
  PICC_REQA_or_WUPA H p H.PICC_CMD_REQA bufferATQA bufferSize tr

/-- The function `PICC_WakeupA(bufferATQA, bufferSize)`. -/
def PICC_WakeupA (H : Header) (p : RegisterPort) (bufferATQA : Option (List Nat))
    (bufferSize : Nat) (tr : Trace) : StatusCode × Option (List Nat) × Nat × Trace :=
  PICC_REQA_or_WUPA H p H.PICC_CMD_WUPA bufferATQA bufferSize tr

/-- The index `i + uid->size - 4` at which the second loop of
`PCD_Authenticate` reads `uid->uidByte`; C computes it in `int`. -/
def PCD_Authenticate_index (uid : Uid) (i : Nat) : Int :=
  (i : Int) + (uid.size : Int) - 4

/-- Lines 1005-1014 of `PCD_Authenticate`: the twelve bytes of `sendData`.
`key` is `key->keyByte`; MF_KEY_SIZE is 6 ("6 key bytes").  A read outside
`uid->uidByte[10]` is not modelled: the byte is taken as 0. -/
def PCD_Authenticate_frame (command blockAddr : Nat) (key : List Nat) (uid : Uid) : List Nat :=
  [command, blockAddr]
    ++ (List.range 6).map (fun i => key.getD i 0)
    ++ (List.range 4).map (fun i =>
        match PCD_Authenticate_index uid i with
        | Int.ofNat n => uid.uidByte.getD n 0
        | Int.negSucc _ => 0)

/-- The function `PCD_Authenticate(command, blockAddr, key, uid)`. -/
def PCD_Authenticate (H : Header) (p : RegisterPort) (command blockAddr : Nat)
    (key : List Nat) (uid : Uid) (tr : Trace) : StatusCode × Trace :=
  let waitIRq := 0x10
  let sendData := PCD_Authenticate_frame command blockAddr key uid
  let t := PCD_CommunicateWithPICC H p H.PCD_MFAuthent waitIRq sendData 12 none none none 0
    false tr
  (t.status, t.trace)

/-- The loop `while (PCD_ReadRegister(CommandReg) & (1<<4))` of `PCD_Reset`.
The source has no counter; the first argument bounds the number of reads and
`none` means that every one of them had the PowerDown bit set. -/
def PCD_Reset_wait (p : RegisterPort) : Nat → Trace → Option Trace
  | 0, _ => none
  | fuel + 1, tr =>
    let r := PCD_ReadRegister p PCD_Register.CommandReg tr
    if r.1 &&& (1 <<< 4) ≠ 0 then PCD_Reset_wait p fuel r.2 else some r.2

/-- The function `PCD_Reset`; the delay of 50 ms is no register transaction. -/
def PCD_Reset (H : Header) (p : RegisterPort) (fuel : Nat) (tr : Trace) : Option Trace :=
  PCD_Reset_wait p fuel (PCD_WriteRegister PCD_Register.CommandReg H.PCD_SoftReset tr)

/-- The function `PCD_AntennaOn`. -/
def PCD_AntennaOn (p : RegisterPort) (tr : Trace) : Trace :=
  let value := PCD_ReadRegister p PCD_Register.TxControlReg tr
  if value.1 &&& 0x03 ≠ 0x03 then
    PCD_WriteRegister PCD_Register.TxControlReg (value.1 ||| 0x03) value.2
  else value.2

/-- The function `PCD_Init`.  `hardReset` is what `PCD_HardGpioReset` returns;
it drives a GPIO pin, not the register port, and returns false when no reset
pin is configured. -/
def PCD_Init (H : Header) (p : RegisterPort) (hardReset : Bool) (fuel : Nat) (tr : Trace) :
    Option Trace :=
  (if hardReset = true then some tr else PCD_Reset H p fuel tr).map (fun tr =>
    let tr := PCD_WriteRegister PCD_Register.TModeReg 0x80 tr
    let tr := PCD_WriteRegister PCD_Register.TPrescalerReg 0xA9 tr
    let tr := PCD_WriteRegister PCD_Register.TReloadRegH 0x03 tr
    let tr := PCD_WriteRegister PCD_Register.TReloadRegL 0xE8 tr
    let tr := PCD_WriteRegister PCD_Register.TxASKReg 0x40 tr
    let tr := PCD_WriteRegister PCD_Register.ModeReg 0x3D tr
    PCD_AntennaOn p tr)

/-- The byte that the read number `k + 1` of the loop of `PCD_Reset`, entered
with the history `tr`, obtains from CommandReg. -/
def commandAt (p : RegisterPort) (tr : Trace) (k : Nat) : Nat :=
  (PCD_ReadRegister p PCD_Register.CommandReg
    (List.replicate k (BusEvent.read PCD_Register.CommandReg 1) ++ tr)).1

/-- A chip that stays in power-down: CommandReg always reads with bit 4 set. -/
def poweredDownChip : RegisterPort :=
  chipAnswering (fun _ reg _ =>
    match reg with
    | PCD_Register.CommandReg => [0x10]
    | _ => [0])

/-- A chip that leaves power-down after two reads of CommandReg. -/
def slowStartChip : RegisterPort :=
  chipAnswering (fun tr reg _ =>
    match reg with
    | PCD_Register.CommandReg =>
      [if tr.count (BusEvent.read PCD_Register.CommandReg 1) < 2 then 0x10 else 0x00]
    | _ => [0])

/-- A card that lets the authentication end: IdleIRq is raised, no error. -/
def idleChip : RegisterPort :=
  chipAnswering (fun _ reg _ =>
    match reg with
    | PCD_Register.ComIrqReg => [0x10]
    | _ => [0])

/-! ## Access bits (lines 1652-1665 and 1740-1756) -/

/-- The function `MIFARE_SetAccessBits(accessBitBuffer, g0, g1, g2, g3)`: the
window `accessBitBuffer` after the call.  `c1`, `c2`, `c3` and the three bytes
stored are `uint8_t`; `~c & 0xF` on a byte `c` is `(255 - c) &&& 0xF`. -/
def MIFARE_SetAccessBits (accessBitBuffer : List Nat) (g0 g1 g2 g3 : Nat) : List Nat :=
  let c1 := (((g3 &&& 4) <<< 1) ||| ((g2 &&& 4) <<< 0) ||| ((g1 &&& 4) >>> 1)
    ||| ((g0 &&& 4) >>> 2)) % 256
  let c2 := (((g3 &&& 2) <<< 2) ||| ((g2 &&& 2) <<< 1) ||| ((g1 &&& 2) <<< 0)
    ||| ((g0 &&& 2) >>> 1)) % 256
  let c3 := (((g3 &&& 1) <<< 3) ||| ((g2 &&& 1) <<< 2) ||| ((g1 &&& 1) <<< 1)
    ||| ((g0 &&& 1) <<< 0)) % 256
  ((accessBitBuffer.set 0 (((((255 - c2) &&& 0xF) <<< 4) ||| ((255 - c1) &&& 0xF)) % 256)).set 1
    (((c1 <<< 4) ||| ((255 - c3) &&& 0xF)) % 256)).set 2 (((c3 <<< 4) ||| c2) % 256)

/-- Lines 1652-1665 of `PICC_DumpMifareClassicSectorToSerial`: the access bits of
the sector trailer held in `buffer`; returns `invertedError` and `g[0..3]`. -/
def PICC_DumpMifareClassicSectorToSerial_accessBits (buffer : List Nat) : Bool × List Nat :=
  let c1 := buffer.getD 7 0 >>> 4
  let c2 := buffer.getD 8 0 &&& 0xF
  let c3 := buffer.getD 8 0 >>> 4
  let c1_ := buffer.getD 6 0 &&& 0xF
  let c2_ := buffer.getD 6 0 >>> 4
  let c3_ := buffer.getD 7 0 &&& 0xF
  let invertedError := decide (c1 ≠ ((255 - c1_) &&& 0xF)) || decide (c2 ≠ ((255 - c2_) &&& 0xF))
    || decide (c3 ≠ ((255 - c3_) &&& 0xF))
  (invertedError,
    [(((c1 &&& 1) <<< 2) ||| ((c2 &&& 1) <<< 1) ||| ((c3 &&& 1) <<< 0)) % 256,
     (((c1 &&& 2) <<< 1) ||| ((c2 &&& 2) <<< 0) ||| ((c3 &&& 2) >>> 1)) % 256,
     (((c1 &&& 4) <<< 0) ||| ((c2 &&& 4) >>> 1) ||| ((c3 &&& 4) >>> 2)) % 256,
     (((c1 &&& 8) >>> 1) ||| ((c2 &&& 8) >>> 2) ||| ((c3 &&& 8) >>> 3)) % 256])

/-- A field in which every exchange ends in a collision one bit further on: the
exchange number `n` of the call reports the collision position `n` (32 as 0),
so that each round makes exactly one more bit known. -/
def collidingField : RegisterPort :=
  chipAnswering (fun tr reg _ =>
    match reg with
    | PCD_Register.ComIrqReg => [0x30]
    | PCD_Register.DivIrqReg => [0x04]
    | PCD_Register.ErrorReg => [0x08]
    | PCD_Register.CollReg =>
      [tr.count (BusEvent.write PCD_Register.CommandReg [0x0C]) % 32]
    | _ => [0])

/-- A card whose answer to ANTICOLLISION begins with `88`, the value of the
cascade tag, and whose SAK `08` nevertheless has no cascade bit: the
ANTICOLLISION exchange returns `88 AD BE EF 74`, the SELECT exchange `08 B6 DD`. -/
def tagFirstCard : RegisterPort :=
  chipAnswering (fun tr reg count =>
    match reg with
    | PCD_Register.ComIrqReg => [0x30]
    | PCD_Register.DivIrqReg => [0x04]
    | PCD_Register.FIFOLevelReg =>
      [if tr.count (BusEvent.read PCD_Register.ErrorReg 1) = 1 then 5 else 3]
    | PCD_Register.FIFODataReg =>
      if count = 5 then [0x88, 0xAD, 0xBE, 0xEF, 0x74] else [0x08, 0xB6, 0xDD]
    | PCD_Register.CRCResultRegL => [0xB6]
    | PCD_Register.CRCResultRegH => [0xDD]
    | _ => [0])
/-- The register port of the scenario with one card: the first transceive of
the history (REQA) is answered with the ATQA `04 00`, the second
(ANTICOLLISION) with `DE AD BE EF 22`, the third (SELECT) with `08 B6 DD`, and
nothing answers the fourth (HLTA), which the timer interrupt ends.  The CRC
coprocessor reports `B6 DD`. -/
def scenarioCard : RegisterPort :=
  chipAnswering (fun tr reg _ =>
    match reg with
    | PCD_Register.ComIrqReg =>
      [if tr.count (BusEvent.write PCD_Register.CommandReg [0x0C]) = 4 then 0x01 else 0x30]
    | PCD_Register.DivIrqReg => [0x04]
    | PCD_Register.FIFOLevelReg =>
      [if tr.count (BusEvent.write PCD_Register.CommandReg [0x0C]) = 1 then 2
        else if tr.count (BusEvent.write PCD_Register.CommandReg [0x0C]) = 2 then 5 else 3]
    | PCD_Register.FIFODataReg =>
      if tr.count (BusEvent.write PCD_Register.CommandReg [0x0C]) = 1 then [0x04, 0x00]
      else if tr.count (BusEvent.write PCD_Register.CommandReg [0x0C]) = 2 then
        [0xDE, 0xAD, 0xBE, 0xEF, 0x22]
      else [0x08, 0xB6, 0xDD]
    | PCD_Register.CRCResultRegL => [0xB6]
    | PCD_Register.CRCResultRegH => [0xDD]
    | _ => [0])

/-! ## `PICC_Select` with every array access checked

The functions of this section are `PICC_Select` and its parts once more, line
by line, with each access to `buffer[9]` and to `uid->uidByte[]` made through
`readAt`, `writeAt` and `windowAt`; the length of the list is the size of the
array.  The result is `none` as soon as an access falls outside its array. -/

/-- The read `a[i]`; `none` when `i` is not an index of the array. -/
def readAt (a : List Nat) (i : Nat) : Option Nat :=
  if i < a.length then some (a.getD i 0) else none

/-- The write `a[i] = v`; `none` when `i` is not an index of the array. -/
def writeAt (a : List Nat) (i v : Nat) : Option (List Nat) :=
  if i < a.length then some (a.set i v) else none

/-- The pointer `&a[offset]` handed to a callee that accesses up to `n` elements
behind it; `none` when these do not all lie in the array. -/
def windowAt (a : List Nat) (offset n : Nat) : Option (List Nat) :=
  if offset + n ≤ a.length then some (a.drop offset) else none

/-- The loop of `copyBytes` with both accesses checked. -/
def copyBytes_checked (src : List Nat) (srcIndex : Nat) (dst : List Nat) (dstIndex : Nat) :
    Nat → Option (List Nat)
  | 0 => some dst
  | n + 1 =>
    match copyBytes_checked src srcIndex dst dstIndex n with
    | none => none
    | some d =>
      match readAt src (srcIndex + n) with
      | none => none
      | some v => writeAt d (dstIndex + n) v

/-- Lines 803-826 with checked accesses: `buffer[index++] = PICC_CMD_CT` and
`buffer[index++] = uid->uidByte[uidIndex + count]`. -/
def PICC_Select_known_checked (H : Header) (validBits : Nat) (uid : Uid) (uidIndex : Nat)
    (useCascadeTag : Bool) (buffer : List Nat) : Option (List Nat × Nat) :=
  let currentLevelKnownBits := Int.toNat ((validBits : Int) - 8 * (uidIndex : Int))
  let index := if useCascadeTag = true then 3 else 2
  match (if useCascadeTag = true then writeAt buffer 2 H.PICC_CMD_CT else some buffer) with
  | none => none
  | some buffer =>
    let bytesToCopy :=
      currentLevelKnownBits / 8 + (if currentLevelKnownBits % 8 ≠ 0 then 1 else 0)
    match (if bytesToCopy ≠ 0 then
        let maxBytes := if useCascadeTag = true then 3 else 4
        let bytesToCopy := if bytesToCopy > maxBytes then maxBytes else bytesToCopy
        copyBytes_checked uid.uidByte uidIndex buffer index bytesToCopy
      else some buffer) with
    | none => none
    | some buffer =>
      some (buffer,
        if useCascadeTag = true then currentLevelKnownBits + 8 else currentLevelKnownBits)

/-- Lines 864-902 with checked accesses: the `bufferUsed` bytes sent from
`buffer`, the window `responseBuffer` with room for `responseLength` bytes, and
`buffer[index] |= (1 << count)`. -/
def PICC_Select_exchange_checked (H : Header) (p : RegisterPort) (currentLevelKnownBits : Nat)
    (buffer : List Nat) (txLastBits bufferUsed responseOffset responseLength : Nat)
    (tr : Trace) : Option Round :=
  let rxAlign := txLastBits
  let tr := PCD_WriteRegister PCD_Register.BitFramingReg ((rxAlign <<< 4) + txLastBits) tr
  match windowAt buffer 0 bufferUsed, windowAt buffer responseOffset responseLength with
  | some sendData, some responseBuffer =>
    let t := PCD_TransceiveData H p sendData bufferUsed (some responseBuffer)
      (some responseLength) (some txLastBits) rxAlign false tr
    let buffer := buffer.take responseOffset ++ t.backData.getD responseBuffer
    let responseLength := t.backLen.getD responseLength
    let txLastBits := t.validBits.getD txLastBits
    if t.status = StatusCode.STATUS_COLLISION then
      let result := PCD_ReadRegister p PCD_Register.CollReg t.trace
      if result.1 &&& 0x20 ≠ 0 then some (Round.exit StatusCode.STATUS_COLLISION result.2)
      else
        let collisionPos := if result.1 &&& 0x1F = 0 then 32 else result.1 &&& 0x1F
        if collisionPos ≤ currentLevelKnownBits then
          some (Round.exit StatusCode.STATUS_INTERNAL_ERROR result.2)
        else
          let currentLevelKnownBits := collisionPos
          let count := (currentLevelKnownBits - 1) % 8
          let index := 1 + currentLevelKnownBits / 8 + (if count ≠ 0 then 1 else 0)
          match readAt buffer index with
          | none => none
          | some old =>
            match writeAt buffer index ((old ||| (1 <<< count)) % 256) with
            | none => none
            | some buffer => some (Round.again currentLevelKnownBits buffer result.2)
    else if t.status ≠ StatusCode.STATUS_OK then some (Round.exit t.status t.trace)
    else if currentLevelKnownBits ≥ 32 then
      some (Round.selected buffer responseLength txLastBits t.trace)
    else some (Round.again 32 buffer t.trace)
  | _, _ => none

/-- Lines 831-902 with checked accesses: `buffer[1]`, `buffer[6] = buffer[2] ^
buffer[3] ^ buffer[4] ^ buffer[5]`, the seven bytes and the result `&buffer[7]`
of `PCD_CalculateCRC`, and the window `&buffer[index]` of `sizeof(buffer) -
index` bytes. -/
def PICC_Select_round_checked (H : Header) (p : RegisterPort) (currentLevelKnownBits : Nat)
    (buffer : List Nat) (tr : Trace) : Option Round :=
  if currentLevelKnownBits ≥ 32 then
    match writeAt buffer 1 0x70 with
    | none => none
    | some buffer =>
      match readAt buffer 2, readAt buffer 3, readAt buffer 4, readAt buffer 5 with
      | some b2, some b3, some b4, some b5 =>
        match writeAt buffer 6 (b2 ^^^ b3 ^^^ b4 ^^^ b5) with
        | none => none
        | some buffer =>
          match windowAt buffer 0 7, windowAt buffer 7 2 with
          | some data, some result =>
            let crc := PCD_CalculateCRC H p data 7 result tr
            let buffer := buffer.take 7 ++ crc.2.1
            if crc.1 ≠ StatusCode.STATUS_OK then some (Round.exit crc.1 crc.2.2)
            else PICC_Select_exchange_checked H p currentLevelKnownBits buffer 0 9 6 3 crc.2.2
          | _, _ => none
      | _, _, _, _ => none
  else
    let txLastBits := currentLevelKnownBits % 8
    let count := currentLevelKnownBits / 8
    let index := 2 + count
    match writeAt buffer 1 (((index <<< 4) + txLastBits) % 256) with
    | none => none
    | some buffer =>
      let bufferUsed := index + (if txLastBits ≠ 0 then 1 else 0)
      PICC_Select_exchange_checked H p currentLevelKnownBits buffer txLastBits bufferUsed index
        (9 - index) tr

/-- The loop `while (!selectDone)` over `PICC_Select_round_checked`; the inner
`none` means that the bound on the passes was reached. -/
def PICC_Select_anticollision_checked (H : Header) (p : RegisterPort) :
    Nat → Nat → List Nat → Trace → Option (Option Round)
  | 0, _, _, _ => some none
  | fuel + 1, currentLevelKnownBits, buffer, tr =>
    match PICC_Select_round_checked H p currentLevelKnownBits buffer tr with
    | none => none
    | some (Round.again k b t) => PICC_Select_anticollision_checked H p fuel k b t
    | some r => some (some r)

/-- Lines 905-937 with checked accesses: `buffer[2]`, `uid->uidByte[uidIndex +
count] = buffer[index++]`, the byte `responseBuffer[0]` and the result
`&buffer[2]` of `PCD_CalculateCRC`, and `buffer[2]`, `buffer[3]`,
`responseBuffer[0..2]`, where `responseBuffer` is `&buffer[6]`. -/
def PICC_Select_sak_checked (H : Header) (p : RegisterPort) (uid : Uid) (uidIndex : Nat)
    (buffer : List Nat) (responseLength txLastBits : Nat) (tr : Trace) : Option Level :=
  match readAt buffer 2 with
  | none => none
  | some b2 =>
    let index := if b2 = H.PICC_CMD_CT then 3 else 2
    let bytesToCopy := if b2 = H.PICC_CMD_CT then 3 else 4
    match copyBytes_checked buffer index uid.uidByte uidIndex bytesToCopy with
    | none => none
    | some uidByte =>
      let uid := { uid with uidByte := uidByte }
      if responseLength ≠ 3 ∨ txLastBits ≠ 0 then
        some (Level.exit StatusCode.STATUS_ERROR uid tr)
      else
        match windowAt buffer 6 1, windowAt buffer 2 2 with
        | some responseBuffer, some result =>
          let crc := PCD_CalculateCRC H p responseBuffer 1 result tr
          let buffer := buffer.take 2 ++ crc.2.1
          if crc.1 ≠ StatusCode.STATUS_OK then some (Level.exit crc.1 uid crc.2.2)
          else
            match readAt buffer 2, readAt buffer 7, readAt buffer 3, readAt buffer 8,
              readAt buffer 6 with
            | some c0, some r1, some c1, some r2, some r0 =>
              if c0 ≠ r1 ∨ c1 ≠ r2 then
                some (Level.exit StatusCode.STATUS_CRC_WRONG uid crc.2.2)
              else if r0 &&& 0x04 ≠ 0 then some (Level.next uid buffer crc.2.2)
              else some (Level.complete { uid with sak := r0 } crc.2.2)
            | _, _, _, _, _ => none
        | _, _ => none

/-- Lines 779-937 with checked accesses, `buffer[0] = PICC_CMD_SEL_CLn`
included; the inner `none` means that the bound on the passes of
`while (!selectDone)` was reached. -/
def PICC_Select_level_checked (H : Header) (p : RegisterPort) (validBits cascadeLevel : Nat)
    (uid : Uid) (buffer : List Nat) (tr : Trace) : Option (Option Level) :=
  match PICC_Select_switch H cascadeLevel validBits uid with
  | none => some (some (Level.exit StatusCode.STATUS_INTERNAL_ERROR uid tr))
  | some (sel, uidIndex, useCascadeTag) =>
    match writeAt buffer 0 sel with
    | none => none
    | some buffer =>
      match PICC_Select_known_checked H validBits uid uidIndex useCascadeTag buffer with
      | none => none
      | some k =>
        match PICC_Select_anticollision_checked H p selectRounds k.2 k.1 tr with
        | none => none
        | some none => some none
        | some (some (Round.exit status t)) => some (some (Level.exit status uid t))
        | some (some (Round.again _ _ _)) => some none
        | some (some (Round.selected b responseLength txLastBits t)) =>
          (PICC_Select_sak_checked H p uid uidIndex b responseLength txLastBits t).map some

/-- The loop `while (!uidComplete)` over `PICC_Select_level_checked`. -/
def PICC_Select_cascade_checked (H : Header) (p : RegisterPort) (validBits : Nat) :
    Nat → Nat → Uid → List Nat → Trace → Option (Option (StatusCode × Uid × Trace))
  | 0, _, _, _, _ => some none
  | fuel + 1, cascadeLevel, uid, buffer, tr =>
    match PICC_Select_level_checked H p validBits cascadeLevel uid buffer tr with
    | none => none
    | some none => some none
    | some (some (Level.exit status u t)) => some (some (status, u, t))
    | some (some (Level.next u b t)) =>
      PICC_Select_cascade_checked H p validBits fuel (cascadeLevel + 1) u b t
    | some (some (Level.complete u t)) =>
      some (some (StatusCode.STATUS_OK, { u with size := 3 * cascadeLevel + 1 }, t))

/-- The function `PICC_Select(uid, validBits)` with every access to `buffer[9]`
and to `uid->uidByte[]` checked: `none` when an access falls outside its array,
`some r` with the result `r` of `PICC_Select` otherwise. -/
def PICC_Select_checked (H : Header) (p : RegisterPort) (junk : Nat → Nat) (uid : Uid)
    (validBits : Nat) (tr : Trace) : Option (Option (StatusCode × Uid × Trace)) :=
  if validBits > 80 then some (some (StatusCode.STATUS_INVALID, uid, tr))
  else
    let tr := PCD_ClearRegisterBitMask p PCD_Register.CollReg 0x80 tr
    PICC_Select_cascade_checked H p validBits 4 1 uid (localArray 9 junk) tr

/-! ## Bytes and bits -/

theorem and_mask_shift (u s w : Nat) :
    (u &&& ((2 ^ w - 1) <<< s)) >>> s = u / 2 ^ s % 2 ^ w := by
  apply Nat.eq_of_testBit_eq
  intro i
  rw [← Nat.shiftRight_eq_div_pow]
  simp only [Nat.testBit_shiftRight, Nat.testBit_and, Nat.testBit_shiftLeft,
    Nat.testBit_mod_two_pow, Nat.testBit_two_pow_sub_one]
  have h1 : s + i - s = i := by omega
  have h2 : s + i ≥ s := by omega
  simp [h1, h2, Bool.and_comm]

theorem or_bytes (b0 b1 b2 b3 : Nat) (h0 : b0 < 256) (h1 : b1 < 256) (h2 : b2 < 256) :
    (b3 <<< 24 ||| b2 <<< 16 ||| b1 <<< 8 ||| b0)
      = b0 + 256 * b1 + 65536 * b2 + 16777216 * b3 := by
  have e1 : b3 <<< 24 ||| b2 <<< 16 = 2 ^ 24 * b3 + b2 <<< 16 := by
    rw [Nat.mul_add_lt_is_or (by rw [Nat.shiftLeft_eq]; omega) b3, Nat.shiftLeft_eq,
      Nat.mul_comm]
  have e2 : (2 ^ 24 * b3 + b2 <<< 16) ||| b1 <<< 8
      = 2 ^ 16 * (2 ^ 8 * b3 + b2) + b1 <<< 8 := by
    rw [Nat.mul_add_lt_is_or (by rw [Nat.shiftLeft_eq]; omega) (2 ^ 8 * b3 + b2),
      Nat.shiftLeft_eq]
    congr 1
    ring
  have e3 : (2 ^ 16 * (2 ^ 8 * b3 + b2) + b1 <<< 8) ||| b0
      = 2 ^ 8 * (2 ^ 8 * (2 ^ 8 * b3 + b2) + b1) + b0 := by
    rw [Nat.mul_add_lt_is_or (by omega) (2 ^ 8 * (2 ^ 8 * b3 + b2) + b1), Nat.shiftLeft_eq]
    congr 1
    ring
  rw [e1, e2, e3]
  ring

/-- On a byte, `255 - x` is the bitwise complement. -/
theorem byte_complement (x : Nat) (h : x < 256) : 255 - x = x ^^^ 0xFF := by
  interval_cases x <;> rfl

/-- The expression `(v & ~mask) | (v & mask)` of `PCD_ReadRegisterData` is `v`. -/
theorem and_not_or_and (v mask : Nat) (hv : v < 256) (hm : mask < 256) :
    (v &&& (255 - mask)) ||| (v &&& mask) = v := by
  have h1 : (255 - mask) ||| mask = 2 ^ 8 - 1 := by
    interval_cases mask <;> rfl
  rw [← Nat.and_or_distrib_left, h1, Nat.and_pow_two_sub_one_eq_mod]
  exact Nat.mod_eq_of_lt hv

/-- The four masked and shifted bytes of `MIFARE_SetValue` are the base-256
digits of the bit pattern. -/
theorem masked_bytes (u : Nat) :
    (u &&& 0xFF) % 256 = u % 256
    ∧ ((u &&& 0xFF00) >>> 8) % 256 = u / 256 % 256
    ∧ ((u &&& 0xFF0000) >>> 16) % 256 = u / 65536 % 256
    ∧ ((u &&& 0xFF000000) >>> 24) % 256 = u / 16777216 % 256 := by
  have a0 := and_mask_shift u 0 8
  have a1 := and_mask_shift u 8 8
  have a2 := and_mask_shift u 16 8
  have a3 := and_mask_shift u 24 8
  have c1 : (2 ^ 8 - 1) <<< 8 = 0xFF00 := by decide
  have c2 : (2 ^ 8 - 1) <<< 16 = 0xFF0000 := by decide
  have c3 : (2 ^ 8 - 1) <<< 24 = 0xFF000000 := by decide
  rw [c1] at a1
  rw [c2] at a2
  rw [c3] at a3
  norm_num at a0 a1 a2 a3
  refine ⟨?_, ?_, ?_, ?_⟩
  · rw [a0]; omega
  · rw [a1]; omega
  · rw [a2]; omega
  · rw [a3]; omega

/-- The value block of `MIFARE_SetValue` written out. -/
theorem MIFARE_SetValue_block_eq (blockAddr : Nat) (value : Int) :
    MIFARE_SetValue_block blockAddr value =
      [(value % 4294967296).toNat % 256,
       (value % 4294967296).toNat / 256 % 256,
       (value % 4294967296).toNat / 65536 % 256,
       (value % 4294967296).toNat / 16777216 % 256,
       255 - (value % 4294967296).toNat % 256,
       255 - (value % 4294967296).toNat / 256 % 256,
       255 - (value % 4294967296).toNat / 65536 % 256,
       255 - (value % 4294967296).toNat / 16777216 % 256,
       (value % 4294967296).toNat % 256,
       (value % 4294967296).toNat / 256 % 256,
       (value % 4294967296).toNat / 65536 % 256,
       (value % 4294967296).toNat / 16777216 % 256,
       blockAddr % 256, 255 - blockAddr % 256, blockAddr % 256, 255 - blockAddr % 256,
       0, 0] := by
  obtain ⟨m0, m1, m2, m3⟩ := masked_bytes (value % 4294967296).toNat
  unfold MIFARE_SetValue_block
  simp only [m0, m1, m2, m3]
  rfl

/-! ## What `PCD_ReadRegisterData` stores -/

theorem rxAlignMask_lt (rxAlign : Nat) : rxAlignMask rxAlign < 256 :=
  Nat.mod_lt _ (by norm_num)

/-- With a port that succeeds, `values[0]` ends as the first byte received,
whatever it held before and whatever `rxAlign` is. -/
theorem PCD_ReadRegisterData_head (p : RegisterPort) (reg : PCD_Register) (count : Nat)
    (v : Nat) (values : List Nat) (rxAlign : Nat) (tr : Trace) (bytes : List Nat)
    (hc : count ≠ 0) (ha : p.answer tr reg count = ReadAnswer.ok bytes) :
    (PCD_ReadRegisterData p reg count (v :: values) rxAlign tr).1.getD 0 0
      = bytes.getD 0 0 % 256 := by
  obtain ⟨c, rfl⟩ : ∃ c, count = c + 1 := ⟨count - 1, by omega⟩
  unfold PCD_ReadRegisterData
  simp only [if_neg hc, ha, List.range_succ_eq_map, List.map_cons, List.set_cons_zero, blit]
  split_ifs with h
  · simp only [List.getD_cons_zero]
    exact and_not_or_and _ _ (Nat.mod_lt _ (by norm_num)) (rxAlignMask_lt _)
  · simp only [List.getD_cons_zero]

/-! ## Every function only adds to the trace -/

theorem PCD_ReadRegister_trace (p : RegisterPort) (reg : PCD_Register) (tr : Trace) :
    (PCD_ReadRegister p reg tr).2 = BusEvent.read reg 1 :: tr := rfl

theorem PCD_SetRegisterBitMask_suffix (p : RegisterPort) (reg : PCD_Register) (mask : Nat)
    (tr : Trace) : List.IsSuffix tr (PCD_SetRegisterBitMask p reg mask tr) :=
  List.IsSuffix.trans (List.suffix_cons (BusEvent.read reg 1) tr) (List.suffix_cons _ _)

theorem PCD_ClearRegisterBitMask_suffix (p : RegisterPort) (reg : PCD_Register) (mask : Nat)
    (tr : Trace) : List.IsSuffix tr (PCD_ClearRegisterBitMask p reg mask tr) :=
  List.IsSuffix.trans (List.suffix_cons (BusEvent.read reg 1) tr) (List.suffix_cons _ _)

theorem PCD_ReadRegisterData_suffix (p : RegisterPort) (reg : PCD_Register) (count : Nat)
    (values : List Nat) (rxAlign : Nat) (tr : Trace) :
    List.IsSuffix tr (PCD_ReadRegisterData p reg count values rxAlign tr).2 := by
  unfold PCD_ReadRegisterData
  by_cases h : count = 0
  · simp only [if_pos h]
    exact List.suffix_refl _
  · simp only [if_neg h]
    cases p.answer tr reg count <;> exact List.suffix_cons _ _

theorem PCD_WriteRegisterData_suffix (reg : PCD_Register) (count : Nat) (values : List Nat)
    (tr : Trace) : List.IsSuffix tr (PCD_WriteRegisterData reg count values tr) := by
  unfold PCD_WriteRegisterData
  split_ifs
  · exact List.suffix_refl _
  · exact List.suffix_cons _ _

theorem PCD_CalculateCRC_wait_suffix (p : RegisterPort) :
    ∀ (i : Nat) (tr : Trace), List.IsSuffix tr (PCD_CalculateCRC_wait p i tr).2 := by
  intro i
  induction i with
  | zero => intro tr; exact List.suffix_refl _
  | succ i ih =>
    intro tr
    unfold PCD_CalculateCRC_wait
    simp only [PCD_ReadRegister_trace]
    split_ifs
    · exact List.suffix_cons _ _
    · exact List.suffix_cons _ _
    · exact List.IsSuffix.trans (List.suffix_cons _ _) (ih _)

theorem PCD_CalculateCRC_suffix (H : Header) (p : RegisterPort) (data : List Nat)
    (length : Nat) (result : List Nat) (tr : Trace) :
    List.IsSuffix tr (PCD_CalculateCRC H p data length result tr).2.2 := by
  unfold PCD_CalculateCRC
  have h1 : List.IsSuffix tr
      (PCD_WriteRegister PCD_Register.CommandReg H.PCD_CalcCRC
        (PCD_WriteRegisterData PCD_Register.FIFODataReg length data
          (PCD_SetRegisterBitMask p PCD_Register.FIFOLevelReg 0x80
            (PCD_WriteRegister PCD_Register.DivIrqReg 0x04
              (PCD_WriteRegister PCD_Register.CommandReg H.PCD_Idle tr))))) := by
    refine List.IsSuffix.trans ?_ (List.suffix_cons _ _)
    refine List.IsSuffix.trans ?_ (PCD_WriteRegisterData_suffix _ _ _ _)
    refine List.IsSuffix.trans ?_ (PCD_SetRegisterBitMask_suffix _ _ _ _)
    exact List.IsSuffix.trans (List.suffix_cons _ _) (List.suffix_cons _ _)
  have h2 := List.IsSuffix.trans h1 (PCD_CalculateCRC_wait_suffix p 5000 _)
  simp only []
  split_ifs
  · exact h2
  · exact List.IsSuffix.trans h2
      (List.IsSuffix.trans (List.suffix_cons _ _)
        (List.IsSuffix.trans (List.suffix_cons _ _) (List.suffix_cons _ _)))

theorem PCD_CommunicateWithPICC_crc_suffix (H : Header) (p : RegisterPort)
    (backData : List Nat) (backLen validBits : Nat) (tr : Trace) :
    List.IsSuffix tr (PCD_CommunicateWithPICC_crc H p backData backLen validBits tr).2 := by
  unfold PCD_CommunicateWithPICC_crc
  simp only []
  split_ifs
  · exact List.suffix_refl _
  · exact List.suffix_refl _
  · exact PCD_CalculateCRC_suffix _ _ _ _ _ _
  · exact PCD_CalculateCRC_suffix _ _ _ _ _ _
  · exact PCD_CalculateCRC_suffix _ _ _ _ _ _

/-- Whatever `PCD_CommunicateWithPICC` does after the polling loop starts with
the read of ErrorReg. -/
theorem PCD_CommunicateWithPICC_finish_suffix (H : Header) (p : RegisterPort)
    (backData : Option (List Nat)) (backLen validBits : Option Nat) (rxAlign : Nat)
    (checkCRC : Bool) (tr : Trace) :
    List.IsSuffix (BusEvent.read PCD_Register.ErrorReg 1 :: tr)
      (PCD_CommunicateWithPICC_finish H p backData backLen validBits rxAlign checkCRC tr).trace := by
  unfold PCD_CommunicateWithPICC_finish
  simp only [PCD_ReadRegister_trace]
  have hd : ∀ n data, List.IsSuffix (BusEvent.read PCD_Register.ErrorReg 1 :: tr)
      (BusEvent.read PCD_Register.ControlReg 1 ::
        (PCD_ReadRegisterData p PCD_Register.FIFODataReg n data rxAlign
          (BusEvent.read PCD_Register.FIFOLevelReg 1 ::
            BusEvent.read PCD_Register.ErrorReg 1 :: tr)).2) := fun n data =>
    List.IsSuffix.trans (List.suffix_cons _ _)
      (List.IsSuffix.trans (PCD_ReadRegisterData_suffix _ _ _ _ _ _) (List.suffix_cons _ _))
  by_cases he : (PCD_ReadRegister p PCD_Register.ErrorReg tr).1 &&& 0x13 ≠ 0
  · simp only [if_pos he]
    exact List.suffix_refl _
  · simp only [if_neg he]
    cases backData <;> cases backLen <;> simp only [] <;> split_ifs <;>
      first
        | exact List.suffix_refl _
        | exact List.suffix_cons _ _
        | exact hd _ _
        | exact List.IsSuffix.trans (hd _ _) (PCD_CommunicateWithPICC_crc_suffix _ _ _ _ _ _)

/-! ## The polling loop of `PCD_CommunicateWithPICC` -/

theorem replicate_append_cons (k : Nat) (e : BusEvent) (tr : Trace) :
    List.replicate k e ++ e :: tr = List.replicate (k + 1) e ++ tr := by
  induction k with
  | zero => rfl
  | succ k ih =>
    rw [List.replicate_succ, List.cons_append, ih]
    rfl

theorem comIrqAt_zero (p : RegisterPort) (tr : Trace) :
    comIrqAt p tr 0 = (PCD_ReadRegister p PCD_Register.ComIrqReg tr).1 := rfl

theorem comIrqAt_succ (p : RegisterPort) (tr : Trace) (k : Nat) :
    comIrqAt p (comIrqRead :: tr) k = comIrqAt p tr (k + 1) := by
  unfold comIrqAt
  rw [replicate_append_cons]

/-- One unfolding of the polling loop. -/
theorem PCD_CommunicateWithPICC_wait_succ (p : RegisterPort) (waitIRq i : Nat) (tr : Trace) :
    PCD_CommunicateWithPICC_wait p waitIRq (i + 1) tr =
      if comIrqAt p tr 0 &&& waitIRq ≠ 0 then (true, comIrqRead :: tr)
      else if comIrqAt p tr 0 &&& 0x01 ≠ 0 then (false, comIrqRead :: tr)
      else if i = 0 then (false, comIrqRead :: tr)
      else PCD_CommunicateWithPICC_wait p waitIRq i (comIrqRead :: tr) := rfl

/-- The polling loop issues between one and `i` reads of ComIrqReg and nothing
else. -/
theorem PCD_CommunicateWithPICC_wait_trace (p : RegisterPort) (waitIRq : Nat) :
    ∀ (i : Nat) (tr : Trace), 0 < i →
      ∃ m, 1 ≤ m ∧ m ≤ i ∧
        (PCD_CommunicateWithPICC_wait p waitIRq i tr).2 = List.replicate m comIrqRead ++ tr := by
  intro i
  induction i with
  | zero => intro tr h; omega
  | succ i ih =>
    intro tr _
    rw [PCD_CommunicateWithPICC_wait_succ]
    split_ifs with h1 h2 h3
    · exact ⟨1, le_refl _, by omega, rfl⟩
    · exact ⟨1, le_refl _, by omega, rfl⟩
    · exact ⟨1, le_refl _, by omega, rfl⟩
    · obtain ⟨m, hm1, hm2, hm3⟩ := ih (comIrqRead :: tr) (by omega)
      exact ⟨m + 1, by omega, by omega, by rw [hm3, replicate_append_cons]⟩

/-- The polling loop is left by `break` exactly when some poll within the bound
finds a bit of `waitIRq` and no earlier poll found the timer bit. -/
theorem PCD_CommunicateWithPICC_wait_true (p : RegisterPort) (waitIRq : Nat) :
    ∀ (i : Nat) (tr : Trace),
      (PCD_CommunicateWithPICC_wait p waitIRq i tr).1 = true ↔
        ∃ k, k < i ∧ comIrqAt p tr k &&& waitIRq ≠ 0 ∧
          ∀ j, j < k → comIrqAt p tr j &&& 0x01 = 0 := by
  intro i
  induction i with
  | zero =>
    intro tr
    constructor
    · intro h
      exact absurd h (by simp [PCD_CommunicateWithPICC_wait])
    · rintro ⟨k, hk, _⟩
      omega
  | succ i ih =>
    intro tr
    rw [PCD_CommunicateWithPICC_wait_succ]
    split_ifs with h1 h2 h3
    · constructor
      · intro _
        exact ⟨0, by omega, h1, fun j hj => by omega⟩
      · intro _
        rfl
    · constructor
      · intro h
        exact absurd h (by simp)
      · rintro ⟨k, _, hk2, hk3⟩
        rcases Nat.eq_zero_or_pos k with hk | hk
        · subst hk
          exact absurd hk2 h1
        · exact absurd (hk3 0 hk) h2
    · constructor
      · intro h
        exact absurd h (by simp)
      · rintro ⟨k, hk1, hk2, _⟩
        have hk : k = 0 := by omega
        subst hk
        exact absurd hk2 h1
    · rw [ih (comIrqRead :: tr)]
      constructor
      · rintro ⟨k, hk1, hk2, hk3⟩
        refine ⟨k + 1, by omega, ?_, ?_⟩
        · rw [← comIrqAt_succ]
          exact hk2
        · intro j hj
          rcases Nat.eq_zero_or_pos j with hj0 | hj0
          · subst hj0
            exact not_not.mp h2
          · obtain ⟨j', rfl⟩ : ∃ j', j = j' + 1 := ⟨j - 1, by omega⟩
            rw [← comIrqAt_succ]
            exact hk3 j' (by omega)
      · rintro ⟨k, hk1, hk2, hk3⟩
        rcases Nat.eq_zero_or_pos k with hk | hk
        · subst hk
          exact absurd hk2 h1
        · obtain ⟨k', rfl⟩ : ∃ k', k = k' + 1 := ⟨k - 1, by omega⟩
          refine ⟨k', by omega, ?_, ?_⟩
          · rw [comIrqAt_succ]
            exact hk2
          · intro j hj
            rw [comIrqAt_succ]
            exact hk3 (j + 1) (by omega)

/-! ## The statuses `PICC_Select` can leave its loops with -/

theorem PICC_Select_exchange_exit (H : Header) (p : RegisterPort) (k : Nat)
    (buffer : List Nat) (txLastBits bufferUsed responseOffset responseLength : Nat)
    (tr : Trace) (s : StatusCode) (t : Trace)
    (h : PICC_Select_exchange H p k buffer txLastBits bufferUsed responseOffset
      responseLength tr = Round.exit s t) : s ≠ StatusCode.STATUS_OK := by
  unfold PICC_Select_exchange at h
  simp only [] at h
  split_ifs at h <;>
    (simp only [Round.exit.injEq] at h
     obtain ⟨rfl, _⟩ := h
     first | decide | assumption)

theorem PICC_Select_round_exit (H : Header) (p : RegisterPort) (k : Nat)
    (buffer : List Nat) (tr : Trace) (s : StatusCode) (t : Trace)
    (h : PICC_Select_round H p k buffer tr = Round.exit s t) : s ≠ StatusCode.STATUS_OK := by
  unfold PICC_Select_round at h
  simp only [] at h
  split_ifs at h <;>
    first
      | exact PICC_Select_exchange_exit _ _ _ _ _ _ _ _ _ _ _ h
      | (simp only [Round.exit.injEq] at h
         obtain ⟨rfl, _⟩ := h
         assumption)

theorem PICC_Select_anticollision_exit (H : Header) (p : RegisterPort) :
    ∀ (fuel k : Nat) (buffer : List Nat) (tr : Trace) (s : StatusCode) (t : Trace),
      PICC_Select_anticollision H p fuel k buffer tr = some (Round.exit s t) →
        s ≠ StatusCode.STATUS_OK := by
  intro fuel
  induction fuel with
  | zero =>
    intro k buffer tr s t h
    simp [PICC_Select_anticollision] at h
  | succ fuel ih =>
    intro k buffer tr s t h
    unfold PICC_Select_anticollision at h
    cases hr : PICC_Select_round H p k buffer tr with
    | exit s' t' =>
      rw [hr] at h
      simp only [Option.some.injEq, Round.exit.injEq] at h
      rw [← h.1]
      exact PICC_Select_round_exit _ _ _ _ _ _ _ hr
    | again k' b' t' =>
      rw [hr] at h
      exact ih _ _ _ _ _ h
    | selected b' l' x' t' =>
      rw [hr] at h
      simp at h

theorem PICC_Select_sak_exit (H : Header) (p : RegisterPort) (uid : Uid) (uidIndex : Nat)
    (buffer : List Nat) (responseLength txLastBits : Nat) (tr : Trace) (s : StatusCode)
    (u : Uid) (t : Trace)
    (h : PICC_Select_sak H p uid uidIndex buffer responseLength txLastBits tr
      = Level.exit s u t) : s ≠ StatusCode.STATUS_OK := by
  unfold PICC_Select_sak at h
  simp only [] at h
  split_ifs at h <;>
    (simp only [Level.exit.injEq] at h
     obtain ⟨rfl, _⟩ := h
     first | decide | assumption)

/-- A level is completed only with a SAK whose cascade bit is clear, and that
SAK is the one stored. -/
theorem PICC_Select_sak_complete (H : Header) (p : RegisterPort) (uid : Uid)
    (uidIndex : Nat) (buffer : List Nat) (responseLength txLastBits : Nat) (tr : Trace)
    (u : Uid) (t : Trace)
    (h : PICC_Select_sak H p uid uidIndex buffer responseLength txLastBits tr
      = Level.complete u t) : u.sak &&& 0x04 = 0 := by
  unfold PICC_Select_sak at h
  simp only [] at h
  split_ifs at h with h1 h2 h3 h4 h5 <;>
    (injection h with hu _
     subst hu
     exact not_not.mp h4)

theorem PICC_Select_switch_some (H : Header) (cascadeLevel validBits : Nat) (uid : Uid)
    (x : Nat × Nat × Bool) (h : PICC_Select_switch H cascadeLevel validBits uid = some x) :
    cascadeLevel = 1 ∨ cascadeLevel = 2 ∨ cascadeLevel = 3 := by
  unfold PICC_Select_switch at h
  split at h
  · exact Or.inl rfl
  · exact Or.inr (Or.inl rfl)
  · exact Or.inr (Or.inr rfl)
  · simp at h

theorem PICC_Select_level_exit (H : Header) (p : RegisterPort) (validBits cascadeLevel : Nat)
    (uid : Uid) (buffer : List Nat) (tr : Trace) (s : StatusCode) (u : Uid) (t : Trace)
    (h : PICC_Select_level H p validBits cascadeLevel uid buffer tr = some (Level.exit s u t)) :
    s ≠ StatusCode.STATUS_OK := by
  unfold PICC_Select_level at h
  cases hs : PICC_Select_switch H cascadeLevel validBits uid with
  | none =>
    rw [hs] at h
    simp only [Option.some.injEq, Level.exit.injEq] at h
    rw [← h.1]
    decide
  | some x =>
    obtain ⟨sel, uidIndex, useCascadeTag⟩ := x
    rw [hs] at h
    simp only [] at h
    cases ha : PICC_Select_anticollision H p selectRounds
        (PICC_Select_known H validBits uid uidIndex useCascadeTag (buffer.set 0 sel)).2
        (PICC_Select_known H validBits uid uidIndex useCascadeTag (buffer.set 0 sel)).1 tr with
    | none =>
      rw [ha] at h
      simp at h
    | some r =>
      rw [ha] at h
      cases r with
      | exit s' t' =>
        simp only [Option.some.injEq, Level.exit.injEq] at h
        rw [← h.1]
        exact PICC_Select_anticollision_exit _ _ _ _ _ _ _ _ ha
      | again k' b' t' => simp at h
      | selected b' l' x' t' =>
        simp only [Option.some.injEq] at h
        exact PICC_Select_sak_exit _ _ _ _ _ _ _ _ _ _ _ h

theorem PICC_Select_level_complete (H : Header) (p : RegisterPort)
    (validBits cascadeLevel : Nat) (uid : Uid) (buffer : List Nat) (tr : Trace) (u : Uid)
    (t : Trace)
    (h : PICC_Select_level H p validBits cascadeLevel uid buffer tr
      = some (Level.complete u t)) :
    (cascadeLevel = 1 ∨ cascadeLevel = 2 ∨ cascadeLevel = 3) ∧ u.sak &&& 0x04 = 0 := by
  unfold PICC_Select_level at h
  cases hs : PICC_Select_switch H cascadeLevel validBits uid with
  | none =>
    rw [hs] at h
    simp at h
  | some x =>
    refine ⟨PICC_Select_switch_some _ _ _ _ _ hs, ?_⟩
    obtain ⟨sel, uidIndex, useCascadeTag⟩ := x
    rw [hs] at h
    simp only [] at h
    cases ha : PICC_Select_anticollision H p selectRounds
        (PICC_Select_known H validBits uid uidIndex useCascadeTag (buffer.set 0 sel)).2
        (PICC_Select_known H validBits uid uidIndex useCascadeTag (buffer.set 0 sel)).1 tr with
    | none =>
      rw [ha] at h
      simp at h
    | some r =>
      rw [ha] at h
      cases r with
      | exit s' t' => simp at h
      | again k' b' t' => simp at h
      | selected b' l' x' t' =>
        simp only [Option.some.injEq] at h
        exact PICC_Select_sak_complete _ _ _ _ _ _ _ _ _ _ h

/-- A successful run of the cascade loop ends in a level that was completed. -/
theorem PICC_Select_cascade_ok (H : Header) (p : RegisterPort) (validBits : Nat) :
    ∀ (fuel cascadeLevel : Nat) (uid : Uid) (buffer : List Nat) (tr : Trace) (u : Uid)
      (t : Trace),
      PICC_Select_cascade H p validBits fuel cascadeLevel uid buffer tr
          = some (StatusCode.STATUS_OK, u, t) →
        ∃ L uidL bufferL trL uL,
          PICC_Select_level H p validBits L uidL bufferL trL = some (Level.complete uL t)
            ∧ u = { uL with size := 3 * L + 1 } := by
  intro fuel
  induction fuel with
  | zero =>
    intro cascadeLevel uid buffer tr u t h
    simp [PICC_Select_cascade] at h
  | succ fuel ih =>
    intro cascadeLevel uid buffer tr u t h
    unfold PICC_Select_cascade at h
    cases hl : PICC_Select_level H p validBits cascadeLevel uid buffer tr with
    | none =>
      rw [hl] at h
      simp at h
    | some r =>
      rw [hl] at h
      cases r with
      | exit s' u' t' =>
        simp only [Option.some.injEq, Prod.mk.injEq] at h
        exact absurd h.1 (PICC_Select_level_exit _ _ _ _ _ _ _ _ _ _ hl)
      | next u' b' t' => exact ih _ _ _ _ _ _ h
      | complete u' t' =>
        simp only [Option.some.injEq, Prod.mk.injEq] at h
        refine ⟨cascadeLevel, uid, buffer, tr, u', ?_, h.2.1.symm⟩
        rw [hl, h.2.2]

/-! ## The loops of `PICC_Select` end -/

/-- A round that asks for another round has raised the number of known bits,
to at most 32. -/
theorem PICC_Select_exchange_again (H : Header) (p : RegisterPort) (k : Nat)
    (buffer : List Nat) (txLastBits bufferUsed responseOffset responseLength : Nat)
    (tr : Trace) (k' : Nat) (b' : List Nat) (t' : Trace)
    (h : PICC_Select_exchange H p k buffer txLastBits bufferUsed responseOffset
      responseLength tr = Round.again k' b' t') : k < k' ∧ k' ≤ 32 := by
  unfold PICC_Select_exchange at h
  simp only [] at h
  split_ifs at h with h1 h2 h3 h4 h5 h6 h7 <;>
    (simp only [Round.again.injEq] at h
     obtain ⟨rfl, _⟩ := h
     first
       | omega
       | exact ⟨by omega, le_trans (Nat.and_le_right) (by norm_num)⟩)

theorem PICC_Select_round_again (H : Header) (p : RegisterPort) (k : Nat)
    (buffer : List Nat) (tr : Trace) (k' : Nat) (b' : List Nat) (t' : Trace)
    (h : PICC_Select_round H p k buffer tr = Round.again k' b' t') : k < k' ∧ k' ≤ 32 := by
  unfold PICC_Select_round at h
  simp only [] at h
  split_ifs at h <;> exact PICC_Select_exchange_again _ _ _ _ _ _ _ _ _ _ _ _ h

/-- With `fuel` passes allowed and `k` bits known, `while (!selectDone)` ends
within the bound as soon as `33 ≤ fuel + min k 32`, and it ends by a `return`
or with `selectDone = true`. -/
theorem PICC_Select_anticollision_ends (H : Header) (p : RegisterPort) :
    ∀ (fuel k : Nat) (buffer : List Nat) (tr : Trace), 33 ≤ fuel + min k 32 →
      (∃ s t, PICC_Select_anticollision H p fuel k buffer tr = some (Round.exit s t))
        ∨ (∃ b l x t,
            PICC_Select_anticollision H p fuel k buffer tr = some (Round.selected b l x t)) := by
  intro fuel
  induction fuel with
  | zero =>
    intro k buffer tr h
    have : min k 32 ≤ 32 := Nat.min_le_right _ _
    omega
  | succ fuel ih =>
    intro k buffer tr h
    unfold PICC_Select_anticollision
    cases hr : PICC_Select_round H p k buffer tr with
    | exit s t => exact Or.inl ⟨s, t, rfl⟩
    | selected b l x t => exact Or.inr ⟨b, l, x, t, rfl⟩
    | again k' b' t' =>
      obtain ⟨h1, h2⟩ := PICC_Select_round_again _ _ _ _ _ _ _ _ hr
      simp only []
      apply ih
      rw [Nat.min_eq_left h2]
      have : min k 32 ≤ k := Nat.min_le_left _ _
      omega

/-- One pass through the cascade loop always ends. -/
theorem PICC_Select_level_ends (H : Header) (p : RegisterPort) (validBits cascadeLevel : Nat)
    (uid : Uid) (buffer : List Nat) (tr : Trace) :
    ∃ r, PICC_Select_level H p validBits cascadeLevel uid buffer tr = some r := by
  unfold PICC_Select_level
  cases hs : PICC_Select_switch H cascadeLevel validBits uid with
  | none => exact ⟨_, rfl⟩
  | some x =>
    obtain ⟨sel, uidIndex, useCascadeTag⟩ := x
    simp only []
    rcases PICC_Select_anticollision_ends H p selectRounds
        (PICC_Select_known H validBits uid uidIndex useCascadeTag (buffer.set 0 sel)).2
        (PICC_Select_known H validBits uid uidIndex useCascadeTag (buffer.set 0 sel)).1 tr
        (by unfold selectRounds; omega) with ⟨s, t, h⟩ | ⟨b, l, x, t, h⟩
    · rw [h]
      exact ⟨_, rfl⟩
    · rw [h]
      exact ⟨_, rfl⟩

/-- A pass that asks for the next cascade level was a pass of level 1, 2 or 3. -/
theorem PICC_Select_level_next (H : Header) (p : RegisterPort) (validBits cascadeLevel : Nat)
    (uid : Uid) (buffer : List Nat) (tr : Trace) (u : Uid) (b : List Nat) (t : Trace)
    (h : PICC_Select_level H p validBits cascadeLevel uid buffer tr = some (Level.next u b t)) :
    cascadeLevel = 1 ∨ cascadeLevel = 2 ∨ cascadeLevel = 3 := by
  unfold PICC_Select_level at h
  cases hs : PICC_Select_switch H cascadeLevel validBits uid with
  | none =>
    rw [hs] at h
    simp at h
  | some x => exact PICC_Select_switch_some _ _ _ _ _ hs

/-- The cascade loop ends within `fuel` passes when `fuel` is not 0 and
`5 ≤ fuel + cascadeLevel`: level 4 is left through the `default` branch. -/
theorem PICC_Select_cascade_ends (H : Header) (p : RegisterPort) (validBits : Nat) :
    ∀ (fuel cascadeLevel : Nat) (uid : Uid) (buffer : List Nat) (tr : Trace),
      1 ≤ fuel → 5 ≤ fuel + cascadeLevel →
        ∃ r, PICC_Select_cascade H p validBits fuel cascadeLevel uid buffer tr = some r := by
  intro fuel
  induction fuel with
  | zero =>
    intro cascadeLevel uid buffer tr h1 h5
    omega
  | succ fuel ih =>
    intro cascadeLevel uid buffer tr h1 h5
    unfold PICC_Select_cascade
    obtain ⟨r, hr⟩ := PICC_Select_level_ends H p validBits cascadeLevel uid buffer tr
    rw [hr]
    cases r with
    | exit s u t => exact ⟨_, rfl⟩
    | complete u t => exact ⟨_, rfl⟩
    | next u b t =>
      have := PICC_Select_level_next _ _ _ _ _ _ _ _ _ _ hr
      exact ih _ _ _ _ (by omega) (by omega)

/-- The function `PICC_Select` returns: the bounds on its two loops are never
reached. -/
theorem PICC_Select_returns (H : Header) (p : RegisterPort) (junk : Nat → Nat) (uid : Uid)
    (validBits : Nat) (tr : Trace) :
    ∃ r, PICC_Select H p junk uid validBits tr = some r := by
  unfold PICC_Select
  split_ifs
  · exact ⟨_, rfl⟩
  · exact PICC_Select_cascade_ends _ _ _ _ _ _ _ _ (by norm_num) (by norm_num)

/-! ## Claims -/

/-- C2 (the code departs from its own parameter comment "Only bit positions
rxAlign..7 in values[0] are updated"): with rxAlign = 4, one byte `0xA0` in the
FIFO and `values[0] = 0x0B` holding four known bits, `PCD_ReadRegisterData`
leaves `values[0] = 0xA0`; bits 0..3 of `values[0]` are not kept. -/
theorem PCD_ReadRegisterData_drops_known_bits :
    (PCD_ReadRegisterData alignedNibbleChip PCD_Register.FIFODataReg 1 [0x0B] 4 []).1
      = [0xA0] := by
  decide

/-- C5: for every block address and every signed 32-bit value `v`, the value
extraction of `MIFARE_GetValue` applied to the block that `MIFARE_SetValue`
builds returns `v`. -/
theorem MIFARE_value_roundtrip (a : Nat) (v : Int) (hlo : -2147483648 ≤ v)
    (hhi : v < 2147483648) :
    MIFARE_GetValue_extract (MIFARE_SetValue_block a v) = v := by
  rw [MIFARE_SetValue_block_eq]
  unfold MIFARE_GetValue_extract
  simp only [List.getD_cons_zero, List.getD_cons_succ]
  rw [or_bytes _ _ _ _ (Nat.mod_lt _ (by norm_num)) (Nat.mod_lt _ (by norm_num))
    (Nat.mod_lt _ (by norm_num))]
  split_ifs <;> omega

/-- C5, the witness of the spec: block address 0x05 and value 123456. -/
theorem MIFARE_value_roundtrip_witness :
    MIFARE_SetValue_block 0x05 123456
        = [0x40, 0xE2, 0x01, 0x00, 0xBF, 0x1D, 0xFE, 0xFF, 0x40, 0xE2, 0x01, 0x00,
           0x05, 0xFA, 0x05, 0xFA, 0, 0]
      ∧ MIFARE_GetValue_extract (MIFARE_SetValue_block 0x05 123456) = 123456 :=
  ⟨by decide, MIFARE_value_roundtrip 0x05 123456 (by decide) (by decide)⟩

/-- C6: the block that `MIFARE_SetValue(a, v)` hands to `MIFARE_Write` (for block
`a`, with length 16) holds the bit pattern of `v` least significant byte first
in bytes 0..3, the bitwise complements of these in bytes 4..7, the same four
bytes in bytes 8..11, `a` in bytes 12 and 14 and its complement in bytes 13 and
15. -/
theorem MIFARE_SetValue_layout (H : Header) (p : RegisterPort) (tr : Trace) (a : Nat)
    (v : Int) (ha : a < 256) :
    MIFARE_SetValue H p a v tr
        = MIFARE_Write H p a (some (MIFARE_SetValue_block a v)) 16 tr
      ∧ (∀ k, k < 4 → (MIFARE_SetValue_block a v).getD k 0
            = (v % 4294967296).toNat / 256 ^ k % 256)
      ∧ (∀ k, k < 4 → (MIFARE_SetValue_block a v).getD (4 + k) 0
            = (MIFARE_SetValue_block a v).getD k 0 ^^^ 0xFF)
      ∧ (∀ k, k < 4 → (MIFARE_SetValue_block a v).getD (8 + k) 0
            = (MIFARE_SetValue_block a v).getD k 0)
      ∧ (MIFARE_SetValue_block a v).getD 12 0 = a
      ∧ (MIFARE_SetValue_block a v).getD 14 0 = a
      ∧ (MIFARE_SetValue_block a v).getD 13 0 = a ^^^ 0xFF
      ∧ (MIFARE_SetValue_block a v).getD 15 0 = a ^^^ 0xFF := by
  have hmod : a % 256 = a := Nat.mod_eq_of_lt ha
  have hc := byte_complement a ha
  refine ⟨rfl, ?_⟩
  rw [MIFARE_SetValue_block_eq, hmod]
  refine ⟨?_, ?_, ?_, rfl, rfl, hc, hc⟩
  · intro k hk
    interval_cases k <;> simp [List.getD_cons_zero, List.getD_cons_succ]
  · intro k hk
    interval_cases k <;>
      simp only [List.getD_cons_zero, List.getD_cons_succ] <;>
      exact byte_complement _ (Nat.mod_lt _ (by norm_num))
  · intro k hk
    interval_cases k <;> rfl

/-- C6 at block 0x05 and value 123456. -/
theorem MIFARE_SetValue_layout_witness :
    (0x05 : Nat) < 256
      ∧ (MIFARE_SetValue_block 0x05 123456).getD 12 0 = 0x05
      ∧ (MIFARE_SetValue_block 0x05 123456).getD 13 0 = 0x05 ^^^ 0xFF :=
  ⟨by decide,
   (MIFARE_SetValue_layout datasheet silentField [] 0x05 123456 (by decide)).2.2.2.2.1,
   (MIFARE_SetValue_layout datasheet silentField [] 0x05 123456 (by decide)).2.2.2.2.2.2.1⟩

/-- C7: `PICC_HaltA` sends the 4-byte frame HLTA, 0, CRC_A; it returns the status
of a failed CRC calculation unchanged, STATUS_OK when the transceive returns
STATUS_TIMEOUT, STATUS_ERROR when it returns STATUS_OK and every other status
of the transceive unchanged. -/
theorem PICC_HaltA_result (H : Header) (p : RegisterPort) (tr : Trace) :
    let crc := PCD_CalculateCRC H p [H.PICC_CMD_HLTA, 0, 0, 0] 2 [0, 0] tr
    let t := PCD_TransceiveData H p ([H.PICC_CMD_HLTA, 0] ++ crc.2.1) 4 none none none 0
      false crc.2.2
    (crc.1 ≠ StatusCode.STATUS_OK → PICC_HaltA H p tr = (crc.1, crc.2.2))
      ∧ (crc.1 = StatusCode.STATUS_OK → t.status = StatusCode.STATUS_TIMEOUT →
          PICC_HaltA H p tr = (StatusCode.STATUS_OK, t.trace))
      ∧ (crc.1 = StatusCode.STATUS_OK → t.status = StatusCode.STATUS_OK →
          PICC_HaltA H p tr = (StatusCode.STATUS_ERROR, t.trace))
      ∧ (crc.1 = StatusCode.STATUS_OK → t.status ≠ StatusCode.STATUS_TIMEOUT →
          t.status ≠ StatusCode.STATUS_OK → PICC_HaltA H p tr = (t.status, t.trace)) := by
  intro crc t
  have e : PICC_HaltA H p tr =
      (if crc.1 ≠ StatusCode.STATUS_OK then (crc.1, crc.2.2)
       else if t.status = StatusCode.STATUS_TIMEOUT then (StatusCode.STATUS_OK, t.trace)
       else if t.status = StatusCode.STATUS_OK then (StatusCode.STATUS_ERROR, t.trace)
       else (t.status, t.trace)) := rfl
  clear_value crc t
  rw [e]
  refine ⟨fun h => by simp [h], fun h ht => by simp [h, ht], fun h ht => by simp [h, ht],
    fun h h1 h2 => by simp [h, h1, h2]⟩

/-- C7 in a field where nothing answers: the transceive times out and
`PICC_HaltA` returns STATUS_OK. -/
theorem PICC_HaltA_result_witness :
    (PICC_HaltA datasheet silentField []).1 = StatusCode.STATUS_OK := by
  rw [(PICC_HaltA_result datasheet silentField []).2.1 (by decide) (by decide)]

/-- C9: the polling loop of `PCD_CommunicateWithPICC` reads ComIrqReg at least
once and at most 2000 times and issues nothing else; it goes on to the error
check (whose first transaction is the read of ErrorReg) exactly when some poll
`k + 1 ≤ 2000` finds a bit of `waitIRq` while no earlier poll found the timer
bit; otherwise the function returns STATUS_TIMEOUT with the out-parameters
untouched and the last poll as its last transaction, so neither ErrorReg nor
the FIFO is read. -/
theorem PCD_CommunicateWithPICC_polling (H : Header) (p : RegisterPort)
    (command waitIRq : Nat) (sendData : List Nat) (sendLen : Nat)
    (backData : Option (List Nat)) (backLen validBits : Option Nat) (rxAlign : Nat)
    (checkCRC : Bool) (tr : Trace) :
    let start := PCD_CommunicateWithPICC_start H p command sendData sendLen validBits rxAlign tr
    let w := PCD_CommunicateWithPICC_wait p waitIRq 2000 start
    let r := PCD_CommunicateWithPICC H p command waitIRq sendData sendLen backData backLen
      validBits rxAlign checkCRC tr
    (∃ m, 1 ≤ m ∧ m ≤ 2000 ∧ w.2 = List.replicate m comIrqRead ++ start)
      ∧ (w.1 = true ↔
          ∃ k, k < 2000 ∧ comIrqAt p start k &&& waitIRq ≠ 0 ∧
            ∀ j, j < k → comIrqAt p start j &&& 0x01 = 0)
      ∧ (w.1 = true →
          r = PCD_CommunicateWithPICC_finish H p backData backLen validBits rxAlign checkCRC w.2
            ∧ List.IsSuffix (BusEvent.read PCD_Register.ErrorReg 1 :: w.2) r.trace)
      ∧ (w.1 = false →
          r = ⟨StatusCode.STATUS_TIMEOUT, backData, backLen, validBits, w.2⟩) := by
  intro start w r
  have e : r = (if w.1 = false then
        ⟨StatusCode.STATUS_TIMEOUT, backData, backLen, validBits, w.2⟩
      else PCD_CommunicateWithPICC_finish H p backData backLen validBits rxAlign checkCRC w.2) :=
    rfl
  refine ⟨PCD_CommunicateWithPICC_wait_trace p waitIRq 2000 start (by norm_num),
    PCD_CommunicateWithPICC_wait_true p waitIRq 2000 start, ?_, ?_⟩
  · intro hw
    have e' : r = PCD_CommunicateWithPICC_finish H p backData backLen validBits rxAlign
        checkCRC w.2 := by
      rw [e, if_neg (by simp [hw])]
    refine ⟨e', ?_⟩
    rw [e']
    exact PCD_CommunicateWithPICC_finish_suffix _ _ _ _ _ _ _ _
  · intro hw
    rw [e, if_pos hw]

/-- C9 on two chips, for the REQA exchange: where RxIRq is raised at once the
loop is left by `break` after one poll; where the timer interrupt fires the
exchange returns STATUS_TIMEOUT and the poll of ComIrqReg is its last
transaction. -/
theorem PCD_CommunicateWithPICC_polling_witness :
    (PCD_CommunicateWithPICC_wait overflowChip 0x30 2000
        (PCD_CommunicateWithPICC_start datasheet overflowChip 0x0C [0x26] 1 (some 7) 0 [])).1
        = true
      ∧ PCD_CommunicateWithPICC datasheet silentField 0x0C 0x30 [0x26] 1 (some [0xAA, 0xBB])
          (some 2) (some 7) 0 false []
        = ⟨StatusCode.STATUS_TIMEOUT, some [0xAA, 0xBB], some 2, some 7,
            comIrqRead ::
              PCD_CommunicateWithPICC_start datasheet silentField 0x0C [0x26] 1 (some 7) 0 []⟩ :=
  ⟨(PCD_CommunicateWithPICC_polling datasheet overflowChip 0x0C 0x30 [0x26] 1
      (some [0xAA, 0xBB]) (some 2) (some 7) 0 false []).2.1.mpr
      ⟨0, by decide, by decide, fun j hj => absurd hj (Nat.not_lt_zero j)⟩,
   (PCD_CommunicateWithPICC_polling datasheet silentField 0x0C 0x30 [0x26] 1
      (some [0xAA, 0xBB]) (some 2) (some 7) 0 false []).2.2.2 (by decide)⟩

/-- C10: when an interrupt of `waitIRq` was matched and ErrorReg has a bit of
BufferOvfl, ParityErr or ProtocolErr (mask 0x13) set, whatever its other bits
(CollErr included), `PCD_CommunicateWithPICC` returns STATUS_ERROR, leaves
`backData`, `*backLen` and `*validBits` as they were, and the read of ErrorReg
is its last transaction: FIFOLevelReg and FIFODataReg are not read. -/
theorem PCD_CommunicateWithPICC_error_first (H : Header) (p : RegisterPort)
    (command waitIRq : Nat) (sendData : List Nat) (sendLen : Nat)
    (backData : Option (List Nat)) (backLen validBits : Option Nat) (rxAlign : Nat)
    (checkCRC : Bool) (tr : Trace)
    (hw : (PCD_CommunicateWithPICC_wait p waitIRq 2000
      (PCD_CommunicateWithPICC_start H p command sendData sendLen validBits rxAlign tr)).1
        = true)
    (he : (PCD_ReadRegister p PCD_Register.ErrorReg
      (PCD_CommunicateWithPICC_wait p waitIRq 2000
        (PCD_CommunicateWithPICC_start H p command sendData sendLen validBits rxAlign tr)).2).1
        &&& 0x13 ≠ 0) :
    PCD_CommunicateWithPICC H p command waitIRq sendData sendLen backData backLen validBits
        rxAlign checkCRC tr
      = ⟨StatusCode.STATUS_ERROR, backData, backLen, validBits,
          BusEvent.read PCD_Register.ErrorReg 1 ::
            (PCD_CommunicateWithPICC_wait p waitIRq 2000
              (PCD_CommunicateWithPICC_start H p command sendData sendLen validBits rxAlign
                tr)).2⟩ := by
  unfold PCD_CommunicateWithPICC
  simp only [hw, Bool.true_eq_false, if_false]
  unfold PCD_CommunicateWithPICC_finish
  simp only [if_pos he, PCD_ReadRegister_trace]

/-- C10 on a chip that reports BufferOvfl, CollErr, ParityErr and ProtocolErr
together: the REQA exchange ends with STATUS_ERROR, the caller's two-byte
buffer, capacity and bit count are untouched, and ErrorReg is the last register
read. -/
theorem PCD_CommunicateWithPICC_error_first_witness :
    PCD_CommunicateWithPICC datasheet overflowChip 0x0C 0x30 [0x26] 1 (some [0xAA, 0xBB])
        (some 2) (some 7) 0 false []
      = ⟨StatusCode.STATUS_ERROR, some [0xAA, 0xBB], some 2, some 7,
          [BusEvent.read PCD_Register.ErrorReg 1,
           BusEvent.read PCD_Register.ComIrqReg 1,
           BusEvent.write PCD_Register.BitFramingReg [0x80],
           BusEvent.read PCD_Register.BitFramingReg 1,
           BusEvent.write PCD_Register.CommandReg [0x0C],
           BusEvent.write PCD_Register.BitFramingReg [0x07],
           BusEvent.write PCD_Register.FIFODataReg [0x26],
           BusEvent.write PCD_Register.FIFOLevelReg [0x80],
           BusEvent.read PCD_Register.FIFOLevelReg 1,
           BusEvent.write PCD_Register.ComIrqReg [0x7F],
           BusEvent.write PCD_Register.CommandReg [0x00]]⟩ :=
  PCD_CommunicateWithPICC_error_first datasheet overflowChip 0x0C 0x30 [0x26] 1
    (some [0xAA, 0xBB]) (some 2) (some 7) 0 false [] (by decide) (by decide)

/-- C8: in `MIFARE_TwoStepHelper`, hence in `MIFARE_Increment`,
`MIFARE_Decrement` and `MIFARE_Restore`: when the address phase is answered by
the 4-bit MF_ACK and the transceive of the data phase returns STATUS_TIMEOUT,
the operation returns STATUS_OK; when the transceive of the address phase
returns STATUS_TIMEOUT, the operation returns STATUS_TIMEOUT and that
transceive is its last bus activity (the data phase is not sent). -/
theorem MIFARE_TwoStepHelper_timeouts (H : Header) (p : RegisterPort)
    (command blockAddr : Nat) (data : Int) (tr : Trace) :
    let fa := PCD_MIFARE_Transceive_frame H p [command, blockAddr] 2 tr
    let ta := PCD_MIFARE_Transceive_exchange H p fa.2.1 2 fa.2.2
    let fd := PCD_MIFARE_Transceive_frame H p (longBytes data) 4 ta.trace
    let td := PCD_MIFARE_Transceive_exchange H p fd.2.1 4 fd.2.2
    (fa.1 = StatusCode.STATUS_OK → ta.status = StatusCode.STATUS_OK →
        ta.backLen = some 1 → ta.validBits = some 4 →
        (ta.backData.getD fa.2.1).getD 0 0 = H.MF_ACK →
        fd.1 = StatusCode.STATUS_OK → td.status = StatusCode.STATUS_TIMEOUT →
        MIFARE_TwoStepHelper H p command blockAddr data tr
          = (StatusCode.STATUS_OK, td.trace))
      ∧ (fa.1 = StatusCode.STATUS_OK → ta.status = StatusCode.STATUS_TIMEOUT →
        MIFARE_TwoStepHelper H p command blockAddr data tr
          = (StatusCode.STATUS_TIMEOUT, ta.trace))
      ∧ (∀ delta, MIFARE_Increment H p blockAddr delta tr
          = MIFARE_TwoStepHelper H p H.PICC_CMD_MF_INCREMENT blockAddr delta tr)
      ∧ (∀ delta, MIFARE_Decrement H p blockAddr delta tr
          = MIFARE_TwoStepHelper H p H.PICC_CMD_MF_DECREMENT blockAddr delta tr)
      ∧ MIFARE_Restore H p blockAddr tr
          = MIFARE_TwoStepHelper H p H.PICC_CMD_MF_RESTORE blockAddr 0 tr := by
  intro fa ta fd td
  have e1 : PCD_MIFARE_Transceive H p (some [command, blockAddr]) 2 false tr =
      (if fa.1 ≠ StatusCode.STATUS_OK then (fa.1, fa.2.2)
       else if false = true ∧ ta.status = StatusCode.STATUS_TIMEOUT then
         (StatusCode.STATUS_OK, ta.trace)
       else if ta.status ≠ StatusCode.STATUS_OK then (ta.status, ta.trace)
       else if ta.backLen.getD 18 ≠ 1 ∨ ta.validBits.getD 0 ≠ 4 then
         (StatusCode.STATUS_ERROR, ta.trace)
       else if (ta.backData.getD fa.2.1).getD 0 0 ≠ H.MF_ACK then
         (StatusCode.STATUS_MIFARE_NACK, ta.trace)
       else (StatusCode.STATUS_OK, ta.trace)) := rfl
  have e2 : PCD_MIFARE_Transceive H p (some (longBytes data)) 4 true ta.trace =
      (if fd.1 ≠ StatusCode.STATUS_OK then (fd.1, fd.2.2)
       else if true = true ∧ td.status = StatusCode.STATUS_TIMEOUT then
         (StatusCode.STATUS_OK, td.trace)
       else if td.status ≠ StatusCode.STATUS_OK then (td.status, td.trace)
       else if td.backLen.getD 18 ≠ 1 ∨ td.validBits.getD 0 ≠ 4 then
         (StatusCode.STATUS_ERROR, td.trace)
       else if (td.backData.getD fd.2.1).getD 0 0 ≠ H.MF_ACK then
         (StatusCode.STATUS_MIFARE_NACK, td.trace)
       else (StatusCode.STATUS_OK, td.trace)) := rfl
  clear_value fd td
  clear_value fa ta
  refine ⟨?_, ?_, fun _ => rfl, fun _ => rfl, rfl⟩
  · intro h1 h2 h3 h4 h5 h6 h7
    have a : PCD_MIFARE_Transceive H p (some [command, blockAddr]) 2 false tr
        = (StatusCode.STATUS_OK, ta.trace) := by
      rw [e1, if_neg (not_not.mpr h1), if_neg (by simp), if_neg (not_not.mpr h2),
        if_neg (by simp [h3, h4]), if_neg (not_not.mpr h5)]
    unfold MIFARE_TwoStepHelper
    simp only [a, e2]
    simp [h6, h7]
  · intro h1 h2
    have a : PCD_MIFARE_Transceive H p (some [command, blockAddr]) 2 false tr
        = (StatusCode.STATUS_TIMEOUT, ta.trace) := by
      rw [e1]
      simp [h1, h2]
    unfold MIFARE_TwoStepHelper
    simp only [a]
    simp

/-- C8 on concrete cards: a card that acknowledges the address phase and is
silent in the data phase makes `MIFARE_Increment` return STATUS_OK; in a field
where nothing answers the operation returns STATUS_TIMEOUT. -/
theorem MIFARE_TwoStepHelper_timeouts_witness :
    (MIFARE_TwoStepHelper datasheet ackThenSilent 0xC1 4 1 []).1 = StatusCode.STATUS_OK
      ∧ (MIFARE_TwoStepHelper datasheet silentField 0xC1 4 1 []).1
          = StatusCode.STATUS_TIMEOUT :=
  ⟨by rw [(MIFARE_TwoStepHelper_timeouts datasheet ackThenSilent 0xC1 4 1 []).1
      (by decide) (by decide) (by decide) (by decide) (by decide) (by decide) (by decide)],
   by rw [(MIFARE_TwoStepHelper_timeouts datasheet silentField 0xC1 4 1 []).2.1
      (by decide) (by decide)]⟩

/-- C3: whenever `PICC_Select` returns STATUS_OK, `validBits` was at most 80 and
`uid->size` is `3 * L + 1` for the cascade level `L` in {1, 2, 3} whose pass
through the cascade loop ended with a SAK without the cascade bit (the branch
`uidComplete = true`, which stores that SAK); so the size is 4, 7 or 10.  This
holds for every port, every caller `uid` and every initial content of the
frame buffer. -/
theorem PICC_Select_size (H : Header) (p : RegisterPort) (junk : Nat → Nat) (uid : Uid)
    (validBits : Nat) (tr : Trace) (u : Uid) (t : Trace)
    (h : PICC_Select H p junk uid validBits tr = some (StatusCode.STATUS_OK, u, t)) :
    validBits ≤ 80
      ∧ ∃ L, (L = 1 ∨ L = 2 ∨ L = 3)
          ∧ u.size = 3 * L + 1
          ∧ u.sak &&& 0x04 = 0
          ∧ (∃ uidL bufferL trL uL,
              PICC_Select_level H p validBits L uidL bufferL trL = some (Level.complete uL t)
                ∧ u = { uL with size := 3 * L + 1 })
          ∧ (u.size = 4 ∨ u.size = 7 ∨ u.size = 10) := by
  unfold PICC_Select at h
  by_cases hv : validBits > 80
  · rw [if_pos hv] at h
    simp at h
  · rw [if_neg hv] at h
    refine ⟨by omega, ?_⟩
    obtain ⟨L, uidL, bufferL, trL, uL, hL, hu⟩ := PICC_Select_cascade_ok _ _ _ _ _ _ _ _ _ _ h
    obtain ⟨h123, hsak⟩ := PICC_Select_level_complete _ _ _ _ _ _ _ _ _ hL
    have hsize : u.size = 3 * L + 1 := by rw [hu]
    have hs : u.sak = uL.sak := by rw [hu]
    refine ⟨L, h123, hsize, by rw [hs]; exact hsak, ⟨uidL, bufferL, trL, uL, hL, hu⟩, ?_⟩
    rcases h123 with h1 | h1 | h1 <;> rw [hsize, h1] <;> simp

/-- C3 on a card with a single-size UID: selection from a blank `Uid` returns
STATUS_OK with the UID `DE AD BE EF`, SAK `08` and size 4 = 3 * 1 + 1. -/
theorem PICC_Select_size_witness :
    ∃ t, PICC_Select datasheet singleSizeCard (fun _ => 0) blankUid 0 []
          = some (StatusCode.STATUS_OK,
              ⟨4, [0xDE, 0xAD, 0xBE, 0xEF, 0, 0, 0, 0, 0, 0], 0x08⟩, t)
      ∧ ∃ L, (L = 1 ∨ L = 2 ∨ L = 3) ∧ 4 = 3 * L + 1 :=
  ⟨_, rfl,
    (PICC_Select_size datasheet singleSizeCard (fun _ => 0) blankUid 0 []
      ⟨4, [0xDE, 0xAD, 0xBE, 0xEF, 0, 0, 0, 0, 0, 0], 0x08⟩ _ rfl).2.imp
      (fun _ hL => ⟨hL.1, hL.2.1⟩)⟩

/-- C1 (the code misses the byte when the collision position is a multiple of 8):
with no bit known, seven agreeing bits received as `0x25` and CollReg reporting
a collision at position 8, the round of `PICC_Select` goes on with 8 known bits
but sets bit 7 of `buffer[3]`; bit 7 of `buffer[2]`, which is bit 8 of the UID,
stays 0. -/
theorem PICC_Select_round_collision_at_bit8 :
    ∃ t, PICC_Select_round datasheet collisionAtBit8 0 [0x93, 0, 0, 0, 0, 0, 0, 0, 0] []
          = Round.again 8 [0x93, 0x20, 0x25, 0x80, 0, 0, 0, 0, 0] t
      ∧ ([0x93, 0x20, 0x25, 0x80, 0, 0, 0, 0, 0] : List Nat).getD (2 + (8 - 1) / 8) 0
          &&& (1 <<< ((8 - 1) % 8)) = 0 :=
  ⟨_, rfl, by decide⟩

/-- C4 (the code departs from the comment of `PICC_ReadCardSerial`, "uid will be
unchanged if not successful"): when the card answers SELECT with two bytes
instead of three, `PICC_ReadCardSerial` returns false and the caller's blank
`Uid` holds the bytes `DE AD BE EF`. -/
theorem PICC_ReadCardSerial_changes_uid_on_failure :
    (PICC_ReadCardSerial datasheet shortSakCard (fun _ => 0) blankUid []).map
        (fun r => (r.1, r.2.1))
      = some (false, ⟨0, [0xDE, 0xAD, 0xBE, 0xEF, 0, 0, 0, 0, 0, 0], 0⟩)
      ∧ blankUid = ⟨0, [0, 0, 0, 0, 0, 0, 0, 0, 0, 0], 0⟩ :=
  ⟨by decide, rfl⟩

/-! ## Windows of memory -/

theorem length_blit : ∀ (src dst : List Nat), (blit src dst).length = dst.length
  | [], dst => rfl
  | _ :: _, [] => rfl
  | _ :: src, _ :: dst => by simp [blit, length_blit src dst]

theorem getElem?_blit_lt : ∀ (src dst : List Nat) (i : Nat), i < src.length → i < dst.length →
    (blit src dst)[i]? = src[i]?
  | [], _, i, h, _ => by simp at h
  | _ :: _, [], i, _, h => by simp at h
  | s :: src, d :: dst, 0, _, _ => by simp [blit]
  | s :: src, d :: dst, i + 1, h, h' => by
    simp only [blit, List.getElem?_cons_succ]
    exact getElem?_blit_lt src dst i (by simpa using h) (by simpa using h')

theorem getElem?_blit_ge : ∀ (src dst : List Nat) (i : Nat), src.length ≤ i →
    (blit src dst)[i]? = dst[i]?
  | [], _, i, _ => rfl
  | _ :: _, [], i, _ => rfl
  | s :: src, d :: dst, 0, h => by simp at h
  | s :: src, d :: dst, i + 1, h => by
    simp only [blit, List.getElem?_cons_succ]
    exact getElem?_blit_ge src dst i (by simpa using h)

/-- The window keeps its length. -/
theorem PCD_ReadRegisterData_length (p : RegisterPort) (reg : PCD_Register) (count : Nat)
    (values : List Nat) (rxAlign : Nat) (tr : Trace) :
    (PCD_ReadRegisterData p reg count values rxAlign tr).1.length = values.length := by
  unfold PCD_ReadRegisterData
  by_cases h : count = 0
  · simp only [if_pos h]
  · simp only [if_neg h]
    cases p.answer tr reg count with
    | addrFail => simp
    | dataFail stored => simp [length_blit]
    | ok bytes =>
      simp only []
      split_ifs <;> simp [length_blit]

/-- The transaction `PCD_ReadRegisterData` issues: none for `count == 0`, one
read of `count` bytes otherwise. -/
theorem PCD_ReadRegisterData_trace (p : RegisterPort) (reg : PCD_Register) (count : Nat)
    (values : List Nat) (rxAlign : Nat) (tr : Trace) :
    (PCD_ReadRegisterData p reg count values rxAlign tr).2
      = if count = 0 then tr else BusEvent.read reg count :: tr := by
  unfold PCD_ReadRegisterData
  by_cases h : count = 0
  · simp only [if_pos h]
  · simp only [if_neg h]
    cases p.answer tr reg count <;> rfl

theorem getD_of_getElem? {l : List Nat} {i a : Nat} (h : l[i]? = some a) :
    l.getD i 0 = a := by
  rw [List.getD_eq_getElem?_getD, h]
  rfl

theorem getD_congr {l l' : List Nat} {i j : Nat} (h : l[i]? = l'[j]?) :
    l.getD i 0 = l'.getD j 0 := by
  rw [List.getD_eq_getElem?_getD, List.getD_eq_getElem?_getD, h]

/-- With a port that succeeds the adjustment for `rxAlign` changes nothing: the
window ends as the received bytes stored over it. -/
theorem PCD_ReadRegisterData_ok_eq (p : RegisterPort) (reg : PCD_Register) (count : Nat)
    (values : List Nat) (rxAlign : Nat) (tr : Trace) (bytes : List Nat) (hc : count ≠ 0)
    (ha : p.answer tr reg count = ReadAnswer.ok bytes) :
    (PCD_ReadRegisterData p reg count values rxAlign tr).1
      = blit ((List.range count).map (fun i => bytes.getD i 0 % 256)) (values.set 0 0) := by
  obtain ⟨c, rfl⟩ : ∃ c, count = c + 1 := ⟨count - 1, by omega⟩
  unfold PCD_ReadRegisterData
  simp only [if_neg hc, ha]
  by_cases hr : rxAlign ≠ 0
  · simp only [if_pos hr]
    cases values with
    | nil => simp [blit, List.range_succ_eq_map]
    | cons v vs =>
      simp only [List.range_succ_eq_map, List.map_cons, List.set_cons_zero, blit,
        List.getD_cons_zero]
      rw [and_not_or_and _ _ (Nat.mod_lt _ (by norm_num)) (rxAlignMask_lt _)]
  · simp only [if_neg hr]

/-- With a port that succeeds, the first `count` bytes of the window are the
bytes received and the bytes behind them are untouched. -/
theorem PCD_ReadRegisterData_ok (p : RegisterPort) (reg : PCD_Register) (count : Nat)
    (values : List Nat) (rxAlign : Nat) (tr : Trace) (bytes : List Nat)
    (ha : p.answer tr reg count = ReadAnswer.ok bytes) (i : Nat) :
    (i < count → i < values.length →
        (PCD_ReadRegisterData p reg count values rxAlign tr).1.getD i 0 = bytes.getD i 0 % 256)
      ∧ (count ≤ i →
        (PCD_ReadRegisterData p reg count values rxAlign tr).1.getD i 0 = values.getD i 0) := by
  by_cases hc : count = 0
  · subst hc
    exact ⟨fun h => by omega, fun _ => rfl⟩
  · rw [PCD_ReadRegisterData_ok_eq p reg count values rxAlign tr bytes hc ha]
    have hlen : (List.map (fun i => bytes.getD i 0 % 256) (List.range count)).length = count := by
      simp
    constructor
    · intro h1 h2
      apply getD_of_getElem?
      rw [getElem?_blit_lt _ _ _ (by rw [hlen]; exact h1) (by simpa using h2),
        List.getElem?_map, List.getElem?_range h1]
      rfl
    · intro h1
      apply getD_congr
      rw [getElem?_blit_ge _ _ _ (by rw [hlen]; exact h1), List.getElem?_set,
        if_neg (by omega)]

/-! ## The polling loop of `PCD_CalculateCRC` -/

theorem divIrqAt_succ (p : RegisterPort) (tr : Trace) (k : Nat) :
    divIrqAt p (divIrqRead :: tr) k = divIrqAt p tr (k + 1) := by
  unfold divIrqAt
  rw [replicate_append_cons]

theorem PCD_CalculateCRC_wait_succ (p : RegisterPort) (i : Nat) (tr : Trace) :
    PCD_CalculateCRC_wait p (i + 1) tr =
      if divIrqAt p tr 0 &&& 0x04 ≠ 0 then (true, divIrqRead :: tr)
      else if i = 0 then (false, divIrqRead :: tr)
      else PCD_CalculateCRC_wait p i (divIrqRead :: tr) := rfl

/-- The loop gives up exactly when none of its `i` polls finds CRCIRq, and then
it has polled `i` times. -/
theorem PCD_CalculateCRC_wait_false (p : RegisterPort) :
    ∀ (i : Nat) (tr : Trace), 0 < i →
      ((PCD_CalculateCRC_wait p i tr).1 = false ↔
          ∀ k, k < i → divIrqAt p tr k &&& 0x04 = 0)
        ∧ ((PCD_CalculateCRC_wait p i tr).1 = false →
          (PCD_CalculateCRC_wait p i tr).2 = List.replicate i divIrqRead ++ tr) := by
  intro i
  induction i with
  | zero => intro tr h; omega
  | succ i ih =>
    intro tr _
    rw [PCD_CalculateCRC_wait_succ]
    split_ifs with h1 h2
    · refine ⟨⟨fun h => absurd h (by simp), fun h => absurd (h 0 (by omega)) h1⟩,
        fun h => absurd h (by simp)⟩
    · subst h2
      refine ⟨⟨fun _ k hk => ?_, fun _ => rfl⟩, fun _ => rfl⟩
      have : k = 0 := by omega
      subst this
      exact not_not.mp h1
    · obtain ⟨ih1, ih2⟩ := ih (divIrqRead :: tr) (by omega)
      refine ⟨?_, ?_⟩
      · rw [ih1]
        constructor
        · intro h k hk
          rcases Nat.eq_zero_or_pos k with hk0 | hk0
          · subst hk0
            exact not_not.mp h1
          · obtain ⟨k', rfl⟩ : ∃ k', k = k' + 1 := ⟨k - 1, by omega⟩
            rw [← divIrqAt_succ]
            exact h k' (by omega)
        · intro h k hk
          rw [divIrqAt_succ]
          exact h (k + 1) (by omega)
      · intro h
        rw [ih2 h, replicate_append_cons]

/-- The loop polls DivIrqReg between one and `i` times and issues nothing
else. -/
theorem PCD_CalculateCRC_wait_trace (p : RegisterPort) :
    ∀ (i : Nat) (tr : Trace), 0 < i →
      ∃ m, 1 ≤ m ∧ m ≤ i ∧
        (PCD_CalculateCRC_wait p i tr).2 = List.replicate m divIrqRead ++ tr := by
  intro i
  induction i with
  | zero => intro tr h; omega
  | succ i ih =>
    intro tr _
    rw [PCD_CalculateCRC_wait_succ]
    split_ifs with h1 h2
    · exact ⟨1, le_refl _, by omega, rfl⟩
    · exact ⟨1, le_refl _, by omega, rfl⟩
    · obtain ⟨m, hm1, hm2, hm3⟩ := ih (divIrqRead :: tr) (by omega)
      exact ⟨m + 1, by omega, by omega, by rw [hm3, replicate_append_cons]⟩

/-- The function `PCD_CalculateCRC` in terms of its polling loop. -/
theorem PCD_CalculateCRC_eq (H : Header) (p : RegisterPort) (data : List Nat) (length : Nat)
    (result : List Nat) (tr : Trace) :
    PCD_CalculateCRC H p data length result tr =
      if (PCD_CalculateCRC_wait p 5000 (PCD_CalculateCRC_start H p data length tr)).1 = false
      then (StatusCode.STATUS_TIMEOUT, result,
        (PCD_CalculateCRC_wait p 5000 (PCD_CalculateCRC_start H p data length tr)).2)
      else (StatusCode.STATUS_OK,
        (result.set 0 (PCD_ReadRegister p PCD_Register.CRCResultRegL
          (PCD_WriteRegister PCD_Register.CommandReg H.PCD_Idle
            (PCD_CalculateCRC_wait p 5000 (PCD_CalculateCRC_start H p data length tr)).2)).1).set 1
          (PCD_ReadRegister p PCD_Register.CRCResultRegH
            (BusEvent.read PCD_Register.CRCResultRegL 1 ::
              PCD_WriteRegister PCD_Register.CommandReg H.PCD_Idle
                (PCD_CalculateCRC_wait p 5000 (PCD_CalculateCRC_start H p data length tr)).2)).1,
        BusEvent.read PCD_Register.CRCResultRegH 1 ::
          BusEvent.read PCD_Register.CRCResultRegL 1 ::
            PCD_WriteRegister PCD_Register.CommandReg H.PCD_Idle
              (PCD_CalculateCRC_wait p 5000 (PCD_CalculateCRC_start H p data length tr)).2) :=
  rfl

/-- The only statuses of `PCD_CalculateCRC` are STATUS_OK and STATUS_TIMEOUT. -/
theorem PCD_CalculateCRC_status (H : Header) (p : RegisterPort) (data : List Nat)
    (length : Nat) (result : List Nat) (tr : Trace) :
    (PCD_CalculateCRC H p data length result tr).1 = StatusCode.STATUS_OK
      ∨ (PCD_CalculateCRC H p data length result tr).1 = StatusCode.STATUS_TIMEOUT := by
  rw [PCD_CalculateCRC_eq]
  split_ifs
  · exact Or.inr rfl
  · exact Or.inl rfl

theorem PCD_CalculateCRC_length (H : Header) (p : RegisterPort) (data : List Nat)
    (length : Nat) (result : List Nat) (tr : Trace) :
    (PCD_CalculateCRC H p data length result tr).2.1.length = result.length := by
  rw [PCD_CalculateCRC_eq]
  split_ifs <;> simp

/-! ## Claims of this part -/

/-- C14: `PCD_CalculateCRC` returns STATUS_TIMEOUT exactly when none of the first
5000 reads of DivIrqReg has CRCIRq (0x04) set; it has then read DivIrqReg
exactly 5000 times, issued nothing after that and left `result` as it was.
Otherwise it returns STATUS_OK after at most 5000 reads of DivIrqReg, with
`result[0]` the byte read from CRCResultRegL and `result[1]` the byte read
after it from CRCResultRegH. -/
theorem PCD_CalculateCRC_outcome (H : Header) (p : RegisterPort) (data : List Nat)
    (length : Nat) (result : List Nat) (tr : Trace) :
    let start := PCD_CalculateCRC_start H p data length tr
    let r := PCD_CalculateCRC H p data length result tr
    (r.1 = StatusCode.STATUS_TIMEOUT ↔ ∀ k, k < 5000 → divIrqAt p start k &&& 0x04 = 0)
      ∧ (r.1 = StatusCode.STATUS_TIMEOUT →
          r.2.1 = result ∧ r.2.2 = List.replicate 5000 divIrqRead ++ start)
      ∧ (r.1 ≠ StatusCode.STATUS_TIMEOUT →
          r.1 = StatusCode.STATUS_OK
            ∧ ∃ m, 1 ≤ m ∧ m ≤ 5000 ∧
                r.2.2 = BusEvent.read PCD_Register.CRCResultRegH 1 ::
                  BusEvent.read PCD_Register.CRCResultRegL 1 ::
                  BusEvent.write PCD_Register.CommandReg [H.PCD_Idle % 256] ::
                  (List.replicate m divIrqRead ++ start)
              ∧ r.2.1 = (result.set 0 (PCD_ReadRegister p PCD_Register.CRCResultRegL
                    (BusEvent.write PCD_Register.CommandReg [H.PCD_Idle % 256] ::
                      (List.replicate m divIrqRead ++ start))).1).set 1
                  (PCD_ReadRegister p PCD_Register.CRCResultRegH
                    (BusEvent.read PCD_Register.CRCResultRegL 1 ::
                      BusEvent.write PCD_Register.CommandReg [H.PCD_Idle % 256] ::
                      (List.replicate m divIrqRead ++ start))).1
              ∧ (2 ≤ result.length →
                  r.2.1.getD 0 0 = (PCD_ReadRegister p PCD_Register.CRCResultRegL
                      (BusEvent.write PCD_Register.CommandReg [H.PCD_Idle % 256] ::
                        (List.replicate m divIrqRead ++ start))).1
                    ∧ r.2.1.getD 1 0 = (PCD_ReadRegister p PCD_Register.CRCResultRegH
                      (BusEvent.read PCD_Register.CRCResultRegL 1 ::
                        BusEvent.write PCD_Register.CommandReg [H.PCD_Idle % 256] ::
                        (List.replicate m divIrqRead ++ start))).1)) := by
  intro start r
  have e : r = PCD_CalculateCRC H p data length result tr := rfl
  rw [PCD_CalculateCRC_eq] at e
  obtain ⟨hf1, hf2⟩ := PCD_CalculateCRC_wait_false p 5000 start (by norm_num)
  obtain ⟨m, hm1, hm2, hm3⟩ := PCD_CalculateCRC_wait_trace p 5000 start (by norm_num)
  clear_value r
  by_cases hw : (PCD_CalculateCRC_wait p 5000 start).1 = false
  · rw [if_pos hw] at e
    subst e
    refine ⟨⟨fun _ => hf1.mp hw, fun _ => rfl⟩, fun _ => ⟨rfl, hf2 hw⟩, fun h => absurd rfl h⟩
  · rw [if_neg hw] at e
    subst e
    refine ⟨⟨fun h => absurd h (by simp), fun h => absurd (hf1.mpr h) hw⟩,
      fun h => absurd h (by simp), fun _ => ⟨rfl, m, hm1, hm2, ?_, ?_, ?_⟩⟩
    · simp only [PCD_WriteRegister, hm3]
    · simp only [PCD_WriteRegister, hm3]
    · intro hl
      simp only [PCD_WriteRegister, hm3]
      obtain ⟨a, rest, rfl⟩ : ∃ a rest, result = a :: rest := by
        cases result with
        | nil => simp at hl
        | cons a rest => exact ⟨a, rest, rfl⟩
      obtain ⟨b, rest', rfl⟩ : ∃ b rest', rest = b :: rest' := by
        cases rest with
        | nil => simp at hl
        | cons b rest' => exact ⟨b, rest', rfl⟩
      exact ⟨rfl, rfl⟩

/-- C14 on two chips: a coprocessor that never finishes gives STATUS_TIMEOUT and
leaves the result bytes; one that finishes at once gives STATUS_OK with the two
result registers, low byte first. -/
theorem PCD_CalculateCRC_outcome_witness :
    PCD_CalculateCRC datasheet deadCoprocessor [0x50, 0x00] 2 [0xAA, 0xBB] []
        = (StatusCode.STATUS_TIMEOUT, [0xAA, 0xBB],
            List.replicate 5000 divIrqRead
              ++ PCD_CalculateCRC_start datasheet deadCoprocessor [0x50, 0x00] 2 [])
      ∧ (PCD_CalculateCRC datasheet sakCard [0x08] 1 [0xAA, 0xBB] []).1 = StatusCode.STATUS_OK
      ∧ (PCD_CalculateCRC datasheet sakCard [0x08] 1 [0xAA, 0xBB] []).2.1 = [0xB6, 0xDD] :=
  have hdead : (PCD_CalculateCRC datasheet deadCoprocessor [0x50, 0x00] 2 [0xAA, 0xBB] []).1
      = StatusCode.STATUS_TIMEOUT :=
    (PCD_CalculateCRC_outcome datasheet deadCoprocessor [0x50, 0x00] 2 [0xAA, 0xBB] []).1.mpr
      (fun _ _ => by simp [divIrqAt, PCD_ReadRegister, deadCoprocessor, chipAnswering])
  have hd := (PCD_CalculateCRC_outcome datasheet deadCoprocessor [0x50, 0x00] 2
    [0xAA, 0xBB] []).2.1 hdead
  ⟨Prod.ext hdead (Prod.ext hd.1 hd.2), by decide, by decide⟩

/-! ## After the polling loop of `PCD_CommunicateWithPICC` -/

/-- Once an interrupt of `waitIRq` was seen the function continues after the
loop. -/
theorem PCD_CommunicateWithPICC_matched (H : Header) (p : RegisterPort)
    (command waitIRq : Nat) (sendData : List Nat) (sendLen : Nat)
    (backData : Option (List Nat)) (backLen validBits : Option Nat) (rxAlign : Nat)
    (checkCRC : Bool) (tr : Trace)
    (hw : (PCD_CommunicateWithPICC_wait p waitIRq 2000
      (PCD_CommunicateWithPICC_start H p command sendData sendLen validBits rxAlign tr)).1
        = true) :
    PCD_CommunicateWithPICC H p command waitIRq sendData sendLen backData backLen validBits
        rxAlign checkCRC tr
      = PCD_CommunicateWithPICC_finish H p backData backLen validBits rxAlign checkCRC
          (PCD_CommunicateWithPICC_wait p waitIRq 2000
            (PCD_CommunicateWithPICC_start H p command sendData sendLen validBits rxAlign
              tr)).2 := by
  unfold PCD_CommunicateWithPICC
  simp only [hw, Bool.true_eq_false, if_false]

/-- With a receive buffer and no fatal error bit: the branches of lines
616-653. -/
theorem PCD_CommunicateWithPICC_finish_receive (H : Header) (p : RegisterPort)
    (data : List Nat) (len : Nat) (validBits : Option Nat) (rxAlign : Nat)
    (checkCRC : Bool) (tr : Trace)
    (he : (PCD_ReadRegister p PCD_Register.ErrorReg tr).1 &&& 0x13 = 0) :
    PCD_CommunicateWithPICC_finish H p (some data) (some len) validBits rxAlign checkCRC tr
      = if (PCD_CommunicateWithPICC_reception p data rxAlign
            (BusEvent.read PCD_Register.ErrorReg 1 :: tr)).level > len then
          ⟨StatusCode.STATUS_NO_ROOM, some data, some len, validBits,
            BusEvent.read PCD_Register.FIFOLevelReg 1 ::
              BusEvent.read PCD_Register.ErrorReg 1 :: tr⟩
        else if (PCD_ReadRegister p PCD_Register.ErrorReg tr).1 &&& 0x08 ≠ 0 then
          ⟨StatusCode.STATUS_COLLISION,
            some (PCD_CommunicateWithPICC_reception p data rxAlign
              (BusEvent.read PCD_Register.ErrorReg 1 :: tr)).data,
            some (PCD_CommunicateWithPICC_reception p data rxAlign
              (BusEvent.read PCD_Register.ErrorReg 1 :: tr)).level,
            validBits.map (fun _ => (PCD_CommunicateWithPICC_reception p data rxAlign
              (BusEvent.read PCD_Register.ErrorReg 1 :: tr)).lastBits),
            (PCD_CommunicateWithPICC_reception p data rxAlign
              (BusEvent.read PCD_Register.ErrorReg 1 :: tr)).trace⟩
        else if checkCRC = true then
          ⟨(PCD_CommunicateWithPICC_crc H p
              (PCD_CommunicateWithPICC_reception p data rxAlign
                (BusEvent.read PCD_Register.ErrorReg 1 :: tr)).data
              (PCD_CommunicateWithPICC_reception p data rxAlign
                (BusEvent.read PCD_Register.ErrorReg 1 :: tr)).level
              (PCD_CommunicateWithPICC_reception p data rxAlign
                (BusEvent.read PCD_Register.ErrorReg 1 :: tr)).lastBits
              (PCD_CommunicateWithPICC_reception p data rxAlign
                (BusEvent.read PCD_Register.ErrorReg 1 :: tr)).trace).1,
            some (PCD_CommunicateWithPICC_reception p data rxAlign
              (BusEvent.read PCD_Register.ErrorReg 1 :: tr)).data,
            some (PCD_CommunicateWithPICC_reception p data rxAlign
              (BusEvent.read PCD_Register.ErrorReg 1 :: tr)).level,
            validBits.map (fun _ => (PCD_CommunicateWithPICC_reception p data rxAlign
              (BusEvent.read PCD_Register.ErrorReg 1 :: tr)).lastBits),
            (PCD_CommunicateWithPICC_crc H p
              (PCD_CommunicateWithPICC_reception p data rxAlign
                (BusEvent.read PCD_Register.ErrorReg 1 :: tr)).data
              (PCD_CommunicateWithPICC_reception p data rxAlign
                (BusEvent.read PCD_Register.ErrorReg 1 :: tr)).level
              (PCD_CommunicateWithPICC_reception p data rxAlign
                (BusEvent.read PCD_Register.ErrorReg 1 :: tr)).lastBits
              (PCD_CommunicateWithPICC_reception p data rxAlign
                (BusEvent.read PCD_Register.ErrorReg 1 :: tr)).trace).2⟩
        else
          ⟨StatusCode.STATUS_OK,
            some (PCD_CommunicateWithPICC_reception p data rxAlign
              (BusEvent.read PCD_Register.ErrorReg 1 :: tr)).data,
            some (PCD_CommunicateWithPICC_reception p data rxAlign
              (BusEvent.read PCD_Register.ErrorReg 1 :: tr)).level,
            validBits.map (fun _ => (PCD_CommunicateWithPICC_reception p data rxAlign
              (BusEvent.read PCD_Register.ErrorReg 1 :: tr)).lastBits),
            (PCD_CommunicateWithPICC_reception p data rxAlign
              (BusEvent.read PCD_Register.ErrorReg 1 :: tr)).trace⟩ := by
  unfold PCD_CommunicateWithPICC_finish PCD_CommunicateWithPICC_reception
  simp only [PCD_ReadRegister_trace]
  rw [if_neg (not_not.mpr he)]

/-- The three reads of the receive branch on the bus. -/
theorem PCD_CommunicateWithPICC_reception_trace (p : RegisterPort) (data : List Nat)
    (rxAlign : Nat) (tr : Trace) :
    (PCD_CommunicateWithPICC_reception p data rxAlign tr).trace
      = BusEvent.read PCD_Register.ControlReg 1 ::
          (if (PCD_CommunicateWithPICC_reception p data rxAlign tr).level = 0 then
            BusEvent.read PCD_Register.FIFOLevelReg 1 :: tr
          else
            BusEvent.read PCD_Register.FIFODataReg
                (PCD_CommunicateWithPICC_reception p data rxAlign tr).level ::
              BusEvent.read PCD_Register.FIFOLevelReg 1 :: tr) := by
  unfold PCD_CommunicateWithPICC_reception
  simp only [PCD_ReadRegister_trace, PCD_ReadRegisterData_trace]

theorem PCD_CommunicateWithPICC_reception_length (p : RegisterPort) (data : List Nat)
    (rxAlign : Nat) (tr : Trace) :
    (PCD_CommunicateWithPICC_reception p data rxAlign tr).data.length = data.length :=
  PCD_ReadRegisterData_length _ _ _ _ _ _

theorem PCD_CommunicateWithPICC_reception_lastBits (p : RegisterPort) (data : List Nat)
    (rxAlign : Nat) (tr : Trace) :
    (PCD_CommunicateWithPICC_reception p data rxAlign tr).lastBits ≤ 7 :=
  Nat.and_le_right

/-- With a port that succeeds the window holds the bytes received, in front of
what it held behind them. -/
theorem PCD_CommunicateWithPICC_reception_ok (p : RegisterPort) (data : List Nat)
    (rxAlign : Nat) (tr : Trace) (bytes : List Nat)
    (ha : p.answer (BusEvent.read PCD_Register.FIFOLevelReg 1 :: tr) PCD_Register.FIFODataReg
      (PCD_CommunicateWithPICC_reception p data rxAlign tr).level = ReadAnswer.ok bytes)
    (i : Nat) :
    (i < (PCD_CommunicateWithPICC_reception p data rxAlign tr).level → i < data.length →
        (PCD_CommunicateWithPICC_reception p data rxAlign tr).data.getD i 0
          = bytes.getD i 0 % 256)
      ∧ ((PCD_CommunicateWithPICC_reception p data rxAlign tr).level ≤ i →
        (PCD_CommunicateWithPICC_reception p data rxAlign tr).data.getD i 0 = data.getD i 0) :=
  PCD_ReadRegisterData_ok p PCD_Register.FIFODataReg _ data rxAlign _ bytes ha i

/-- C11: in `PCD_CommunicateWithPICC` with a receive buffer, after an interrupt of
`waitIRq` and with no bit of mask 0x13 in ErrorReg: when the FIFO level read
from FIFOLevelReg exceeds `*backLen` the result is STATUS_NO_ROOM, `backData`,
`*backLen` and `*validBits` are as before and the read of FIFOLevelReg is the
last transaction; otherwise `*backLen` becomes the level, `*validBits` (if not
NULL) becomes ControlReg & 0x07, one read of exactly `level` bytes from
FIFODataReg is issued (none for level 0), and with a port that succeeds the
first `level` bytes of `backData` are the bytes received while the rest of
`backData` is untouched. -/
theorem PCD_CommunicateWithPICC_receive (H : Header) (p : RegisterPort)
    (command waitIRq : Nat) (sendData : List Nat) (sendLen : Nat) (data : List Nat)
    (len : Nat) (validBits : Option Nat) (rxAlign : Nat) (checkCRC : Bool) (tr : Trace) :
    let w := PCD_CommunicateWithPICC_wait p waitIRq 2000
      (PCD_CommunicateWithPICC_start H p command sendData sendLen validBits rxAlign tr)
    let rcv := PCD_CommunicateWithPICC_reception p data rxAlign
      (BusEvent.read PCD_Register.ErrorReg 1 :: w.2)
    let r := PCD_CommunicateWithPICC H p command waitIRq sendData sendLen (some data)
      (some len) validBits rxAlign checkCRC tr
    w.1 = true → (PCD_ReadRegister p PCD_Register.ErrorReg w.2).1 &&& 0x13 = 0 →
      rcv.level = (PCD_ReadRegister p PCD_Register.FIFOLevelReg
          (BusEvent.read PCD_Register.ErrorReg 1 :: w.2)).1
        ∧ (rcv.level > len →
            r = ⟨StatusCode.STATUS_NO_ROOM, some data, some len, validBits,
              BusEvent.read PCD_Register.FIFOLevelReg 1 ::
                BusEvent.read PCD_Register.ErrorReg 1 :: w.2⟩)
        ∧ (rcv.level ≤ len →
            r.backLen = some rcv.level
              ∧ r.validBits = validBits.map (fun _ => rcv.lastBits)
              ∧ r.backData = some rcv.data
              ∧ rcv.data.length = data.length
              ∧ rcv.trace = BusEvent.read PCD_Register.ControlReg 1 ::
                  (if rcv.level = 0 then
                    BusEvent.read PCD_Register.FIFOLevelReg 1 ::
                      BusEvent.read PCD_Register.ErrorReg 1 :: w.2
                  else
                    BusEvent.read PCD_Register.FIFODataReg rcv.level ::
                      BusEvent.read PCD_Register.FIFOLevelReg 1 ::
                      BusEvent.read PCD_Register.ErrorReg 1 :: w.2)
              ∧ List.IsSuffix rcv.trace r.trace
              ∧ ∀ bytes,
                  p.answer (BusEvent.read PCD_Register.FIFOLevelReg 1 ::
                      BusEvent.read PCD_Register.ErrorReg 1 :: w.2)
                    PCD_Register.FIFODataReg rcv.level = ReadAnswer.ok bytes →
                  ∀ i, (i < rcv.level → i < data.length →
                        rcv.data.getD i 0 = bytes.getD i 0 % 256)
                    ∧ (rcv.level ≤ i → rcv.data.getD i 0 = data.getD i 0)) := by
  intro w rcv r hw he
  have e1 : r = PCD_CommunicateWithPICC_finish H p (some data) (some len) validBits rxAlign
      checkCRC w.2 := PCD_CommunicateWithPICC_matched _ _ _ _ _ _ _ _ _ _ _ _ hw
  rw [PCD_CommunicateWithPICC_finish_receive H p data len validBits rxAlign checkCRC w.2 he]
    at e1
  have e2 : rcv = PCD_CommunicateWithPICC_reception p data rxAlign
      (BusEvent.read PCD_Register.ErrorReg 1 :: w.2) := rfl
  rw [← e2] at e1
  have ht := PCD_CommunicateWithPICC_reception_trace p data rxAlign
    (BusEvent.read PCD_Register.ErrorReg 1 :: w.2)
  have hl := PCD_CommunicateWithPICC_reception_length p data rxAlign
    (BusEvent.read PCD_Register.ErrorReg 1 :: w.2)
  have hb := PCD_CommunicateWithPICC_reception_ok p data rxAlign
    (BusEvent.read PCD_Register.ErrorReg 1 :: w.2)
  rw [← e2] at ht hl hb
  have hlev : rcv.level = (PCD_ReadRegister p PCD_Register.FIFOLevelReg
      (BusEvent.read PCD_Register.ErrorReg 1 :: w.2)).1 := rfl
  clear_value rcv r
  refine ⟨hlev, fun h => by rw [e1, if_pos h], fun h => ?_⟩
  rw [if_neg (not_lt.mpr h)] at e1
  refine ⟨?_, ?_, ?_, hl, ht, ?_, hb⟩
  · split_ifs at e1 <;> rw [e1]
  · split_ifs at e1 <;> rw [e1]
  · split_ifs at e1 <;> rw [e1]
  · split_ifs at e1 <;> rw [e1]
    exact PCD_CommunicateWithPICC_crc_suffix _ _ _ _ _ _

/-- C11 on the card that answers REQA with `04 00`: with room for two bytes the
exchange delivers both and sets `*backLen = 2`, `*validBits = 0`; with room for
one byte it returns STATUS_NO_ROOM and leaves the buffer alone. -/
theorem PCD_CommunicateWithPICC_receive_witness :
    (PCD_CommunicateWithPICC datasheet atqaCard 0x0C 0x30 [0x26] 1 (some [0xAA, 0xBB])
        (some 2) (some 7) 0 false []).backLen = some 2
      ∧ (PCD_CommunicateWithPICC datasheet atqaCard 0x0C 0x30 [0x26] 1 (some [0xAA, 0xBB])
        (some 2) (some 7) 0 false []).backData = some [0x04, 0x00]
      ∧ (PCD_CommunicateWithPICC datasheet atqaCard 0x0C 0x30 [0x26] 1 (some [0xAA, 0xBB])
        (some 1) (some 7) 0 false []).status = StatusCode.STATUS_NO_ROOM
      ∧ (PCD_CommunicateWithPICC datasheet atqaCard 0x0C 0x30 [0x26] 1 (some [0xAA, 0xBB])
        (some 1) (some 7) 0 false []).backData = some [0xAA, 0xBB] :=
  have h2 := (PCD_CommunicateWithPICC_receive datasheet atqaCard 0x0C 0x30 [0x26] 1
    [0xAA, 0xBB] 2 (some 7) 0 false [] (by decide) (by decide)).2.2 (by decide)
  have h1 := (PCD_CommunicateWithPICC_receive datasheet atqaCard 0x0C 0x30 [0x26] 1
    [0xAA, 0xBB] 1 (some 7) 0 false [] (by decide) (by decide)).2.1 (by decide)
  ⟨h2.1, by rw [h2.2.2.1]; decide, by rw [h1], by rw [h1]⟩

/-- C12: after an interrupt of `waitIRq`, with CollErr (0x08) set in ErrorReg, no
bit of mask 0x13 set and a FIFO level that fits `*backLen`, the result is
STATUS_COLLISION with the received data delivered (`*backLen` the FIFO level,
`backData` filled from the FIFO, `*validBits` = ControlReg & 0x07); the read of
ControlReg is the last transaction, so no CRC is calculated even when
`checkCRC` is true. -/
theorem PCD_CommunicateWithPICC_collision (H : Header) (p : RegisterPort)
    (command waitIRq : Nat) (sendData : List Nat) (sendLen : Nat) (data : List Nat)
    (len : Nat) (validBits : Option Nat) (rxAlign : Nat) (checkCRC : Bool) (tr : Trace) :
    let w := PCD_CommunicateWithPICC_wait p waitIRq 2000
      (PCD_CommunicateWithPICC_start H p command sendData sendLen validBits rxAlign tr)
    let rcv := PCD_CommunicateWithPICC_reception p data rxAlign
      (BusEvent.read PCD_Register.ErrorReg 1 :: w.2)
    w.1 = true → (PCD_ReadRegister p PCD_Register.ErrorReg w.2).1 &&& 0x13 = 0 →
      (PCD_ReadRegister p PCD_Register.ErrorReg w.2).1 &&& 0x08 ≠ 0 → rcv.level ≤ len →
      PCD_CommunicateWithPICC H p command waitIRq sendData sendLen (some data)
          (some len) validBits rxAlign checkCRC tr
        = ⟨StatusCode.STATUS_COLLISION, some rcv.data, some rcv.level,
            validBits.map (fun _ => rcv.lastBits), rcv.trace⟩
      ∧ rcv.trace = BusEvent.read PCD_Register.ControlReg 1 ::
          (if rcv.level = 0 then
            BusEvent.read PCD_Register.FIFOLevelReg 1 ::
              BusEvent.read PCD_Register.ErrorReg 1 :: w.2
          else
            BusEvent.read PCD_Register.FIFODataReg rcv.level ::
              BusEvent.read PCD_Register.FIFOLevelReg 1 ::
              BusEvent.read PCD_Register.ErrorReg 1 :: w.2) := by
  intro w rcv hw he hc hn
  refine ⟨?_, PCD_CommunicateWithPICC_reception_trace _ _ _ _⟩
  rw [PCD_CommunicateWithPICC_matched _ _ _ _ _ _ _ _ _ _ _ _ hw,
    PCD_CommunicateWithPICC_finish_receive H p data len validBits rxAlign checkCRC w.2 he,
    if_neg (not_lt.mpr hn), if_pos hc]

/-- C12 on two cards that collide in bit 8, with `checkCRC` true: the result is
STATUS_COLLISION, the byte `25` received before the collision is delivered and
nothing is asked of the CRC coprocessor. -/
theorem PCD_CommunicateWithPICC_collision_witness :
    ∃ t, PCD_CommunicateWithPICC datasheet collisionAtBit8 0x0C 0x30 [0x93, 0x20] 2
          (some [0, 0, 0, 0, 0, 0, 0]) (some 7) (some 0) 0 true []
        = ⟨StatusCode.STATUS_COLLISION, some [0x25, 0, 0, 0, 0, 0, 0], some 1, some 0,
            BusEvent.read PCD_Register.ControlReg 1 ::
              BusEvent.read PCD_Register.FIFODataReg 1 ::
              BusEvent.read PCD_Register.FIFOLevelReg 1 ::
              BusEvent.read PCD_Register.ErrorReg 1 :: t⟩ :=
  ⟨_, ((PCD_CommunicateWithPICC_collision datasheet collisionAtBit8 0x0C 0x30 [0x93, 0x20] 2
    [0, 0, 0, 0, 0, 0, 0] 7 (some 0) 0 true [] (by decide) (by decide) (by decide)
    (by decide)).1).trans rfl⟩

/-- C13: the CRC stage of `PCD_CommunicateWithPICC` (`checkCRC` true, a receive
buffer, an interrupt matched, neither a bit of mask 0x13 nor CollErr in
ErrorReg, a FIFO level `n` that fits and `v` valid bits): STATUS_MIFARE_NACK
for `n = 1` and `v = 4`; otherwise STATUS_CRC_WRONG for `n < 2` or `v ≠ 0`,
in both cases without using the coprocessor; otherwise `PCD_CalculateCRC` is
run over the first `n - 2` received bytes, its status is returned when it is
not STATUS_OK (it is then STATUS_TIMEOUT), and else the result is STATUS_OK
exactly when `backData[n-2]` and `backData[n-1]` equal `controlBuffer[0]` and
`controlBuffer[1]`, and STATUS_CRC_WRONG when they do not. -/
theorem PCD_CommunicateWithPICC_crc_stage (H : Header) (p : RegisterPort)
    (command waitIRq : Nat) (sendData : List Nat) (sendLen : Nat) (data : List Nat)
    (len : Nat) (validBits : Option Nat) (rxAlign : Nat) (tr : Trace) :
    let w := PCD_CommunicateWithPICC_wait p waitIRq 2000
      (PCD_CommunicateWithPICC_start H p command sendData sendLen validBits rxAlign tr)
    let rcv := PCD_CommunicateWithPICC_reception p data rxAlign
      (BusEvent.read PCD_Register.ErrorReg 1 :: w.2)
    let k := PCD_CalculateCRC H p rcv.data (rcv.level - 2) [0, 0] rcv.trace
    let r := PCD_CommunicateWithPICC H p command waitIRq sendData sendLen (some data)
      (some len) validBits rxAlign true tr
    w.1 = true → (PCD_ReadRegister p PCD_Register.ErrorReg w.2).1 &&& 0x13 = 0 →
      (PCD_ReadRegister p PCD_Register.ErrorReg w.2).1 &&& 0x08 = 0 → rcv.level ≤ len →
      (rcv.level = 1 ∧ rcv.lastBits = 4 →
          r.status = StatusCode.STATUS_MIFARE_NACK ∧ r.trace = rcv.trace)
        ∧ (¬(rcv.level = 1 ∧ rcv.lastBits = 4) → rcv.level < 2 ∨ rcv.lastBits ≠ 0 →
          r.status = StatusCode.STATUS_CRC_WRONG ∧ r.trace = rcv.trace)
        ∧ (2 ≤ rcv.level → rcv.lastBits = 0 →
          r.trace = k.2.2
            ∧ List.IsSuffix (PCD_CalculateCRC_start H p rcv.data (rcv.level - 2) rcv.trace)
                r.trace
            ∧ (k.1 ≠ StatusCode.STATUS_OK →
                r.status = k.1 ∧ k.1 = StatusCode.STATUS_TIMEOUT)
            ∧ (k.1 = StatusCode.STATUS_OK →
                (r.status = StatusCode.STATUS_OK ↔
                    rcv.data.getD (rcv.level - 2) 0 = k.2.1.getD 0 0
                      ∧ rcv.data.getD (rcv.level - 1) 0 = k.2.1.getD 1 0)
                  ∧ (r.status ≠ StatusCode.STATUS_OK →
                      r.status = StatusCode.STATUS_CRC_WRONG))) := by
  intro w rcv k r hw he hc hn
  have e1 : r = PCD_CommunicateWithPICC_finish H p (some data) (some len) validBits rxAlign
      true w.2 := PCD_CommunicateWithPICC_matched _ _ _ _ _ _ _ _ _ _ _ _ hw
  rw [PCD_CommunicateWithPICC_finish_receive H p data len validBits rxAlign true w.2 he,
    if_neg (not_lt.mpr hn), if_neg (not_not.mpr hc), if_pos rfl] at e1
  have e2 : rcv = PCD_CommunicateWithPICC_reception p data rxAlign
      (BusEvent.read PCD_Register.ErrorReg 1 :: w.2) := rfl
  rw [← e2] at e1
  have e3 : PCD_CommunicateWithPICC_crc H p rcv.data rcv.level rcv.lastBits rcv.trace =
      (if rcv.level = 1 ∧ rcv.lastBits = 4 then (StatusCode.STATUS_MIFARE_NACK, rcv.trace)
       else if rcv.level < 2 ∨ rcv.lastBits ≠ 0 then (StatusCode.STATUS_CRC_WRONG, rcv.trace)
       else if k.1 ≠ StatusCode.STATUS_OK then (k.1, k.2.2)
       else if rcv.data.getD (rcv.level - 2) 0 ≠ k.2.1.getD 0 0
           ∨ rcv.data.getD (rcv.level - 1) 0 ≠ k.2.1.getD 1 0 then
         (StatusCode.STATUS_CRC_WRONG, k.2.2)
       else (StatusCode.STATUS_OK, k.2.2)) := rfl
  have hk : k.1 = StatusCode.STATUS_OK ∨ k.1 = StatusCode.STATUS_TIMEOUT :=
    PCD_CalculateCRC_status _ _ _ _ _ _
  have hs : List.IsSuffix (PCD_CalculateCRC_start H p rcv.data (rcv.level - 2) rcv.trace)
      k.2.2 := by
    have e4 : k = PCD_CalculateCRC H p rcv.data (rcv.level - 2) [0, 0] rcv.trace := rfl
    rw [e4, PCD_CalculateCRC_eq]
    obtain ⟨m, _, _, hm⟩ := PCD_CalculateCRC_wait_trace p 5000
      (PCD_CalculateCRC_start H p rcv.data (rcv.level - 2) rcv.trace) (by norm_num)
    split_ifs
    · simp only [hm]
      exact List.suffix_append _ _
    · simp only [hm]
      exact List.IsSuffix.trans (List.suffix_append _ _)
        (List.IsSuffix.trans (List.suffix_cons _ _)
          (List.IsSuffix.trans (List.suffix_cons _ _) (List.suffix_cons _ _)))
  clear_value k rcv r
  rw [e3] at e1
  refine ⟨fun h => ?_, fun h1 h2 => ?_, fun h1 h2 => ?_⟩
  · rw [if_pos h] at e1
    rw [e1]
    exact ⟨rfl, rfl⟩
  · rw [if_neg h1, if_pos h2] at e1
    rw [e1]
    exact ⟨rfl, rfl⟩
  · rw [if_neg (by omega), if_neg (by omega)] at e1
    by_cases hk1 : k.1 = StatusCode.STATUS_OK
    · rw [if_neg (not_not.mpr hk1)] at e1
      by_cases hm : rcv.data.getD (rcv.level - 2) 0 ≠ k.2.1.getD 0 0
          ∨ rcv.data.getD (rcv.level - 1) 0 ≠ k.2.1.getD 1 0
      · rw [if_pos hm] at e1
        rw [e1]
        refine ⟨rfl, hs, fun h => absurd hk1 h, fun _ => ⟨?_, fun _ => rfl⟩⟩
        constructor
        · intro h
          cases h
        · rintro ⟨ha, hb⟩
          rcases hm with hm | hm
          · exact absurd ha hm
          · exact absurd hb hm
      · rw [if_neg hm] at e1
        rw [e1]
        refine ⟨rfl, hs, fun h => absurd hk1 h, fun _ => ⟨?_, fun h => absurd rfl h⟩⟩
        constructor
        · intro _
          exact ⟨not_not.mp (fun h => hm (Or.inl h)), not_not.mp (fun h => hm (Or.inr h))⟩
        · intro _
          rfl
    · rw [if_pos hk1] at e1
      rw [e1]
      refine ⟨rfl, hs, fun _ => ⟨rfl, ?_⟩, fun h => absurd h hk1⟩
      rcases hk with hk | hk
      · exact absurd hk hk1
      · exact hk

/-- C13 on a card that answers `08 B6 DD` while the coprocessor reports `B6 DD`
for the first byte: the checked exchange returns STATUS_OK. -/
theorem PCD_CommunicateWithPICC_crc_stage_witness :
    (PCD_CommunicateWithPICC datasheet sakCard 0x0C 0x30 [0x93, 0x70] 2
      (some [0, 0, 0]) (some 3) (some 0) 0 true []).status = StatusCode.STATUS_OK :=
  (((PCD_CommunicateWithPICC_crc_stage datasheet sakCard 0x0C 0x30 [0x93, 0x70] 2
    [0, 0, 0] 3 (some 0) 0 [] (by decide) (by decide) (by decide) (by decide)).2.2
      (by decide) (by decide)).2.2.2 (by decide)).1.mpr ⟨by decide, by decide⟩

/-! ## The out-parameters of an exchange -/

/-- With all three out-pointers given, each still points to a value after the
call; the window keeps its length and `*backLen` does not grow. -/
theorem PCD_CommunicateWithPICC_outputs (H : Header) (p : RegisterPort)
    (command waitIRq : Nat) (sendData : List Nat) (sendLen : Nat) (data : List Nat)
    (len v : Nat) (rxAlign : Nat) (checkCRC : Bool) (tr : Trace) :
    ∃ d l b,
      (PCD_CommunicateWithPICC H p command waitIRq sendData sendLen (some data) (some len)
        (some v) rxAlign checkCRC tr).backData = some d
      ∧ (PCD_CommunicateWithPICC H p command waitIRq sendData sendLen (some data) (some len)
        (some v) rxAlign checkCRC tr).backLen = some l
      ∧ (PCD_CommunicateWithPICC H p command waitIRq sendData sendLen (some data) (some len)
        (some v) rxAlign checkCRC tr).validBits = some b
      ∧ d.length = data.length ∧ l ≤ len := by
  unfold PCD_CommunicateWithPICC
  simp only []
  split_ifs with hw
  · exact ⟨data, len, v, rfl, rfl, rfl, rfl, le_refl _⟩
  · by_cases he : (PCD_ReadRegister p PCD_Register.ErrorReg
        (PCD_CommunicateWithPICC_wait p waitIRq 2000
          (PCD_CommunicateWithPICC_start H p command sendData sendLen (some v) rxAlign
            tr)).2).1 &&& 0x13 = 0
    · rw [PCD_CommunicateWithPICC_finish_receive _ _ _ _ _ _ _ _ he]
      have hl := PCD_CommunicateWithPICC_reception_length p data rxAlign
        (BusEvent.read PCD_Register.ErrorReg 1 ::
          (PCD_CommunicateWithPICC_wait p waitIRq 2000
            (PCD_CommunicateWithPICC_start H p command sendData sendLen (some v) rxAlign
              tr)).2)
      split_ifs with h1
      · exact ⟨data, len, v, rfl, rfl, rfl, rfl, le_refl _⟩
      · exact ⟨_, _, _, rfl, rfl, rfl, hl, not_lt.mp h1⟩
      · exact ⟨_, _, _, rfl, rfl, rfl, hl, not_lt.mp h1⟩
      · exact ⟨_, _, _, rfl, rfl, rfl, hl, not_lt.mp h1⟩
    · unfold PCD_CommunicateWithPICC_finish
      simp only [if_pos he]
      exact ⟨data, len, v, rfl, rfl, rfl, rfl, le_refl _⟩

/-- C20: `PCD_MIFARE_Transceive` with `sendData` not NULL, `sendLen ≤ 16` and a
successful CRC calculation.  When the transceive returns STATUS_OK the result
is STATUS_OK exactly when the response is one byte with four valid bits and
that byte is MF_ACK, STATUS_ERROR when the response is not one byte with four
valid bits, and STATUS_MIFARE_NACK when it is but the byte differs from MF_ACK.
With `acceptTimeout` false every status of the transceive other than STATUS_OK
is returned as it is (with `acceptTimeout` true STATUS_TIMEOUT becomes
STATUS_OK). -/
theorem PCD_MIFARE_Transceive_result (H : Header) (p : RegisterPort) (sendData : List Nat)
    (sendLen : Nat) (acceptTimeout : Bool) (tr : Trace) :
    let f := PCD_MIFARE_Transceive_frame H p sendData sendLen tr
    let t := PCD_MIFARE_Transceive_exchange H p f.2.1 sendLen f.2.2
    let r := PCD_MIFARE_Transceive H p (some sendData) sendLen acceptTimeout tr
    sendLen ≤ 16 → f.1 = StatusCode.STATUS_OK →
      (t.status = StatusCode.STATUS_OK →
          (r.1 = StatusCode.STATUS_OK ↔
              t.backLen = some 1 ∧ t.validBits = some 4
                ∧ (t.backData.getD []).getD 0 0 = H.MF_ACK)
            ∧ (¬(t.backLen = some 1 ∧ t.validBits = some 4) →
                r.1 = StatusCode.STATUS_ERROR)
            ∧ (t.backLen = some 1 → t.validBits = some 4 →
                (t.backData.getD []).getD 0 0 ≠ H.MF_ACK →
                r.1 = StatusCode.STATUS_MIFARE_NACK)
            ∧ r.2 = t.trace)
        ∧ (acceptTimeout = false → t.status ≠ StatusCode.STATUS_OK →
            r = (t.status, t.trace))
        ∧ (acceptTimeout = true → t.status = StatusCode.STATUS_TIMEOUT →
            r = (StatusCode.STATUS_OK, t.trace)) := by
  intro f t r h16 hf
  have e : r =
      (if sendLen > 16 then (StatusCode.STATUS_INVALID, tr)
       else if f.1 ≠ StatusCode.STATUS_OK then (f.1, f.2.2)
       else if acceptTimeout = true ∧ t.status = StatusCode.STATUS_TIMEOUT then
         (StatusCode.STATUS_OK, t.trace)
       else if t.status ≠ StatusCode.STATUS_OK then (t.status, t.trace)
       else if t.backLen.getD 18 ≠ 1 ∨ t.validBits.getD 0 ≠ 4 then
         (StatusCode.STATUS_ERROR, t.trace)
       else if (t.backData.getD f.2.1).getD 0 0 ≠ H.MF_ACK then
         (StatusCode.STATUS_MIFARE_NACK, t.trace)
       else (StatusCode.STATUS_OK, t.trace)) := rfl
  obtain ⟨d, l, b, hd, hl, hb, _, _⟩ := PCD_CommunicateWithPICC_outputs H p H.PCD_Transceive
    0x30 f.2.1 (sendLen + 2) f.2.1 18 0 0 false f.2.2
  have hd' : t.backData = some d := hd
  have hl' : t.backLen = some l := hl
  have hb' : t.validBits = some b := hb
  clear_value f t r
  rw [if_neg (by omega), if_neg (not_not.mpr hf), hd', hl', hb'] at e
  simp only [Option.getD_some] at e
  rw [hd', hl', hb']
  simp only [Option.getD_some, Option.some.injEq]
  refine ⟨fun ht => ?_, fun ha ht => ?_, fun ha ht => ?_⟩
  · rw [if_neg (by simp [ht]), if_neg (not_not.mpr ht)] at e
    by_cases h1 : l ≠ 1 ∨ b ≠ 4
    · rw [if_pos h1] at e
      rw [e]
      refine ⟨⟨fun h => (by cases h), fun h => ?_⟩, fun _ => rfl, fun h2 h3 _ => ?_, rfl⟩
      · rcases h1 with h1 | h1
        · exact absurd h.1 h1
        · exact absurd h.2.1 h1
      · rcases h1 with h1 | h1
        · exact absurd h2 h1
        · exact absurd h3 h1
    · rw [if_neg h1] at e
      have hl1 : l = 1 := not_not.mp (fun h => h1 (Or.inl h))
      have hb4 : b = 4 := not_not.mp (fun h => h1 (Or.inr h))
      by_cases h2 : d.getD 0 0 ≠ H.MF_ACK
      · rw [if_pos h2] at e
        rw [e]
        exact ⟨⟨fun h => (by cases h), fun h => absurd h.2.2 h2⟩, fun h => absurd ⟨hl1, hb4⟩ h,
          fun _ _ _ => rfl, rfl⟩
      · rw [if_neg h2] at e
        rw [e]
        exact ⟨⟨fun _ => ⟨hl1, hb4, not_not.mp h2⟩, fun _ => rfl⟩,
          fun h => absurd ⟨hl1, hb4⟩ h, fun _ _ h => absurd h h2, rfl⟩
  · rw [if_neg (by simp [ha]), if_pos ht] at e
    exact e
  · rw [if_pos ⟨ha, ht⟩] at e
    exact e

/-- C20 on a card that acknowledges: the address phase of a write returns
STATUS_OK. -/
theorem PCD_MIFARE_Transceive_result_witness :
    (PCD_MIFARE_Transceive datasheet ackingCard (some [0xA0, 0x04]) 2 false []).1
      = StatusCode.STATUS_OK :=
  ((PCD_MIFARE_Transceive_result datasheet ackingCard [0xA0, 0x04] 2 false []
    (by decide) (by decide)).1 (by decide)).1.mpr ⟨by decide, by decide, by decide⟩

/-- When `bufferSize` exceeds 16 the data phase of `MIFARE_Write` is refused by
the check `sendLen > 16` of `PCD_MIFARE_Transceive`: nothing follows the
acknowledged address phase. -/
theorem MIFARE_Write_oversized (H : Header) (p : RegisterPort) (blockAddr : Nat)
    (buffer : List Nat) (bufferSize : Nat) (tr : Trace) (h16 : 16 < bufferSize)
    (hack : (PCD_MIFARE_Transceive H p (some [H.PICC_CMD_MF_WRITE, blockAddr]) 2 false tr).1
      = StatusCode.STATUS_OK) :
    MIFARE_Write H p blockAddr (some buffer) bufferSize tr
      = (StatusCode.STATUS_INVALID,
          (PCD_MIFARE_Transceive H p (some [H.PICC_CMD_MF_WRITE, blockAddr]) 2 false tr).2) := by
  unfold MIFARE_Write
  simp only [if_neg (show ¬ bufferSize < 16 by omega), hack, ne_eq, not_true_eq_false, if_false]
  unfold PCD_MIFARE_Transceive
  simp only [if_pos h16, ne_eq, not_false_eq_true, if_true]
  simp

/-- C19 (the code departs from its parameter comment "Buffer size, must be at
least 16 bytes. Exactly 16 bytes are written."): called with an 18-byte buffer
and `bufferSize = 18` on a card that acknowledges the address phase,
`MIFARE_Write` returns STATUS_INVALID and its last bus activity is the address
phase; no data byte is transmitted. -/
theorem MIFARE_Write_rejects_18_bytes :
    (PCD_MIFARE_Transceive datasheet ackingCard (some [0xA0, 0x04]) 2 false []).1
        = StatusCode.STATUS_OK
      ∧ MIFARE_Write datasheet ackingCard 0x04 (some (List.replicate 18 0x11)) 18 []
        = (StatusCode.STATUS_INVALID,
            (PCD_MIFARE_Transceive datasheet ackingCard (some [0xA0, 0x04]) 2 false []).2) :=
  ⟨by decide, MIFARE_Write_oversized datasheet ackingCard 0x04 _ 18 [] (by decide) (by decide)⟩

/-! ## A checked exchange that succeeds -/

/-- When an exchange with a receive buffer and `checkCRC` returns STATUS_OK, it
went through every stage: at least two bytes were received, all bits of the
last one valid, and the last two bytes equal the result of `PCD_CalculateCRC`
over the bytes before them. -/
theorem PCD_CommunicateWithPICC_checked_ok (H : Header) (p : RegisterPort)
    (command waitIRq : Nat) (sendData : List Nat) (sendLen : Nat) (data : List Nat)
    (len : Nat) (validBits : Option Nat) (rxAlign : Nat) (tr : Trace)
    (hs : (PCD_CommunicateWithPICC H p command waitIRq sendData sendLen (some data)
      (some len) validBits rxAlign true tr).status = StatusCode.STATUS_OK) :
    ∃ tE, List.IsSuffix tr tE ∧
      2 ≤ (PCD_CommunicateWithPICC_reception p data rxAlign tE).level
      ∧ (PCD_CommunicateWithPICC_reception p data rxAlign tE).level ≤ len
      ∧ (PCD_CommunicateWithPICC_reception p data rxAlign tE).lastBits = 0
      ∧ (PCD_CalculateCRC H p (PCD_CommunicateWithPICC_reception p data rxAlign tE).data
          ((PCD_CommunicateWithPICC_reception p data rxAlign tE).level - 2) [0, 0]
          (PCD_CommunicateWithPICC_reception p data rxAlign tE).trace).1
          = StatusCode.STATUS_OK
      ∧ (PCD_CommunicateWithPICC_reception p data rxAlign tE).data.getD
          ((PCD_CommunicateWithPICC_reception p data rxAlign tE).level - 2) 0
          = (PCD_CalculateCRC H p (PCD_CommunicateWithPICC_reception p data rxAlign tE).data
              ((PCD_CommunicateWithPICC_reception p data rxAlign tE).level - 2) [0, 0]
              (PCD_CommunicateWithPICC_reception p data rxAlign tE).trace).2.1.getD 0 0
      ∧ (PCD_CommunicateWithPICC_reception p data rxAlign tE).data.getD
          ((PCD_CommunicateWithPICC_reception p data rxAlign tE).level - 1) 0
          = (PCD_CalculateCRC H p (PCD_CommunicateWithPICC_reception p data rxAlign tE).data
              ((PCD_CommunicateWithPICC_reception p data rxAlign tE).level - 2) [0, 0]
              (PCD_CommunicateWithPICC_reception p data rxAlign tE).trace).2.1.getD 1 0
      ∧ PCD_CommunicateWithPICC H p command waitIRq sendData sendLen (some data)
          (some len) validBits rxAlign true tr
        = ⟨StatusCode.STATUS_OK,
            some (PCD_CommunicateWithPICC_reception p data rxAlign tE).data,
            some (PCD_CommunicateWithPICC_reception p data rxAlign tE).level,
            validBits.map (fun _ => 0),
            (PCD_CalculateCRC H p (PCD_CommunicateWithPICC_reception p data rxAlign tE).data
              ((PCD_CommunicateWithPICC_reception p data rxAlign tE).level - 2) [0, 0]
              (PCD_CommunicateWithPICC_reception p data rxAlign tE).trace).2.2⟩ := by
  by_cases hw : (PCD_CommunicateWithPICC_wait p waitIRq 2000
      (PCD_CommunicateWithPICC_start H p command sendData sendLen validBits rxAlign tr)).1
        = true
  swap
  · unfold PCD_CommunicateWithPICC at hs
    simp only [Bool.not_eq_true] at hw
    simp only [hw, if_true] at hs
    cases hs
  rw [PCD_CommunicateWithPICC_matched _ _ _ _ _ _ _ _ _ _ _ _ hw] at hs ⊢
  by_cases he : (PCD_ReadRegister p PCD_Register.ErrorReg
      (PCD_CommunicateWithPICC_wait p waitIRq 2000
        (PCD_CommunicateWithPICC_start H p command sendData sendLen validBits rxAlign
          tr)).2).1 &&& 0x13 = 0
  swap
  · unfold PCD_CommunicateWithPICC_finish at hs
    simp only [if_pos he] at hs
    cases hs
  rw [PCD_CommunicateWithPICC_finish_receive _ _ _ _ _ _ _ _ he] at hs ⊢
  have hsuf : List.IsSuffix tr (BusEvent.read PCD_Register.ErrorReg 1 ::
      (PCD_CommunicateWithPICC_wait p waitIRq 2000
        (PCD_CommunicateWithPICC_start H p command sendData sendLen validBits rxAlign
          tr)).2) := by
    obtain ⟨m, _, _, hm⟩ := PCD_CommunicateWithPICC_wait_trace p waitIRq 2000
      (PCD_CommunicateWithPICC_start H p command sendData sendLen validBits rxAlign tr)
      (by norm_num)
    rw [hm]
    refine List.IsSuffix.trans ?_ (List.suffix_cons _ _)
    refine List.IsSuffix.trans ?_ (List.suffix_append _ _)
    unfold PCD_CommunicateWithPICC_start
    simp only []
    have h0 : List.IsSuffix tr
        (PCD_WriteRegister PCD_Register.CommandReg command
          (PCD_WriteRegister PCD_Register.BitFramingReg
            ((rxAlign <<< 4 + validBits.getD 0) % 256)
            (PCD_WriteRegisterData PCD_Register.FIFODataReg sendLen sendData
              (PCD_SetRegisterBitMask p PCD_Register.FIFOLevelReg 0x80
                (PCD_WriteRegister PCD_Register.ComIrqReg 0x7F
                  (PCD_WriteRegister PCD_Register.CommandReg H.PCD_Idle tr)))))) := by
      refine List.IsSuffix.trans ?_ (List.suffix_cons _ _)
      refine List.IsSuffix.trans ?_ (List.suffix_cons _ _)
      refine List.IsSuffix.trans ?_ (PCD_WriteRegisterData_suffix _ _ _ _)
      refine List.IsSuffix.trans ?_ (PCD_SetRegisterBitMask_suffix _ _ _ _)
      exact List.IsSuffix.trans (List.suffix_cons _ _) (List.suffix_cons _ _)
    split_ifs
    · exact List.IsSuffix.trans h0 (PCD_SetRegisterBitMask_suffix _ _ _ _)
    · exact h0
  refine ⟨_, hsuf, ?_⟩
  generalize PCD_CommunicateWithPICC_reception p data rxAlign
    (BusEvent.read PCD_Register.ErrorReg 1 ::
      (PCD_CommunicateWithPICC_wait p waitIRq 2000
        (PCD_CommunicateWithPICC_start H p command sendData sendLen validBits rxAlign
          tr)).2) = rcv at hs ⊢
  generalize (PCD_ReadRegister p PCD_Register.ErrorReg
      (PCD_CommunicateWithPICC_wait p waitIRq 2000
        (PCD_CommunicateWithPICC_start H p command sendData sendLen validBits rxAlign
          tr)).2).1 = e at hs he ⊢
  by_cases h1 : rcv.level > len
  · rw [if_pos h1] at hs
    cases hs
  rw [if_neg h1] at hs ⊢
  by_cases h2 : e &&& 0x08 ≠ 0
  · rw [if_pos h2] at hs
    cases hs
  rw [if_neg h2, if_pos rfl] at hs ⊢
  have e3 : PCD_CommunicateWithPICC_crc H p rcv.data rcv.level rcv.lastBits rcv.trace =
      (if rcv.level = 1 ∧ rcv.lastBits = 4 then (StatusCode.STATUS_MIFARE_NACK, rcv.trace)
       else if rcv.level < 2 ∨ rcv.lastBits ≠ 0 then (StatusCode.STATUS_CRC_WRONG, rcv.trace)
       else if (PCD_CalculateCRC H p rcv.data (rcv.level - 2) [0, 0] rcv.trace).1
           ≠ StatusCode.STATUS_OK then
         ((PCD_CalculateCRC H p rcv.data (rcv.level - 2) [0, 0] rcv.trace).1,
           (PCD_CalculateCRC H p rcv.data (rcv.level - 2) [0, 0] rcv.trace).2.2)
       else if rcv.data.getD (rcv.level - 2) 0
             ≠ (PCD_CalculateCRC H p rcv.data (rcv.level - 2) [0, 0] rcv.trace).2.1.getD 0 0
           ∨ rcv.data.getD (rcv.level - 1) 0
             ≠ (PCD_CalculateCRC H p rcv.data (rcv.level - 2) [0, 0] rcv.trace).2.1.getD 1 0
           then
         (StatusCode.STATUS_CRC_WRONG,
           (PCD_CalculateCRC H p rcv.data (rcv.level - 2) [0, 0] rcv.trace).2.2)
       else (StatusCode.STATUS_OK,
           (PCD_CalculateCRC H p rcv.data (rcv.level - 2) [0, 0] rcv.trace).2.2)) := rfl
  rw [e3] at hs ⊢
  by_cases h3 : rcv.level = 1 ∧ rcv.lastBits = 4
  · rw [if_pos h3] at hs
    cases hs
  rw [if_neg h3] at hs ⊢
  by_cases h4 : rcv.level < 2 ∨ rcv.lastBits ≠ 0
  · rw [if_pos h4] at hs
    cases hs
  rw [if_neg h4] at hs ⊢
  by_cases h5 : (PCD_CalculateCRC H p rcv.data (rcv.level - 2) [0, 0] rcv.trace).1
      ≠ StatusCode.STATUS_OK
  · rw [if_pos h5] at hs
    exact absurd hs h5
  rw [if_neg h5] at hs ⊢
  by_cases h6 : rcv.data.getD (rcv.level - 2) 0
        ≠ (PCD_CalculateCRC H p rcv.data (rcv.level - 2) [0, 0] rcv.trace).2.1.getD 0 0
      ∨ rcv.data.getD (rcv.level - 1) 0
        ≠ (PCD_CalculateCRC H p rcv.data (rcv.level - 2) [0, 0] rcv.trace).2.1.getD 1 0
  · rw [if_pos h6] at hs
    cases hs
  rw [if_neg h6]
  have hb : rcv.lastBits = 0 := not_not.mp (fun h => h4 (Or.inr h))
  refine ⟨by omega, by omega, hb, not_not.mp h5, not_not.mp (fun h => h6 (Or.inl h)),
    not_not.mp (fun h => h6 (Or.inr h)), ?_⟩
  rw [hb]

/-- C18, as the code has it: `MIFARE_Read` returns STATUS_NO_ROOM without any bus
transaction when `buffer` is NULL or `*bufferSize < 18`.  Whenever it returns
STATUS_OK, `*bufferSize` was at least 18 and is on return the number `n` of
bytes received, with `2 ≤ n` and `n` at most the capacity passed in (the code
does not require `n = 18`); all bits of the last byte were valid;
`buffer[n-2]` and `buffer[n-1]` equal the result of `PCD_CalculateCRC` over
`buffer[0..n-2)`; and with a port that succeeds `buffer[0..n)` are the bytes
received. -/
theorem MIFARE_Read_result (H : Header) (p : RegisterPort) (blockAddr bufferSize : Nat)
    (tr : Trace) :
    MIFARE_Read H p blockAddr none bufferSize tr
        = (StatusCode.STATUS_NO_ROOM, none, bufferSize, tr)
      ∧ (∀ buffer, bufferSize < 18 →
          MIFARE_Read H p blockAddr (some buffer) bufferSize tr
            = (StatusCode.STATUS_NO_ROOM, some buffer, bufferSize, tr))
      ∧ (∀ buffer b n t,
          MIFARE_Read H p blockAddr (some buffer) bufferSize tr
            = (StatusCode.STATUS_OK, b, n, t) →
          18 ≤ bufferSize ∧ 2 ≤ n ∧ n ≤ bufferSize
            ∧ ∃ cmd tE, cmd.length = buffer.length ∧ List.IsSuffix tr tE
                ∧ b = some (PCD_CommunicateWithPICC_reception p cmd 0 tE).data
                ∧ n = (PCD_CommunicateWithPICC_reception p cmd 0 tE).level
                ∧ (PCD_CommunicateWithPICC_reception p cmd 0 tE).lastBits = 0
                ∧ (PCD_CommunicateWithPICC_reception p cmd 0 tE).data.length = buffer.length
                ∧ (PCD_CalculateCRC H p (PCD_CommunicateWithPICC_reception p cmd 0 tE).data
                    (n - 2) [0, 0] (PCD_CommunicateWithPICC_reception p cmd 0 tE).trace).1
                    = StatusCode.STATUS_OK
                ∧ (PCD_CommunicateWithPICC_reception p cmd 0 tE).data.getD (n - 2) 0
                    = (PCD_CalculateCRC H p (PCD_CommunicateWithPICC_reception p cmd 0 tE).data
                        (n - 2) [0, 0]
                        (PCD_CommunicateWithPICC_reception p cmd 0 tE).trace).2.1.getD 0 0
                ∧ (PCD_CommunicateWithPICC_reception p cmd 0 tE).data.getD (n - 1) 0
                    = (PCD_CalculateCRC H p (PCD_CommunicateWithPICC_reception p cmd 0 tE).data
                        (n - 2) [0, 0]
                        (PCD_CommunicateWithPICC_reception p cmd 0 tE).trace).2.1.getD 1 0
                ∧ t = (PCD_CalculateCRC H p (PCD_CommunicateWithPICC_reception p cmd 0 tE).data
                    (n - 2) [0, 0] (PCD_CommunicateWithPICC_reception p cmd 0 tE).trace).2.2
                ∧ ∀ bytes,
                    p.answer (BusEvent.read PCD_Register.FIFOLevelReg 1 :: tE)
                      PCD_Register.FIFODataReg n = ReadAnswer.ok bytes →
                    ∀ i, i < n → i < buffer.length →
                      (PCD_CommunicateWithPICC_reception p cmd 0 tE).data.getD i 0
                        = bytes.getD i 0 % 256) := by
  refine ⟨rfl, fun buffer h => ?_, fun buffer b n t h => ?_⟩
  · unfold MIFARE_Read
    simp only [if_pos h]
  · unfold MIFARE_Read at h
    by_cases h18 : bufferSize < 18
    · simp only [if_pos h18] at h
      cases h
    simp only [if_neg h18] at h
    generalize hcrc : PCD_CalculateCRC H p ((buffer.set 0 H.PICC_CMD_MF_READ).set 1 blockAddr) 2
      (List.drop 2 ((buffer.set 0 H.PICC_CMD_MF_READ).set 1 blockAddr)) tr = crc at h
    have hcl : crc.2.1.length
        = (List.drop 2 ((buffer.set 0 H.PICC_CMD_MF_READ).set 1 blockAddr)).length := by
      rw [← hcrc]
      exact PCD_CalculateCRC_length _ _ _ _ _ _
    have hcs : List.IsSuffix tr crc.2.2 := by
      rw [← hcrc]
      exact PCD_CalculateCRC_suffix _ _ _ _ _ _
    have hlen : (List.take 2 ((buffer.set 0 H.PICC_CMD_MF_READ).set 1 blockAddr)
        ++ crc.2.1).length = buffer.length := by
      rw [List.length_append, hcl]
      simp only [List.length_take, List.length_drop, List.length_set]
      omega
    generalize List.take 2 ((buffer.set 0 H.PICC_CMD_MF_READ).set 1 blockAddr) ++ crc.2.1
      = cmd at h hlen
    by_cases hc : crc.1 ≠ StatusCode.STATUS_OK
    · simp only [if_pos hc, Prod.mk.injEq] at h
      exact absurd h.1 hc
    simp only [if_neg hc, Prod.mk.injEq] at h
    obtain ⟨hst, hb, hn, ht⟩ := h
    unfold PCD_TransceiveData at hst hb hn ht
    obtain ⟨tE, hsuf, hlev2, hlevle, hbits, hk1, hk2, hk3, heq⟩ :=
      PCD_CommunicateWithPICC_checked_ok H p H.PCD_Transceive 0x30 cmd 4 cmd bufferSize none 0
        crc.2.2 hst
    rw [heq] at hb hn ht
    simp only [Option.getD_some] at hb hn ht
    subst hn
    refine ⟨by omega, hlev2, hlevle, cmd, tE, hlen, List.IsSuffix.trans hcs hsuf, hb.symm, rfl,
      hbits, ?_, hk1, hk2, hk3, ht.symm, ?_⟩
    · rw [PCD_CommunicateWithPICC_reception_length, hlen]
    · intro bytes ha i hi1 hi2
      exact (PCD_CommunicateWithPICC_reception_ok p cmd 0 tE bytes ha i).1 hi1
        (by rw [hlen]; exact hi2)

/-- C18 on a card that answers with a full block: STATUS_OK, eighteen bytes. -/
theorem MIFARE_Read_result_witness :
    ∃ t, MIFARE_Read datasheet blockCard 0x04 (some (List.replicate 18 0)) 18 []
          = (StatusCode.STATUS_OK,
              some [0x00, 0x01, 0x02, 0x03, 0x04, 0x05, 0x06, 0x07, 0x08, 0x09, 0x0A, 0x0B,
                0x0C, 0x0D, 0x0E, 0x0F, 0x37, 0x49], 18, t)
      ∧ (18 ≤ 18 ∧ 2 ≤ 18 ∧ 18 ≤ 18) :=
  ⟨_, rfl,
    have h := (MIFARE_Read_result datasheet blockCard 0x04 18 []).2.2
      (List.replicate 18 0) _ 18 _ rfl
    ⟨h.1, h.2.1, h.2.2.1⟩⟩

/-- C18 fails as stated: a card that answers MIFARE Read with four bytes, the
last two matching the coprocessor's result for the first two, makes
`MIFARE_Read` return STATUS_OK with `*bufferSize = 4`. -/
theorem MIFARE_Read_ok_with_4_bytes :
    (MIFARE_Read datasheet shortBlockCard 0x04 (some (List.replicate 18 0)) 18 []).1
        = StatusCode.STATUS_OK
      ∧ (MIFARE_Read datasheet shortBlockCard 0x04 (some (List.replicate 18 0)) 18 []).2.2.1
        = 4
      ∧ (MIFARE_Read datasheet shortBlockCard 0x04 (some (List.replicate 18 0)) 18 []).2.1
        = some [0x11, 0x22, 0x37, 0x49, 0, 0, 0, 0, 0, 0, 0, 0, 0, 0, 0, 0, 0, 0] := by
  decide

/-! ## The frame buffer of `PICC_Select` keeps its nine bytes -/

theorem copyBytes_length (src : List Nat) (srcIndex : Nat) (dst : List Nat) (dstIndex : Nat) :
    ∀ n, (copyBytes src srcIndex dst dstIndex n).length = dst.length
  | 0 => rfl
  | n + 1 => by
    unfold copyBytes
    rw [List.length_set]
    exact copyBytes_length src srcIndex dst dstIndex n

theorem copyBytes_getElem?_lt (src : List Nat) (srcIndex : Nat) (dst : List Nat)
    (dstIndex i : Nat) (h : i < dstIndex) :
    ∀ n, (copyBytes src srcIndex dst dstIndex n)[i]? = dst[i]?
  | 0 => rfl
  | n + 1 => by
    unfold copyBytes
    rw [List.getElem?_set, if_neg (by omega)]
    exact copyBytes_getElem?_lt src srcIndex dst dstIndex i h n

theorem PICC_Select_known_length (H : Header) (validBits : Nat) (uid : Uid) (uidIndex : Nat)
    (useCascadeTag : Bool) (buffer : List Nat) :
    (PICC_Select_known H validBits uid uidIndex useCascadeTag buffer).1.length
      = buffer.length := by
  unfold PICC_Select_known
  simp only []
  split_ifs <;> simp [copyBytes_length]

theorem PICC_Select_known_head (H : Header) (validBits : Nat) (uid : Uid) (uidIndex : Nat)
    (useCascadeTag : Bool) (buffer : List Nat) :
    (PICC_Select_known H validBits uid uidIndex useCascadeTag buffer).1[0]? = buffer[0]? := by
  unfold PICC_Select_known
  simp only []
  split_ifs <;> simp [copyBytes_getElem?_lt, List.getElem?_set]

/-- The window `&buffer[responseOffset]` keeps its length through the transceive
of a round, and all three out-parameters are written. -/
theorem PICC_Select_transceive_outputs (H : Header) (p : RegisterPort) (buffer : List Nat)
    (txLastBits bufferUsed responseOffset responseLength : Nat) (tr : Trace) :
    ∃ d l b,
      (PICC_Select_transceive H p buffer txLastBits bufferUsed responseOffset responseLength
        tr).backData = some d
      ∧ (PICC_Select_transceive H p buffer txLastBits bufferUsed responseOffset responseLength
        tr).backLen = some l
      ∧ (PICC_Select_transceive H p buffer txLastBits bufferUsed responseOffset responseLength
        tr).validBits = some b
      ∧ d.length = buffer.length - responseOffset ∧ l ≤ responseLength := by
  obtain ⟨d, l, b, h1, h2, h3, h4, h5⟩ :=
    PCD_CommunicateWithPICC_outputs H p H.PCD_Transceive 0x30 buffer bufferUsed
      (buffer.drop responseOffset) responseLength txLastBits txLastBits false
      (PCD_WriteRegister PCD_Register.BitFramingReg ((txLastBits <<< 4) + txLastBits) tr)
  exact ⟨d, l, b, h1, h2, h3, by rw [h4, List.length_drop], h5⟩

/-- A round that ends with `selectDone = true` had all 32 bits, its transceive
returned STATUS_OK, and the frame buffer is the one sent with the response in
its window. -/
theorem PICC_Select_exchange_selected (H : Header) (p : RegisterPort) (k : Nat)
    (buffer : List Nat) (txLastBits bufferUsed responseOffset responseLength : Nat)
    (tr : Trace) (b1 : List Nat) (l1 x1 : Nat) (t1 : Trace)
    (h : PICC_Select_exchange H p k buffer txLastBits bufferUsed responseOffset
      responseLength tr = Round.selected b1 l1 x1 t1) :
    32 ≤ k
      ∧ ∃ d,
        (PICC_Select_transceive H p buffer txLastBits bufferUsed responseOffset
          responseLength tr).status = StatusCode.STATUS_OK
        ∧ (PICC_Select_transceive H p buffer txLastBits bufferUsed responseOffset
          responseLength tr).backData = some d
        ∧ (PICC_Select_transceive H p buffer txLastBits bufferUsed responseOffset
          responseLength tr).backLen = some l1
        ∧ (PICC_Select_transceive H p buffer txLastBits bufferUsed responseOffset
          responseLength tr).validBits = some x1
        ∧ (PICC_Select_transceive H p buffer txLastBits bufferUsed responseOffset
          responseLength tr).trace = t1
        ∧ d.length = buffer.length - responseOffset
        ∧ b1 = buffer.take responseOffset ++ d := by
  obtain ⟨d, l, b, h1, h2, h3, h4, _⟩ := PICC_Select_transceive_outputs H p buffer txLastBits
    bufferUsed responseOffset responseLength tr
  unfold PICC_Select_exchange at h
  simp only [] at h
  have hτ : PCD_TransceiveData H p buffer bufferUsed (some (buffer.drop responseOffset))
      (some responseLength) (some txLastBits) txLastBits false
      (PCD_WriteRegister PCD_Register.BitFramingReg ((txLastBits <<< 4) + txLastBits) tr)
      = PICC_Select_transceive H p buffer txLastBits bufferUsed responseOffset responseLength
        tr := rfl
  rw [hτ] at h
  generalize PICC_Select_transceive H p buffer txLastBits bufferUsed responseOffset
    responseLength tr = τ at h h1 h2 h3 ⊢
  by_cases c1 : τ.status = StatusCode.STATUS_COLLISION
  · rw [if_pos c1] at h
    split_ifs at h
  · rw [if_neg c1] at h
    by_cases c4 : τ.status ≠ StatusCode.STATUS_OK
    · rw [if_pos c4] at h
      cases h
    · rw [if_neg c4] at h
      by_cases c5 : k ≥ 32
      · rw [if_pos c5, h1, h2, h3] at h
        simp only [Option.getD_some, Round.selected.injEq] at h
        obtain ⟨e1, e2, e3, e4⟩ := h
        subst e2 e3
        exact ⟨c5, d, not_not.mp c4, h1, h2, h3, e4, h4, e1.symm⟩
      · rw [if_neg c5] at h
        cases h

/-- A round that asks for another one leaves the frame buffer its length and,
the response window not starting at byte 0, its first byte. -/
theorem PICC_Select_exchange_again_buffer (H : Header) (p : RegisterPort) (k : Nat)
    (buffer : List Nat) (txLastBits bufferUsed responseOffset responseLength : Nat)
    (tr : Trace) (k1 : Nat) (b1 : List Nat) (t1 : Trace) (ho : 1 ≤ responseOffset)
    (hl : responseOffset ≤ buffer.length)
    (h : PICC_Select_exchange H p k buffer txLastBits bufferUsed responseOffset
      responseLength tr = Round.again k1 b1 t1) :
    b1.length = buffer.length ∧ b1[0]? = buffer[0]? := by
  obtain ⟨d, l, b, h1, h2, h3, h4, _⟩ := PICC_Select_transceive_outputs H p buffer txLastBits
    bufferUsed responseOffset responseLength tr
  have hlen : (buffer.take responseOffset ++ d).length = buffer.length := by
    rw [List.length_append, List.length_take, h4]
    omega
  have hhead : (buffer.take responseOffset ++ d)[0]? = buffer[0]? := by
    rw [List.getElem?_append_left (by rw [List.length_take]; omega), List.getElem?_take]
    simp
    omega
  unfold PICC_Select_exchange at h
  simp only [] at h
  have hτ : PCD_TransceiveData H p buffer bufferUsed (some (buffer.drop responseOffset))
      (some responseLength) (some txLastBits) txLastBits false
      (PCD_WriteRegister PCD_Register.BitFramingReg ((txLastBits <<< 4) + txLastBits) tr)
      = PICC_Select_transceive H p buffer txLastBits bufferUsed responseOffset responseLength
        tr := rfl
  rw [hτ] at h
  generalize PICC_Select_transceive H p buffer txLastBits bufferUsed responseOffset
    responseLength tr = τ at h h1 h2 h3 ⊢
  rw [h1] at h
  simp only [Option.getD_some] at h
  split_ifs at h <;>
    (simp only [Round.again.injEq] at h
     obtain ⟨_, e1, _⟩ := h
     rw [← e1]
     first
       | exact ⟨hlen, hhead⟩
       | (refine ⟨by rw [List.length_set, hlen], ?_⟩
          rw [List.getElem?_set, if_neg (by omega), hhead]))

/-! ## The two frames of a round -/

/-- With fewer than 32 bits known, a round is the exchange of an ANTICOLLISION
frame. -/
theorem PICC_Select_round_lt (H : Header) (p : RegisterPort) (k : Nat) (buffer : List Nat)
    (tr : Trace) (hk : k < 32) :
    PICC_Select_round H p k buffer tr
      = PICC_Select_exchange H p k (buffer.set 1 (16 * (2 + k / 8) + k % 8)) (k % 8)
          (2 + (k + 7) / 8) (2 + k / 8) (7 - k / 8) tr := by
  unfold PICC_Select_round
  rw [if_neg (by omega)]
  simp only []
  have e1 : (((2 + k / 8) <<< 4) + k % 8) % 256 = 16 * (2 + k / 8) + k % 8 := by
    rw [Nat.shiftLeft_eq]
    omega
  have e2 : 2 + k / 8 + (if k % 8 ≠ 0 then 1 else 0) = 2 + (k + 7) / 8 := by
    split_ifs <;> omega
  have e3 : 9 - (2 + k / 8) = 7 - k / 8 := by omega
  rw [e1, e2, e3]

/-- With all 32 bits known, a round computes the CRC_A of the first seven bytes
of the SELECT frame and, unless that fails, exchanges the nine bytes. -/
theorem PICC_Select_round_ge (H : Header) (p : RegisterPort) (k : Nat)
    (x0 x1 x2 x3 x4 x5 x6 x7 x8 : Nat) (tr : Trace) (hk : 32 ≤ k) :
    PICC_Select_round H p k [x0, x1, x2, x3, x4, x5, x6, x7, x8] tr
      = if (PCD_CalculateCRC H p [x0, 0x70, x2, x3, x4, x5, x2 ^^^ x3 ^^^ x4 ^^^ x5, x7, x8] 7
            [x7, x8] tr).1 ≠ StatusCode.STATUS_OK then
          Round.exit
            (PCD_CalculateCRC H p [x0, 0x70, x2, x3, x4, x5, x2 ^^^ x3 ^^^ x4 ^^^ x5, x7, x8] 7
              [x7, x8] tr).1
            (PCD_CalculateCRC H p [x0, 0x70, x2, x3, x4, x5, x2 ^^^ x3 ^^^ x4 ^^^ x5, x7, x8] 7
              [x7, x8] tr).2.2
        else
          PICC_Select_exchange H p k
            ([x0, 0x70, x2, x3, x4, x5, x2 ^^^ x3 ^^^ x4 ^^^ x5] ++
              (PCD_CalculateCRC H p [x0, 0x70, x2, x3, x4, x5, x2 ^^^ x3 ^^^ x4 ^^^ x5, x7, x8] 7
                [x7, x8] tr).2.1)
            0 9 6 3
            (PCD_CalculateCRC H p [x0, 0x70, x2, x3, x4, x5, x2 ^^^ x3 ^^^ x4 ^^^ x5, x7, x8] 7
              [x7, x8] tr).2.2 := by
  unfold PICC_Select_round
  rw [if_pos hk]
  rfl

/-- A list of nine bytes, spelled out. -/
theorem nine_bytes (b : List Nat) (h : b.length = 9) :
    ∃ x0 x1 x2 x3 x4 x5 x6 x7 x8, b = [x0, x1, x2, x3, x4, x5, x6, x7, x8] := by
  match b, h with
  | [x0, x1, x2, x3, x4, x5, x6, x7, x8], _ => exact ⟨_, _, _, _, _, _, _, _, _, rfl⟩

/-- A list of two bytes, spelled out. -/
theorem two_bytes (b : List Nat) (h : b.length = 2) : ∃ x0 x1, b = [x0, x1] := by
  match b, h with
  | [x0, x1], _ => exact ⟨_, _, rfl⟩

/-- A list of three bytes, spelled out. -/
theorem three_bytes (b : List Nat) (h : b.length = 3) : ∃ x0 x1 x2, b = [x0, x1, x2] := by
  match b, h with
  | [x0, x1, x2], _ => exact ⟨_, _, _, rfl⟩

/-- Another round leaves the nine bytes of the frame buffer in place, and
`buffer[0]`, the SEL byte, as it was. -/
theorem PICC_Select_round_again_buffer (H : Header) (p : RegisterPort) (k : Nat)
    (buffer : List Nat) (tr : Trace) (k1 : Nat) (b1 : List Nat) (t1 : Trace)
    (hb : buffer.length = 9)
    (h : PICC_Select_round H p k buffer tr = Round.again k1 b1 t1) :
    b1.length = 9 ∧ b1[0]? = buffer[0]? := by
  by_cases hk : k < 32
  · rw [PICC_Select_round_lt H p k buffer tr hk] at h
    obtain ⟨h1, h2⟩ := PICC_Select_exchange_again_buffer H p k _ _ _ _ _ _ _ _ _ (by omega)
      (by rw [List.length_set]; omega) h
    rw [List.length_set] at h1
    rw [List.getElem?_set, if_neg (by omega)] at h2
    exact ⟨by rw [h1, hb], h2⟩
  · obtain ⟨x0, x1, x2, x3, x4, x5, x6, x7, x8, rfl⟩ := nine_bytes buffer hb
    rw [PICC_Select_round_ge H p k _ _ _ _ _ _ _ _ _ tr (by omega)] at h
    have hc := PCD_CalculateCRC_length H p
      [x0, 0x70, x2, x3, x4, x5, x2 ^^^ x3 ^^^ x4 ^^^ x5, x7, x8] 7 [x7, x8] tr
    split_ifs at h
    obtain ⟨h1, h2⟩ := PICC_Select_exchange_again_buffer H p k _ _ _ _ _ _ _ _ _ (by omega)
      (by rw [List.length_append, hc]; simp) h
    rw [List.length_append, hc] at h1
    exact ⟨h1, h2⟩

/-- A round that ends with `selectDone = true` has sent a SELECT frame of nine
bytes, and the frame buffer then holds the first six of them followed by the
three bytes of the response window. -/
theorem PICC_Select_round_selected (H : Header) (p : RegisterPort) (k : Nat)
    (buffer : List Nat) (tr : Trace) (b1 : List Nat) (l1 x1 : Nat) (t1 : Trace)
    (hb : buffer.length = 9)
    (h : PICC_Select_round H p k buffer tr = Round.selected b1 l1 x1 t1) :
    32 ≤ k
      ∧ ∃ frame t0 d,
        frame.length = 9
        ∧ frame[0]? = buffer[0]?
        ∧ frame[1]? = some 0x70
        ∧ (PICC_Select_transceive H p frame 0 9 6 3 t0).status = StatusCode.STATUS_OK
        ∧ (PICC_Select_transceive H p frame 0 9 6 3 t0).backData = some d
        ∧ (PICC_Select_transceive H p frame 0 9 6 3 t0).backLen = some l1
        ∧ (PICC_Select_transceive H p frame 0 9 6 3 t0).validBits = some x1
        ∧ (PICC_Select_transceive H p frame 0 9 6 3 t0).trace = t1
        ∧ d.length = 3
        ∧ b1 = frame.take 6 ++ d := by
  by_cases hk : k < 32
  · rw [PICC_Select_round_lt H p k buffer tr hk] at h
    have := (PICC_Select_exchange_selected H p k _ _ _ _ _ _ _ _ _ _ h).1
    omega
  · obtain ⟨x0, x1, x2, x3, x4, x5, x6, x7, x8, rfl⟩ := nine_bytes buffer hb
    rw [PICC_Select_round_ge H p k _ _ _ _ _ _ _ _ _ tr (by omega)] at h
    have hc := PCD_CalculateCRC_length H p
      [x0, 0x70, x2, x3, x4, x5, x2 ^^^ x3 ^^^ x4 ^^^ x5, x7, x8] 7 [x7, x8] tr
    generalize PCD_CalculateCRC H p
      [x0, 0x70, x2, x3, x4, x5, x2 ^^^ x3 ^^^ x4 ^^^ x5, x7, x8] 7 [x7, x8] tr = c at h hc
    obtain ⟨lo, hi, hlh⟩ := two_bytes c.2.1 hc
    rw [hlh] at h
    split_ifs at h
    obtain ⟨h0, d, h1, h2, h3, h4, h5, h6, h7⟩ :=
      PICC_Select_exchange_selected H p k _ _ _ _ _ _ _ _ _ _ h
    exact ⟨h0, [x0, 0x70, x2, x3, x4, x5, x2 ^^^ x3 ^^^ x4 ^^^ x5, lo, hi], c.2.2, d, rfl, rfl, rfl,
      h1, h2, h3, h4, h5, h6, h7⟩

/-! ## The passes of the two loops -/

/-- Through the passes of `while (!selectDone)` the frame buffer keeps its nine
bytes and its SEL byte. -/
theorem PICC_Select_passes_buffer (H : Header) (p : RegisterPort) (k0 : Nat)
    (buffer0 : List Nat) (tr0 : Trace) (k : Nat) (buffer : List Nat) (tr : Trace)
    (hb : buffer0.length = 9)
    (h : PICC_Select_passes H p k0 buffer0 tr0 k buffer tr) :
    buffer.length = 9 ∧ buffer[0]? = buffer0[0]? := by
  induction h with
  | first => exact ⟨hb, rfl⟩
  | again _ hr ih =>
    obtain ⟨h1, h2⟩ := PICC_Select_round_again_buffer H p _ _ _ _ _ _ ih.1 hr
    exact ⟨h1, h2.trans ih.2⟩

/-- What `while (!selectDone)` ends with is the result of a round of one of its
passes. -/
theorem PICC_Select_anticollision_passes (H : Header) (p : RegisterPort) (k0 : Nat)
    (buffer0 : List Nat) (tr0 : Trace) :
    ∀ (fuel k : Nat) (buffer : List Nat) (tr : Trace) (r : Round),
      PICC_Select_passes H p k0 buffer0 tr0 k buffer tr →
      PICC_Select_anticollision H p fuel k buffer tr = some r →
        ∃ k1 b1 t1, PICC_Select_passes H p k0 buffer0 tr0 k1 b1 t1
          ∧ PICC_Select_round H p k1 b1 t1 = r := by
  intro fuel
  induction fuel with
  | zero =>
    intro k buffer tr r _ h
    simp [PICC_Select_anticollision] at h
  | succ fuel ih =>
    intro k buffer tr r hp h
    unfold PICC_Select_anticollision at h
    cases hr : PICC_Select_round H p k buffer tr with
    | exit s1 t1 =>
      rw [hr] at h
      simp only [Option.some.injEq] at h
      exact ⟨k, buffer, tr, hp, hr.trans h⟩
    | again k1 b1 t1 =>
      rw [hr] at h
      exact ih _ _ _ _ (PICC_Select_passes.again hp hr) h
    | selected b1 l1 x1 t1 =>
      rw [hr] at h
      simp only [Option.some.injEq] at h
      exact ⟨k, buffer, tr, hp, hr.trans h⟩

/-- A pass of the cascade loop that does not end by `return` has ended its
`while (!selectDone)` with `selectDone = true`. -/
theorem PICC_Select_level_selected (H : Header) (p : RegisterPort)
    (validBits cascadeLevel : Nat) (uid : Uid) (buffer : List Nat) (tr : Trace) (lv : Level)
    (h : PICC_Select_level H p validBits cascadeLevel uid buffer tr = some lv)
    (hx : ∀ s u t, lv ≠ Level.exit s u t) :
    ∃ sel uidIndex useCascadeTag b1 l1 x1 t1,
      PICC_Select_switch H cascadeLevel validBits uid = some (sel, uidIndex, useCascadeTag)
      ∧ PICC_Select_anticollision H p selectRounds
          (PICC_Select_known H validBits uid uidIndex useCascadeTag (buffer.set 0 sel)).2
          (PICC_Select_known H validBits uid uidIndex useCascadeTag (buffer.set 0 sel)).1 tr
        = some (Round.selected b1 l1 x1 t1)
      ∧ PICC_Select_sak H p uid uidIndex b1 l1 x1 t1 = lv := by
  unfold PICC_Select_level at h
  cases hs : PICC_Select_switch H cascadeLevel validBits uid with
  | none =>
    rw [hs] at h
    simp only [Option.some.injEq] at h
    exact absurd h.symm (hx _ _ _)
  | some x =>
    obtain ⟨sel, uidIndex, useCascadeTag⟩ := x
    rw [hs] at h
    simp only [] at h
    cases ha : PICC_Select_anticollision H p selectRounds
        (PICC_Select_known H validBits uid uidIndex useCascadeTag (buffer.set 0 sel)).2
        (PICC_Select_known H validBits uid uidIndex useCascadeTag (buffer.set 0 sel)).1 tr with
    | none =>
      rw [ha] at h
      simp at h
    | some r =>
      rw [ha] at h
      cases r with
      | exit s1 t1 =>
        simp only [Option.some.injEq] at h
        exact absurd h.symm (hx _ _ _)
      | again k1 b1 t1 => simp at h
      | selected b1 l1 x1 t1 =>
        simp only [Option.some.injEq] at h
        exact ⟨sel, uidIndex, useCascadeTag, b1, l1, x1, t1, rfl, ha, h⟩

/-- The frame buffer keeps its length when the SAK asks for the next cascade
level. -/
theorem PICC_Select_sak_next_buffer (H : Header) (p : RegisterPort) (uid : Uid)
    (uidIndex : Nat) (buffer : List Nat) (responseLength txLastBits : Nat) (tr : Trace)
    (u : Uid) (b1 : List Nat) (t1 : Trace) (hb : 2 ≤ buffer.length)
    (h : PICC_Select_sak H p uid uidIndex buffer responseLength txLastBits tr
      = Level.next u b1 t1) : b1.length = buffer.length := by
  unfold PICC_Select_sak at h
  simp only [] at h
  have hc := PCD_CalculateCRC_length H p (buffer.drop 6) 1 (buffer.drop 2) tr
  split_ifs at h <;>
    (simp only [Level.next.injEq] at h
     obtain ⟨_, e, _⟩ := h
     rw [← e, List.length_append, hc, List.length_take, List.length_drop]
     omega)

/-- A pass of the cascade loop hands nine bytes to the next one. -/
theorem PICC_Select_level_next_buffer (H : Header) (p : RegisterPort)
    (validBits cascadeLevel : Nat) (uid : Uid) (buffer : List Nat) (tr : Trace) (u : Uid)
    (b1 : List Nat) (t1 : Trace) (hb : buffer.length = 9)
    (h : PICC_Select_level H p validBits cascadeLevel uid buffer tr
      = some (Level.next u b1 t1)) : b1.length = 9 := by
  obtain ⟨sel, uidIndex, useCascadeTag, b2, l2, x2, t2, _, ha, hs⟩ :=
    PICC_Select_level_selected H p validBits cascadeLevel uid buffer tr _ h
      (fun _ _ _ e => by cases e)
  obtain ⟨k3, b3, t3, hp, hr⟩ := PICC_Select_anticollision_passes H p _ _ _ _ _ _ _ _
    PICC_Select_passes.first ha
  have h9 := (PICC_Select_passes_buffer H p _ _ _ _ _ _
    (by rw [PICC_Select_known_length, List.length_set, hb]) hp).1
  obtain ⟨_, frame, t0, d, hf, _, _, _, _, _, _, _, hd, hb2⟩ :=
    PICC_Select_round_selected H p _ _ _ _ _ _ _ h9 hr
  have h2 : b2.length = 9 := by
    rw [hb2, List.length_append, List.length_take, hf, hd]
    rfl
  rw [PICC_Select_sak_next_buffer H p _ _ _ _ _ _ _ _ _ (by omega) hs, h2]

/-- Every pass of the cascade loop begins with nine bytes in the frame buffer. -/
theorem PICC_Select_enters_buffer (H : Header) (p : RegisterPort) (validBits : Nat)
    (uid0 : Uid) (buffer0 : List Nat) (tr0 : Trace) (cascadeLevel : Nat) (uid : Uid)
    (buffer : List Nat) (tr : Trace) (hb : buffer0.length = 9)
    (h : PICC_Select_enters H p validBits uid0 buffer0 tr0 cascadeLevel uid buffer tr) :
    buffer.length = 9 := by
  induction h with
  | first => exact hb
  | next _ hl ih => exact PICC_Select_level_next_buffer H p _ _ _ _ _ _ _ _ ih hl

/-- A successful run of the cascade loop ends in a pass that was begun and
completed. -/
theorem PICC_Select_cascade_enters (H : Header) (p : RegisterPort) (validBits : Nat)
    (uid0 : Uid) (buffer0 : List Nat) (tr0 : Trace) :
    ∀ (fuel cascadeLevel : Nat) (uid : Uid) (buffer : List Nat) (tr : Trace) (u : Uid)
      (t : Trace),
      PICC_Select_enters H p validBits uid0 buffer0 tr0 cascadeLevel uid buffer tr →
      PICC_Select_cascade H p validBits fuel cascadeLevel uid buffer tr
          = some (StatusCode.STATUS_OK, u, t) →
        ∃ L uidL bufferL trL uL,
          PICC_Select_enters H p validBits uid0 buffer0 tr0 L uidL bufferL trL
            ∧ PICC_Select_level H p validBits L uidL bufferL trL = some (Level.complete uL t)
            ∧ u = { uL with size := 3 * L + 1 } := by
  intro fuel
  induction fuel with
  | zero =>
    intro cascadeLevel uid buffer tr u t _ h
    simp [PICC_Select_cascade] at h
  | succ fuel ih =>
    intro cascadeLevel uid buffer tr u t he h
    unfold PICC_Select_cascade at h
    cases hl : PICC_Select_level H p validBits cascadeLevel uid buffer tr with
    | none =>
      rw [hl] at h
      simp at h
    | some r =>
      rw [hl] at h
      cases r with
      | exit s1 u1 t1 =>
        simp only [Option.some.injEq, Prod.mk.injEq] at h
        exact absurd h.1 (PICC_Select_level_exit _ _ _ _ _ _ _ _ _ _ hl)
      | next u1 b1 t1 => exact ih _ _ _ _ _ _ (PICC_Select_enters.next he hl) h
      | complete u1 t1 =>
        simp only [Option.some.injEq, Prod.mk.injEq] at h
        refine ⟨cascadeLevel, uid, buffer, tr, u1, he, ?_, h.2.1.symm⟩
        rw [hl, h.2.2]

theorem localArray_length (n : Nat) (junk : Nat → Nat) : (localArray n junk).length = n := by
  simp [localArray]

/-! ## The frames `PICC_Select` transmits -/

/-- Every round of the call begins with nine bytes in the frame buffer, the
first being the SEL byte of the cascade level, which is 1, 2 or 3. -/
theorem PICC_Select_rounds_buffer (H : Header) (p : RegisterPort) (junk : Nat → Nat)
    (uid : Uid) (validBits : Nat) (tr : Trace) (cascadeLevel sel uidIndex k : Nat)
    (buffer : List Nat) (t : Trace)
    (h : PICC_Select_rounds H p junk uid validBits tr cascadeLevel sel uidIndex k buffer t) :
    buffer.length = 9 ∧ buffer[0]? = some sel
      ∧ ((cascadeLevel = 1 ∧ sel = H.PICC_CMD_SEL_CL1)
        ∨ (cascadeLevel = 2 ∧ sel = H.PICC_CMD_SEL_CL2)
        ∨ (cascadeLevel = 3 ∧ sel = H.PICC_CMD_SEL_CL3)) := by
  obtain ⟨_, uidL, bufferL, trL, useCascadeTag, he, hs, hp⟩ := h
  have h9 := PICC_Select_enters_buffer H p _ _ _ _ _ _ _ _ (localArray_length 9 junk) he
  obtain ⟨h1, h2⟩ := PICC_Select_passes_buffer H p _ _ _ _ _ _
    (by rw [PICC_Select_known_length, List.length_set, h9]) hp
  refine ⟨h1, ?_, ?_⟩
  · rw [h2, PICC_Select_known_head, List.getElem?_set_self]
    simp [h9]
  · unfold PICC_Select_switch at hs
    split at hs
    · simp only [Option.some.injEq, Prod.mk.injEq] at hs
      exact Or.inl ⟨rfl, hs.1.symm⟩
    · simp only [Option.some.injEq, Prod.mk.injEq] at hs
      exact Or.inr (Or.inl ⟨rfl, hs.1.symm⟩)
    · simp only [Option.some.injEq, Prod.mk.injEq] at hs
      exact Or.inr (Or.inr ⟨rfl, hs.1.symm⟩)
    · simp at hs

/-- The trace of `PCD_CommunicateWithPICC` begins with the loading of the FIFO
and the start of the command. -/
theorem PCD_CommunicateWithPICC_start_suffix (H : Header) (p : RegisterPort)
    (command waitIRq : Nat) (sendData : List Nat) (sendLen : Nat) (backData : Option (List Nat))
    (backLen validBits : Option Nat) (rxAlign : Nat) (checkCRC : Bool) (tr : Trace) :
    List.IsSuffix
      (PCD_CommunicateWithPICC_start H p command sendData sendLen validBits rxAlign tr)
      (PCD_CommunicateWithPICC H p command waitIRq sendData sendLen backData backLen validBits
        rxAlign checkCRC tr).trace := by
  unfold PCD_CommunicateWithPICC
  simp only []
  obtain ⟨m, _, _, hm⟩ := PCD_CommunicateWithPICC_wait_trace p waitIRq 2000
    (PCD_CommunicateWithPICC_start H p command sendData sendLen validBits rxAlign tr)
    (by decide)
  have hw : List.IsSuffix
      (PCD_CommunicateWithPICC_start H p command sendData sendLen validBits rxAlign tr)
      (PCD_CommunicateWithPICC_wait p waitIRq 2000
        (PCD_CommunicateWithPICC_start H p command sendData sendLen validBits rxAlign tr)).2 := by
    rw [hm]
    exact List.suffix_append _ _
  split_ifs
  · exact hw
  · exact hw.trans ((List.suffix_cons _ _).trans
      (PCD_CommunicateWithPICC_finish_suffix H p backData backLen validBits rxAlign checkCRC _))

/-- C16: whenever a round of `PICC_Select` begins with `k < 32` known bits of
the current cascade level, it writes `16 * (2 + k / 8) + k % 8` to `buffer[1]`
(NVB), writes BitFramingReg with RxAlign = TxLastBits = `k % 8` and makes the
call `PCD_CommunicateWithPICC(PCD_Transceive, 0x30, buffer, 2 + ceil(k / 8),
&buffer[2 + k / 8], &responseLength, &txLastBits, k % 8, false)` with
`responseLength = 7 - k / 8` and `txLastBits = k % 8`, CRC checking off.  The
result of the round is what lines 871-902 make of the result of that call: on
STATUS_COLLISION the reaction to CollReg, on another failure the return of its
status, on STATUS_OK another round with 32 known bits and the response in the
window.  The call loads the FIFO with the first `2 + ceil(k / 8)` bytes of the
frame and writes `16 * (k % 8) + k % 8` to BitFramingReg before it starts the
command; the frame has nine bytes with the SEL byte first, and the window
`&buffer[2 + k / 8]` has exactly `7 - k / 8` bytes. -/
theorem PICC_Select_anticollision_frame (H : Header) (p : RegisterPort) (junk : Nat → Nat)
    (uid : Uid) (validBits : Nat) (tr : Trace) (cascadeLevel sel uidIndex k : Nat)
    (buffer : List Nat) (t : Trace)
    (h : PICC_Select_rounds H p junk uid validBits tr cascadeLevel sel uidIndex k buffer t)
    (hk : k < 32) :
    let frame := buffer.set 1 (16 * (2 + k / 8) + k % 8)
    let τ := PCD_CommunicateWithPICC H p H.PCD_Transceive 0x30 frame (2 + (k + 7) / 8)
      (some (frame.drop (2 + k / 8))) (some (7 - k / 8)) (some (k % 8)) (k % 8) false
      (BusEvent.write PCD_Register.BitFramingReg [16 * (k % 8) + k % 8] :: t)
    let received := frame.take (2 + k / 8) ++ τ.backData.getD (frame.drop (2 + k / 8))
    PICC_Select_round H p k buffer t
        = (if τ.status = StatusCode.STATUS_COLLISION then
            let result := PCD_ReadRegister p PCD_Register.CollReg τ.trace
            if result.1 &&& 0x20 ≠ 0 then Round.exit StatusCode.STATUS_COLLISION result.2
            else
              let collisionPos := if result.1 &&& 0x1F = 0 then 32 else result.1 &&& 0x1F
              if collisionPos ≤ k then Round.exit StatusCode.STATUS_INTERNAL_ERROR result.2
              else
                let count := (collisionPos - 1) % 8
                let index := 1 + collisionPos / 8 + (if count ≠ 0 then 1 else 0)
                Round.again collisionPos
                  (received.set index ((received.getD index 0 ||| (1 <<< count)) % 256))
                  result.2
          else if τ.status ≠ StatusCode.STATUS_OK then Round.exit τ.status τ.trace
          else Round.again 32 received τ.trace)
      ∧ List.IsSuffix
          (PCD_SetRegisterBitMask p PCD_Register.BitFramingReg 0x80
            (BusEvent.write PCD_Register.CommandReg [H.PCD_Transceive % 256] ::
              BusEvent.write PCD_Register.BitFramingReg [16 * (k % 8) + k % 8] ::
              BusEvent.write PCD_Register.FIFODataReg (frame.take (2 + (k + 7) / 8)) ::
              PCD_SetRegisterBitMask p PCD_Register.FIFOLevelReg 0x80
                (BusEvent.write PCD_Register.ComIrqReg [0x7F] ::
                  BusEvent.write PCD_Register.CommandReg [H.PCD_Idle % 256] ::
                  BusEvent.write PCD_Register.BitFramingReg [16 * (k % 8) + k % 8] :: t)))
          τ.trace
      ∧ frame.length = 9
      ∧ frame[0]? = some sel
      ∧ (frame.take (2 + (k + 7) / 8)).length = 2 + (k + 7) / 8
      ∧ (frame.drop (2 + k / 8)).length = 7 - k / 8 := by
  obtain ⟨h9, h0, _⟩ := PICC_Select_rounds_buffer H p _ _ _ _ _ _ _ _ _ _ h
  have hf : (buffer.set 1 (16 * (2 + k / 8) + k % 8)).length = 9 := by
    rw [List.length_set, h9]
  have e : ((k % 8) <<< 4 + k % 8) % 256 = 16 * (k % 8) + k % 8 := by
    rw [Nat.shiftLeft_eq]
    omega
  have e1 : (16 * (k % 8) + k % 8) % 256 = 16 * (k % 8) + k % 8 := by omega
  simp only []
  refine ⟨?_, ?_, hf, ?_, ?_, ?_⟩
  · have e1 : (((2 + k / 8) <<< 4) + k % 8) % 256 = 16 * (2 + k / 8) + k % 8 := by
      rw [Nat.shiftLeft_eq]
      omega
    have e2 : 2 + k / 8 + (if k % 8 ≠ 0 then 1 else 0) = 2 + (k + 7) / 8 := by
      split_ifs <;> omega
    have e3 : 9 - (2 + k / 8) = 7 - k / 8 := by omega
    unfold PICC_Select_round PICC_Select_exchange PCD_TransceiveData PCD_WriteRegister
    rw [if_neg (show ¬ k ≥ 32 by omega)]
    simp only []
    rw [e1, e2, e3, e, if_neg (show ¬ k ≥ 32 by omega)]
  · have hs := PCD_CommunicateWithPICC_start_suffix H p H.PCD_Transceive 0x30
      (buffer.set 1 (16 * (2 + k / 8) + k % 8)) (2 + (k + 7) / 8)
      (some ((buffer.set 1 (16 * (2 + k / 8) + k % 8)).drop (2 + k / 8))) (some (7 - k / 8))
      (some (k % 8)) (k % 8) false
      (BusEvent.write PCD_Register.BitFramingReg [16 * (k % 8) + k % 8] :: t)
    have hstart : PCD_CommunicateWithPICC_start H p H.PCD_Transceive
        (buffer.set 1 (16 * (2 + k / 8) + k % 8)) (2 + (k + 7) / 8) (some (k % 8)) (k % 8)
        (BusEvent.write PCD_Register.BitFramingReg [16 * (k % 8) + k % 8] :: t)
        = PCD_SetRegisterBitMask p PCD_Register.BitFramingReg 0x80
            (BusEvent.write PCD_Register.CommandReg [H.PCD_Transceive % 256] ::
              BusEvent.write PCD_Register.BitFramingReg [16 * (k % 8) + k % 8] ::
              BusEvent.write PCD_Register.FIFODataReg
                ((buffer.set 1 (16 * (2 + k / 8) + k % 8)).take (2 + (k + 7) / 8)) ::
              PCD_SetRegisterBitMask p PCD_Register.FIFOLevelReg 0x80
                (BusEvent.write PCD_Register.ComIrqReg [0x7F] ::
                  BusEvent.write PCD_Register.CommandReg [H.PCD_Idle % 256] ::
                  BusEvent.write PCD_Register.BitFramingReg [16 * (k % 8) + k % 8] :: t)) := by
      unfold PCD_CommunicateWithPICC_start
      simp only [Option.getD_some, if_true]
      unfold PCD_WriteRegisterData
      rw [if_neg (by omega), e]
      unfold PCD_WriteRegister
      rw [e1]
    rw [hstart] at hs
    exact hs
  · rw [List.getElem?_set, if_neg (by omega), h0]
  · rw [List.length_take, hf]
    omega
  · rw [List.length_drop, hf]
    omega

/-- C16 on a call with `validBits = 12`: the first round of cascade level 1 has
12 known bits, so NVB is `0x34`, BitFramingReg gets `0x44`, the four bytes
`93 34 DE 0D` go to the FIFO, and the five bytes of the response are stored
from `buffer[3]` on, which has room for six. -/
theorem PICC_Select_anticollision_frame_witness :
    PICC_Select_rounds datasheet singleSizeCard (fun _ => 0)
        ⟨0, [0xDE, 0x0D, 0, 0, 0, 0, 0, 0, 0, 0], 0⟩ 12 [] 1 0x93 0 12
        [0x93, 0, 0xDE, 0x0D, 0, 0, 0, 0, 0]
        (PCD_ClearRegisterBitMask singleSizeCard PCD_Register.CollReg 0x80 [])
      ∧ PICC_Select_round datasheet singleSizeCard 12 [0x93, 0, 0xDE, 0x0D, 0, 0, 0, 0, 0]
          (PCD_ClearRegisterBitMask singleSizeCard PCD_Register.CollReg 0x80 [])
        = Round.again 32 [0x93, 0x34, 0xDE, 0xDE, 0xAD, 0xBE, 0xEF, 0x22, 0]
            [BusEvent.read PCD_Register.ControlReg 1,
              BusEvent.read PCD_Register.FIFODataReg 5,
              BusEvent.read PCD_Register.FIFOLevelReg 1,
              BusEvent.read PCD_Register.ErrorReg 1,
              BusEvent.read PCD_Register.ComIrqReg 1,
              BusEvent.write PCD_Register.BitFramingReg [0x80],
              BusEvent.read PCD_Register.BitFramingReg 1,
              BusEvent.write PCD_Register.CommandReg [0x0C],
              BusEvent.write PCD_Register.BitFramingReg [0x44],
              BusEvent.write PCD_Register.FIFODataReg [0x93, 0x34, 0xDE, 0x0D],
              BusEvent.write PCD_Register.FIFOLevelReg [0x83],
              BusEvent.read PCD_Register.FIFOLevelReg 1,
              BusEvent.write PCD_Register.ComIrqReg [0x7F],
              BusEvent.write PCD_Register.CommandReg [0],
              BusEvent.write PCD_Register.BitFramingReg [0x44],
              BusEvent.write PCD_Register.CollReg [0],
              BusEvent.read PCD_Register.CollReg 1]
      ∧ (PCD_CommunicateWithPICC datasheet singleSizeCard datasheet.PCD_Transceive 0x30
            [0x93, 0x34, 0xDE, 0x0D, 0, 0, 0, 0, 0] 4 (some [0x0D, 0, 0, 0, 0, 0]) (some 6)
            (some 4) 4 false
            (BusEvent.write PCD_Register.BitFramingReg [0x44] ::
              PCD_ClearRegisterBitMask singleSizeCard PCD_Register.CollReg 0x80 [])).status
        = StatusCode.STATUS_OK
      ∧ (([0x93, 0x34, 0xDE, 0x0D, 0, 0, 0, 0, 0] : List Nat).take 4).length = 4
      ∧ (([0x93, 0x34, 0xDE, 0x0D, 0, 0, 0, 0, 0] : List Nat).drop 3).length = 6 :=
  have hr : PICC_Select_rounds datasheet singleSizeCard (fun _ => 0)
      ⟨0, [0xDE, 0x0D, 0, 0, 0, 0, 0, 0, 0, 0], 0⟩ 12 [] 1 0x93 0 12
      [0x93, 0, 0xDE, 0x0D, 0, 0, 0, 0, 0]
      (PCD_ClearRegisterBitMask singleSizeCard PCD_Register.CollReg 0x80 []) :=
    ⟨by decide, _, _, _, false, PICC_Select_enters.first, rfl, PICC_Select_passes.first⟩
  have h := PICC_Select_anticollision_frame datasheet singleSizeCard (fun _ => 0)
    ⟨0, [0xDE, 0x0D, 0, 0, 0, 0, 0, 0, 0, 0], 0⟩ 12 [] 1 0x93 0 12
    [0x93, 0, 0xDE, 0x0D, 0, 0, 0, 0, 0]
    (PCD_ClearRegisterBitMask singleSizeCard PCD_Register.CollReg 0x80 []) hr (by decide)
  ⟨hr, by decide!, by decide!, h.2.2.2.2.1, h.2.2.2.2.2⟩

/-- From index 2 on, `PCD_CalculateCRC` leaves the bytes of `result` alone. -/
theorem PCD_CalculateCRC_getElem?_ge (H : Header) (p : RegisterPort) (data : List Nat)
    (length : Nat) (result : List Nat) (tr : Trace) (i : Nat) (hi : 2 ≤ i) :
    (PCD_CalculateCRC H p data length result tr).2.1[i]? = result[i]? := by
  rw [PCD_CalculateCRC_eq]
  split_ifs
  · rfl
  · simp only [List.getElem?_set]
    rw [if_neg (by omega), if_neg (by omega)]

/-- The byte `responseBuffer[0]`, that is `buffer[6]`, is not touched by the CRC
computation of lines 920-923. -/
theorem PICC_Select_sak_byte (H : Header) (p : RegisterPort) (buffer : List Nat)
    (tr : Trace) :
    (buffer.take 2 ++ (PCD_CalculateCRC H p (buffer.drop 6) 1 (buffer.drop 2) tr).2.1).getD 6 0
      = buffer.getD 6 0 := by
  rw [List.getD_eq_getElem?_getD, List.getD_eq_getElem?_getD,
    List.getElem?_append_right (by rw [List.length_take]; omega),
    PCD_CalculateCRC_getElem?_ge _ _ _ _ _ _ _ (by rw [List.length_take]; omega),
    List.getElem?_drop, List.length_take]
  by_cases h : 2 ≤ buffer.length
  · rw [Nat.min_eq_left h]
  · rw [Nat.min_eq_right (by omega), List.getElem?_eq_none (by omega),
      List.getElem?_eq_none (by omega)]

/-- What the completion of a level says about the three bytes in the response
window. -/
theorem PICC_Select_sak_complete_crc (H : Header) (p : RegisterPort) (uid : Uid)
    (uidIndex f0 f1 f2 f3 f4 f5 sak c0 c1 l x : Nat) (tr : Trace) (u : Uid) (t : Trace)
    (h : PICC_Select_sak H p uid uidIndex [f0, f1, f2, f3, f4, f5, sak, c0, c1] l x tr
      = Level.complete u t) :
    l = 3 ∧ x = 0
      ∧ (PCD_CalculateCRC H p [sak, c0, c1] 1 [f2, f3, f4, f5, sak, c0, c1] tr).1
          = StatusCode.STATUS_OK
      ∧ (PCD_CalculateCRC H p [sak, c0, c1] 1 [f2, f3, f4, f5, sak, c0, c1] tr).2.1.getD 0 0 = c0
      ∧ (PCD_CalculateCRC H p [sak, c0, c1] 1 [f2, f3, f4, f5, sak, c0, c1] tr).2.1.getD 1 0 = c1
      ∧ (PCD_CalculateCRC H p [sak, c0, c1] 1 [f2, f3, f4, f5, sak, c0, c1] tr).2.2 = t
      ∧ u.sak = sak ∧ sak &&& 0x04 = 0 := by
  have hw : ∃ r0 r1, (PCD_CalculateCRC H p [sak, c0, c1] 1 [f2, f3, f4, f5, sak, c0, c1]
      tr).2.1 = [r0, r1, f4, f5, sak, c0, c1] := by
    rw [PCD_CalculateCRC_eq]
    split_ifs
    · exact ⟨_, _, rfl⟩
    · exact ⟨_, _, rfl⟩
  unfold PICC_Select_sak at h
  simp only [] at h
  have e6 : List.drop 6 [f0, f1, f2, f3, f4, f5, sak, c0, c1] = [sak, c0, c1] := rfl
  have e2 : List.drop 2 [f0, f1, f2, f3, f4, f5, sak, c0, c1]
      = [f2, f3, f4, f5, sak, c0, c1] := rfl
  have e3 : List.take 2 [f0, f1, f2, f3, f4, f5, sak, c0, c1] = [f0, f1] := rfl
  rw [e6, e2, e3] at h
  generalize PCD_CalculateCRC H p [sak, c0, c1] 1 [f2, f3, f4, f5, sak, c0, c1] tr = c
    at h hw ⊢
  obtain ⟨s, w, t1⟩ := c
  obtain ⟨r0, r1, hw⟩ := hw
  simp only [] at hw
  subst hw
  simp only [List.cons_append, List.nil_append, List.getD_cons_succ, List.getD_cons_zero] at h ⊢
  split_ifs at h with g1 g2 g3 g4 <;>
    (injection h with hu ht
     subst hu
     simp only [not_or, not_not] at g1 g3 g4
     exact ⟨g1.1, g1.2, not_not.mp g2, g3.1, g3.2, ht, rfl, g4⟩)

/-- A SAK without the cascade bit is never typed PICC_TYPE_NOT_COMPLETE. -/
theorem PICC_GetType_complete (sak : Nat) (h : sak &&& 0x04 = 0) :
    PICC_GetType sak ≠ PICC_Type.PICC_TYPE_NOT_COMPLETE := by
  unfold PICC_GetType
  rw [if_neg (by rw [h]; simp)]
  split_ifs <;> simp

/-- C17: whenever `PICC_Select` returns STATUS_OK, its last exchange was the
transceive of a SELECT frame (nine bytes, NVB `0x70`, response window
`&buffer[6]` of 3 bytes) that returned STATUS_OK with exactly 3 bytes
`sak c0 c1`, all bits valid; the call then ended with a `PCD_CalculateCRC` over
the one byte `sak` that returned STATUS_OK with the result bytes `c0 c1`;
`uid->sak` is `sak`, its cascade bit (0x04) is clear, and so
`PICC_GetType(uid->sak)` is not PICC_TYPE_NOT_COMPLETE.  And lines 905-937 never
take the branch `uidComplete = true` when `responseBuffer[0]`, that is
`buffer[6]`, has the cascade bit set. -/
theorem PICC_Select_ok_sak (H : Header) (p : RegisterPort) (junk : Nat → Nat) (uid : Uid)
    (validBits : Nat) (tr : Trace) (u : Uid) (t : Trace)
    (h : PICC_Select H p junk uid validBits tr = some (StatusCode.STATUS_OK, u, t)) :
    (∃ frame t0 sak c0 c1 window,
        frame.length = 9 ∧ frame[1]? = some 0x70 ∧ window.length = 7
        ∧ (PICC_Select_transceive H p frame 0 9 6 3 t0).status = StatusCode.STATUS_OK
        ∧ (PICC_Select_transceive H p frame 0 9 6 3 t0).backData = some [sak, c0, c1]
        ∧ (PICC_Select_transceive H p frame 0 9 6 3 t0).backLen = some 3
        ∧ (PICC_Select_transceive H p frame 0 9 6 3 t0).validBits = some 0
        ∧ (PCD_CalculateCRC H p [sak, c0, c1] 1 window
            (PICC_Select_transceive H p frame 0 9 6 3 t0).trace).1 = StatusCode.STATUS_OK
        ∧ (PCD_CalculateCRC H p [sak, c0, c1] 1 window
            (PICC_Select_transceive H p frame 0 9 6 3 t0).trace).2.1.getD 0 0 = c0
        ∧ (PCD_CalculateCRC H p [sak, c0, c1] 1 window
            (PICC_Select_transceive H p frame 0 9 6 3 t0).trace).2.1.getD 1 0 = c1
        ∧ (PCD_CalculateCRC H p [sak, c0, c1] 1 window
            (PICC_Select_transceive H p frame 0 9 6 3 t0).trace).2.2 = t
        ∧ u.sak = sak ∧ sak &&& 0x04 = 0)
      ∧ PICC_GetType u.sak ≠ PICC_Type.PICC_TYPE_NOT_COMPLETE
      ∧ ∀ (uid1 : Uid) (uidIndex : Nat) (buffer : List Nat) (l x : Nat) (t1 : Trace)
          (u1 : Uid) (t2 : Trace),
          buffer.getD 6 0 &&& 0x04 ≠ 0 →
            PICC_Select_sak H p uid1 uidIndex buffer l x t1 ≠ Level.complete u1 t2 := by
  have hlast : ∀ (uid1 : Uid) (uidIndex : Nat) (buffer : List Nat) (l x : Nat) (t1 : Trace)
      (u1 : Uid) (t2 : Trace),
      buffer.getD 6 0 &&& 0x04 ≠ 0 →
        PICC_Select_sak H p uid1 uidIndex buffer l x t1 ≠ Level.complete u1 t2 := by
    intro uid1 uidIndex buffer l x t1 u1 t2 hbit hc
    have hs := PICC_Select_sak_complete H p _ _ _ _ _ _ _ _ hc
    unfold PICC_Select_sak at hc
    simp only [] at hc
    split_ifs at hc <;>
      (injection hc with hu _
       rw [← hu] at hs
       simp only [] at hs
       rw [PICC_Select_sak_byte] at hs
       exact hbit hs)
  unfold PICC_Select at h
  by_cases hv : validBits > 80
  · rw [if_pos hv] at h
    simp at h
  · rw [if_neg hv] at h
    obtain ⟨L, uidL, bufferL, trL, uL, he, hL, hu⟩ :=
      PICC_Select_cascade_enters H p validBits uid (localArray 9 junk) _ 4 1 _ _ _ u t
        PICC_Select_enters.first h
    have h9 := PICC_Select_enters_buffer H p _ _ _ _ _ _ _ _ (localArray_length 9 junk) he
    obtain ⟨sel, uidIndex, useCascadeTag, b1, l1, x1, t1, _, ha, hsak⟩ :=
      PICC_Select_level_selected H p validBits L uidL bufferL trL _ hL
        (fun _ _ _ e => by cases e)
    obtain ⟨k3, b3, t3, hp, hr⟩ := PICC_Select_anticollision_passes H p _ _ _ _ _ _ _ _
      PICC_Select_passes.first ha
    have h93 := (PICC_Select_passes_buffer H p _ _ _ _ _ _
      (by rw [PICC_Select_known_length, List.length_set, h9]) hp).1
    obtain ⟨_, frame, t0, d, hf, _, hf1, hst, hdata, hlen, hvb, htr, hd, hb1⟩ :=
      PICC_Select_round_selected H p _ _ _ _ _ _ _ h93 hr
    obtain ⟨sak, c0, c1, rfl⟩ := three_bytes d hd
    obtain ⟨f0, f1, f2, f3, f4, f5, f6, f7, f8, rfl⟩ := nine_bytes frame hf
    have hb : b1 = [f0, f1, f2, f3, f4, f5, sak, c0, c1] := hb1
    subst hb
    obtain ⟨hl3, hx0, hc1, hc2, hc3, hc4, hc5, hc6⟩ :=
      PICC_Select_sak_complete_crc H p _ _ _ _ _ _ _ _ _ _ _ _ _ _ _ _ hsak
    subst hl3 hx0
    have hus : u.sak = sak := by
      rw [hu]
      exact hc5
    refine ⟨⟨[f0, f1, f2, f3, f4, f5, f6, f7, f8], t0, sak, c0, c1,
      [f2, f3, f4, f5, sak, c0, c1], rfl, hf1, rfl, hst, hdata, hlen, hvb, ?_, ?_, ?_, ?_,
      hus, hc6⟩, ?_, hlast⟩
    · rw [htr]
      exact hc1
    · rw [htr]
      exact hc2
    · rw [htr]
      exact hc3
    · rw [htr]
      exact hc4
    · rw [hus]
      exact PICC_GetType_complete sak hc6

/-- C17 on a card with a single-size UID: the selection returns STATUS_OK with
the SAK `08`, which has no cascade bit and is typed PICC_TYPE_MIFARE_1K. -/
theorem PICC_Select_ok_sak_witness :
    ∃ t, PICC_Select datasheet singleSizeCard (fun _ => 0) blankUid 0 []
          = some (StatusCode.STATUS_OK,
              ⟨4, [0xDE, 0xAD, 0xBE, 0xEF, 0, 0, 0, 0, 0, 0], 0x08⟩, t)
      ∧ PICC_GetType 0x08 ≠ PICC_Type.PICC_TYPE_NOT_COMPLETE
      ∧ PICC_GetType 0x08 = PICC_Type.PICC_TYPE_MIFARE_1K :=
  ⟨_, rfl,
    (PICC_Select_ok_sak datasheet singleSizeCard (fun _ => 0) blankUid 0 []
      ⟨4, [0xDE, 0xAD, 0xBE, 0xEF, 0, 0, 0, 0, 0, 0], 0x08⟩ _ rfl).2.1,
    by decide⟩

/-! ## Claims of the last part -/

/-- C26: `PICC_GetType` is defined for every SAK: it is PICC_TYPE_NOT_COMPLETE
whenever bit 0x04 is set; otherwise MIFARE_MINI for 0x09, MIFARE_1K for 0x08,
MIFARE_4K for 0x18, MIFARE_UL for 0x00, MIFARE_PLUS for 0x10 and 0x11, TNP3XXX
for 0x01 (none of these seven has bit 0x04); for every other SAK without bit
0x04 it is ISO_14443_4 if bit 0x20 is set, otherwise ISO_18092 if bit 0x40 is
set, otherwise PICC_TYPE_UNKNOWN. -/
theorem PICC_GetType_table (sak : Nat) :
    (sak &&& 0x04 ≠ 0 → PICC_GetType sak = PICC_Type.PICC_TYPE_NOT_COMPLETE)
      ∧ PICC_GetType 0x09 = PICC_Type.PICC_TYPE_MIFARE_MINI
      ∧ PICC_GetType 0x08 = PICC_Type.PICC_TYPE_MIFARE_1K
      ∧ PICC_GetType 0x18 = PICC_Type.PICC_TYPE_MIFARE_4K
      ∧ PICC_GetType 0x00 = PICC_Type.PICC_TYPE_MIFARE_UL
      ∧ PICC_GetType 0x10 = PICC_Type.PICC_TYPE_MIFARE_PLUS
      ∧ PICC_GetType 0x11 = PICC_Type.PICC_TYPE_MIFARE_PLUS
      ∧ PICC_GetType 0x01 = PICC_Type.PICC_TYPE_TNP3XXX
      ∧ (sak &&& 0x04 = 0 →
          sak ≠ 0x09 ∧ sak ≠ 0x08 ∧ sak ≠ 0x18 ∧ sak ≠ 0x00 ∧ sak ≠ 0x10 ∧ sak ≠ 0x11
            ∧ sak ≠ 0x01 →
          (sak &&& 0x20 ≠ 0 → PICC_GetType sak = PICC_Type.PICC_TYPE_ISO_14443_4)
            ∧ (sak &&& 0x20 = 0 → sak &&& 0x40 ≠ 0 →
                PICC_GetType sak = PICC_Type.PICC_TYPE_ISO_18092)
            ∧ (sak &&& 0x20 = 0 → sak &&& 0x40 = 0 →
                PICC_GetType sak = PICC_Type.PICC_TYPE_UNKNOWN)) := by
  refine ⟨fun h => ?_, by decide, by decide, by decide, by decide, by decide, by decide,
    by decide, fun h4 hs => ?_⟩
  · unfold PICC_GetType
    rw [if_pos h]
  · obtain ⟨s1, s2, s3, s4, s5, s6, s7⟩ := hs
    have e : PICC_GetType sak
        = if sak &&& 0x20 ≠ 0 then PICC_Type.PICC_TYPE_ISO_14443_4
          else if sak &&& 0x40 ≠ 0 then PICC_Type.PICC_TYPE_ISO_18092
          else PICC_Type.PICC_TYPE_UNKNOWN := by
      unfold PICC_GetType
      rw [if_neg (by rw [h4]; simp), if_neg s1, if_neg s2, if_neg s3, if_neg s4,
        if_neg (by rintro (h | h) <;> contradiction), if_neg s7]
    refine ⟨fun h => ?_, fun h1 h2 => ?_, fun h1 h2 => ?_⟩
    · rw [e, if_pos h]
    · rw [e, if_neg (by rw [h1]; simp), if_pos h2]
    · rw [e, if_neg (by rw [h1]; simp), if_neg (by rw [h2]; simp)]

/-! ## Access bits -/

theorem and_seven_and (g m : Nat) (hm : 7 &&& m = m) : (g &&& 7) &&& m = g &&& m := by
  rw [Nat.and_assoc, hm]

/-- With at least three bytes behind the pointer, `MIFARE_SetAccessBits` writes
three bytes that do not depend on the window and leaves the rest. -/
theorem MIFARE_SetAccessBits_cons (x y z : Nat) (rest : List Nat) (g0 g1 g2 g3 : Nat) :
    MIFARE_SetAccessBits (x :: y :: z :: rest) g0 g1 g2 g3
      = MIFARE_SetAccessBits [0, 0, 0] g0 g1 g2 g3 ++ rest := rfl

/-- The bytes written depend on the low three bits of each group only. -/
theorem MIFARE_SetAccessBits_low (buffer : List Nat) (g0 g1 g2 g3 : Nat) :
    MIFARE_SetAccessBits buffer (g0 &&& 7) (g1 &&& 7) (g2 &&& 7) (g3 &&& 7)
      = MIFARE_SetAccessBits buffer g0 g1 g2 g3 := by
  unfold MIFARE_SetAccessBits
  simp only [and_seven_and _ 4 (by decide), and_seven_and _ 2 (by decide),
    and_seven_and _ 1 (by decide)]

/-- The three bytes that `MIFARE_SetAccessBits` stores, in terms of the nibbles
`c1`, `c2`, `c3`. -/
theorem MIFARE_SetAccessBits_bytes (g0 g1 g2 g3 : Nat) :
    MIFARE_SetAccessBits [0, 0, 0] g0 g1 g2 g3
      = [((((255 - (((g3 &&& 2) <<< 2) ||| ((g2 &&& 2) <<< 1) ||| ((g1 &&& 2) <<< 0)
              ||| ((g0 &&& 2) >>> 1)) % 256) &&& 0xF) <<< 4)
            ||| ((255 - (((g3 &&& 4) <<< 1) ||| ((g2 &&& 4) <<< 0) ||| ((g1 &&& 4) >>> 1)
              ||| ((g0 &&& 4) >>> 2)) % 256) &&& 0xF)) % 256,
         ((((((g3 &&& 4) <<< 1) ||| ((g2 &&& 4) <<< 0) ||| ((g1 &&& 4) >>> 1)
              ||| ((g0 &&& 4) >>> 2)) % 256) <<< 4)
            ||| ((255 - (((g3 &&& 1) <<< 3) ||| ((g2 &&& 1) <<< 2) ||| ((g1 &&& 1) <<< 1)
              ||| ((g0 &&& 1) <<< 0)) % 256) &&& 0xF)) % 256,
         ((((((g3 &&& 1) <<< 3) ||| ((g2 &&& 1) <<< 2) ||| ((g1 &&& 1) <<< 1)
              ||| ((g0 &&& 1) <<< 0)) % 256) <<< 4)
            ||| ((((g3 &&& 2) <<< 2) ||| ((g2 &&& 2) <<< 1) ||| ((g1 &&& 2) <<< 0)
              ||| ((g0 &&& 2) >>> 1)) % 256)) % 256] := rfl

/-- Lines 1652-1665 on a trailer whose bytes 6..8 are `b6 b7 b8`. -/
theorem PICC_DumpMifareClassicSectorToSerial_accessBits_bytes (b6 b7 b8 : Nat) :
    PICC_DumpMifareClassicSectorToSerial_accessBits [0, 0, 0, 0, 0, 0, b6, b7, b8]
      = (decide (b7 >>> 4 ≠ ((255 - (b6 &&& 0xF)) &&& 0xF))
            || decide (b8 &&& 0xF ≠ ((255 - (b6 >>> 4)) &&& 0xF))
            || decide (b8 >>> 4 ≠ ((255 - (b7 &&& 0xF)) &&& 0xF)),
          [((((b7 >>> 4) &&& 1) <<< 2) ||| (((b8 &&& 0xF) &&& 1) <<< 1)
              ||| (((b8 >>> 4) &&& 1) <<< 0)) % 256,
           ((((b7 >>> 4) &&& 2) <<< 1) ||| (((b8 &&& 0xF) &&& 2) <<< 0)
              ||| (((b8 >>> 4) &&& 2) >>> 1)) % 256,
           ((((b7 >>> 4) &&& 4) <<< 0) ||| (((b8 &&& 0xF) &&& 4) >>> 1)
              ||| (((b8 >>> 4) &&& 4) >>> 2)) % 256,
           ((((b7 >>> 4) &&& 8) >>> 1) ||| (((b8 &&& 0xF) &&& 8) >>> 2)
              ||| (((b8 >>> 4) &&& 8) >>> 3)) % 256]) := rfl

/-- The three low bits of a group. -/
theorem group_bits : ∀ a : Fin 8, ∃ u v w : Fin 2,
    a.val &&& 4 = 4 * u.val ∧ a.val &&& 2 = 2 * v.val ∧ a.val &&& 1 = w.val
      ∧ 4 * u.val + 2 * v.val + w.val = a.val := by
  decide

/-- The nibbles `c1`, `c2`, `c3` of `MIFARE_SetAccessBits` hold bit 2, bit 1 and
bit 0 of the four groups, group 3 highest. -/
theorem nibble_of_bits : ∀ u3 u2 u1 u0 : Fin 2,
    (((4 * u3.val) <<< 1) ||| ((4 * u2.val) <<< 0) ||| ((4 * u1.val) >>> 1)
        ||| ((4 * u0.val) >>> 2)) % 256 = 8 * u3.val + 4 * u2.val + 2 * u1.val + u0.val
      ∧ (((2 * u3.val) <<< 2) ||| ((2 * u2.val) <<< 1) ||| ((2 * u1.val) <<< 0)
        ||| ((2 * u0.val) >>> 1)) % 256 = 8 * u3.val + 4 * u2.val + 2 * u1.val + u0.val
      ∧ ((u3.val <<< 3) ||| (u2.val <<< 2) ||| (u1.val <<< 1)
        ||| (u0.val <<< 0)) % 256 = 8 * u3.val + 4 * u2.val + 2 * u1.val + u0.val := by
  decide

/-- The bits of a nibble. -/
theorem bits_of_nibble : ∀ u3 u2 u1 u0 : Fin 2,
    (8 * u3.val + 4 * u2.val + 2 * u1.val + u0.val) &&& 1 = u0.val
      ∧ (8 * u3.val + 4 * u2.val + 2 * u1.val + u0.val) &&& 2 = 2 * u1.val
      ∧ (8 * u3.val + 4 * u2.val + 2 * u1.val + u0.val) &&& 4 = 4 * u2.val
      ∧ (8 * u3.val + 4 * u2.val + 2 * u1.val + u0.val) &&& 8 = 8 * u3.val := by
  decide

/-- The group that lines 1662-1665 build from one bit of each nibble. -/
theorem group_of_bits : ∀ u v w : Fin 2,
    ((u.val <<< 2) ||| (v.val <<< 1) ||| (w.val <<< 0)) % 256 = 4 * u.val + 2 * v.val + w.val
      ∧ (((2 * u.val) <<< 1) ||| ((2 * v.val) <<< 0) ||| ((2 * w.val) >>> 1)) % 256
          = 4 * u.val + 2 * v.val + w.val
      ∧ (((4 * u.val) <<< 0) ||| ((4 * v.val) >>> 1) ||| ((4 * w.val) >>> 2)) % 256
          = 4 * u.val + 2 * v.val + w.val
      ∧ (((8 * u.val) >>> 1) ||| ((8 * v.val) >>> 2) ||| ((8 * w.val) >>> 3)) % 256
          = 4 * u.val + 2 * v.val + w.val := by
  decide

/-- Two nibbles packed into a byte come out again. -/
theorem nibble_pack_table : ∀ x y : Fin 16,
    (((x.val <<< 4) ||| y.val) % 256) >>> 4 = x.val
      ∧ (((x.val <<< 4) ||| y.val) % 256) &&& 0xF = y.val := by
  decide!

theorem nibble_pack (x y : Nat) (hx : x < 16) (hy : y < 16) :
    (((x <<< 4) ||| y) % 256) >>> 4 = x ∧ (((x <<< 4) ||| y) % 256) &&& 0xF = y :=
  nibble_pack_table ⟨x, hx⟩ ⟨y, hy⟩

/-- The complement of the complement of a nibble. -/
theorem nibble_complement_table : ∀ c : Fin 16,
    (255 - ((255 - c.val) &&& 0xF)) &&& 0xF = c.val := by
  decide

theorem and_fifteen_lt (g : Nat) : g &&& 0xF < 16 :=
  Nat.lt_of_le_of_lt Nat.and_le_right (by decide)

/-- The nibble extraction on the three bytes stored for nibbles `c1`, `c2`,
`c3`: no inversion error, and the groups are read from the nibbles. -/
theorem accessBits_of_nibbles (c1 c2 c3 : Nat) (h1 : c1 < 16) (h2 : c2 < 16) (h3 : c3 < 16) :
    PICC_DumpMifareClassicSectorToSerial_accessBits [0, 0, 0, 0, 0, 0,
        ((((255 - c2) &&& 0xF) <<< 4) ||| ((255 - c1) &&& 0xF)) % 256,
        ((c1 <<< 4) ||| ((255 - c3) &&& 0xF)) % 256,
        ((c3 <<< 4) ||| c2) % 256]
      = (false,
          [(((c1 &&& 1) <<< 2) ||| ((c2 &&& 1) <<< 1) ||| ((c3 &&& 1) <<< 0)) % 256,
           (((c1 &&& 2) <<< 1) ||| ((c2 &&& 2) <<< 0) ||| ((c3 &&& 2) >>> 1)) % 256,
           (((c1 &&& 4) <<< 0) ||| ((c2 &&& 4) >>> 1) ||| ((c3 &&& 4) >>> 2)) % 256,
           (((c1 &&& 8) >>> 1) ||| ((c2 &&& 8) >>> 2) ||| ((c3 &&& 8) >>> 3)) % 256]) := by
  obtain ⟨k6a, k6b⟩ := nibble_pack ((255 - c2) &&& 0xF) ((255 - c1) &&& 0xF)
    (and_fifteen_lt _) (and_fifteen_lt _)
  obtain ⟨k7a, k7b⟩ := nibble_pack c1 ((255 - c3) &&& 0xF) h1 (and_fifteen_lt _)
  obtain ⟨k8a, k8b⟩ := nibble_pack c3 c2 h3 h2
  have n1 := nibble_complement_table ⟨c1, h1⟩
  have n2 := nibble_complement_table ⟨c2, h2⟩
  have n3 := nibble_complement_table ⟨c3, h3⟩
  simp only [] at n1 n2 n3
  rw [PICC_DumpMifareClassicSectorToSerial_accessBits_bytes, k6a, k6b, k7a, k7b, k8a, k8b,
    n1, n2, n3]
  simp

theorem nibble_lt (u3 u2 u1 u0 : Fin 2) :
    8 * u3.val + 4 * u2.val + 2 * u1.val + u0.val < 16 := by
  have h3 := u3.isLt
  have h2 := u2.isLt
  have h1 := u1.isLt
  have h0 := u0.isLt
  omega

/-- The round trip on the 4096 combinations of three-bit groups. -/
theorem MIFARE_accessBits_table :
    ∀ a b c d : Fin 8,
      PICC_DumpMifareClassicSectorToSerial_accessBits
          ([0, 0, 0, 0, 0, 0] ++ MIFARE_SetAccessBits [0, 0, 0] a.val b.val c.val d.val)
        = (false, [a.val, b.val, c.val, d.val]) := by
  intro a b c d
  obtain ⟨a4, a2, a1, ha4, ha2, ha1, ha⟩ := group_bits a
  obtain ⟨b4, b2, b1, hb4, hb2, hb1, hb⟩ := group_bits b
  obtain ⟨c4, c2, c1, hc4, hc2, hc1, hc⟩ := group_bits c
  obtain ⟨d4, d2, d1, hd4, hd2, hd1, hd⟩ := group_bits d
  obtain ⟨n4, _, _⟩ := nibble_of_bits d4 c4 b4 a4
  obtain ⟨_, n2, _⟩ := nibble_of_bits d2 c2 b2 a2
  obtain ⟨_, _, n1⟩ := nibble_of_bits d1 c1 b1 a1
  obtain ⟨p4a, p4b, p4c, p4d⟩ := bits_of_nibble d4 c4 b4 a4
  obtain ⟨p2a, p2b, p2c, p2d⟩ := bits_of_nibble d2 c2 b2 a2
  obtain ⟨p1a, p1b, p1c, p1d⟩ := bits_of_nibble d1 c1 b1 a1
  obtain ⟨qa, _, _, _⟩ := group_of_bits a4 a2 a1
  obtain ⟨_, qb, _, _⟩ := group_of_bits b4 b2 b1
  obtain ⟨_, _, qc, _⟩ := group_of_bits c4 c2 c1
  obtain ⟨_, _, _, qd⟩ := group_of_bits d4 d2 d1
  rw [MIFARE_SetAccessBits_bytes, ha4, ha2, ha1, hb4, hb2, hb1, hc4, hc2, hc1, hd4, hd2, hd1,
    n4, n2, n1]
  have e := accessBits_of_nibbles (8 * d4.val + 4 * c4.val + 2 * b4.val + a4.val)
    (8 * d2.val + 4 * c2.val + 2 * b2.val + a2.val)
    (8 * d1.val + 4 * c1.val + 2 * b1.val + a1.val)
    (nibble_lt d4 c4 b4 a4) (nibble_lt d2 c2 b2 a2) (nibble_lt d1 c1 b1 a1)
  rw [p4a, p4b, p4c, p4d, p2a, p2b, p2c, p2d, p1a, p1b, p1c, p1d, qa, qb, qc, qd,
    ha, hb, hc, hd] at e
  exact e

theorem and_seven_lt (g : Nat) : g &&& 7 < 8 :=
  Nat.lt_of_le_of_lt Nat.and_le_right (by decide)

/-- A list of sixteen bytes, spelled out. -/
theorem sixteen_bytes (b : List Nat) (h : b.length = 16) :
    ∃ x0 x1 x2 x3 x4 x5 x6 x7 x8 x9 x10 x11 x12 x13 x14 x15,
      b = [x0, x1, x2, x3, x4, x5, x6, x7, x8, x9, x10, x11, x12, x13, x14, x15] := by
  match b, h with
  | [x0, x1, x2, x3, x4, x5, x6, x7, x8, x9, x10, x11, x12, x13, x14, x15], _ =>
    exact ⟨_, _, _, _, _, _, _, _, _, _, _, _, _, _, _, _, rfl⟩

/-- C27: for all `g0`, `g1`, `g2`, `g3` and every sector trailer of sixteen
bytes, let `stored` be the trailer after `MIFARE_SetAccessBits(&trailer[6], g0,
g1, g2, g3)`.  The nibble extraction of `PICC_DumpMifareClassicSectorToSerial`
on `stored` gives `invertedError = false` and `g[i] = gi & 7` for `i` = 0..3;
the call changes bytes 6..8 only; what it writes is what it writes for
`gi & 7`, so it depends on the low three bits of each `gi` only. -/
theorem MIFARE_accessBits_roundtrip (trailer : List Nat) (g0 g1 g2 g3 : Nat)
    (ht : trailer.length = 16) :
    PICC_DumpMifareClassicSectorToSerial_accessBits
        (trailer.take 6 ++ MIFARE_SetAccessBits (trailer.drop 6) g0 g1 g2 g3)
      = (false, [g0 &&& 7, g1 &&& 7, g2 &&& 7, g3 &&& 7])
    ∧ (trailer.take 6 ++ MIFARE_SetAccessBits (trailer.drop 6) g0 g1 g2 g3).length = 16
    ∧ (trailer.take 6 ++ MIFARE_SetAccessBits (trailer.drop 6) g0 g1 g2 g3).drop 9
        = trailer.drop 9
    ∧ MIFARE_SetAccessBits (trailer.drop 6) g0 g1 g2 g3
        = MIFARE_SetAccessBits (trailer.drop 6) (g0 &&& 7) (g1 &&& 7) (g2 &&& 7) (g3 &&& 7) := by
  obtain ⟨x0, x1, x2, x3, x4, x5, x6, x7, x8, x9, x10, x11, x12, x13, x14, x15, rfl⟩ :=
    sixteen_bytes trailer ht
  refine ⟨?_, rfl, rfl, (MIFARE_SetAccessBits_low _ g0 g1 g2 g3).symm⟩
  have h := MIFARE_accessBits_table ⟨g0 &&& 7, and_seven_lt g0⟩ ⟨g1 &&& 7, and_seven_lt g1⟩
    ⟨g2 &&& 7, and_seven_lt g2⟩ ⟨g3 &&& 7, and_seven_lt g3⟩
  simp only [] at h
  rw [MIFARE_SetAccessBits_low] at h
  exact h

/-- C27 on the transport configuration `g0 = g1 = g2 = 0`, `g3 = 1`: the bytes
stored are `FF 07 80` and decode to the same groups. -/
theorem MIFARE_accessBits_roundtrip_witness :
    ([0xFF, 0xFF, 0xFF, 0xFF, 0xFF, 0xFF, 0, 0, 0, 0x69, 0xFF, 0xFF, 0xFF, 0xFF, 0xFF,
        0xFF] : List Nat).length = 16
      ∧ MIFARE_SetAccessBits [0, 0, 0, 0x69, 0xFF, 0xFF, 0xFF, 0xFF, 0xFF, 0xFF] 0 0 0 1
          = [0xFF, 0x07, 0x80, 0x69, 0xFF, 0xFF, 0xFF, 0xFF, 0xFF, 0xFF]
      ∧ PICC_DumpMifareClassicSectorToSerial_accessBits
          [0xFF, 0xFF, 0xFF, 0xFF, 0xFF, 0xFF, 0xFF, 0x07, 0x80, 0x69, 0xFF, 0xFF, 0xFF, 0xFF,
            0xFF, 0xFF]
        = (false, [0, 0, 0, 1]) :=
  ⟨rfl, by decide,
    (MIFARE_accessBits_roundtrip
      [0xFF, 0xFF, 0xFF, 0xFF, 0xFF, 0xFF, 0, 0, 0, 0x69, 0xFF, 0xFF, 0xFF, 0xFF, 0xFF, 0xFF]
      0 0 0 1 rfl).1⟩

/-! ## Requests and authentication -/

/-- C22: `PICC_REQA_or_WUPA` returns STATUS_NO_ROOM with an untouched trace when
`bufferATQA` is NULL or `*bufferSize < 2`.  Otherwise, after clearing bit 0x80
of CollReg, it makes the call `PCD_CommunicateWithPICC(PCD_Transceive, 0x30,
&command, 1, bufferATQA, bufferSize, &validBits, 0, false)` with `validBits = 7`
(the FIFO gets the one command byte, BitFramingReg gets 7, no CRC check), and
its status is STATUS_OK exactly when that call returned STATUS_OK with
`*bufferSize = 2` and `validBits = 0`, STATUS_ERROR when the call returned
STATUS_OK with another length or bit count, and the status of the call
otherwise.  `PICC_RequestA` and `PICC_WakeupA` are this function with
PICC_CMD_REQA and PICC_CMD_WUPA. -/
theorem PICC_REQA_or_WUPA_result (H : Header) (p : RegisterPort) (command bufferSize : Nat)
    (tr : Trace) :
    PICC_REQA_or_WUPA H p command none bufferSize tr
        = (StatusCode.STATUS_NO_ROOM, none, bufferSize, tr)
      ∧ (∀ buf, bufferSize < 2 →
          PICC_REQA_or_WUPA H p command (some buf) bufferSize tr
            = (StatusCode.STATUS_NO_ROOM, some buf, bufferSize, tr))
      ∧ (∀ buf, 2 ≤ bufferSize →
          ∃ d l v,
            (PCD_CommunicateWithPICC H p H.PCD_Transceive 0x30 [command] 1 (some buf)
              (some bufferSize) (some 7) 0 false
              (PCD_ClearRegisterBitMask p PCD_Register.CollReg 0x80 tr)).backData = some d
            ∧ (PCD_CommunicateWithPICC H p H.PCD_Transceive 0x30 [command] 1 (some buf)
              (some bufferSize) (some 7) 0 false
              (PCD_ClearRegisterBitMask p PCD_Register.CollReg 0x80 tr)).backLen = some l
            ∧ (PCD_CommunicateWithPICC H p H.PCD_Transceive 0x30 [command] 1 (some buf)
              (some bufferSize) (some 7) 0 false
              (PCD_ClearRegisterBitMask p PCD_Register.CollReg 0x80 tr)).validBits = some v
            ∧ (PICC_REQA_or_WUPA H p command (some buf) bufferSize tr).2
              = (some d, l,
                  (PCD_CommunicateWithPICC H p H.PCD_Transceive 0x30 [command] 1 (some buf)
                    (some bufferSize) (some 7) 0 false
                    (PCD_ClearRegisterBitMask p PCD_Register.CollReg 0x80 tr)).trace)
            ∧ ((PICC_REQA_or_WUPA H p command (some buf) bufferSize tr).1
                  = StatusCode.STATUS_OK ↔
                (PCD_CommunicateWithPICC H p H.PCD_Transceive 0x30 [command] 1 (some buf)
                  (some bufferSize) (some 7) 0 false
                  (PCD_ClearRegisterBitMask p PCD_Register.CollReg 0x80 tr)).status
                  = StatusCode.STATUS_OK ∧ l = 2 ∧ v = 0)
            ∧ ((PCD_CommunicateWithPICC H p H.PCD_Transceive 0x30 [command] 1 (some buf)
                  (some bufferSize) (some 7) 0 false
                  (PCD_ClearRegisterBitMask p PCD_Register.CollReg 0x80 tr)).status
                  = StatusCode.STATUS_OK → (l ≠ 2 ∨ v ≠ 0) →
                (PICC_REQA_or_WUPA H p command (some buf) bufferSize tr).1
                  = StatusCode.STATUS_ERROR)
            ∧ ((PCD_CommunicateWithPICC H p H.PCD_Transceive 0x30 [command] 1 (some buf)
                  (some bufferSize) (some 7) 0 false
                  (PCD_ClearRegisterBitMask p PCD_Register.CollReg 0x80 tr)).status
                  ≠ StatusCode.STATUS_OK →
                (PICC_REQA_or_WUPA H p command (some buf) bufferSize tr).1
                  = (PCD_CommunicateWithPICC H p H.PCD_Transceive 0x30 [command] 1 (some buf)
                      (some bufferSize) (some 7) 0 false
                      (PCD_ClearRegisterBitMask p PCD_Register.CollReg 0x80 tr)).status))
      ∧ (∀ t0, PCD_CommunicateWithPICC_start H p H.PCD_Transceive [command] 1 (some 7) 0 t0
          = PCD_SetRegisterBitMask p PCD_Register.BitFramingReg 0x80
              (BusEvent.write PCD_Register.CommandReg [H.PCD_Transceive % 256] ::
                BusEvent.write PCD_Register.BitFramingReg [7] ::
                BusEvent.write PCD_Register.FIFODataReg [command] ::
                PCD_SetRegisterBitMask p PCD_Register.FIFOLevelReg 0x80
                  (BusEvent.write PCD_Register.ComIrqReg [0x7F] ::
                    BusEvent.write PCD_Register.CommandReg [H.PCD_Idle % 256] :: t0)))
      ∧ (∀ b, PICC_RequestA H p b bufferSize tr
          = PICC_REQA_or_WUPA H p H.PICC_CMD_REQA b bufferSize tr)
      ∧ (∀ b, PICC_WakeupA H p b bufferSize tr
          = PICC_REQA_or_WUPA H p H.PICC_CMD_WUPA b bufferSize tr) := by
  refine ⟨rfl, fun buf h => ?_, fun buf h => ?_, fun t0 => ?_, fun _ => rfl, fun _ => rfl⟩
  · unfold PICC_REQA_or_WUPA
    simp only []
    rw [if_pos h]
  · obtain ⟨d, l, v, h1, h2, h3, _, _⟩ :=
      PCD_CommunicateWithPICC_outputs H p H.PCD_Transceive 0x30 [command] 1 buf bufferSize 7 0
        false (PCD_ClearRegisterBitMask p PCD_Register.CollReg 0x80 tr)
    have e : PICC_REQA_or_WUPA H p command (some buf) bufferSize tr
        = (if (PCD_CommunicateWithPICC H p H.PCD_Transceive 0x30 [command] 1 (some buf)
              (some bufferSize) (some 7) 0 false
              (PCD_ClearRegisterBitMask p PCD_Register.CollReg 0x80 tr)).status
              ≠ StatusCode.STATUS_OK then
            ((PCD_CommunicateWithPICC H p H.PCD_Transceive 0x30 [command] 1 (some buf)
              (some bufferSize) (some 7) 0 false
              (PCD_ClearRegisterBitMask p PCD_Register.CollReg 0x80 tr)).status,
              some ((PCD_CommunicateWithPICC H p H.PCD_Transceive 0x30 [command] 1 (some buf)
                (some bufferSize) (some 7) 0 false
                (PCD_ClearRegisterBitMask p PCD_Register.CollReg 0x80 tr)).backData.getD buf),
              (PCD_CommunicateWithPICC H p H.PCD_Transceive 0x30 [command] 1 (some buf)
                (some bufferSize) (some 7) 0 false
                (PCD_ClearRegisterBitMask p PCD_Register.CollReg 0x80 tr)).backLen.getD
                  bufferSize,
              (PCD_CommunicateWithPICC H p H.PCD_Transceive 0x30 [command] 1 (some buf)
                (some bufferSize) (some 7) 0 false
                (PCD_ClearRegisterBitMask p PCD_Register.CollReg 0x80 tr)).trace)
          else if (PCD_CommunicateWithPICC H p H.PCD_Transceive 0x30 [command] 1 (some buf)
                (some bufferSize) (some 7) 0 false
                (PCD_ClearRegisterBitMask p PCD_Register.CollReg 0x80 tr)).backLen.getD
                  bufferSize ≠ 2
              ∨ (PCD_CommunicateWithPICC H p H.PCD_Transceive 0x30 [command] 1 (some buf)
                (some bufferSize) (some 7) 0 false
                (PCD_ClearRegisterBitMask p PCD_Register.CollReg 0x80 tr)).validBits.getD 7
                  ≠ 0 then
            (StatusCode.STATUS_ERROR,
              some ((PCD_CommunicateWithPICC H p H.PCD_Transceive 0x30 [command] 1 (some buf)
                (some bufferSize) (some 7) 0 false
                (PCD_ClearRegisterBitMask p PCD_Register.CollReg 0x80 tr)).backData.getD buf),
              (PCD_CommunicateWithPICC H p H.PCD_Transceive 0x30 [command] 1 (some buf)
                (some bufferSize) (some 7) 0 false
                (PCD_ClearRegisterBitMask p PCD_Register.CollReg 0x80 tr)).backLen.getD
                  bufferSize,
              (PCD_CommunicateWithPICC H p H.PCD_Transceive 0x30 [command] 1 (some buf)
                (some bufferSize) (some 7) 0 false
                (PCD_ClearRegisterBitMask p PCD_Register.CollReg 0x80 tr)).trace)
          else
            (StatusCode.STATUS_OK,
              some ((PCD_CommunicateWithPICC H p H.PCD_Transceive 0x30 [command] 1 (some buf)
                (some bufferSize) (some 7) 0 false
                (PCD_ClearRegisterBitMask p PCD_Register.CollReg 0x80 tr)).backData.getD buf),
              (PCD_CommunicateWithPICC H p H.PCD_Transceive 0x30 [command] 1 (some buf)
                (some bufferSize) (some 7) 0 false
                (PCD_ClearRegisterBitMask p PCD_Register.CollReg 0x80 tr)).backLen.getD
                  bufferSize,
              (PCD_CommunicateWithPICC H p H.PCD_Transceive 0x30 [command] 1 (some buf)
                (some bufferSize) (some 7) 0 false
                (PCD_ClearRegisterBitMask p PCD_Register.CollReg 0x80 tr)).trace)) := by
      unfold PICC_REQA_or_WUPA
      simp only []
      rw [if_neg (by omega)]
      rfl
    generalize PCD_CommunicateWithPICC H p H.PCD_Transceive 0x30 [command] 1 (some buf)
      (some bufferSize) (some 7) 0 false
      (PCD_ClearRegisterBitMask p PCD_Register.CollReg 0x80 tr) = τ at e h1 h2 h3 ⊢
    rw [h1, h2, h3] at e
    simp only [Option.getD_some] at e
    refine ⟨d, l, v, h1, h2, h3, ?_, ?_, ?_, ?_⟩
    · rw [e]
      split_ifs <;> rfl
    · rw [e]
      constructor
      · intro hs
        split_ifs at hs with c1 c2
        · exact absurd hs c1
        · exact ⟨not_not.mp c1, by omega, by omega⟩
      · rintro ⟨s1, s2, s3⟩
        rw [if_neg (by rw [s1]; simp), if_neg (by omega)]
    · intro s1 s2
      rw [e, if_neg (by rw [s1]; simp), if_pos s2]
    · intro s1
      rw [e, if_pos s1]
  · unfold PCD_CommunicateWithPICC_start
    simp only [Option.getD_some, if_true]
    rfl

/-- C22 on the card that answers REQA with `04 00`: STATUS_OK with two bytes;
with room for one byte only, STATUS_NO_ROOM and no bus transaction. -/
theorem PICC_REQA_or_WUPA_result_witness :
    (∃ t, PICC_RequestA datasheet atqaCard (some [0xAA, 0xBB]) 2 []
        = (StatusCode.STATUS_OK, some [0x04, 0x00], 2, t))
      ∧ PICC_RequestA datasheet atqaCard (some [0xAA, 0xBB]) 1 []
        = (StatusCode.STATUS_NO_ROOM, some [0xAA, 0xBB], 1, [])
      ∧ PICC_REQA_or_WUPA datasheet atqaCard 0x26 none 2 []
        = (StatusCode.STATUS_NO_ROOM, none, 2, []) :=
  ⟨⟨_, rfl⟩,
    (PICC_REQA_or_WUPA_result datasheet atqaCard 0x26 1 []).2.1 [0xAA, 0xBB] (by decide),
    (PICC_REQA_or_WUPA_result datasheet atqaCard 0x26 2 []).1⟩

/-- A list of six bytes, spelled out. -/
theorem six_bytes (b : List Nat) (h : b.length = 6) :
    ∃ x0 x1 x2 x3 x4 x5, b = [x0, x1, x2, x3, x4, x5] := by
  match b, h with
  | [x0, x1, x2, x3, x4, x5], _ => exact ⟨_, _, _, _, _, _, rfl⟩

/-- A list of ten bytes, spelled out. -/
theorem ten_bytes (b : List Nat) (h : b.length = 10) :
    ∃ x0 x1 x2 x3 x4 x5 x6 x7 x8 x9, b = [x0, x1, x2, x3, x4, x5, x6, x7, x8, x9] := by
  match b, h with
  | [x0, x1, x2, x3, x4, x5, x6, x7, x8, x9], _ => exact ⟨_, _, _, _, _, _, _, _, _, _, rfl⟩

/-- The frame of `PCD_Authenticate` for the three sizes of a UID. -/
theorem PCD_Authenticate_frame_eq (command blockAddr : Nat) (key : List Nat) (uid : Uid)
    (hk : key.length = 6) (hu : uid.uidByte.length = 10)
    (hs : uid.size = 4 ∨ uid.size = 7 ∨ uid.size = 10) :
    PCD_Authenticate_frame command blockAddr key uid
      = [command, blockAddr] ++ key ++ (uid.uidByte.drop (uid.size - 4)).take 4 := by
  obtain ⟨size, bytes, sak⟩ := uid
  obtain ⟨k0, k1, k2, k3, k4, k5, rfl⟩ := six_bytes key hk
  obtain ⟨x0, x1, x2, x3, x4, x5, x6, x7, x8, x9, rfl⟩ := ten_bytes bytes hu
  simp only [] at hs
  rcases hs with rfl | rfl | rfl <;> rfl

/-- Without out-pointers and without CRC check, `PCD_CommunicateWithPICC` reads
ErrorReg after the polling loop and nothing else. -/
theorem PCD_CommunicateWithPICC_no_receive (H : Header) (p : RegisterPort)
    (command waitIRq : Nat) (sendData : List Nat) (sendLen rxAlign : Nat) (tr : Trace) :
    PCD_CommunicateWithPICC H p command waitIRq sendData sendLen none none none rxAlign false tr
      = if (PCD_CommunicateWithPICC_wait p waitIRq 2000
            (PCD_CommunicateWithPICC_start H p command sendData sendLen none rxAlign tr)).1
            = false then
          ⟨StatusCode.STATUS_TIMEOUT, none, none, none,
            (PCD_CommunicateWithPICC_wait p waitIRq 2000
              (PCD_CommunicateWithPICC_start H p command sendData sendLen none rxAlign tr)).2⟩
        else if (PCD_ReadRegister p PCD_Register.ErrorReg
            (PCD_CommunicateWithPICC_wait p waitIRq 2000
              (PCD_CommunicateWithPICC_start H p command sendData sendLen none rxAlign
                tr)).2).1 &&& 0x13 ≠ 0 then
          ⟨StatusCode.STATUS_ERROR, none, none, none,
            BusEvent.read PCD_Register.ErrorReg 1 ::
              (PCD_CommunicateWithPICC_wait p waitIRq 2000
                (PCD_CommunicateWithPICC_start H p command sendData sendLen none rxAlign
                  tr)).2⟩
        else if (PCD_ReadRegister p PCD_Register.ErrorReg
            (PCD_CommunicateWithPICC_wait p waitIRq 2000
              (PCD_CommunicateWithPICC_start H p command sendData sendLen none rxAlign
                tr)).2).1 &&& 0x08 ≠ 0 then
          ⟨StatusCode.STATUS_COLLISION, none, none, none,
            BusEvent.read PCD_Register.ErrorReg 1 ::
              (PCD_CommunicateWithPICC_wait p waitIRq 2000
                (PCD_CommunicateWithPICC_start H p command sendData sendLen none rxAlign
                  tr)).2⟩
        else
          ⟨StatusCode.STATUS_OK, none, none, none,
            BusEvent.read PCD_Register.ErrorReg 1 ::
              (PCD_CommunicateWithPICC_wait p waitIRq 2000
                (PCD_CommunicateWithPICC_start H p command sendData sendLen none rxAlign
                  tr)).2⟩ := by
  unfold PCD_CommunicateWithPICC
  simp only []
  split_ifs with c1 c2 c3
  · rfl
  · unfold PCD_CommunicateWithPICC_finish
    simp only []
    rw [if_pos c2]
    rfl
  · unfold PCD_CommunicateWithPICC_finish
    simp only []
    rw [if_neg c2, if_pos c3]
    rfl
  · unfold PCD_CommunicateWithPICC_finish
    simp only []
    rw [if_neg c2, if_neg c3]
    rfl

/-- C21: for every `command`, `blockAddr`, 6-byte key and every `uid` with size
4, 7 or 10, `PCD_Authenticate` is the call `PCD_CommunicateWithPICC(
PCD_MFAuthent, 0x10, sendData, 12, NULL, NULL, NULL, 0, false)` whose twelve
bytes are `command`, `blockAddr`, the six key bytes and
`uidByte[size-4..size-1]`; each index `i + size - 4` into `uidByte` lies in
0..9.  The twelve bytes are written to the FIFO and PCD_MFAuthent to
CommandReg (StartSend is not set, PCD_MFAuthent not being PCD_Transceive).  The status is STATUS_OK exactly when the polling loop is left by
an interrupt of mask 0x10 (IdleIRq), which is when some poll among the first
2000 finds that bit and no earlier poll found the timer bit 0x01, and ErrorReg
then has none of the bits 0x13 and not the collision bit 0x08.  After the loop
the only register read is ErrorReg: no data is received. -/
theorem PCD_Authenticate_result (H : Header) (p : RegisterPort) (command blockAddr : Nat)
    (key : List Nat) (uid : Uid) (tr : Trace) (hk : key.length = 6)
    (hu : uid.uidByte.length = 10)
    (hs : uid.size = 4 ∨ uid.size = 7 ∨ uid.size = 10) :
    let sendData := [command, blockAddr] ++ key ++ (uid.uidByte.drop (uid.size - 4)).take 4
    let start := PCD_CommunicateWithPICC_start H p H.PCD_MFAuthent sendData 12 none 0 tr
    let w := PCD_CommunicateWithPICC_wait p 0x10 2000 start
    let e := PCD_ReadRegister p PCD_Register.ErrorReg w.2
    sendData.length = 12
      ∧ (∀ i, i < 4 → 0 ≤ PCD_Authenticate_index uid i ∧ PCD_Authenticate_index uid i ≤ 9
          ∧ sendData.getD (8 + i) 0
            = uid.uidByte.getD (Int.toNat (PCD_Authenticate_index uid i)) 0)
      ∧ PCD_Authenticate H p command blockAddr key uid tr
        = ((PCD_CommunicateWithPICC H p H.PCD_MFAuthent 0x10 sendData 12 none none none 0
            false tr).status,
           (PCD_CommunicateWithPICC H p H.PCD_MFAuthent 0x10 sendData 12 none none none 0
            false tr).trace)
      ∧ (H.PCD_MFAuthent ≠ H.PCD_Transceive →
          start = BusEvent.write PCD_Register.CommandReg [H.PCD_MFAuthent % 256] ::
            BusEvent.write PCD_Register.BitFramingReg [0] ::
            BusEvent.write PCD_Register.FIFODataReg sendData ::
            PCD_SetRegisterBitMask p PCD_Register.FIFOLevelReg 0x80
              (BusEvent.write PCD_Register.ComIrqReg [0x7F] ::
                BusEvent.write PCD_Register.CommandReg [H.PCD_Idle % 256] :: tr))
      ∧ (w.1 = true ↔
          ∃ k, k < 2000 ∧ comIrqAt p start k &&& 0x10 ≠ 0 ∧
            ∀ j, j < k → comIrqAt p start j &&& 0x01 = 0)
      ∧ ((PCD_Authenticate H p command blockAddr key uid tr).1 = StatusCode.STATUS_OK ↔
          w.1 = true ∧ e.1 &&& 0x13 = 0 ∧ e.1 &&& 0x08 = 0)
      ∧ (w.1 = true →
          (PCD_Authenticate H p command blockAddr key uid tr).2
            = BusEvent.read PCD_Register.ErrorReg 1 :: w.2)
      ∧ (w.1 = false →
          PCD_Authenticate H p command blockAddr key uid tr
            = (StatusCode.STATUS_TIMEOUT, w.2)) := by
  intro sendData start w e
  have hf := PCD_Authenticate_frame_eq command blockAddr key uid hk hu hs
  have hA : PCD_Authenticate H p command blockAddr key uid tr
      = (if w.1 = false then (StatusCode.STATUS_TIMEOUT, w.2)
        else if e.1 &&& 0x13 ≠ 0 then (StatusCode.STATUS_ERROR, e.2)
        else if e.1 &&& 0x08 ≠ 0 then (StatusCode.STATUS_COLLISION, e.2)
        else (StatusCode.STATUS_OK, e.2)) := by
    unfold PCD_Authenticate
    simp only []
    rw [hf, PCD_CommunicateWithPICC_no_receive]
    split_ifs <;> rfl
  have he2 : e.2 = BusEvent.read PCD_Register.ErrorReg 1 :: w.2 := rfl
  refine ⟨?_, ?_, ?_, ?_, PCD_CommunicateWithPICC_wait_true p 0x10 2000 start, ?_, ?_, ?_⟩
  · obtain ⟨size, bytes, sak⟩ := uid
    obtain ⟨x0, x1, x2, x3, x4, x5, x6, x7, x8, x9, rfl⟩ := ten_bytes bytes hu
    obtain ⟨k0, k1, k2, k3, k4, k5, rfl⟩ := six_bytes key hk
    simp only [] at hs
    rcases hs with rfl | rfl | rfl <;> rfl
  · intro i hi
    obtain ⟨size, bytes, sak⟩ := uid
    obtain ⟨x0, x1, x2, x3, x4, x5, x6, x7, x8, x9, rfl⟩ := ten_bytes bytes hu
    obtain ⟨k0, k1, k2, k3, k4, k5, rfl⟩ := six_bytes key hk
    simp only [] at hs
    have h4 : i = 0 ∨ i = 1 ∨ i = 2 ∨ i = 3 := by omega
    rcases hs with rfl | rfl | rfl <;> rcases h4 with rfl | rfl | rfl | rfl <;>
      exact ⟨by unfold PCD_Authenticate_index; norm_num,
        by unfold PCD_Authenticate_index; norm_num, rfl⟩
  · unfold PCD_Authenticate
    simp only []
    rw [hf]
  · intro hc
    show PCD_CommunicateWithPICC_start H p H.PCD_MFAuthent sendData 12 none 0 tr = _
    unfold PCD_CommunicateWithPICC_start
    simp only [Option.getD_none]
    rw [if_neg hc]
    unfold PCD_WriteRegisterData
    rw [if_neg (by decide)]
    have ht : List.take 12 sendData = sendData := by
      apply List.take_of_length_le
      obtain ⟨size, bytes, sak⟩ := uid
      obtain ⟨x0, x1, x2, x3, x4, x5, x6, x7, x8, x9, rfl⟩ := ten_bytes bytes hu
      obtain ⟨k0, k1, k2, k3, k4, k5, rfl⟩ := six_bytes key hk
      simp only [] at hs
      rcases hs with rfl | rfl | rfl <;> exact le_refl _
    rw [ht]
    rfl
  · rw [hA]
    constructor
    · intro h
      split_ifs at h with c1 c2 c3
      exact ⟨by simpa using c1, not_not.mp c2, not_not.mp c3⟩
    · rintro ⟨h1, h2, h3⟩
      rw [if_neg (by rw [h1]; simp), if_neg (by rw [h2]; simp), if_neg (by rw [h3]; simp)]
  · intro h1
    rw [hA, if_neg (by rw [h1]; simp)]
    split_ifs <;> exact he2
  · intro h1
    rw [hA, if_pos h1]

/-- C21 on a chip that raises IdleIRq at once, for key A of block 4, the default
key and the UID `DE AD BE EF`: the frame is `60 04 FF FF FF FF FF FF DE AD BE
EF` and the result is STATUS_OK. -/
theorem PCD_Authenticate_result_witness :
    ([0xFF, 0xFF, 0xFF, 0xFF, 0xFF, 0xFF] : List Nat).length = 6
      ∧ PCD_Authenticate_frame 0x60 4 [0xFF, 0xFF, 0xFF, 0xFF, 0xFF, 0xFF]
          ⟨4, [0xDE, 0xAD, 0xBE, 0xEF, 0, 0, 0, 0, 0, 0], 0x08⟩
        = [0x60, 0x04, 0xFF, 0xFF, 0xFF, 0xFF, 0xFF, 0xFF, 0xDE, 0xAD, 0xBE, 0xEF]
      ∧ (PCD_Authenticate datasheet idleChip 0x60 4 [0xFF, 0xFF, 0xFF, 0xFF, 0xFF, 0xFF]
          ⟨4, [0xDE, 0xAD, 0xBE, 0xEF, 0, 0, 0, 0, 0, 0], 0x08⟩ []).1
        = StatusCode.STATUS_OK :=
  ⟨rfl, rfl,
    (PCD_Authenticate_result datasheet idleChip 0x60 4 [0xFF, 0xFF, 0xFF, 0xFF, 0xFF, 0xFF]
      ⟨4, [0xDE, 0xAD, 0xBE, 0xEF, 0, 0, 0, 0, 0, 0], 0x08⟩ [] rfl rfl
      (Or.inl rfl)).2.2.2.2.2.1.mpr ⟨by decide, by decide, by decide⟩⟩

/-! ## The loop of `PCD_Reset` -/

theorem commandAt_succ (p : RegisterPort) (tr : Trace) (k : Nat) :
    commandAt p (BusEvent.read PCD_Register.CommandReg 1 :: tr) k = commandAt p tr (k + 1) := by
  unfold commandAt
  rw [replicate_append_cons]

/-- One unfolding of the loop of `PCD_Reset`. -/
theorem PCD_Reset_wait_succ (p : RegisterPort) (fuel : Nat) (tr : Trace) :
    PCD_Reset_wait p (fuel + 1) tr
      = if commandAt p tr 0 &&& 0x10 ≠ 0 then
          PCD_Reset_wait p fuel (BusEvent.read PCD_Register.CommandReg 1 :: tr)
        else some (BusEvent.read PCD_Register.CommandReg 1 :: tr) := rfl

/-- The loop has not ended after `fuel` reads exactly when each of them had the
PowerDown bit set. -/
theorem PCD_Reset_wait_none (p : RegisterPort) :
    ∀ (fuel : Nat) (tr : Trace),
      PCD_Reset_wait p fuel tr = none ↔ ∀ k, k < fuel → commandAt p tr k &&& 0x10 ≠ 0 := by
  intro fuel
  induction fuel with
  | zero =>
    intro tr
    exact ⟨fun _ k hk => absurd hk (Nat.not_lt_zero k), fun _ => rfl⟩
  | succ fuel ih =>
    intro tr
    rw [PCD_Reset_wait_succ]
    split_ifs with h1
    · rw [ih]
      constructor
      · intro h k hk
        rcases Nat.eq_zero_or_pos k with hk0 | hk0
        · subst hk0
          exact h1
        · obtain ⟨j, rfl⟩ : ∃ j, k = j + 1 := ⟨k - 1, by omega⟩
          rw [← commandAt_succ]
          exact h j (by omega)
      · intro h k hk
        rw [commandAt_succ]
        exact h (k + 1) (by omega)
    · constructor
      · intro h
        cases h
      · intro h
        exact absurd (h 0 (by omega)) h1

/-- The loop ends with the first read that has the PowerDown bit clear, and it
has then read CommandReg once more than the number of reads before. -/
theorem PCD_Reset_wait_some (p : RegisterPort) :
    ∀ (k fuel : Nat) (tr : Trace), k < fuel → commandAt p tr k &&& 0x10 = 0 →
      (∀ j, j < k → commandAt p tr j &&& 0x10 ≠ 0) →
        PCD_Reset_wait p fuel tr
          = some (List.replicate (k + 1) (BusEvent.read PCD_Register.CommandReg 1) ++ tr) := by
  intro k
  induction k with
  | zero =>
    intro fuel tr hf h0 _
    obtain ⟨f, rfl⟩ : ∃ f, fuel = f + 1 := ⟨fuel - 1, by omega⟩
    rw [PCD_Reset_wait_succ, if_neg (by rw [h0]; simp)]
    rfl
  | succ k ih =>
    intro fuel tr hf hk hj
    obtain ⟨f, rfl⟩ : ∃ f, fuel = f + 1 := ⟨fuel - 1, by omega⟩
    rw [PCD_Reset_wait_succ, if_pos (hj 0 (by omega)),
      ih f _ (by omega) (by rw [commandAt_succ]; exact hk)
        (fun j hjk => by rw [commandAt_succ]; exact hj (j + 1) (by omega)),
      replicate_append_cons]

/-- C24, as the code has it: `PCD_Reset` writes PCD_SoftReset to CommandReg and
then reads CommandReg until a read has bit 4 clear.  No number of reads ends
the loop while every read has bit 4 set; when read number `k + 1` is the first
with bit 4 clear, `PCD_Reset` returns after exactly `k + 1` reads.  `PCD_Init`
without a hardware reset returns exactly when its `PCD_Reset` does, and with a
hardware reset it always returns.  The other loops are bounded for every
port: the polling loop of `PCD_CommunicateWithPICC` reads ComIrqReg between 1
and 2000 times, the one of `PCD_CalculateCRC` reads DivIrqReg between 1 and
5000 times, and `PICC_Select` returns. -/
theorem PCD_Reset_returns (H : Header) (p : RegisterPort) (tr : Trace) :
    (∀ fuel, PCD_Reset H p fuel tr = none ↔
        ∀ k, k < fuel →
          commandAt p (BusEvent.write PCD_Register.CommandReg [H.PCD_SoftReset % 256] :: tr) k
            &&& 0x10 ≠ 0)
      ∧ (∀ k fuel, k < fuel →
          commandAt p (BusEvent.write PCD_Register.CommandReg [H.PCD_SoftReset % 256] :: tr) k
            &&& 0x10 = 0 →
          (∀ j, j < k →
            commandAt p (BusEvent.write PCD_Register.CommandReg [H.PCD_SoftReset % 256] :: tr) j
              &&& 0x10 ≠ 0) →
          PCD_Reset H p fuel tr
            = some (List.replicate (k + 1) (BusEvent.read PCD_Register.CommandReg 1) ++
                BusEvent.write PCD_Register.CommandReg [H.PCD_SoftReset % 256] :: tr))
      ∧ (∀ fuel, PCD_Init H p false fuel tr = none ↔ PCD_Reset H p fuel tr = none)
      ∧ (∀ fuel, PCD_Init H p true fuel tr ≠ none)
      ∧ (∀ waitIRq start, ∃ m, 1 ≤ m ∧ m ≤ 2000 ∧
          (PCD_CommunicateWithPICC_wait p waitIRq 2000 start).2
            = List.replicate m comIrqRead ++ start)
      ∧ (∀ start, ∃ m, 1 ≤ m ∧ m ≤ 5000 ∧
          (PCD_CalculateCRC_wait p 5000 start).2 = List.replicate m divIrqRead ++ start)
      ∧ (∀ junk uid validBits, ∃ r, PICC_Select H p junk uid validBits tr = some r) := by
  refine ⟨fun fuel => PCD_Reset_wait_none p fuel _,
    fun k fuel hf h0 hj => PCD_Reset_wait_some p k fuel _ hf h0 hj, fun fuel => ?_,
    fun fuel => ?_,
    fun waitIRq start => PCD_CommunicateWithPICC_wait_trace p waitIRq 2000 start (by norm_num),
    fun start => PCD_CalculateCRC_wait_trace p 5000 start (by norm_num),
    fun junk uid validBits => PICC_Select_returns H p junk uid validBits tr⟩
  · unfold PCD_Init
    simp
  · unfold PCD_Init
    simp

/-- C24 fails as stated: on a chip whose CommandReg keeps reading with bit 4
set, no number of reads makes `PCD_Reset` return, nor `PCD_Init` without a
hardware reset; on a chip that clears the bit after two reads `PCD_Reset`
returns with the third read. -/
theorem PCD_Reset_never_returns :
    (¬ ∃ fuel t, PCD_Reset datasheet poweredDownChip fuel [] = some t)
      ∧ (¬ ∃ fuel t, PCD_Init datasheet poweredDownChip false fuel [] = some t)
      ∧ PCD_Reset datasheet slowStartChip 3 []
        = some [BusEvent.read PCD_Register.CommandReg 1,
            BusEvent.read PCD_Register.CommandReg 1,
            BusEvent.read PCD_Register.CommandReg 1,
            BusEvent.write PCD_Register.CommandReg [0x0F]] := by
  have hnone : ∀ fuel, PCD_Reset datasheet poweredDownChip fuel [] = none := by
    intro fuel
    exact (PCD_Reset_wait_none poweredDownChip fuel _).mpr (fun k _ => by
      simp [commandAt, PCD_ReadRegister, poweredDownChip, chipAnswering])
  refine ⟨?_, ?_, by decide⟩
  · rintro ⟨fuel, t, h⟩
    rw [hnone fuel] at h
    cases h
  · rintro ⟨fuel, t, h⟩
    unfold PCD_Init at h
    rw [if_neg (by simp), hnone fuel] at h
    cases h

/-! ## The number of rounds of a cascade level -/

/-- C23, as the code has it: `while (!selectDone)` ends within `33 - min k 32`
passes when it is entered with `k` known bits, hence within 33 passes: a pass
that asks for another one was an ANTICOLLISION pass (fewer than 32 bits known)
and has raised the number of known bits, to at most 32; a pass with 32 bits
known (the SELECT) is the last one.  So there are at most 32 ANTICOLLISION
passes and one SELECT pass, and each pass makes at most one transceive. -/
theorem PICC_Select_anticollision_bound (H : Header) (p : RegisterPort) (fuel k : Nat)
    (buffer : List Nat) (tr : Trace) (h : 33 ≤ fuel + min k 32) :
    (∃ r, PICC_Select_anticollision H p fuel k buffer tr = some r
        ∧ ∀ k1 b1 t1, r ≠ Round.again k1 b1 t1)
      ∧ (∀ k0 b0 t0 k1 b1 t1,
          PICC_Select_round H p k0 b0 t0 = Round.again k1 b1 t1 →
            k0 < 32 ∧ k0 < k1 ∧ k1 ≤ 32) := by
  constructor
  · rcases PICC_Select_anticollision_ends H p fuel k buffer tr h with
      ⟨s, t, hr⟩ | ⟨b, l, x, t, hr⟩
    · exact ⟨_, hr, fun _ _ _ e => by cases e⟩
    · exact ⟨_, hr, fun _ _ _ e => by cases e⟩
  · intro k0 b0 t0 k1 b1 t1 hr
    obtain ⟨h1, h2⟩ := PICC_Select_round_again H p k0 b0 t0 k1 b1 t1 hr
    exact ⟨by omega, h1, h2⟩

/-- C23 on a field that collides one bit further on in every exchange: entered
with no bit known, the loop ends within 33 passes. -/
theorem PICC_Select_anticollision_bound_witness :
    33 ≤ 33 + min 0 32
      ∧ PICC_Select_anticollision datasheet collidingField 33 0 [0x93, 0, 0, 0, 0, 0, 0, 0, 0] []
        ≠ none :=
  ⟨by decide, fun e =>
    (PICC_Select_anticollision_bound datasheet collidingField 33 0
      [0x93, 0, 0, 0, 0, 0, 0, 0, 0] [] (by decide)).1.elim
      (fun _ hr => by rw [e] at hr; cases hr.1)⟩

/-- C23 fails as stated: in a field that collides one bit further on in every
exchange, 32 passes do not end the loop of cascade level 1, and
`PICC_Select(uid, 0)` makes 33 transceive exchanges (32 ANTICOLLISION, then one
SELECT) before it returns, all of them in cascade level 1. -/
theorem PICC_Select_makes_33_exchanges :
    PICC_Select_anticollision datasheet collidingField 32 0 [0x93, 0, 0, 0, 0, 0, 0, 0, 0]
        (PCD_ClearRegisterBitMask collidingField PCD_Register.CollReg 0x80 []) = none
      ∧ (PICC_Select_level datasheet collidingField 0 1 blankUid (localArray 9 (fun _ => 0))
          (PCD_ClearRegisterBitMask collidingField PCD_Register.CollReg 0x80 [])).map
          (fun r => match r with
            | Level.exit s _ t =>
              (s, t.count (BusEvent.write PCD_Register.CommandReg [0x0C]))
            | _ => (StatusCode.STATUS_OK, 0))
        = some (StatusCode.STATUS_INTERNAL_ERROR, 33)
      ∧ (PICC_Select datasheet collidingField (fun _ => 0) blankUid 0 []).map
          (fun r => (r.1, r.2.2.count (BusEvent.write PCD_Register.CommandReg [0x0C])))
        = some (StatusCode.STATUS_INTERNAL_ERROR, 33) := by
  refine ⟨?_, ?_, ?_⟩ <;> decide!

/-! ## Why `PICC_Select` returns -/

/-- What a round makes of the status of its transceive: a status other than
STATUS_OK and STATUS_COLLISION is returned at once, with the transceive as the
last bus activity; after STATUS_COLLISION the round never ends the loop with
`selectDone = true`. -/
theorem PICC_Select_exchange_status (H : Header) (p : RegisterPort) (k : Nat)
    (buffer : List Nat) (txLastBits bufferUsed responseOffset responseLength : Nat)
    (tr : Trace) :
    ((PICC_Select_transceive H p buffer txLastBits bufferUsed responseOffset responseLength
          tr).status ≠ StatusCode.STATUS_OK →
      (PICC_Select_transceive H p buffer txLastBits bufferUsed responseOffset responseLength
          tr).status ≠ StatusCode.STATUS_COLLISION →
      PICC_Select_exchange H p k buffer txLastBits bufferUsed responseOffset responseLength tr
        = Round.exit
            (PICC_Select_transceive H p buffer txLastBits bufferUsed responseOffset
              responseLength tr).status
            (PICC_Select_transceive H p buffer txLastBits bufferUsed responseOffset
              responseLength tr).trace)
      ∧ ((PICC_Select_transceive H p buffer txLastBits bufferUsed responseOffset responseLength
          tr).status = StatusCode.STATUS_COLLISION →
        (∃ t, PICC_Select_exchange H p k buffer txLastBits bufferUsed responseOffset
            responseLength tr = Round.exit StatusCode.STATUS_COLLISION t)
          ∨ (∃ t, PICC_Select_exchange H p k buffer txLastBits bufferUsed responseOffset
            responseLength tr = Round.exit StatusCode.STATUS_INTERNAL_ERROR t)
          ∨ (∃ k1 b1 t1, PICC_Select_exchange H p k buffer txLastBits bufferUsed responseOffset
            responseLength tr = Round.again k1 b1 t1 ∧ k < k1 ∧ k1 ≤ 32)) := by
  have hτ : PCD_TransceiveData H p buffer bufferUsed (some (buffer.drop responseOffset))
      (some responseLength) (some txLastBits) txLastBits false
      (PCD_WriteRegister PCD_Register.BitFramingReg ((txLastBits <<< 4) + txLastBits) tr)
      = PICC_Select_transceive H p buffer txLastBits bufferUsed responseOffset responseLength
        tr := rfl
  constructor
  · intro h1 h2
    unfold PICC_Select_exchange
    simp only []
    rw [hτ, if_neg h2, if_pos h1]
  · intro h1
    cases hr : PICC_Select_exchange H p k buffer txLastBits bufferUsed responseOffset
        responseLength tr with
    | exit s t =>
      unfold PICC_Select_exchange at hr
      simp only [] at hr
      rw [hτ, if_pos h1] at hr
      split_ifs at hr <;>
        (injection hr with e1 _
         rw [← e1]
         first
           | exact Or.inl ⟨t, rfl⟩
           | exact Or.inr (Or.inl ⟨t, rfl⟩))
    | again k1 b1 t1 =>
      obtain ⟨h2, h3⟩ := PICC_Select_exchange_again H p k buffer txLastBits bufferUsed
        responseOffset responseLength tr k1 b1 t1 hr
      exact Or.inr (Or.inr ⟨k1, b1, t1, rfl, h2, h3⟩)
    | selected b1 l1 x1 t1 =>
      obtain ⟨_, d, hs, _⟩ := PICC_Select_exchange_selected H p k buffer txLastBits bufferUsed
        responseOffset responseLength tr b1 l1 x1 t1 hr
      rw [h1] at hs
      cases hs

/-- At a cascade level above 3 the pass returns STATUS_INTERNAL_ERROR before
any bus activity. -/
theorem PICC_Select_level_default (H : Header) (p : RegisterPort)
    (validBits cascadeLevel : Nat) (uid : Uid) (buffer : List Nat) (tr : Trace)
    (h : 4 ≤ cascadeLevel) :
    PICC_Select_level H p validBits cascadeLevel uid buffer tr
      = some (Level.exit StatusCode.STATUS_INTERNAL_ERROR uid tr) := by
  unfold PICC_Select_level
  have hs : PICC_Select_switch H cascadeLevel validBits uid = none := by
    unfold PICC_Select_switch
    split <;> first | omega | rfl
  rw [hs]

/-- C28: `PICC_Select` returns for every `validBits`, caller `uid`, content of
the stack and register port.  In a round, a transceive status other than
STATUS_OK and STATUS_COLLISION is returned at once; after STATUS_COLLISION the
round either returns (STATUS_COLLISION or STATUS_INTERNAL_ERROR) or goes on
with strictly more known bits, at most 32; a round that goes on always has
raised the number of known bits, to at most 32, so the loop of a level ends
within 33 passes.  A pass of the cascade loop asks for the next level only at
levels 1, 2 and 3, and when level 3 asks for it the function returns
STATUS_INTERNAL_ERROR without any further bus activity. -/
theorem PICC_Select_terminates (H : Header) (p : RegisterPort) (junk : Nat → Nat) (uid : Uid)
    (validBits : Nat) (tr : Trace) :
    (∃ r, PICC_Select H p junk uid validBits tr = some r)
      ∧ (∀ k buffer txLastBits bufferUsed responseOffset responseLength t,
          ((PICC_Select_transceive H p buffer txLastBits bufferUsed responseOffset
              responseLength t).status ≠ StatusCode.STATUS_OK →
            (PICC_Select_transceive H p buffer txLastBits bufferUsed responseOffset
              responseLength t).status ≠ StatusCode.STATUS_COLLISION →
            PICC_Select_exchange H p k buffer txLastBits bufferUsed responseOffset
                responseLength t
              = Round.exit
                  (PICC_Select_transceive H p buffer txLastBits bufferUsed responseOffset
                    responseLength t).status
                  (PICC_Select_transceive H p buffer txLastBits bufferUsed responseOffset
                    responseLength t).trace)
          ∧ ((PICC_Select_transceive H p buffer txLastBits bufferUsed responseOffset
              responseLength t).status = StatusCode.STATUS_COLLISION →
            (∃ t1, PICC_Select_exchange H p k buffer txLastBits bufferUsed responseOffset
                responseLength t = Round.exit StatusCode.STATUS_COLLISION t1)
              ∨ (∃ t1, PICC_Select_exchange H p k buffer txLastBits bufferUsed responseOffset
                responseLength t = Round.exit StatusCode.STATUS_INTERNAL_ERROR t1)
              ∨ (∃ k1 b1 t1, PICC_Select_exchange H p k buffer txLastBits bufferUsed
                responseOffset responseLength t = Round.again k1 b1 t1 ∧ k < k1 ∧ k1 ≤ 32)))
      ∧ (∀ k buffer t k1 b1 t1,
          PICC_Select_round H p k buffer t = Round.again k1 b1 t1 → k < k1 ∧ k1 ≤ 32)
      ∧ (∀ k buffer t, ∃ r,
          PICC_Select_anticollision H p selectRounds k buffer t = some r
            ∧ ∀ k1 b1 t1, r ≠ Round.again k1 b1 t1)
      ∧ (∀ cascadeLevel uidL bufferL tL u b t,
          PICC_Select_level H p validBits cascadeLevel uidL bufferL tL
              = some (Level.next u b t) →
            cascadeLevel = 1 ∨ cascadeLevel = 2 ∨ cascadeLevel = 3)
      ∧ (∀ fuel uidL bufferL tL u b t,
          PICC_Select_level H p validBits 3 uidL bufferL tL = some (Level.next u b t) →
            PICC_Select_cascade H p validBits (fuel + 2) 3 uidL bufferL tL
              = some (StatusCode.STATUS_INTERNAL_ERROR, u, t)) := by
  refine ⟨PICC_Select_returns H p junk uid validBits tr,
    fun k buffer txLastBits bufferUsed responseOffset responseLength t =>
      PICC_Select_exchange_status H p k buffer txLastBits bufferUsed responseOffset
        responseLength t,
    fun k buffer t k1 b1 t1 hr => PICC_Select_round_again H p k buffer t k1 b1 t1 hr,
    fun k buffer t => ?_,
    fun cascadeLevel uidL bufferL tL u b t hl =>
      PICC_Select_level_next H p validBits cascadeLevel uidL bufferL tL u b t hl,
    fun fuel uidL bufferL tL u b t hl => ?_⟩
  · rcases PICC_Select_anticollision_ends H p selectRounds k buffer t
        (by unfold selectRounds; omega) with ⟨s, t1, hr⟩ | ⟨b, l, x, t1, hr⟩
    · exact ⟨_, hr, fun _ _ _ e => by cases e⟩
    · exact ⟨_, hr, fun _ _ _ e => by cases e⟩
  · have e1 : PICC_Select_cascade H p validBits (fuel + 2) 3 uidL bufferL tL
        = PICC_Select_cascade H p validBits (fuel + 1) 4 u b t := by
      rw [PICC_Select_cascade, hl]
    rw [e1, PICC_Select_cascade, PICC_Select_level_default H p validBits 4 u b t (le_refl 4)]

/-! ## A selection with no bit known -/

/-- What a round makes of a transceive that returned STATUS_OK. -/
theorem PICC_Select_exchange_ok (H : Header) (p : RegisterPort) (k : Nat)
    (buffer : List Nat) (txLastBits bufferUsed responseOffset responseLength : Nat)
    (tr : Trace) (d : List Nat) (l v : Nat)
    (hs : (PICC_Select_transceive H p buffer txLastBits bufferUsed responseOffset
      responseLength tr).status = StatusCode.STATUS_OK)
    (hd : (PICC_Select_transceive H p buffer txLastBits bufferUsed responseOffset
      responseLength tr).backData = some d)
    (hl : (PICC_Select_transceive H p buffer txLastBits bufferUsed responseOffset
      responseLength tr).backLen = some l)
    (hv : (PICC_Select_transceive H p buffer txLastBits bufferUsed responseOffset
      responseLength tr).validBits = some v) :
    PICC_Select_exchange H p k buffer txLastBits bufferUsed responseOffset responseLength tr
      = if k ≥ 32 then
          Round.selected (buffer.take responseOffset ++ d) l v
            (PICC_Select_transceive H p buffer txLastBits bufferUsed responseOffset
              responseLength tr).trace
        else
          Round.again 32 (buffer.take responseOffset ++ d)
            (PICC_Select_transceive H p buffer txLastBits bufferUsed responseOffset
              responseLength tr).trace := by
  have hτ : PCD_TransceiveData H p buffer bufferUsed (some (buffer.drop responseOffset))
      (some responseLength) (some txLastBits) txLastBits false
      (PCD_WriteRegister PCD_Register.BitFramingReg ((txLastBits <<< 4) + txLastBits) tr)
      = PICC_Select_transceive H p buffer txLastBits bufferUsed responseOffset responseLength
        tr := rfl
  unfold PICC_Select_exchange
  simp only []
  rw [hτ, if_neg (by rw [hs]; decide), if_neg (by rw [hs]; simp), hd, hl, hv]
  rfl

/-- With `validBits = 0` nothing is copied from `*uid`. -/
theorem PICC_Select_known_zero (H : Header) (uid : Uid) (buffer : List Nat) :
    PICC_Select_known H 0 uid 0 false buffer = (buffer, 0) := rfl

theorem PICC_Select_switch_one (H : Header) (uid : Uid) :
    PICC_Select_switch H 1 0 uid = some (H.PICC_CMD_SEL_CL1, 0, false) := by
  simp [PICC_Select_switch]

/-- The pass of cascade level 1 for `validBits = 0`: `*uid` is used only by the
copy that follows `while (!selectDone)`. -/
theorem PICC_Select_level_one (H : Header) (p : RegisterPort) (uid : Uid) (buffer : List Nat)
    (tr : Trace) :
    PICC_Select_level H p 0 1 uid buffer tr
      = match PICC_Select_anticollision H p selectRounds 0
            (buffer.set 0 H.PICC_CMD_SEL_CL1) tr with
        | none => none
        | some (Round.exit status t) => some (Level.exit status uid t)
        | some (Round.again _ _ _) => none
        | some (Round.selected b responseLength txLastBits t) =>
          some (PICC_Select_sak H p uid 0 b responseLength txLastBits t) := by
  unfold PICC_Select_level
  rw [PICC_Select_switch_one]
  simp only [PICC_Select_known_zero]

theorem copyBytes_getElem?_ge (src : List Nat) (srcIndex : Nat) (dst : List Nat)
    (dstIndex i : Nat) :
    ∀ n, dstIndex + n ≤ i → (copyBytes src srcIndex dst dstIndex n)[i]? = dst[i]?
  | 0, _ => rfl
  | n + 1, h => by
    unfold copyBytes
    rw [List.getElem?_set, if_neg (by omega)]
    exact copyBytes_getElem?_ge src srcIndex dst dstIndex i n (by omega)

theorem copyBytes_getElem?_written (src : List Nat) (srcIndex : Nat) (dst : List Nat)
    (dstIndex i : Nat) :
    ∀ n, i < n → dstIndex + n ≤ dst.length →
      (copyBytes src srcIndex dst dstIndex n)[dstIndex + i]? = some (src.getD (srcIndex + i) 0)
  | 0, h, _ => absurd h (Nat.not_lt_zero i)
  | n + 1, h, hl => by
    unfold copyBytes
    rw [List.getElem?_set]
    by_cases e : i = n
    · subst e
      rw [if_pos rfl, if_pos (by rw [copyBytes_length]; omega)]
    · rw [if_neg (by omega)]
      exact copyBytes_getElem?_written src srcIndex dst dstIndex i n (by omega) (by omega)

/-- What the completion of a level stores in `*uid`. -/
theorem PICC_Select_sak_complete_uid (H : Header) (p : RegisterPort) (uid : Uid)
    (uidIndex : Nat) (buffer : List Nat) (responseLength txLastBits : Nat) (tr : Trace)
    (u : Uid) (t : Trace)
    (h : PICC_Select_sak H p uid uidIndex buffer responseLength txLastBits tr
      = Level.complete u t) :
    u = { size := uid.size,
          uidByte := copyBytes buffer (if buffer.getD 2 0 = H.PICC_CMD_CT then 3 else 2)
            uid.uidByte uidIndex (if buffer.getD 2 0 = H.PICC_CMD_CT then 3 else 4),
          sak := buffer.getD 6 0 } := by
  by_cases hc : buffer.getD 2 0 = H.PICC_CMD_CT
  · rw [if_pos hc, if_pos hc]
    unfold PICC_Select_sak at h
    simp only [] at h
    rw [PICC_Select_sak_byte, if_pos hc, if_pos hc] at h
    split_ifs at h
    injection h with hu _
    exact hu.symm
  · rw [if_neg hc, if_neg hc]
    unfold PICC_Select_sak at h
    simp only [] at h
    rw [PICC_Select_sak_byte, if_neg hc, if_neg hc] at h
    split_ifs at h
    injection h with hu _
    exact hu.symm

/-- Whether a level is completed, and with which trace, does not depend on
`*uid`. -/
theorem PICC_Select_sak_complete_other (H : Header) (p : RegisterPort) (uid uid1 : Uid)
    (uidIndex : Nat) (buffer : List Nat) (responseLength txLastBits : Nat) (tr : Trace)
    (u : Uid) (t : Trace)
    (h : PICC_Select_sak H p uid uidIndex buffer responseLength txLastBits tr
      = Level.complete u t) :
    PICC_Select_sak H p uid1 uidIndex buffer responseLength txLastBits tr
      = Level.complete
          { size := uid1.size,
            uidByte := copyBytes buffer (if buffer.getD 2 0 = H.PICC_CMD_CT then 3 else 2)
              uid1.uidByte uidIndex (if buffer.getD 2 0 = H.PICC_CMD_CT then 3 else 4),
            sak := buffer.getD 6 0 } t := by
  unfold PICC_Select_sak at h ⊢
  simp only [] at h ⊢
  rw [PICC_Select_sak_byte] at h ⊢
  split_ifs at h ⊢ <;>
    (injection h with _ ht
     rw [ht])

/-- A successful run of the cascade loop begun at level `L` gives a size of at
least `3 * L + 1`. -/
theorem PICC_Select_cascade_size (H : Header) (p : RegisterPort) (validBits : Nat) :
    ∀ (fuel cascadeLevel : Nat) (uid : Uid) (buffer : List Nat) (tr : Trace) (u : Uid)
      (t : Trace),
      PICC_Select_cascade H p validBits fuel cascadeLevel uid buffer tr
          = some (StatusCode.STATUS_OK, u, t) → 3 * cascadeLevel + 1 ≤ u.size := by
  intro fuel
  induction fuel with
  | zero =>
    intro cascadeLevel uid buffer tr u t h
    simp [PICC_Select_cascade] at h
  | succ fuel ih =>
    intro cascadeLevel uid buffer tr u t h
    unfold PICC_Select_cascade at h
    cases hl : PICC_Select_level H p validBits cascadeLevel uid buffer tr with
    | none =>
      rw [hl] at h
      simp at h
    | some r =>
      rw [hl] at h
      cases r with
      | exit s1 u1 t1 =>
        simp only [Option.some.injEq, Prod.mk.injEq] at h
        exact absurd h.1 (PICC_Select_level_exit _ _ _ _ _ _ _ _ _ _ hl)
      | next u1 b1 t1 =>
        have := ih _ _ _ _ _ _ h
        omega
      | complete u1 t1 =>
        simp only [Option.some.injEq, Prod.mk.injEq] at h
        rw [← h.2.1]

/-- A selection that ends with `uid->size = 4` was completed by the pass of
cascade level 1. -/
theorem PICC_Select_cascade_one (H : Header) (p : RegisterPort) (validBits fuel : Nat)
    (uid : Uid) (buffer : List Nat) (tr : Trace) (u : Uid) (t : Trace)
    (h : PICC_Select_cascade H p validBits (fuel + 1) 1 uid buffer tr
      = some (StatusCode.STATUS_OK, u, t)) (h4 : u.size = 4) :
    ∃ u1, PICC_Select_level H p validBits 1 uid buffer tr = some (Level.complete u1 t)
      ∧ u = { u1 with size := 4 } := by
  unfold PICC_Select_cascade at h
  cases hl : PICC_Select_level H p validBits 1 uid buffer tr with
  | none =>
    rw [hl] at h
    simp at h
  | some r =>
    rw [hl] at h
    cases r with
    | exit s1 u1 t1 =>
      simp only [Option.some.injEq, Prod.mk.injEq] at h
      exact absurd h.1 (PICC_Select_level_exit _ _ _ _ _ _ _ _ _ _ hl)
    | next u1 b1 t1 =>
      have := PICC_Select_cascade_size H p validBits _ _ _ _ _ _ _ h
      omega
    | complete u1 t1 =>
      simp only [Option.some.injEq, Prod.mk.injEq] at h
      exact ⟨u1, by rw [h.2.2], h.2.1.symm⟩

/-- C30, as the code has it: when `PICC_Select(uid, 0)` returns STATUS_OK with
`uid->size = 4`, a round of cascade level 1 of this call, begun with all 32
bits known, sent a SELECT frame (`frame[0]` = PICC_CMD_SEL_CL1, `frame[1]` =
0x70) whose transceive returned STATUS_OK with the three bytes `sak c0 c1`;
that round ended the loop with `frame[0..5]` followed by `sak c0 c1` in the
frame buffer, the call ended with the CRC check of `sak`, and `uid->sak` is
`sak`.  If `frame[2]` is not the cascade tag PICC_CMD_CT, `uid->uidByte[0..3]`
are `frame[2..5]` and the bytes of `uidByte` from index 4 on are as they were;
if it is, `uid->uidByte[0..2]` are `frame[3..5]` and the bytes from index 3 on
are as they were.  Called with any other `*uid`, the function returns
STATUS_OK with the same trace, size 4, the same SAK and (if `frame[2]` is not
PICC_CMD_CT) the same `uidByte[0..3]`. -/
theorem PICC_Select_uid_bytes (H : Header) (p : RegisterPort) (junk : Nat → Nat) (uid : Uid)
    (tr : Trace) (u : Uid) (t : Trace)
    (h : PICC_Select H p junk uid 0 tr = some (StatusCode.STATUS_OK, u, t))
    (h4 : u.size = 4) :
    ∃ k b t3 frame t0 sak c0 c1,
      PICC_Select_rounds H p junk uid 0 tr 1 H.PICC_CMD_SEL_CL1 0 k b t3
        ∧ 32 ≤ k
        ∧ frame.length = 9 ∧ frame[0]? = some H.PICC_CMD_SEL_CL1 ∧ frame[1]? = some 0x70
        ∧ (PICC_Select_transceive H p frame 0 9 6 3 t0).status = StatusCode.STATUS_OK
        ∧ (PICC_Select_transceive H p frame 0 9 6 3 t0).backData = some [sak, c0, c1]
        ∧ PICC_Select_round H p k b t3
            = Round.selected (frame.take 6 ++ [sak, c0, c1]) 3 0
                (PICC_Select_transceive H p frame 0 9 6 3 t0).trace
        ∧ (PCD_CalculateCRC H p [sak, c0, c1] 1 ((frame.take 6 ++ [sak, c0, c1]).drop 2)
            (PICC_Select_transceive H p frame 0 9 6 3 t0).trace).2.2 = t
        ∧ u.sak = sak
        ∧ (frame.getD 2 0 ≠ H.PICC_CMD_CT → 4 ≤ uid.uidByte.length →
            ∀ i, i < 4 → u.uidByte.getD i 0 = frame.getD (2 + i) 0)
        ∧ (frame.getD 2 0 = H.PICC_CMD_CT → 3 ≤ uid.uidByte.length →
            ∀ i, i < 3 → u.uidByte.getD i 0 = frame.getD (3 + i) 0)
        ∧ (∀ i, (if frame.getD 2 0 = H.PICC_CMD_CT then 3 else 4) ≤ i →
            u.uidByte[i]? = uid.uidByte[i]?)
        ∧ (∀ uid1 : Uid, ∃ u1,
            PICC_Select H p junk uid1 0 tr = some (StatusCode.STATUS_OK, u1, t)
              ∧ u1.size = 4 ∧ u1.sak = u.sak
              ∧ (frame.getD 2 0 ≠ H.PICC_CMD_CT → 4 ≤ uid1.uidByte.length →
                  ∀ i, i < 4 → u1.uidByte.getD i 0 = frame.getD (2 + i) 0)) := by
  unfold PICC_Select at h
  rw [if_neg (by norm_num)] at h
  obtain ⟨u1, hlev, hu⟩ := PICC_Select_cascade_one H p 0 3 uid _ _ u t h h4
  have hlev0 := hlev
  rw [PICC_Select_level_one] at hlev
  cases ha : PICC_Select_anticollision H p selectRounds 0
      ((localArray 9 junk).set 0 H.PICC_CMD_SEL_CL1)
      (PCD_ClearRegisterBitMask p PCD_Register.CollReg 0x80 tr) with
  | none =>
    rw [ha] at hlev
    cases hlev
  | some r =>
    rw [ha] at hlev
    cases r with
    | exit s1 t1 => simp at hlev
    | again k1 b1 t1 => simp at hlev
    | selected b1 l1 x1 t1 =>
      simp only [Option.some.injEq] at hlev
      obtain ⟨k3, b3, t3, hp, hr⟩ := PICC_Select_anticollision_passes H p _ _ _ _ _ _ _ _
        PICC_Select_passes.first ha
      have hrounds : PICC_Select_rounds H p junk uid 0 tr 1 H.PICC_CMD_SEL_CL1 0 k3 b3 t3 :=
        ⟨by decide, uid, localArray 9 junk, _, false, PICC_Select_enters.first,
          PICC_Select_switch_one H uid, hp⟩
      obtain ⟨h93, h03⟩ := PICC_Select_passes_buffer H p _ _ _ _ _ _
        (by rw [List.length_set, localArray_length]) hp
      obtain ⟨hk3, frame, t0, d, hf, hf0, hf1, hst, hdata, _, _, htr, hd, hb1⟩ :=
        PICC_Select_round_selected H p _ _ _ _ _ _ _ h93 hr
      have hsel : frame[0]? = some H.PICC_CMD_SEL_CL1 := by
        rw [hf0, h03, List.getElem?_set_self]
        rw [localArray_length]
        norm_num
      obtain ⟨s, c0, c1, rfl⟩ := three_bytes d hd
      obtain ⟨f0, f1, f2, f3, f4, f5, f6, f7, f8, rfl⟩ := nine_bytes frame hf
      have hb : b1 = [f0, f1, f2, f3, f4, f5, s, c0, c1] := hb1
      subst hb
      obtain ⟨hl3, hx0, _, _, _, hc4, _, _⟩ :=
        PICC_Select_sak_complete_crc H p _ _ _ _ _ _ _ _ _ _ _ _ _ _ _ _ hlev
      subst hl3 hx0
      have hu1 : u1 = Uid.mk uid.size
          (copyBytes [f0, f1, f2, f3, f4, f5, s, c0, c1]
            (if f2 = H.PICC_CMD_CT then 3 else 2) uid.uidByte 0
            (if f2 = H.PICC_CMD_CT then 3 else 4)) s := by
        have hlev1 := hlev
        unfold PICC_Select_sak at hlev1
        simp only [] at hlev1
        rw [PICC_Select_sak_byte] at hlev1
        simp only [List.getD_cons_succ, List.getD_cons_zero] at hlev1
        by_cases hc : f2 = H.PICC_CMD_CT
        · rw [if_pos hc, if_pos hc] at hlev1 ⊢
          split_ifs at hlev1
          injection hlev1 with hu _
          exact hu.symm
        · rw [if_neg hc, if_neg hc] at hlev1 ⊢
          split_ifs at hlev1
          injection hlev1 with hu _
          exact hu.symm
      have key : ∀ (v : Uid), f2 ≠ H.PICC_CMD_CT → 4 ≤ v.uidByte.length → ∀ i, i < 4 →
          (copyBytes [f0, f1, f2, f3, f4, f5, s, c0, c1]
              (if f2 = H.PICC_CMD_CT then 3 else 2) v.uidByte 0
              (if f2 = H.PICC_CMD_CT then 3 else 4)).getD i 0
            = ([f0, f1, f2, f3, f4, f5, f6, f7, f8] : List Nat).getD (2 + i) 0 := by
        intro v hc hl i hi
        rw [if_neg hc, if_neg hc, List.getD_eq_getElem?_getD]
        have hw := copyBytes_getElem?_written [f0, f1, f2, f3, f4, f5, s, c0, c1] 2 v.uidByte 0
          i 4 hi (by omega)
        rw [Nat.zero_add] at hw
        rw [hw]
        have h4i : i = 0 ∨ i = 1 ∨ i = 2 ∨ i = 3 := by omega
        rcases h4i with rfl | rfl | rfl | rfl <;> rfl
      have keyT : ∀ (v : Uid), f2 = H.PICC_CMD_CT → 3 ≤ v.uidByte.length → ∀ i, i < 3 →
          (copyBytes [f0, f1, f2, f3, f4, f5, s, c0, c1]
              (if f2 = H.PICC_CMD_CT then 3 else 2) v.uidByte 0
              (if f2 = H.PICC_CMD_CT then 3 else 4)).getD i 0
            = ([f0, f1, f2, f3, f4, f5, f6, f7, f8] : List Nat).getD (3 + i) 0 := by
        intro v hc hl i hi
        rw [if_pos hc, if_pos hc, List.getD_eq_getElem?_getD]
        have hw := copyBytes_getElem?_written [f0, f1, f2, f3, f4, f5, s, c0, c1] 3 v.uidByte 0
          i 3 hi (by omega)
        rw [Nat.zero_add] at hw
        rw [hw]
        have h3i : i = 0 ∨ i = 1 ∨ i = 2 := by omega
        rcases h3i with rfl | rfl | rfl <;> rfl
      refine ⟨k3, b3, t3, [f0, f1, f2, f3, f4, f5, f6, f7, f8], t0, s, c0, c1, hrounds, hk3,
        rfl, hsel, hf1, hst, hdata, ?_, ?_, ?_, ?_, ?_, ?_, ?_⟩
      · rw [hr, htr]
        rfl
      · rw [htr]
        exact hc4
      · rw [hu, hu1]
      · intro hc hl i hi
        rw [hu, hu1]
        exact key uid hc hl i hi
      · intro hc hl i hi
        rw [hu, hu1]
        exact keyT uid hc hl i hi
      · intro i hi
        rw [hu, hu1]
        simp only [List.getD_cons_succ, List.getD_cons_zero] at hi ⊢
        apply copyBytes_getElem?_ge
        split_ifs at hi ⊢ <;> omega
      · intro uid1
        have hsak1 := PICC_Select_sak_complete_other H p uid uid1 _ _ _ _ _ _ _ hlev
        simp only [List.getD_cons_succ, List.getD_cons_zero] at hsak1
        refine ⟨Uid.mk 4 (copyBytes [f0, f1, f2, f3, f4, f5, s, c0, c1]
              (if f2 = H.PICC_CMD_CT then 3 else 2) uid1.uidByte 0
              (if f2 = H.PICC_CMD_CT then 3 else 4)) s, ?_, rfl, ?_, ?_⟩
        · unfold PICC_Select
          rw [if_neg (by norm_num)]
          simp only []
          rw [PICC_Select_cascade, PICC_Select_level_one, ha]
          simp only []
          rw [hsak1]
        · rw [hu, hu1]
        · intro hc hl i hi
          exact key uid1 hc hl i hi

/-- C30 on a card with the single-size UID `DE AD BE EF`: the selection from a
blank `Uid` returns STATUS_OK with these four bytes, and from every other
`Uid` (of at least four bytes) it returns STATUS_OK with the same trace, size
4, the SAK `08` and the same four bytes. -/
theorem PICC_Select_uid_bytes_witness :
    ∃ t, PICC_Select datasheet singleSizeCard (fun _ => 0) blankUid 0 []
          = some (StatusCode.STATUS_OK,
              ⟨4, [0xDE, 0xAD, 0xBE, 0xEF, 0, 0, 0, 0, 0, 0], 0x08⟩, t)
      ∧ ∀ uid1 : Uid, 4 ≤ uid1.uidByte.length → ∃ u1,
          PICC_Select datasheet singleSizeCard (fun _ => 0) uid1 0 []
              = some (StatusCode.STATUS_OK, u1, t)
            ∧ u1.size = 4 ∧ u1.sak = 0x08
            ∧ u1.uidByte.getD 0 0 = 0xDE ∧ u1.uidByte.getD 1 0 = 0xAD
            ∧ u1.uidByte.getD 2 0 = 0xBE ∧ u1.uidByte.getD 3 0 = 0xEF := by
  refine ⟨_, rfl, fun uid1 hl1 => ?_⟩
  obtain ⟨k, b, t3, frame, t0, sak, c0, c1, _, _, _, _, _, _, _, _, _, _, hbytes, _, hrest,
      hother⟩ :=
    PICC_Select_uid_bytes datasheet singleSizeCard (fun _ => 0) blankUid []
      ⟨4, [0xDE, 0xAD, 0xBE, 0xEF, 0, 0, 0, 0, 0, 0], 0x08⟩ _ rfl rfl
  have hct : frame.getD 2 0 ≠ datasheet.PICC_CMD_CT := by
    intro hc
    have h3 := hrest 3 (by rw [if_pos hc])
    revert h3
    decide
  obtain ⟨u1, h1, h2, h3, h5⟩ := hother uid1
  have hb := hbytes hct (by decide)
  refine ⟨u1, h1, h2, h3, ?_, ?_, ?_, ?_⟩
  · rw [h5 hct hl1 0 (by decide), ← hb 0 (by decide)]
    rfl
  · rw [h5 hct hl1 1 (by decide), ← hb 1 (by decide)]
    rfl
  · rw [h5 hct hl1 2 (by decide), ← hb 2 (by decide)]
    rfl
  · rw [h5 hct hl1 3 (by decide), ← hb 3 (by decide)]
    rfl

/-- C30 fails as stated: a card answers ANTICOLLISION with `88 AD BE EF` and
SELECT with the SAK `08`.  The SELECT frame sent and acknowledged is
`93 70 88 AD BE EF 74 B6 DD`, and `PICC_Select(uid, 0)` returns STATUS_OK with
`uid->size = 4`, but `uid->uidByte[0..3]` is `AD BE EF` followed by the byte
that `uidByte[3]` held before the call: `55` in one call, `00` in the other. -/
theorem PICC_Select_uid_keeps_old_byte :
    (PICC_Select datasheet tagFirstCard (fun _ => 0) ⟨0, List.replicate 10 0x55, 0⟩ 0 []).map
        (fun r => (r.1, r.2.1,
          decide (BusEvent.write PCD_Register.FIFODataReg
            [0x93, 0x70, 0x88, 0xAD, 0xBE, 0xEF, 0x74, 0xB6, 0xDD] ∈ r.2.2)))
      = some (StatusCode.STATUS_OK,
          ⟨4, [0xAD, 0xBE, 0xEF, 0x55, 0x55, 0x55, 0x55, 0x55, 0x55, 0x55], 0x08⟩, true)
      ∧ (PICC_Select datasheet tagFirstCard (fun _ => 0) blankUid 0 []).map
          (fun r => (r.1, r.2.1,
            decide (BusEvent.write PCD_Register.FIFODataReg
              [0x93, 0x70, 0x88, 0xAD, 0xBE, 0xEF, 0x74, 0xB6, 0xDD] ∈ r.2.2)))
        = some (StatusCode.STATUS_OK,
            ⟨4, [0xAD, 0xBE, 0xEF, 0, 0, 0, 0, 0, 0, 0], 0x08⟩, true) := by
  constructor <;> decide!

/-! ## The selection of a card with a single-size UID -/

theorem localArray_nine (junk : Nat → Nat) :
    localArray 9 junk
      = [junk 0 % 256, junk 1 % 256, junk 2 % 256, junk 3 % 256, junk 4 % 256, junk 5 % 256,
          junk 6 % 256, junk 7 % 256, junk 8 % 256] := rfl

/-- The round with no bit known is the exchange of the two bytes SEL, `0x20`. -/
theorem PICC_Select_round_zero (H : Header) (p : RegisterPort) (buffer : List Nat)
    (tr : Trace) :
    PICC_Select_round H p 0 buffer tr
      = PICC_Select_exchange H p 0 (buffer.set 1 0x20) 0 2 2 7 tr :=
  PICC_Select_round_lt H p 0 buffer tr (by decide)

/-- The SAK check on a frame buffer whose response window holds `sak c0 c1`:
with a CRC result `c0 c1` and no cascade bit the level is complete. -/
theorem PICC_Select_sak_complete_of (H : Header) (p : RegisterPort) (uid : Uid)
    (uidIndex f0 f1 f2 f3 f4 f5 sak c0 c1 : Nat) (tr : Trace)
    (h1 : (PCD_CalculateCRC H p [sak, c0, c1] 1 [f2, f3, f4, f5, sak, c0, c1] tr).1
      = StatusCode.STATUS_OK)
    (h2 : (PCD_CalculateCRC H p [sak, c0, c1] 1 [f2, f3, f4, f5, sak, c0, c1] tr).2.1.getD 0 0
      = c0)
    (h3 : (PCD_CalculateCRC H p [sak, c0, c1] 1 [f2, f3, f4, f5, sak, c0, c1] tr).2.1.getD 1 0
      = c1)
    (h4 : sak &&& 0x04 = 0) :
    PICC_Select_sak H p uid uidIndex [f0, f1, f2, f3, f4, f5, sak, c0, c1] 3 0 tr
      = Level.complete
          { size := uid.size,
            uidByte := copyBytes [f0, f1, f2, f3, f4, f5, sak, c0, c1]
              (if f2 = H.PICC_CMD_CT then 3 else 2) uid.uidByte uidIndex
              (if f2 = H.PICC_CMD_CT then 3 else 4),
            sak := sak }
          (PCD_CalculateCRC H p [sak, c0, c1] 1 [f2, f3, f4, f5, sak, c0, c1] tr).2.2 := by
  have hw : ∃ r0 r1, (PCD_CalculateCRC H p [sak, c0, c1] 1 [f2, f3, f4, f5, sak, c0, c1]
      tr).2.1 = [r0, r1, f4, f5, sak, c0, c1] := by
    rw [PCD_CalculateCRC_eq]
    split_ifs
    · exact ⟨_, _, rfl⟩
    · exact ⟨_, _, rfl⟩
  unfold PICC_Select_sak
  simp only []
  have e6 : List.drop 6 [f0, f1, f2, f3, f4, f5, sak, c0, c1] = [sak, c0, c1] := rfl
  have e2 : List.drop 2 [f0, f1, f2, f3, f4, f5, sak, c0, c1]
      = [f2, f3, f4, f5, sak, c0, c1] := rfl
  have e3 : List.take 2 [f0, f1, f2, f3, f4, f5, sak, c0, c1] = [f0, f1] := rfl
  rw [e6, e2, e3]
  generalize PCD_CalculateCRC H p [sak, c0, c1] 1 [f2, f3, f4, f5, sak, c0, c1] tr = c
    at h1 h2 h3 hw ⊢
  obtain ⟨s, w, t1⟩ := c
  obtain ⟨r0, r1, hw⟩ := hw
  simp only [] at hw h1 h2 h3
  subst hw h1
  simp only [List.getD_cons_succ, List.getD_cons_zero] at h2 h3
  subst h2 h3
  simp only [List.cons_append, List.nil_append, List.getD_cons_succ, List.getD_cons_zero]
  rw [if_neg (by simp), if_neg (by simp), if_neg (by simp), if_neg (by rw [h4]; simp)]

/-- The selection of a single card with no bit known: an ANTICOLLISION exchange
that returns STATUS_OK, the CRC_A of the SELECT frame, a SELECT exchange that
returns STATUS_OK with the three bytes `sak c0 c1`, and a CRC_A of `sak` that
is `c0 c1`, the SAK having no cascade bit. -/
theorem PICC_Select_single (H : Header) (p : RegisterPort) (junk : Nat → Nat) (uid : Uid)
    (tr : Trace) (u0 u1 u2 u3 b4 x7 x8 lo hi sak c0 c1 : Nat) (tA : Trace)
    (h2s : (PICC_Select_transceive H p
        (((localArray 9 junk).set 0 H.PICC_CMD_SEL_CL1).set 1 0x20) 0 2 2 7
        (PCD_ClearRegisterBitMask p PCD_Register.CollReg 0x80 tr)).status
      = StatusCode.STATUS_OK)
    (h2d : (PICC_Select_transceive H p
        (((localArray 9 junk).set 0 H.PICC_CMD_SEL_CL1).set 1 0x20) 0 2 2 7
        (PCD_ClearRegisterBitMask p PCD_Register.CollReg 0x80 tr)).backData
      = some [u0, u1, u2, u3, b4, x7, x8])
    (hA : PCD_CalculateCRC H p
        [H.PICC_CMD_SEL_CL1, 0x70, u0, u1, u2, u3, u0 ^^^ u1 ^^^ u2 ^^^ u3] 7 [x7, x8]
        (PICC_Select_transceive H p
          (((localArray 9 junk).set 0 H.PICC_CMD_SEL_CL1).set 1 0x20) 0 2 2 7
          (PCD_ClearRegisterBitMask p PCD_Register.CollReg 0x80 tr)).trace
      = (StatusCode.STATUS_OK, [lo, hi], tA))
    (h3s : (PICC_Select_transceive H p
        [H.PICC_CMD_SEL_CL1, 0x70, u0, u1, u2, u3, u0 ^^^ u1 ^^^ u2 ^^^ u3, lo, hi] 0 9 6 3
        tA).status = StatusCode.STATUS_OK)
    (h3d : (PICC_Select_transceive H p
        [H.PICC_CMD_SEL_CL1, 0x70, u0, u1, u2, u3, u0 ^^^ u1 ^^^ u2 ^^^ u3, lo, hi] 0 9 6 3
        tA).backData = some [sak, c0, c1])
    (h3l : (PICC_Select_transceive H p
        [H.PICC_CMD_SEL_CL1, 0x70, u0, u1, u2, u3, u0 ^^^ u1 ^^^ u2 ^^^ u3, lo, hi] 0 9 6 3
        tA).backLen = some 3)
    (h3v : (PICC_Select_transceive H p
        [H.PICC_CMD_SEL_CL1, 0x70, u0, u1, u2, u3, u0 ^^^ u1 ^^^ u2 ^^^ u3, lo, hi] 0 9 6 3
        tA).validBits = some 0)
    (hB1 : (PCD_CalculateCRC H p [sak, c0, c1] 1 [u0, u1, u2, u3, sak, c0, c1]
        (PICC_Select_transceive H p
          [H.PICC_CMD_SEL_CL1, 0x70, u0, u1, u2, u3, u0 ^^^ u1 ^^^ u2 ^^^ u3, lo, hi] 0 9 6 3
          tA).trace).1 = StatusCode.STATUS_OK)
    (hB2 : (PCD_CalculateCRC H p [sak, c0, c1] 1 [u0, u1, u2, u3, sak, c0, c1]
        (PICC_Select_transceive H p
          [H.PICC_CMD_SEL_CL1, 0x70, u0, u1, u2, u3, u0 ^^^ u1 ^^^ u2 ^^^ u3, lo, hi] 0 9 6 3
          tA).trace).2.1.getD 0 0 = c0)
    (hB3 : (PCD_CalculateCRC H p [sak, c0, c1] 1 [u0, u1, u2, u3, sak, c0, c1]
        (PICC_Select_transceive H p
          [H.PICC_CMD_SEL_CL1, 0x70, u0, u1, u2, u3, u0 ^^^ u1 ^^^ u2 ^^^ u3, lo, hi] 0 9 6 3
          tA).trace).2.1.getD 1 0 = c1)
    (hsak : sak &&& 0x04 = 0) :
    PICC_Select H p junk uid 0 tr
      = some (StatusCode.STATUS_OK,
          { size := 4,
            uidByte := copyBytes [H.PICC_CMD_SEL_CL1, 0x70, u0, u1, u2, u3, sak, c0, c1]
              (if u0 = H.PICC_CMD_CT then 3 else 2) uid.uidByte 0
              (if u0 = H.PICC_CMD_CT then 3 else 4),
            sak := sak },
          (PCD_CalculateCRC H p [sak, c0, c1] 1 [u0, u1, u2, u3, sak, c0, c1]
            (PICC_Select_transceive H p
              [H.PICC_CMD_SEL_CL1, 0x70, u0, u1, u2, u3, u0 ^^^ u1 ^^^ u2 ^^^ u3, lo, hi] 0 9 6
              3 tA).trace).2.2) := by
  obtain ⟨d2, l2, v2, e2d, e2l, e2v, _, _⟩ := PICC_Select_transceive_outputs H p
    (((localArray 9 junk).set 0 H.PICC_CMD_SEL_CL1).set 1 0x20) 0 2 2 7
    (PCD_ClearRegisterBitMask p PCD_Register.CollReg 0x80 tr)
  have eb : List.take 2 (((localArray 9 junk).set 0 H.PICC_CMD_SEL_CL1).set 1 0x20)
      ++ [u0, u1, u2, u3, b4, x7, x8]
      = [H.PICC_CMD_SEL_CL1, 0x20, u0, u1, u2, u3, b4, x7, x8] := rfl
  have hcrc : PCD_CalculateCRC H p
      [H.PICC_CMD_SEL_CL1, 0x70, u0, u1, u2, u3, u0 ^^^ u1 ^^^ u2 ^^^ u3, x7, x8] 7 [x7, x8]
      (PICC_Select_transceive H p
        (((localArray 9 junk).set 0 H.PICC_CMD_SEL_CL1).set 1 0x20) 0 2 2 7
        (PCD_ClearRegisterBitMask p PCD_Register.CollReg 0x80 tr)).trace
      = (StatusCode.STATUS_OK, [lo, hi], tA) := hA
  have ha : PICC_Select_anticollision H p selectRounds 0
      ((localArray 9 junk).set 0 H.PICC_CMD_SEL_CL1)
      (PCD_ClearRegisterBitMask p PCD_Register.CollReg 0x80 tr)
      = some (Round.selected [H.PICC_CMD_SEL_CL1, 0x70, u0, u1, u2, u3, sak, c0, c1] 3 0
          (PICC_Select_transceive H p
            [H.PICC_CMD_SEL_CL1, 0x70, u0, u1, u2, u3, u0 ^^^ u1 ^^^ u2 ^^^ u3, lo, hi] 0 9 6 3
            tA).trace) := by
    unfold selectRounds
    rw [PICC_Select_anticollision, PICC_Select_round_zero,
      PICC_Select_exchange_ok H p 0 _ 0 2 2 7 _ _ l2 v2 h2s h2d e2l e2v, if_neg (by decide)]
    simp only []
    rw [eb, PICC_Select_anticollision,
      PICC_Select_round_ge H p 32 _ _ _ _ _ _ _ _ _ _ (le_refl 32), hcrc]
    simp only []
    rw [if_neg (by simp)]
    have ef : [H.PICC_CMD_SEL_CL1, 0x70, u0, u1, u2, u3, u0 ^^^ u1 ^^^ u2 ^^^ u3] ++ [lo, hi]
        = [H.PICC_CMD_SEL_CL1, 0x70, u0, u1, u2, u3, u0 ^^^ u1 ^^^ u2 ^^^ u3, lo, hi] := rfl
    rw [ef, PICC_Select_exchange_ok H p 32 _ 0 9 6 3 _ _ 3 0 h3s h3d h3l h3v,
      if_pos (le_refl 32)]
    rfl
  unfold PICC_Select
  rw [if_neg (by norm_num)]
  simp only []
  rw [PICC_Select_cascade, PICC_Select_level_one, ha]
  simp only []
  rw [PICC_Select_sak_complete_of H p uid 0 _ _ u0 u1 u2 u3 sak c0 c1 _ hB1 hB2 hB3 hsak]

/-- C25: the scenario with one single-size card, for every port, stack content
and caller `uid`.  Let `r1` be the transceive of `PICC_RequestA`, `r2` the
ANTICOLLISION transceive of `PICC_Select(uid, 0)` that follows, `crcA` the
CRC calculation for the SELECT frame built from the bytes `u0 u1 u2 u3`
received, `r3` the SELECT transceive, `crcB` the CRC calculation over the SAK,
`crcH` the CRC calculation of `PICC_HaltA` and `r4` its transceive.  If `r1`
returns STATUS_OK with the two bytes `04 00` and 0 valid bits, `r2` returns
STATUS_OK, `r3` returns STATUS_OK with three bytes `sak c0 c1`, all bits valid,
`crcB` gives `c0 c1`, `sak` has no cascade bit, the three CRC calculations
succeed and `r4` returns STATUS_TIMEOUT, then `PICC_RequestA` returns STATUS_OK
with `*bufferSize = 2`, `PICC_Select` returns STATUS_OK with `uid->size = 4`
and `uid->sak = sak`, its trace being the one of `crcB`, that is after the two
transceives `r2` and `r3` and no other, and `PICC_HaltA` returns STATUS_OK. -/
theorem PICC_single_card_scenario (H : Header) (p : RegisterPort) (junk : Nat → Nat)
    (uid : Uid) (atqa : List Nat) (size : Nat) (tr : Trace) (rest : List Nat)
    (u0 u1 u2 u3 b4 x7 x8 lo hi sak c0 c1 : Nat) :
    let r1 := PCD_TransceiveData H p [H.PICC_CMD_REQA] 1 (some atqa) (some size) (some 7) 0
      false (PCD_ClearRegisterBitMask p PCD_Register.CollReg 0x80 tr)
    let r2 := PICC_Select_transceive H p
      (((localArray 9 junk).set 0 H.PICC_CMD_SEL_CL1).set 1 0x20) 0 2 2 7
      (PCD_ClearRegisterBitMask p PCD_Register.CollReg 0x80 r1.trace)
    let crcA := PCD_CalculateCRC H p
      [H.PICC_CMD_SEL_CL1, 0x70, u0, u1, u2, u3, u0 ^^^ u1 ^^^ u2 ^^^ u3] 7 [x7, x8] r2.trace
    let r3 := PICC_Select_transceive H p
      [H.PICC_CMD_SEL_CL1, 0x70, u0, u1, u2, u3, u0 ^^^ u1 ^^^ u2 ^^^ u3, lo, hi] 0 9 6 3
      crcA.2.2
    let crcB := PCD_CalculateCRC H p [sak, c0, c1] 1 [u0, u1, u2, u3, sak, c0, c1] r3.trace
    let crcH := PCD_CalculateCRC H p [H.PICC_CMD_HLTA, 0, 0, 0] 2 [0, 0] crcB.2.2
    let r4 := PCD_TransceiveData H p ([H.PICC_CMD_HLTA, 0] ++ crcH.2.1) 4 none none none 0
      false crcH.2.2
    2 ≤ size →
    r1.status = StatusCode.STATUS_OK → r1.backData = some (0x04 :: 0x00 :: rest) →
    r1.backLen = some 2 → r1.validBits = some 0 →
    r2.status = StatusCode.STATUS_OK → r2.backData = some [u0, u1, u2, u3, b4, x7, x8] →
    crcA.1 = StatusCode.STATUS_OK → crcA.2.1 = [lo, hi] →
    r3.status = StatusCode.STATUS_OK → r3.backData = some [sak, c0, c1] →
    r3.backLen = some 3 → r3.validBits = some 0 →
    crcB.1 = StatusCode.STATUS_OK → crcB.2.1.getD 0 0 = c0 → crcB.2.1.getD 1 0 = c1 →
    sak &&& 0x04 = 0 →
    crcH.1 = StatusCode.STATUS_OK → r4.status = StatusCode.STATUS_TIMEOUT →
      PICC_RequestA H p (some atqa) size tr
          = (StatusCode.STATUS_OK, some (0x04 :: 0x00 :: rest), 2, r1.trace)
        ∧ (∃ u, PICC_Select H p junk uid 0 r1.trace = some (StatusCode.STATUS_OK, u, crcB.2.2)
            ∧ u.size = 4 ∧ u.sak = sak)
        ∧ PICC_HaltA H p crcB.2.2 = (StatusCode.STATUS_OK, r4.trace) := by
  intro r1 r2 crcA r3 crcB crcH r4 hsize h1s h1d h1l h1v h2s h2d hA1 hA2 h3s h3d h3l h3v
    hB1 hB2 hB3 hsak hH h4
  refine ⟨?_, ?_, ?_⟩
  · have e : PICC_RequestA H p (some atqa) size tr
        = (if size < 2 then (StatusCode.STATUS_NO_ROOM, some atqa, size, tr)
          else if r1.status ≠ StatusCode.STATUS_OK then
            (r1.status, some (r1.backData.getD atqa), r1.backLen.getD size, r1.trace)
          else if r1.backLen.getD size ≠ 2 ∨ r1.validBits.getD 7 ≠ 0 then
            (StatusCode.STATUS_ERROR, some (r1.backData.getD atqa), r1.backLen.getD size,
              r1.trace)
          else
            (StatusCode.STATUS_OK, some (r1.backData.getD atqa), r1.backLen.getD size,
              r1.trace)) := rfl
    rw [e, if_neg (by omega), if_neg (by rw [h1s]; simp), h1d, h1l, h1v]
    simp
  · exact ⟨_, PICC_Select_single H p junk uid r1.trace u0 u1 u2 u3 b4 x7 x8 lo hi sak c0 c1
      crcA.2.2 h2s h2d (Prod.ext hA1 (Prod.ext hA2 rfl)) h3s h3d h3l h3v hB1 hB2 hB3 hsak,
      rfl, rfl⟩
  · have e : PICC_HaltA H p crcB.2.2 =
        (if crcH.1 ≠ StatusCode.STATUS_OK then (crcH.1, crcH.2.2)
         else if r4.status = StatusCode.STATUS_TIMEOUT then (StatusCode.STATUS_OK, r4.trace)
         else if r4.status = StatusCode.STATUS_OK then (StatusCode.STATUS_ERROR, r4.trace)
         else (r4.status, r4.trace)) := rfl
    rw [e, if_neg (by rw [hH]; simp), if_pos h4]

/-- C25 on the scripted port: REQA gives STATUS_OK with the ATQA `04 00`; the
selection that follows gives STATUS_OK with size 4 and SAK `08`, the UID being
`DE AD BE EF`, and the trace then holds three transceive commands, one of REQA
and two of the selection; the HLTA that follows gives STATUS_OK. -/
theorem PICC_single_card_scenario_witness :
    (∃ t1 t2 t3 u,
      PICC_RequestA datasheet scenarioCard (some [0, 0]) 2 []
          = (StatusCode.STATUS_OK, some [0x04, 0x00], 2, t1)
        ∧ PICC_Select datasheet scenarioCard (fun _ => 0) blankUid 0 t1
          = some (StatusCode.STATUS_OK, u, t2)
        ∧ u.size = 4 ∧ u.sak = 0x08
        ∧ PICC_HaltA datasheet scenarioCard t2 = (StatusCode.STATUS_OK, t3))
      ∧ (PICC_RequestA datasheet scenarioCard (some [0, 0]) 2 []).2.2.2.count
          (BusEvent.write PCD_Register.CommandReg [0x0C]) = 1
      ∧ (PICC_Select datasheet scenarioCard (fun _ => 0) blankUid 0
          (PICC_RequestA datasheet scenarioCard (some [0, 0]) 2 []).2.2.2).map
          (fun r => (r.2.1, r.2.2.count (BusEvent.write PCD_Register.CommandReg [0x0C])))
        = some (⟨4, [0xDE, 0xAD, 0xBE, 0xEF, 0, 0, 0, 0, 0, 0], 0x08⟩, 3) := by
  have h := PICC_single_card_scenario datasheet scenarioCard (fun _ => 0) blankUid [0, 0] 2 []
    [] 0xDE 0xAD 0xBE 0xEF 0x22 0 0 0xB6 0xDD 0x08 0xB6 0xDD
    (by decide) (by decide!) (by decide!) (by decide!) (by decide!) (by decide!) (by decide!)
    (by decide!) (by decide!) (by decide!) (by decide!) (by decide!) (by decide!) (by decide!)
    (by decide!) (by decide!) (by decide!) (by decide!) (by decide!)
  obtain ⟨h1, ⟨u, h2, hs, hk⟩, h3⟩ := h
  exact ⟨⟨_, _, _, u, h1, h2, hs, hk, h3⟩, by decide!, by decide!⟩

/-! ## No access of `PICC_Select` falls outside its array -/

theorem readAt_of_lt (a : List Nat) (i : Nat) (h : i < a.length) :
    readAt a i = some (a.getD i 0) := by
  unfold readAt
  rw [if_pos h]

theorem writeAt_of_lt (a : List Nat) (i v : Nat) (h : i < a.length) :
    writeAt a i v = some (a.set i v) := by
  unfold writeAt
  rw [if_pos h]

theorem windowAt_of_le (a : List Nat) (offset n : Nat) (h : offset + n ≤ a.length) :
    windowAt a offset n = some (a.drop offset) := by
  unfold windowAt
  rw [if_pos h]

/-- Inside both arrays the checked copy is the copy. -/
theorem copyBytes_checked_eq (src : List Nat) (srcIndex : Nat) (dst : List Nat)
    (dstIndex : Nat) :
    ∀ n, srcIndex + n ≤ src.length → dstIndex + n ≤ dst.length →
      copyBytes_checked src srcIndex dst dstIndex n = some (copyBytes src srcIndex dst dstIndex n)
  | 0, _, _ => rfl
  | n + 1, hs, hd => by
    unfold copyBytes_checked copyBytes
    rw [copyBytes_checked_eq src srcIndex dst dstIndex n (by omega) (by omega)]
    simp only []
    rw [readAt_of_lt _ _ (by omega)]
    simp only []
    rw [writeAt_of_lt _ _ _ (by rw [copyBytes_length]; omega)]

/-- The collision bit lies in `buffer[1..6]`. -/
theorem PICC_Select_collision_index_le (x : Nat) :
    1 + (if x &&& 0x1F = 0 then 32 else x &&& 0x1F) / 8
        + (if ((if x &&& 0x1F = 0 then 32 else x &&& 0x1F) - 1) % 8 ≠ 0 then 1 else 0) ≤ 6 := by
  have h31 : x &&& 0x1F ≤ 31 := Nat.and_le_right
  split_ifs <;> omega

/-- The first index of a cascade level in `uid->uidByte[]` is 0, 3 or 6. -/
theorem PICC_Select_switch_index (H : Header) (cascadeLevel validBits : Nat) (uid : Uid)
    (sel uidIndex : Nat) (useCascadeTag : Bool)
    (h : PICC_Select_switch H cascadeLevel validBits uid = some (sel, uidIndex, useCascadeTag)) :
    uidIndex = 0 ∨ uidIndex = 3 ∨ uidIndex = 6 := by
  unfold PICC_Select_switch at h
  split at h
  · simp only [Option.some.injEq, Prod.mk.injEq] at h
    exact Or.inl h.2.1.symm
  · simp only [Option.some.injEq, Prod.mk.injEq] at h
    exact Or.inr (Or.inl h.2.1.symm)
  · simp only [Option.some.injEq, Prod.mk.injEq] at h
    exact Or.inr (Or.inr h.2.1.symm)
  · simp at h

/-- The frame buffer with which `while (!selectDone)` ends has nine bytes. -/
theorem PICC_Select_anticollision_selected_length (H : Header) (p : RegisterPort)
    (fuel k : Nat) (buffer : List Nat) (tr : Trace) (b1 : List Nat) (l1 x1 : Nat) (t1 : Trace)
    (h9 : buffer.length = 9)
    (h : PICC_Select_anticollision H p fuel k buffer tr = some (Round.selected b1 l1 x1 t1)) :
    b1.length = 9 := by
  obtain ⟨k3, b3, t3, hp, hr⟩ := PICC_Select_anticollision_passes H p _ _ _ _ _ _ _ _
    PICC_Select_passes.first h
  have h93 := (PICC_Select_passes_buffer H p _ _ _ _ _ _ h9 hp).1
  obtain ⟨_, frame, t0, d, hf, _, _, _, _, _, _, _, hd, hb1⟩ :=
    PICC_Select_round_selected H p _ _ _ _ _ _ _ h93 hr
  rw [hb1, List.length_append, List.length_take, hf, hd]
  rfl

/-- Lines 905-937 leave `uid->uidByte[]` its size. -/
theorem PICC_Select_sak_uid_length (H : Header) (p : RegisterPort) (uid : Uid)
    (uidIndex : Nat) (buffer : List Nat) (responseLength txLastBits : Nat) (tr : Trace)
    (u : Uid) (b1 : List Nat) (t1 : Trace)
    (h : PICC_Select_sak H p uid uidIndex buffer responseLength txLastBits tr
      = Level.next u b1 t1) : u.uidByte.length = uid.uidByte.length := by
  unfold PICC_Select_sak at h
  simp only [] at h
  split_ifs at h <;>
    (injection h with hu _ _
     rw [← hu]
     exact copyBytes_length _ _ _ _ _)

/-- The next cascade level begins with `uid->uidByte[]` at its size. -/
theorem PICC_Select_level_next_uid (H : Header) (p : RegisterPort)
    (validBits cascadeLevel : Nat) (uid : Uid) (buffer : List Nat) (tr : Trace) (u : Uid)
    (b1 : List Nat) (t1 : Trace)
    (h : PICC_Select_level H p validBits cascadeLevel uid buffer tr
      = some (Level.next u b1 t1)) : u.uidByte.length = uid.uidByte.length := by
  obtain ⟨sel, uidIndex, useCascadeTag, b, l, x, t, _, _, hsak⟩ :=
    PICC_Select_level_selected H p validBits cascadeLevel uid buffer tr _ h
      (fun _ _ _ e => by cases e)
  exact PICC_Select_sak_uid_length H p _ _ _ _ _ _ _ _ _ hsak

/-- When no pass through `while (!selectDone)` leaves `buffer[9]`, the loop does
not either. -/
theorem PICC_Select_anticollision_checked_of (H : Header) (p : RegisterPort)
    (hround : ∀ (k : Nat) (buffer : List Nat) (tr : Trace), buffer.length = 9 →
      PICC_Select_round_checked H p k buffer tr = some (PICC_Select_round H p k buffer tr)) :
    ∀ (fuel k : Nat) (buffer : List Nat) (tr : Trace), buffer.length = 9 →
      PICC_Select_anticollision_checked H p fuel k buffer tr
        = some (PICC_Select_anticollision H p fuel k buffer tr)
  | 0, _, _, _, _ => rfl
  | fuel + 1, k, buffer, tr, h9 => by
    unfold PICC_Select_anticollision_checked PICC_Select_anticollision
    rw [hround k buffer tr h9]
    cases hr : PICC_Select_round H p k buffer tr with
    | exit s t => rfl
    | again k1 b1 t1 =>
      exact PICC_Select_anticollision_checked_of H p hround fuel k1 b1 t1
        (PICC_Select_round_again_buffer H p k buffer tr k1 b1 t1 h9 hr).1
    | selected b1 l1 x1 t1 => rfl

/-- When the copy of the known bits, the passes through `while (!selectDone)`
and lines 905-937 stay inside the two arrays, a pass through
`while (!uidComplete)` does. -/
theorem PICC_Select_level_checked_of (H : Header) (p : RegisterPort) (validBits : Nat)
    (hknown : ∀ (uid : Uid) (uidIndex : Nat) (useCascadeTag : Bool) (buffer : List Nat),
      buffer.length = 9 → uid.uidByte.length = 10 → uidIndex ≤ 6 →
      PICC_Select_known_checked H validBits uid uidIndex useCascadeTag buffer
        = some (PICC_Select_known H validBits uid uidIndex useCascadeTag buffer))
    (hround : ∀ (k : Nat) (buffer : List Nat) (tr : Trace), buffer.length = 9 →
      PICC_Select_round_checked H p k buffer tr = some (PICC_Select_round H p k buffer tr))
    (hsak : ∀ (uid : Uid) (uidIndex : Nat) (buffer : List Nat) (l x : Nat) (tr : Trace),
      buffer.length = 9 → uid.uidByte.length = 10 → uidIndex ≤ 6 →
      PICC_Select_sak_checked H p uid uidIndex buffer l x tr
        = some (PICC_Select_sak H p uid uidIndex buffer l x tr))
    (cascadeLevel : Nat) (uid : Uid) (buffer : List Nat) (tr : Trace)
    (h9 : buffer.length = 9) (h10 : uid.uidByte.length = 10) :
    PICC_Select_level_checked H p validBits cascadeLevel uid buffer tr
      = some (PICC_Select_level H p validBits cascadeLevel uid buffer tr) := by
  unfold PICC_Select_level_checked PICC_Select_level
  cases hs : PICC_Select_switch H cascadeLevel validBits uid with
  | none => rfl
  | some x =>
    obtain ⟨sel, uidIndex, useCascadeTag⟩ := x
    have hi : uidIndex ≤ 6 := by
      rcases PICC_Select_switch_index H _ _ _ _ _ _ hs with h | h | h <;> omega
    have hk9 : (PICC_Select_known H validBits uid uidIndex useCascadeTag
        (buffer.set 0 sel)).1.length = 9 := by
      rw [PICC_Select_known_length, List.length_set, h9]
    simp only []
    rw [writeAt_of_lt _ _ _ (by omega)]
    simp only []
    rw [hknown uid uidIndex useCascadeTag _ (by rw [List.length_set, h9]) h10 hi]
    simp only []
    rw [PICC_Select_anticollision_checked_of H p hround _ _ _ _ hk9]
    cases ha : PICC_Select_anticollision H p selectRounds
        (PICC_Select_known H validBits uid uidIndex useCascadeTag (buffer.set 0 sel)).2
        (PICC_Select_known H validBits uid uidIndex useCascadeTag (buffer.set 0 sel)).1 tr with
    | none => rfl
    | some r =>
      cases r with
      | exit s t => rfl
      | again k1 b1 t1 => rfl
      | selected b1 l1 x1 t1 =>
        simp only []
        rw [hsak uid uidIndex b1 l1 x1 t1
          (PICC_Select_anticollision_selected_length H p _ _ _ _ _ _ _ _ hk9 ha) h10 hi]
        rfl

/-- When every pass through `while (!uidComplete)` stays inside the two arrays,
the loop does. -/
theorem PICC_Select_cascade_checked_of (H : Header) (p : RegisterPort) (validBits : Nat)
    (hlevel : ∀ (cascadeLevel : Nat) (uid : Uid) (buffer : List Nat) (tr : Trace),
      buffer.length = 9 → uid.uidByte.length = 10 →
      PICC_Select_level_checked H p validBits cascadeLevel uid buffer tr
        = some (PICC_Select_level H p validBits cascadeLevel uid buffer tr)) :
    ∀ (fuel cascadeLevel : Nat) (uid : Uid) (buffer : List Nat) (tr : Trace),
      buffer.length = 9 → uid.uidByte.length = 10 →
      PICC_Select_cascade_checked H p validBits fuel cascadeLevel uid buffer tr
        = some (PICC_Select_cascade H p validBits fuel cascadeLevel uid buffer tr)
  | 0, _, _, _, _, _, _ => rfl
  | fuel + 1, cascadeLevel, uid, buffer, tr, h9, h10 => by
    unfold PICC_Select_cascade_checked PICC_Select_cascade
    rw [hlevel cascadeLevel uid buffer tr h9 h10]
    cases hl : PICC_Select_level H p validBits cascadeLevel uid buffer tr with
    | none => rfl
    | some r =>
      cases r with
      | exit s u t => rfl
      | next u b t =>
        exact PICC_Select_cascade_checked_of H p validBits hlevel fuel (cascadeLevel + 1) u b t
          (PICC_Select_level_next_buffer H p _ _ _ _ _ _ _ _ h9 hl)
          ((PICC_Select_level_next_uid H p _ _ _ _ _ _ _ _ hl).trans h10)
      | complete u t => rfl

/-- The function `PCD_ReadRegisterData` stores nothing behind the `count` bytes
it reads. -/
theorem PCD_ReadRegisterData_getElem?_ge (p : RegisterPort) (reg : PCD_Register)
    (count : Nat) (values : List Nat) (rxAlign : Nat) (tr : Trace) (i : Nat) (h : count ≤ i) :
    (PCD_ReadRegisterData p reg count values rxAlign tr).1[i]? = values[i]? := by
  unfold PCD_ReadRegisterData
  by_cases hc : count = 0
  · simp only [if_pos hc]
  · simp only [if_neg hc]
    have h0 : (values.set 0 0)[i]? = values[i]? := by
      rw [List.getElem?_set, if_neg (by omega)]
    cases p.answer tr reg count with
    | addrFail => exact h0
    | dataFail stored =>
      simp only []
      rw [getElem?_blit_ge _ _ _ (by rw [List.length_map, List.length_take]; omega), h0]
    | ok bytes =>
      simp only []
      split_ifs
      · rw [List.getElem?_set, if_neg (by omega),
          getElem?_blit_ge _ _ _ (by rw [List.length_map, List.length_range]; omega), h0]
      · rw [getElem?_blit_ge _ _ _ (by rw [List.length_map, List.length_range]; omega), h0]

/-- The capacity `*backLen` is enforced: `PCD_CommunicateWithPICC` returns a
length of at most the capacity and changes no byte of the window `backData` at
or behind the capacity. -/
theorem PCD_CommunicateWithPICC_capacity (H : Header) (p : RegisterPort)
    (command waitIRq : Nat) (sendData : List Nat) (sendLen : Nat) (data : List Nat)
    (len v : Nat) (rxAlign : Nat) (checkCRC : Bool) (tr : Trace) :
    ∃ d l,
      (PCD_CommunicateWithPICC H p command waitIRq sendData sendLen (some data) (some len)
        (some v) rxAlign checkCRC tr).backData = some d
      ∧ (PCD_CommunicateWithPICC H p command waitIRq sendData sendLen (some data) (some len)
        (some v) rxAlign checkCRC tr).backLen = some l
      ∧ l ≤ len ∧ d.length = data.length ∧ ∀ i, len ≤ i → d[i]? = data[i]? := by
  unfold PCD_CommunicateWithPICC
  simp only []
  split_ifs with hw
  · exact ⟨data, len, rfl, rfl, le_refl _, rfl, fun _ _ => rfl⟩
  · by_cases he : (PCD_ReadRegister p PCD_Register.ErrorReg
        (PCD_CommunicateWithPICC_wait p waitIRq 2000
          (PCD_CommunicateWithPICC_start H p command sendData sendLen (some v) rxAlign
            tr)).2).1 &&& 0x13 = 0
    · rw [PCD_CommunicateWithPICC_finish_receive _ _ _ _ _ _ _ _ he]
      have hl := PCD_CommunicateWithPICC_reception_length p data rxAlign
        (BusEvent.read PCD_Register.ErrorReg 1 ::
          (PCD_CommunicateWithPICC_wait p waitIRq 2000
            (PCD_CommunicateWithPICC_start H p command sendData sendLen (some v) rxAlign
              tr)).2)
      have hg : ∀ i, (PCD_CommunicateWithPICC_reception p data rxAlign
          (BusEvent.read PCD_Register.ErrorReg 1 ::
            (PCD_CommunicateWithPICC_wait p waitIRq 2000
              (PCD_CommunicateWithPICC_start H p command sendData sendLen (some v) rxAlign
                tr)).2)).level ≤ i →
          (PCD_CommunicateWithPICC_reception p data rxAlign
            (BusEvent.read PCD_Register.ErrorReg 1 ::
              (PCD_CommunicateWithPICC_wait p waitIRq 2000
                (PCD_CommunicateWithPICC_start H p command sendData sendLen (some v) rxAlign
                  tr)).2)).data[i]? = data[i]? :=
        fun i hi => PCD_ReadRegisterData_getElem?_ge _ _ _ _ _ _ i hi
      split_ifs with h1
      · exact ⟨data, len, rfl, rfl, le_refl _, rfl, fun _ _ => rfl⟩
      · exact ⟨_, _, rfl, rfl, not_lt.mp h1, hl, fun i hi => hg i (by omega)⟩
      · exact ⟨_, _, rfl, rfl, not_lt.mp h1, hl, fun i hi => hg i (by omega)⟩
      · exact ⟨_, _, rfl, rfl, not_lt.mp h1, hl, fun i hi => hg i (by omega)⟩
    · unfold PCD_CommunicateWithPICC_finish
      simp only [if_pos he]
      exact ⟨data, len, rfl, rfl, le_refl _, rfl, fun _ _ => rfl⟩

/-- C29: for every `validBits`, every register port, every content of the stack
and every caller `uid` (any `size`) whose `uidByte` has its ten bytes,
`PICC_Select` run with each access to `buffer[9]` and to `uid->uidByte[10]`
checked never leaves an array: it gives the result of `PICC_Select`, which
always returns.  So do its parts on arrays of these sizes: the copy of the
known bits (lines 803-826) for a first index of at most 6, the exchange of a
round (lines 864-902) whose bytes sent and response window lie in `buffer`, a
pass through `while (!selectDone)` (lines 831-902), and lines 905-937.  Every
round that a call reaches begins with the nine bytes of `buffer`; the
collision index `1 + P / 8 + (1 if (P - 1) % 8 != 0)` is at most 6 for `P` in
1..32; the response window `&buffer[2 + k / 8]` of an ANTICOLLISION with
`k < 32` known bits lies in `buffer` with its capacity of `9 - (2 + k / 8)`
bytes, and the transceive of a round returns a length of at most the capacity
it was given and changes no byte at or behind it. -/
theorem PICC_Select_index_safety (H : Header) (p : RegisterPort) (junk : Nat → Nat)
    (uid : Uid) (validBits : Nat) (tr : Trace) (h10 : uid.uidByte.length = 10) :
    PICC_Select_checked H p junk uid validBits tr
        = some (PICC_Select H p junk uid validBits tr)
      ∧ (∃ r, PICC_Select_checked H p junk uid validBits tr = some (some r))
      ∧ (∀ (uid1 : Uid) (uidIndex : Nat) (useCascadeTag : Bool) (buffer : List Nat),
          buffer.length = 9 → uid1.uidByte.length = 10 → uidIndex ≤ 6 →
          PICC_Select_known_checked H validBits uid1 uidIndex useCascadeTag buffer
            = some (PICC_Select_known H validBits uid1 uidIndex useCascadeTag buffer))
      ∧ (∀ (k : Nat) (buffer : List Nat)
          (txLastBits bufferUsed responseOffset responseLength : Nat) (t : Trace),
          buffer.length = 9 → bufferUsed ≤ 9 → responseOffset + responseLength ≤ 9 →
          PICC_Select_exchange_checked H p k buffer txLastBits bufferUsed responseOffset
              responseLength t
            = some (PICC_Select_exchange H p k buffer txLastBits bufferUsed responseOffset
                responseLength t))
      ∧ (∀ (k : Nat) (buffer : List Nat) (t : Trace), buffer.length = 9 →
          PICC_Select_round_checked H p k buffer t = some (PICC_Select_round H p k buffer t))
      ∧ (∀ (uid1 : Uid) (uidIndex : Nat) (buffer : List Nat) (l x : Nat) (t : Trace),
          buffer.length = 9 → uid1.uidByte.length = 10 → uidIndex ≤ 6 →
          PICC_Select_sak_checked H p uid1 uidIndex buffer l x t
            = some (PICC_Select_sak H p uid1 uidIndex buffer l x t))
      ∧ (∀ cascadeLevel sel uidIndex k buffer t,
          PICC_Select_rounds H p junk uid validBits tr cascadeLevel sel uidIndex k buffer t →
            buffer.length = 9
              ∧ (k < 32 →
                  windowAt (buffer.set 1 (16 * (2 + k / 8) + k % 8)) (2 + k / 8)
                      (9 - (2 + k / 8))
                    = some ((buffer.set 1 (16 * (2 + k / 8) + k % 8)).drop (2 + k / 8))
                  ∧ ((buffer.set 1 (16 * (2 + k / 8) + k % 8)).drop (2 + k / 8)).length
                    = 9 - (2 + k / 8)))
      ∧ (∀ P, 1 ≤ P → P ≤ 32 → 1 + P / 8 + (if (P - 1) % 8 ≠ 0 then 1 else 0) ≤ 6)
      ∧ (∀ buffer txLastBits bufferUsed responseOffset responseLength t,
          ∃ d l,
            (PICC_Select_transceive H p buffer txLastBits bufferUsed responseOffset
              responseLength t).backData = some d
            ∧ (PICC_Select_transceive H p buffer txLastBits bufferUsed responseOffset
              responseLength t).backLen = some l
            ∧ l ≤ responseLength
            ∧ d.length = (buffer.drop responseOffset).length
            ∧ ∀ i, responseLength ≤ i → d[i]? = (buffer.drop responseOffset)[i]?) := by
  -- lines 803-826
  have hknown : ∀ (uid1 : Uid) (uidIndex : Nat) (useCascadeTag : Bool) (buffer : List Nat),
      buffer.length = 9 → uid1.uidByte.length = 10 → uidIndex ≤ 6 →
      PICC_Select_known_checked H validBits uid1 uidIndex useCascadeTag buffer
        = some (PICC_Select_known H validBits uid1 uidIndex useCascadeTag buffer) := by
    intro uid1 uidIndex useCascadeTag buffer h9 h1 hi
    unfold PICC_Select_known_checked PICC_Select_known
    simp only []
    cases useCascadeTag
    · simp only [Bool.false_eq_true, if_false]
      split_ifs <;>
        first
          | rfl
          | rw [copyBytes_checked_eq _ _ _ _ _ (by omega) (by omega)]
    · simp only [if_true]
      rw [writeAt_of_lt _ _ _ (by omega)]
      simp only []
      split_ifs <;>
        first
          | rfl
          | rw [copyBytes_checked_eq _ _ _ _ _ (by omega) (by rw [List.length_set]; omega)]
  -- lines 864-902
  have hexchange : ∀ (k : Nat) (buffer : List Nat)
      (txLastBits bufferUsed responseOffset responseLength : Nat) (t : Trace),
      buffer.length = 9 → bufferUsed ≤ 9 → responseOffset + responseLength ≤ 9 →
      PICC_Select_exchange_checked H p k buffer txLastBits bufferUsed responseOffset
          responseLength t
        = some (PICC_Select_exchange H p k buffer txLastBits bufferUsed responseOffset
            responseLength t) := by
    intro k buffer txLastBits bufferUsed responseOffset responseLength t h9 hu hw
    obtain ⟨d, l, b, h1, h2, h3, h4, _⟩ := PICC_Select_transceive_outputs H p buffer
      txLastBits bufferUsed responseOffset responseLength t
    have hlen : (buffer.take responseOffset ++ d).length = 9 := by
      rw [List.length_append, List.length_take, h4]
      omega
    have hτ : PCD_TransceiveData H p buffer bufferUsed (some (buffer.drop responseOffset))
        (some responseLength) (some txLastBits) txLastBits false
        (PCD_WriteRegister PCD_Register.BitFramingReg ((txLastBits <<< 4) + txLastBits) t)
        = PICC_Select_transceive H p buffer txLastBits bufferUsed responseOffset
          responseLength t := rfl
    unfold PICC_Select_exchange_checked PICC_Select_exchange
    simp only []
    rw [windowAt_of_le _ _ _ (by omega), windowAt_of_le _ _ _ (by omega)]
    simp only [List.drop_zero]
    rw [hτ]
    generalize PICC_Select_transceive H p buffer txLastBits bufferUsed responseOffset
      responseLength t = τ at h1 h2 h3 ⊢
    rw [h1]
    simp only [Option.getD_some]
    have hidx := PICC_Select_collision_index_le
      (PCD_ReadRegister p PCD_Register.CollReg τ.trace).1
    by_cases c1 : τ.status = StatusCode.STATUS_COLLISION
    · rw [if_pos c1, if_pos c1]
      by_cases c2 : (PCD_ReadRegister p PCD_Register.CollReg τ.trace).1 &&& 0x20 ≠ 0
      · rw [if_pos c2, if_pos c2]
      · rw [if_neg c2, if_neg c2]
        by_cases c3 : (if (PCD_ReadRegister p PCD_Register.CollReg τ.trace).1 &&& 0x1F = 0
            then 32 else (PCD_ReadRegister p PCD_Register.CollReg τ.trace).1 &&& 0x1F) ≤ k
        · rw [if_pos c3, if_pos c3]
        · rw [if_neg c3, if_neg c3, readAt_of_lt _ _ (by omega)]
          simp only []
          rw [writeAt_of_lt _ _ _ (by omega)]
    · rw [if_neg c1, if_neg c1]
      split_ifs <;> rfl
  -- lines 831-863
  have hround : ∀ (k : Nat) (buffer : List Nat) (t : Trace), buffer.length = 9 →
      PICC_Select_round_checked H p k buffer t = some (PICC_Select_round H p k buffer t) := by
    intro k buffer t h9
    unfold PICC_Select_round_checked PICC_Select_round
    by_cases hk : k ≥ 32
    · rw [if_pos hk, if_pos hk, writeAt_of_lt _ _ _ (by omega)]
      simp only []
      rw [readAt_of_lt _ _ (by rw [List.length_set]; omega),
        readAt_of_lt _ _ (by rw [List.length_set]; omega),
        readAt_of_lt _ _ (by rw [List.length_set]; omega),
        readAt_of_lt _ _ (by rw [List.length_set]; omega)]
      simp only []
      rw [writeAt_of_lt _ _ _ (by rw [List.length_set]; omega)]
      simp only []
      rw [windowAt_of_le _ _ _ (by rw [List.length_set, List.length_set]; omega),
        windowAt_of_le _ _ _ (by rw [List.length_set, List.length_set]; omega)]
      simp only [List.drop_zero]
      split_ifs
      · rfl
      · apply hexchange
        · rw [List.length_append, List.length_take, PCD_CalculateCRC_length, List.length_drop,
            List.length_set, List.length_set, h9]
          rfl
        · omega
        · omega
    · rw [if_neg hk, if_neg hk]
      simp only []
      rw [writeAt_of_lt _ _ _ (by omega)]
      simp only []
      apply hexchange
      · rw [List.length_set, h9]
      · split_ifs <;> omega
      · omega
  -- lines 905-937
  have hsak : ∀ (uid1 : Uid) (uidIndex : Nat) (buffer : List Nat) (l x : Nat) (t : Trace),
      buffer.length = 9 → uid1.uidByte.length = 10 → uidIndex ≤ 6 →
      PICC_Select_sak_checked H p uid1 uidIndex buffer l x t
        = some (PICC_Select_sak H p uid1 uidIndex buffer l x t) := by
    intro uid1 uidIndex buffer l x t h9 h1 hi
    have hlen : (buffer.take 2
        ++ (PCD_CalculateCRC H p (buffer.drop 6) 1 (buffer.drop 2) t).2.1).length = 9 := by
      rw [List.length_append, List.length_take, PCD_CalculateCRC_length, List.length_drop, h9]
      rfl
    unfold PICC_Select_sak_checked PICC_Select_sak
    rw [readAt_of_lt _ _ (by omega)]
    simp only []
    rw [copyBytes_checked_eq _ _ _ _ _ (by split_ifs <;> omega) (by split_ifs <;> omega)]
    simp only []
    rw [windowAt_of_le _ _ _ (by omega), windowAt_of_le _ _ _ (by omega)]
    simp only []
    rw [readAt_of_lt _ _ (by omega), readAt_of_lt _ _ (by omega), readAt_of_lt _ _ (by omega),
      readAt_of_lt _ _ (by omega), readAt_of_lt _ _ (by omega)]
    simp only []
    split_ifs <;> rfl
  -- the whole function
  have hmain : PICC_Select_checked H p junk uid validBits tr
      = some (PICC_Select H p junk uid validBits tr) := by
    unfold PICC_Select_checked PICC_Select
    split_ifs
    · rfl
    · exact PICC_Select_cascade_checked_of H p validBits
        (PICC_Select_level_checked_of H p validBits hknown hround hsak) 4 1 uid _ _
        (localArray_length 9 junk) h10
  refine ⟨hmain, ?_, hknown, hexchange, hround, hsak,
    fun cascadeLevel sel uidIndex k buffer t hr => ?_,
    fun P h1 h2 => by split_ifs <;> omega,
    fun buffer txLastBits bufferUsed responseOffset responseLength t =>
      PCD_CommunicateWithPICC_capacity H p H.PCD_Transceive 0x30 buffer bufferUsed
        (buffer.drop responseOffset) responseLength txLastBits txLastBits false _⟩
  · obtain ⟨r, hr⟩ := PICC_Select_returns H p junk uid validBits tr
    exact ⟨r, by rw [hmain, hr]⟩
  · obtain ⟨h9, _, _⟩ := PICC_Select_rounds_buffer H p _ _ _ _ _ _ _ _ _ _ hr
    refine ⟨h9, fun hk => ⟨?_, ?_⟩⟩
    · exact windowAt_of_le _ _ _ (by rw [List.length_set, h9]; omega)
    · rw [List.length_drop, List.length_set, h9]

/-- C29 on a card with a single-size UID: the checked selection from a blank
`Uid` returns STATUS_OK with the UID `DE AD BE EF`; with 80 valid bits of a
ten-byte UID the copy of the known bits is cut to the cascade tag and three
bytes, inside `buffer`.  The checks are real: with a `uidByte` of three bytes
and 32 valid bits the copy reads `uid->uidByte[3]`, outside the array. -/
theorem PICC_Select_index_safety_witness :
    blankUid.uidByte.length = 10
      ∧ PICC_Select_checked datasheet singleSizeCard (fun _ => 0) blankUid 0 []
        = some (PICC_Select datasheet singleSizeCard (fun _ => 0) blankUid 0 [])
      ∧ (PICC_Select_checked datasheet singleSizeCard (fun _ => 0) blankUid 0 []).map
          (fun r => r.map (fun s => (s.1, s.2.1)))
        = some (some (StatusCode.STATUS_OK,
            ⟨4, [0xDE, 0xAD, 0xBE, 0xEF, 0, 0, 0, 0, 0, 0], 0x08⟩))
      ∧ PICC_Select_known_checked datasheet 80 ⟨10, [1, 2, 3, 4, 5, 6, 7, 8, 9, 10], 0⟩ 0 true
          [0x93, 0, 0, 0, 0, 0, 0, 0, 0]
        = some ([0x93, 0, 0x88, 1, 2, 3, 0, 0, 0], 88)
      ∧ PICC_Select_known datasheet 80 ⟨10, [1, 2, 3, 4, 5, 6, 7, 8, 9, 10], 0⟩ 0 true
          [0x93, 0, 0, 0, 0, 0, 0, 0, 0]
        = ([0x93, 0, 0x88, 1, 2, 3, 0, 0, 0], 88)
      ∧ PICC_Select_checked datasheet singleSizeCard (fun _ => 0) ⟨4, [1, 2, 3], 0⟩ 32 []
        = none :=
  ⟨by decide,
    (PICC_Select_index_safety datasheet singleSizeCard (fun _ => 0) blankUid 0 []
      (by decide)).1,
    by decide!, by decide!, by decide!, by decide!⟩

end MFRC522
